import Mathlib

/-!
AVI streaming player (`st7735/video_types.cpp`) and streaming picture display
(`st7735/pic_types.cpp`): embedding and properties.

The C code is embedded shallowly.  Unsigned machine integers are natural
numbers reduced modulo `2^32` (or `2^16`) at every place where the C type
truncates.  The storage layer (FatFs), the wall clock (`HAL_GetTick`), the
display controller and the block JPEG decoder (`tjpgd`) are collaborators
that are not part of the sources; they are represented by explicit state
(`FIL`, `World`) and by the parameters collected in `OpenEnv` / `PlayEnv` /
`PicEnv`.

Loops of the C code that are not bounded by construction take a `fuel`
argument; running out of fuel is reported as `Outcome.hang`.
-/

namespace Video

set_option maxRecDepth 100000

/-! ## Machine arithmetic -/

/-- Modulus of `uint32_t`. -/
def U32 : Nat := 4294967296

/-- Modulus of `uint16_t`. -/
def U16 : Nat := 65536

/-- Truncation to `uint32_t`. -/
def u32 (n : Nat) : Nat := n % U32

/-- Truncation to `uint16_t`. -/
def u16 (n : Nat) : Nat := n % U16

/-- Unsigned 32-bit subtraction `a - b`. -/
def sub32 (a b : Nat) : Nat := (a % U32 + (U32 - b % U32)) % U32

/-- The C expression `(uint16_t)abs((int32_t)v)` for a 32-bit pattern `v`. -/
def abs16 (v : Nat) : Nat :=
  if v % U32 < 2147483648 then u16 (v % U32) else u16 (U32 - v % U32)

/-- Chunk payload length rounded up to an even number: `if (size & 1) size++`. -/
def pad32 (size : Nat) : Nat := if size % 2 = 1 then u32 (size + 1) else size

/-! ## Result of a computation that may loop or trap -/

/-- Result of running C code whose loops need not terminate and whose
divisions may have a zero divisor. -/
inductive Outcome (α : Type) where
  | done (a : α)
  | hang
  | divZero
deriving DecidableEq, Repr

/-! ## Storage collaborator (FatFs file object opened for reading) -/

/-- FatFs result codes (the ones the player distinguishes, plus
representatives of the others). -/
inductive FRESULT where
  | FR_OK
  | FR_DISK_ERR
  | FR_INT_ERR
  | FR_NOT_READY
  | FR_NO_FILE
  | FR_NO_PATH
deriving DecidableEq, Repr

/-- An open file: its bytes (each taken modulo 256 when read), the read
pointer, the number of seek/read operations issued so far and the indices of
the operations at which the storage reports a disk error. -/
structure FIL where
  data : List Nat
  fptr : Nat
  ops : Nat
  faults : List Nat
deriving DecidableEq, Repr

/-- FatFs `f_size`. -/
def f_size (f : FIL) : Nat := f.data.length

/-- FatFs `f_tell`. -/
def f_tell (f : FIL) : Nat := f.fptr

/-- FatFs `f_lseek` on a file opened read-only: a target beyond the end of the
file is clamped to the file size. -/
def f_lseek (f : FIL) (ofs : Nat) : FRESULT × FIL :=
  if f.ops ∈ f.faults then
    (FRESULT.FR_DISK_ERR, { f with ops := f.ops + 1 })
  else
    (FRESULT.FR_OK, { f with fptr := min ofs f.data.length, ops := f.ops + 1 })

/-- FatFs `f_read`: result code, the bytes delivered (their number is `*br`)
and the file afterwards.  A failing read delivers nothing. -/
def f_read (f : FIL) (n : Nat) : FRESULT × List Nat × FIL :=
  if f.ops ∈ f.faults then
    (FRESULT.FR_DISK_ERR, [], { f with ops := f.ops + 1 })
  else
    (FRESULT.FR_OK, (f.data.drop f.fptr).take n,
      { f with fptr := f.fptr + ((f.data.drop f.fptr).take n).length, ops := f.ops + 1 })

/-- Byte `i` of a buffer filled by a read; a byte the read did not deliver
(the C buffer is uninitialised there) is taken to be `0`. -/
def byteAt (bs : List Nat) (i : Nat) : Nat := bs.getD i 0 % 256

/-- Little-endian 32-bit value at byte offset `off` of a buffer. -/
def le32At (bs : List Nat) (off : Nat) : Nat :=
  byteAt bs off + byteAt bs (off + 1) * 256 + byteAt bs (off + 2) * 65536
    + byteAt bs (off + 3) * 16777216

/-- Little-endian 16-bit value at byte offset `off` of a buffer. -/
def le16At (bs : List Nat) (off : Nat) : Nat :=
  byteAt bs off + byteAt bs (off + 1) * 256

/-- The C function `read_le32`: the result of `f_read` is not inspected. -/
def read_le32 (f : FIL) : Nat × FIL :=
  (le32At (f_read f 4).2.1 0, (f_read f 4).2.2)

/-! ## Container constants -/

def AVI_RIFF_ID : Nat := 0x46464952
def AVI_AVI_ID : Nat := 0x20495641
def AVI_LIST_ID : Nat := 0x5453494C
def AVI_HDRL_ID : Nat := 0x6C726468
def AVI_MOVI_ID : Nat := 0x69766F6D
def AVI_STRL_ID : Nat := 0x6C727473
def AVI_AVIH_ID : Nat := 0x68697661
def AVI_STRH_ID : Nat := 0x68727473
def AVI_STRF_ID : Nat := 0x66727473
def AVI_VIDS_ID : Nat := 0x73646976
def AVI_IDX1_ID : Nat := 0x31786469
def MJPG_FOURCC : Nat := 0x47504A4D
/-- Byte `i` (0 = lowest address) of a 32-bit value stored little-endian:
`((uint8_t*)&v)[i]`. -/
def idByte (v : Nat) (i : Nat) : Nat := (v / 256 ^ i) % 256

/-- The test shared by the counting pass, the endianness probe and the frame
decoder: `id_bytes[2] == 'd' && (id_bytes[3] == 'c' || id_bytes[3] == 'b')`. -/
def is_video_chunk (chunk_id : Nat) : Bool :=
  (idByte chunk_id 2 == 100 && idByte chunk_id 3 == 99) ||
  (idByte chunk_id 2 == 100 && idByte chunk_id 3 == 98)

/-! ## Session data -/

inductive VideoFormat where
  | VIDEO_FORMAT_UNKNOWN
  | VIDEO_FORMAT_MJPEG
  | VIDEO_FORMAT_RAW_RGB565
  | VIDEO_FORMAT_RAW_RGB565_LE
  | VIDEO_FORMAT_RAW_RGB565_BE
  | VIDEO_FORMAT_RAW_RGB888
deriving DecidableEq, Repr

inductive VideoCodec where
  | VIDEO_CODEC_UNKNOWN
  | VIDEO_CODEC_MJPG
  | VIDEO_CODEC_RAW
deriving DecidableEq, Repr

inductive VideoError where
  | VIDEO_SUCCESS
  | VIDEO_ERROR_FILE_NOT_FOUND
  | VIDEO_ERROR_FILE_OPEN
  | VIDEO_ERROR_FILE_READ
  | VIDEO_ERROR_INVALID_FORMAT
  | VIDEO_ERROR_MEMORY_ALLOC
  | VIDEO_ERROR_INVALID_PARAM
  | VIDEO_ERROR_UNSUPPORTED_FORMAT
  | VIDEO_ERROR_DECODE_FAILED
  | VIDEO_ERROR_NOT_OPEN
  | VIDEO_ERROR_END_OF_VIDEO
  | VIDEO_ERROR_PLAYBACK_ERROR
deriving DecidableEq, Repr

inductive VideoState where
  | VIDEO_STATE_IDLE
  | VIDEO_STATE_PLAYING
  | VIDEO_STATE_PAUSED
  | VIDEO_STATE_ENDED
deriving DecidableEq, Repr

inductive VideoPlayMode where
  | VIDEO_PLAY_MODE_BLOCKING
  | VIDEO_PLAY_MODE_POLLING
deriving DecidableEq, Repr

/-- The C struct `VideoInfo`. -/
structure VideoInfo where
  filename : List Char
  width : Nat
  height : Nat
  fps : Nat
  total_frames : Nat
  duration_ms : Nat
  format : VideoFormat
  codec : VideoCodec
  file_size : Nat
  movi_offset : Nat
  frame_size : Nat
  has_index : Bool
deriving DecidableEq, Repr

/-- The C struct `VideoHandle`.  Pointer members are represented by what the
code observes of them: `frame_index` is always null (`frame_index_count`
stays `0`), `jpeg_workbuf` and `callback` by whether they are non-null. -/
structure VideoHandle where
  info : VideoInfo
  file : FIL
  is_open : Bool
  state : VideoState
  play_mode : VideoPlayMode
  display_x : Nat
  display_y : Nat
  current_frame : Nat
  start_time_ms : Nat
  last_frame_time_ms : Nat
  frame_duration_ms : Nat
  fps : Nat
  frame_duration_us : Nat
  frames_skipped : Nat
  frames_rendered : Nat
  frame_index_count : Nat
  current_chunk_offset : Nat
  next_chunk_offset : Nat
  jpeg_workbuf : Bool
  callback : Bool
  needs_byte_swap : Bool
deriving DecidableEq, Repr

/-- The handle right after `memset(vh, 0, sizeof(VideoHandle))`, with the file
object attached. -/
def zeroHandle (file : FIL) : VideoHandle :=
  { info :=
      { filename := [], width := 0, height := 0, fps := 0, total_frames := 0,
        duration_ms := 0, format := VideoFormat.VIDEO_FORMAT_UNKNOWN,
        codec := VideoCodec.VIDEO_CODEC_UNKNOWN, file_size := 0, movi_offset := 0,
        frame_size := 0, has_index := false },
    file := file, is_open := false, state := VideoState.VIDEO_STATE_IDLE,
    play_mode := VideoPlayMode.VIDEO_PLAY_MODE_BLOCKING,
    display_x := 0, display_y := 0, current_frame := 0, start_time_ms := 0,
    last_frame_time_ms := 0, frame_duration_ms := 0, fps := 0, frame_duration_us := 0,
    frames_skipped := 0, frames_rendered := 0, frame_index_count := 0,
    current_chunk_offset := 0, next_chunk_offset := 0, jpeg_workbuf := false,
    callback := false, needs_byte_swap := false }

/-! ## `parse_avi_header` -/

/-- End offset of a chunk whose payload starts at `start`:
`end = start + size; if (size & 1) end++`, in 32-bit arithmetic. -/
def chunkEnd (start size : Nat) : Nat :=
  if size % 2 = 1 then u32 (u32 (start + size) + 1) else u32 (start + size)

/-- Local state of `parse_avi_header`: the handle and the three flags. -/
structure ParseSt where
  h : VideoHandle
  found_hdrl : Bool
  found_movi : Bool
  found_video_stream : Bool
deriving DecidableEq, Repr

/-- Replace the file object of a handle. -/
def VideoHandle.withFile (h : VideoHandle) (f : FIL) : VideoHandle := { h with file := f }

/-- Replace the file object of the handle inside a parser state. -/
def ParseSt.withFile (st : ParseSt) (f : FIL) : ParseSt := { st with h := st.h.withFile f }

/-- The frame rate derived from `dwMicroSecPerFrame` (lines 681-686). -/
def avih_fps (usPerFrame : Nat) : Nat :=
  if usPerFrame > 0 then
    (if u16 (1000000 / usPerFrame) = 0 then 30 else u16 (1000000 / usPerFrame))
  else 30

/-- Body of the `avih` branch: read the 56-byte main header and fill in
geometry, declared frame count, rate and duration. -/
def parse_avih (h : VideoHandle) : VideoHandle :=
  { h with
    file := (f_read h.file 56).2.2,
    info := { h.info with
      width := u16 (le32At (f_read h.file 56).2.1 32),
      height := abs16 (le32At (f_read h.file 56).2.1 36),
      total_frames := le32At (f_read h.file 56).2.1 16,
      fps := avih_fps (le32At (f_read h.file 56).2.1 0),
      duration_ms :=
        u32 (le32At (f_read h.file 56).2.1 16 * 1000) / avih_fps (le32At (f_read h.file 56).2.1 0) } }

/-- The handler test of the `strh` branch (lines 712-716). -/
def is_mjpg_handler (fccHandler : Nat) : Bool :=
  fccHandler == MJPG_FOURCC ||
  (idByte fccHandler 0 == 77 && idByte fccHandler 1 == 74 &&
    idByte fccHandler 2 == 80 && idByte fccHandler 3 == 71) ||
  (idByte fccHandler 0 == 109 && idByte fccHandler 1 == 106 &&
    idByte fccHandler 2 == 112 && idByte fccHandler 3 == 103)

/-- Body of the `strh` branch: read the 56-byte stream header; a video stream
fixes codec and format from the handler fourCC. -/
def parse_strh (st : ParseSt) : ParseSt :=
  if le32At (f_read st.h.file 56).2.1 0 = AVI_VIDS_ID then
    if is_mjpg_handler (le32At (f_read st.h.file 56).2.1 4) then
      { st with
        found_video_stream := true,
        h := { st.h with
          file := (f_read st.h.file 56).2.2,
          info := { st.h.info with
            codec := VideoCodec.VIDEO_CODEC_MJPG,
            format := VideoFormat.VIDEO_FORMAT_MJPEG } } }
    else
      { st with
        found_video_stream := true,
        h := { st.h with
          file := (f_read st.h.file 56).2.2,
          info := { st.h.info with
            codec := VideoCodec.VIDEO_CODEC_RAW,
            format := VideoFormat.VIDEO_FORMAT_RAW_RGB565 } } }
  else
    st.withFile (f_read st.h.file 56).2.2

/-- The format after the `strf` branch: the bit count only matters for the
raw codec (lines 735-741). -/
def strf_format (codec : VideoCodec) (format : VideoFormat) (biBitCount : Nat) : VideoFormat :=
  if codec = VideoCodec.VIDEO_CODEC_RAW then
    (if biBitCount = 16 then VideoFormat.VIDEO_FORMAT_RAW_RGB565
     else if biBitCount = 24 then VideoFormat.VIDEO_FORMAT_RAW_RGB888
     else format)
  else format

/-- Body of the `strf` branch: read the 40-byte bitmap-info header. -/
def parse_strf (st : ParseSt) : ParseSt :=
  { st with
    h := { st.h with
      file := (f_read st.h.file 40).2.2,
      info := { st.h.info with
        format := strf_format st.h.info.codec st.h.info.format
          (le16At (f_read st.h.file 40).2.1 14),
        width := abs16 (le32At (f_read st.h.file 40).2.1 4),
        height := abs16 (le32At (f_read st.h.file 40).2.1 8) } } }

/-- One sub-chunk of a stream list, after its 8-byte header was read. -/
def strl_chunk (st : ParseSt) (str_chunk_id : Nat) : ParseSt :=
  if str_chunk_id = AVI_STRH_ID then parse_strh st
  else if str_chunk_id = AVI_STRF_ID ∧ st.found_video_stream = true then parse_strf st
  else st

/-- The loop over one stream list: `while (f_tell(file) < strl_end)`. -/
def strl_loop : Nat → ParseSt → Nat → Outcome ParseSt
  | 0, _, _ => Outcome.hang
  | fuel + 1, st, strl_end =>
    if f_tell st.h.file < strl_end then
      let r1 := read_le32 st.h.file
      let r2 := read_le32 r1.2
      let st1 := strl_chunk (st.withFile r2.2) r1.1
      strl_loop fuel (st1.withFile (f_lseek st1.h.file (chunkEnd (f_tell r2.2) r2.1)).2) strl_end
    else Outcome.done st

/-- The loop over the header list: `while (f_tell(file) < hdrl_end)`. -/
def hdrl_loop : Nat → ParseSt → Nat → Outcome ParseSt
  | 0, _, _ => Outcome.hang
  | fuel + 1, st, hdrl_end =>
    if f_tell st.h.file < hdrl_end then
      let r1 := read_le32 st.h.file
      let r2 := read_le32 r1.2
      let sub_start := f_tell r2.2
      let sub_end := chunkEnd sub_start r2.1
      if r1.1 = AVI_AVIH_ID then
        let st1 := { st with h := parse_avih (st.h.withFile r2.2) }
        hdrl_loop fuel (st1.withFile (f_lseek st1.h.file sub_end).2) hdrl_end
      else if r1.1 = AVI_LIST_ID then
        let r3 := read_le32 r2.2
        if r3.1 = AVI_STRL_ID then
          match strl_loop fuel (st.withFile r3.2) (u32 (sub_start + r2.1)) with
          | Outcome.done st1 =>
            hdrl_loop fuel (st1.withFile (f_lseek st1.h.file sub_end).2) hdrl_end
          | Outcome.hang => Outcome.hang
          | Outcome.divZero => Outcome.divZero
        else
          hdrl_loop fuel (st.withFile (f_lseek r3.2 sub_end).2) hdrl_end
      else
        hdrl_loop fuel (st.withFile (f_lseek r2.2 sub_end).2) hdrl_end
    else Outcome.done st

/-- The top-level chunk loop:
`while (f_tell(file) < file_size - 8 && !found_movi)`. -/
def top_loop : Nat → ParseSt → Outcome ParseSt
  | 0, _ => Outcome.hang
  | fuel + 1, st =>
    if f_tell st.h.file < sub32 st.h.info.file_size 8 ∧ st.found_movi = false then
      let r1 := read_le32 st.h.file
      let r2 := read_le32 r1.2
      let chunk_data_start := f_tell r2.2
      let next_chunk := chunkEnd chunk_data_start r2.1
      if r1.1 = AVI_LIST_ID then
        let r3 := read_le32 r2.2
        if r3.1 = AVI_HDRL_ID then
          match hdrl_loop fuel ({ st with found_hdrl := true }.withFile r3.2)
              (u32 (chunk_data_start + r2.1)) with
          | Outcome.done st1 =>
            top_loop fuel (st1.withFile (f_lseek st1.h.file next_chunk).2)
          | Outcome.hang => Outcome.hang
          | Outcome.divZero => Outcome.divZero
        else if r3.1 = AVI_MOVI_ID then
          top_loop fuel
            { st with
              found_movi := true,
              h := { st.h with
                file := (f_lseek r3.2 next_chunk).2,
                info := { st.h.info with movi_offset := chunk_data_start } } }
        else
          top_loop fuel (st.withFile (f_lseek r3.2 next_chunk).2)
      else if r1.1 = AVI_IDX1_ID then
        top_loop fuel
          { st with
            h := { st.h with
              file := (f_lseek r2.2 next_chunk).2,
              info := { st.h.info with has_index := true } } }
      else
        top_loop fuel (st.withFile (f_lseek r2.2 next_chunk).2)
    else Outcome.done st

/-- What `parse_avi_header` does once the chunk loop has finished
(lines 768-781). -/
def parse_finish (st : ParseSt) : VideoError × VideoHandle :=
  if st.found_hdrl = false then (VideoError.VIDEO_ERROR_INVALID_FORMAT, st.h)
  else
    let h1 : VideoHandle :=
      if st.found_video_stream = false then
        { st.h with info := { st.h.info with
            codec := VideoCodec.VIDEO_CODEC_RAW,
            format := VideoFormat.VIDEO_FORMAT_RAW_RGB565 } }
      else st.h
    if st.found_movi = false then (VideoError.VIDEO_ERROR_INVALID_FORMAT, h1)
    else (VideoError.VIDEO_SUCCESS, h1)

/-- The C function `parse_avi_header`. -/
def parse_avi_header (fuel : Nat) (h : VideoHandle) : Outcome (VideoError × VideoHandle) :=
  let r1 := read_le32 h.file
  if r1.1 ≠ AVI_RIFF_ID then
    Outcome.done (VideoError.VIDEO_ERROR_INVALID_FORMAT, h.withFile r1.2)
  else
    let r2 := read_le32 r1.2
    let r3 := read_le32 r2.2
    if r3.1 ≠ AVI_AVI_ID then
      Outcome.done (VideoError.VIDEO_ERROR_INVALID_FORMAT, h.withFile r3.2)
    else
      match top_loop fuel
          { h := h.withFile r3.2, found_hdrl := false, found_movi := false,
            found_video_stream := false } with
      | Outcome.done st => Outcome.done (parse_finish st)
      | Outcome.hang => Outcome.hang
      | Outcome.divZero => Outcome.divZero

/-! ## `build_frame_index` -/

/-- The counting loop of `build_frame_index`:
`while (f_tell(file) < movi_end - 8)`, carrying `frame_count`. -/
def count_loop : Nat → FIL → Nat → Nat → Outcome (FIL × Nat)
  | 0, _, _, _ => Outcome.hang
  | fuel + 1, file, movi_end, frame_count =>
    if f_tell file < sub32 movi_end 8 then
      let r1 := read_le32 file
      let r2 := read_le32 r1.2
      let chunk_offset := f_tell r2.2
      let frame_count1 :=
        if is_video_chunk r1.1 = true ∧ r2.1 > 0 then u32 (frame_count + 1) else frame_count
      count_loop fuel (f_lseek r2.2 (u32 (chunk_offset + pad32 r2.1))).2 movi_end frame_count1
    else Outcome.done (file, frame_count)

/-- The C function `build_frame_index`: no index is built, the frame chunks
are only counted, and the count replaces the declared total. -/
def build_frame_index (fuel : Nat) (h : VideoHandle) : Outcome (VideoError × VideoHandle) :=
  match count_loop fuel (f_lseek h.file (u32 (h.info.movi_offset + 4))).2 h.info.file_size 0 with
  | Outcome.done (file, frame_count) =>
    if frame_count = 0 then
      Outcome.done (VideoError.VIDEO_ERROR_INVALID_FORMAT,
        { h with file := file, frame_index_count := 0 })
    else
      Outcome.done (VideoError.VIDEO_SUCCESS,
        { h with file := file, frame_index_count := 0,
                 info := { h.info with total_frames := frame_count } })
  | Outcome.hang => Outcome.hang
  | Outcome.divZero => Outcome.divZero

/-! ## `detect_rgb565_endianness` -/

/-- The file-name scan of `detect_rgb565_endianness` (lines 841-856): the
first position holding `565` followed by `be`/`BE` or `le`/`LE` decides. -/
def scan_name : List Char → Option Bool
  | [] => none
  | c :: rest =>
    if c = '5' ∧ rest.getD 0 (Char.ofNat 0) = '6' ∧ rest.getD 1 (Char.ofNat 0) = '5' then
      if (rest.getD 2 (Char.ofNat 0) = 'b' ∨ rest.getD 2 (Char.ofNat 0) = 'B') ∧
         (rest.getD 3 (Char.ofNat 0) = 'e' ∨ rest.getD 3 (Char.ofNat 0) = 'E') then some false
      else if (rest.getD 2 (Char.ofNat 0) = 'l' ∨ rest.getD 2 (Char.ofNat 0) = 'L') ∧
         (rest.getD 3 (Char.ofNat 0) = 'e' ∨ rest.getD 3 (Char.ofNat 0) = 'E') then some true
      else scan_name rest
    else scan_name rest

/-- Number of sample bytes that are neither `0x00` nor `0xFF`. -/
def non_zero_count (bs : List Nat) : Nat :=
  ((List.range 32).filter (fun i => byteAt bs i ≠ 0 ∧ byteAt bs i ≠ 255)).length

/-- The channel-range test applied to a 16-bit pixel. -/
def pixel_valid (p : Nat) : Bool :=
  decide ((p / 2048) % 32 ≤ 31) && decide ((p / 32) % 64 ≤ 63) && decide (p % 32 ≤ 31)

/-- The count `le_valid_count` over the 16 sampled pixels. -/
def le_valid_count (bs : List Nat) : Nat :=
  ((List.range 16).filter
    (fun i => pixel_valid (u16 (byteAt bs (i * 2) + byteAt bs (i * 2 + 1) * 256)))).length

/-- The count `be_valid_count` over the 16 sampled pixels. -/
def be_valid_count (bs : List Nat) : Nat :=
  ((List.range 16).filter
    (fun i => pixel_valid (u16 (byteAt bs (i * 2) * 256 + byteAt bs (i * 2 + 1))))).length

/-- One iteration of the sampling loop (lines 891-941) for one sample offset:
`some b` when the function returns `b` from inside the loop. -/
def sample_step (file : FIL) (chunk_size offset : Nat) : Option Bool × FIL :=
  if u32 (offset + 32) > chunk_size then (none, file)
  else
    let f1 := (f_lseek file (f_tell file)).2
    let r2 := f_lseek f1 (u32 (f_tell f1 + offset))
    if r2.1 ≠ FRESULT.FR_OK then (none, r2.2)
    else
      let r3 := f_read r2.2 32
      if r3.1 ≠ FRESULT.FR_OK ∨ r3.2.1.length < 32 then (none, r3.2.2)
      else if non_zero_count r3.2.1 < 8 then (none, r3.2.2)
      else if le_valid_count r3.2.1 ≠ be_valid_count r3.2.1 then
        (some (decide (¬ be_valid_count r3.2.1 > le_valid_count r3.2.1)), r3.2.2)
      else (none, r3.2.2)

/-- The four samples of one frame chunk, in order, stopping at the first one
that returns. -/
def sample_chunk (file : FIL) (chunk_size : Nat) : List Nat → Option Bool × FIL
  | [] => (none, file)
  | offset :: rest =>
    match sample_step file chunk_size offset with
    | (some b, f) => (some b, f)
    | (none, f) => sample_chunk f chunk_size rest

/-- The sample offsets `0, size/4, size/2, size*3/4` (32-bit arithmetic). -/
def sample_offsets (chunk_size : Nat) : List Nat :=
  [0, chunk_size / 4, chunk_size / 2, u32 (chunk_size * 3) / 4]

/-- The chunk loop of `detect_rgb565_endianness` (lines 870-946). -/
def detect_loop : Nat → FIL → Nat → Nat → Outcome (Option Bool × FIL)
  | 0, _, _, _ => Outcome.hang
  | fuel + 1, file, file_size, frames_checked =>
    if frames_checked < 100 ∧ f_tell file < sub32 file_size 8 then
      let r1 := read_le32 file
      let r2 := read_le32 r1.2
      if is_video_chunk r1.1 = false ∨ r2.1 < 32 then
        detect_loop fuel (f_lseek r2.2 (u32 (f_tell r2.2 + pad32 r2.1))).2 file_size
          frames_checked
      else
        match sample_chunk r2.2 r2.1 (sample_offsets r2.1) with
        | (some b, f) => Outcome.done (some b, f)
        | (none, f) =>
          detect_loop fuel (f_lseek f (u32 (f_tell f + pad32 r2.1))).2 file_size
            (frames_checked + 1)
    else Outcome.done (none, file)

/-- The C function `detect_rgb565_endianness`: the returned flag and the
handle (only its file object is touched). -/
def detect_rgb565_endianness (fuel : Nat) (h : VideoHandle) : Outcome (Bool × VideoHandle) :=
  if h.info.codec ≠ VideoCodec.VIDEO_CODEC_RAW then Outcome.done (false, h)
  else if h.info.format = VideoFormat.VIDEO_FORMAT_RAW_RGB565_BE then Outcome.done (false, h)
  else if h.info.format = VideoFormat.VIDEO_FORMAT_RAW_RGB565_LE then Outcome.done (true, h)
  else
    match scan_name h.info.filename with
    | some b => Outcome.done (b, h)
    | none =>
      let r := f_lseek h.file h.info.movi_offset
      if r.1 ≠ FRESULT.FR_OK then
        Outcome.done (true, h.withFile (f_lseek r.2 (f_tell h.file)).2)
      else
        match detect_loop fuel r.2 h.info.file_size 0 with
        | Outcome.done (some b, f) => Outcome.done (b, h.withFile (f_lseek f (f_tell h.file)).2)
        | Outcome.done (none, f) => Outcome.done (true, h.withFile (f_lseek f (f_tell h.file)).2)
        | Outcome.hang => Outcome.hang
        | Outcome.divZero => Outcome.divZero

/-! ## `VIDEO_Open` -/

/-- What the collaborators do during one `VIDEO_Open` call: whether the two
allocations succeed, the result of `f_open`, the bytes of the file and the
storage operations that fail. -/
structure OpenEnv where
  malloc_handle : Bool
  fopen_result : FRESULT
  data : List Nat
  faults : List Nat
  malloc_workbuf : Bool
deriving DecidableEq, Repr

/-- The handle as `VIDEO_Open` has set it up before parsing (lines 199-211). -/
def open_init (env : OpenEnv) (filename : List Char) : VideoHandle :=
  let file : FIL := { data := env.data, fptr := 0, ops := 0, faults := env.faults }
  { zeroHandle file with
    info := { (zeroHandle file).info with
      filename := filename.take 63, file_size := u32 (f_size file) },
    is_open := true,
    state := VideoState.VIDEO_STATE_IDLE }

/-- The timing fields `VIDEO_Open` derives from the frame rate (lines 240-246);
the caller has checked that `info.fps` is not zero. -/
def open_timing (h : VideoHandle) : VideoHandle :=
  { h with
    jpeg_workbuf := true,
    frame_duration_ms := if 1000 / h.info.fps = 0 then 33 else 1000 / h.info.fps,
    fps := h.info.fps,
    frame_duration_us := 1000000 / h.info.fps,
    frames_skipped := 0,
    frames_rendered := 0 }

/-- The C function `VIDEO_Open`.  `filename = none` is a null `filename`,
`handle_out = false` a null `handle` pointer; the second component of the
result is the value left in `*handle` (`none` is `nullptr`).  The global
`g_last_error` always receives the returned code and is not represented.
A zero `info.fps` makes both divisions of lines 240 and 243 divide by
zero. -/
def VIDEO_Open (fuel : Nat) (env : OpenEnv) (filename : Option (List Char))
    (handle_out : Bool) : Outcome (VideoError × Option VideoHandle) :=
  match filename with
  | none => Outcome.done (VideoError.VIDEO_ERROR_INVALID_PARAM, none)
  | some name =>
    if handle_out = false then Outcome.done (VideoError.VIDEO_ERROR_INVALID_PARAM, none)
    else if env.malloc_handle = false then
      Outcome.done (VideoError.VIDEO_ERROR_MEMORY_ALLOC, none)
    else if env.fopen_result ≠ FRESULT.FR_OK then
      Outcome.done
        (if env.fopen_result = FRESULT.FR_NO_FILE then VideoError.VIDEO_ERROR_FILE_NOT_FOUND
         else VideoError.VIDEO_ERROR_FILE_OPEN, none)
    else
      match parse_avi_header fuel (open_init env name) with
      | Outcome.hang => Outcome.hang
      | Outcome.divZero => Outcome.divZero
      | Outcome.done (e1, vh1) =>
        if e1 ≠ VideoError.VIDEO_SUCCESS then Outcome.done (e1, none)
        else
          match build_frame_index fuel vh1 with
          | Outcome.hang => Outcome.hang
          | Outcome.divZero => Outcome.divZero
          | Outcome.done (e2, vh2) =>
            if e2 ≠ VideoError.VIDEO_SUCCESS then Outcome.done (e2, none)
            else if env.malloc_workbuf = false then
              Outcome.done (VideoError.VIDEO_ERROR_MEMORY_ALLOC, none)
            else if vh2.info.fps = 0 then Outcome.divZero
            else
              match detect_rgb565_endianness fuel (open_timing vh2) with
              | Outcome.hang => Outcome.hang
              | Outcome.divZero => Outcome.divZero
              | Outcome.done (swap, vh3) =>
                Outcome.done (VideoError.VIDEO_SUCCESS, some { vh3 with needs_byte_swap := swap })

/-! ## Playback collaborators -/

/-- Which of the two row buffers of `decode_raw_frame` is meant. -/
inductive RowBuf where
  | A
  | B
deriving DecidableEq, Repr

/-- Observable actions of the player, in the order they happen. -/
inductive Event where
  /-- A frame decoder was entered for the chunk payload at `offset` of `size` bytes. -/
  | decode (codec : VideoCodec) (offset size : Nat)
  /-- `ST7735_SetAddressWindow(x0, y0, x1, y1)`. -/
  | setWindow (x0 y0 x1 y1 : Int)
  /-- `f_read` of one row into a row buffer: its result code and the bytes delivered. -/
  | readRow (buf : RowBuf) (res : FRESULT) (bytes : List Nat)
  /-- `HAL_SPI_Transmit_DMA` started on a row buffer holding `bytes`. -/
  | dmaStart (buf : RowBuf) (bytes : List Nat)
  /-- The two busy-wait loops after a transfer have finished. -/
  | dmaWait
  /-- The block decoder ran `jd_decomp` on a `w` x `h` picture at `scale`. -/
  | jpeg (w h scale : Nat)
  /-- The per-frame callback was invoked with `frame_num`. -/
  | callback (frame_num : Nat)
deriving DecidableEq, Repr

/-- The world outside the session: the millisecond tick counter and the trace
of observable actions (most recent last). -/
structure World where
  tick : Nat
  log : List Event
deriving DecidableEq, Repr

/-- The C function `get_tick_ms` (`HAL_GetTick`, a 32-bit counter). -/
def get_tick_ms (w : World) : Nat := u32 w.tick

/-- Parameters of the playback code that the sources do not define: the
display size macros, the block decoder (`jd_prepare` yields the picture size or
fails, `jd_decomp` succeeds or fails; both see the bytes the pull callback can
deliver), whether `malloc` of the row buffers succeeds, the byte a row buffer
holds at each index when `malloc` hands it out (the memory is not cleared),
and the wall-clock time one frame decode takes. -/
structure PlayEnv where
  ST7735_WIDTH : Nat
  ST7735_HEIGHT : Nat
  jd_prepare : List Nat → Option (Nat × Nat)
  jd_decomp : List Nat → Nat → Bool
  malloc_rows : Bool
  fresh_row : Nat → Nat
  decode_ms : Nat

/-! ## Frame decoders -/

/-- The scale search of `decode_mjpeg_frame` (lines 1017-1023), `n` bounding
the number of iterations: returns `(scale, scale_factor)`. -/
def scale_search (W H w h : Nat) : Nat → Nat → Nat → Nat × Nat
  | 0, scale, scale_factor => (scale, scale_factor)
  | n + 1, scale, scale_factor =>
    if w / scale_factor > W ∨ h / scale_factor > H then
      if scale + 1 > 3 then (scale + 1, scale_factor * 2)
      else scale_search W H w h n (scale + 1) (scale_factor * 2)
    else (scale, scale_factor)

/-- The scale chosen for a `w` x `h` picture; the loop leaves after at most
four iterations because of its `break`. -/
def mjpeg_scale (W H w h : Nat) : Nat × Nat := scale_search W H w h 4 0 1

/-- The bytes the pull callback can deliver from the current read position up
to `frame_end_offset`. -/
def frame_window (f : FIL) (frame_end_offset : Nat) : List Nat :=
  (f.data.drop f.fptr).take (frame_end_offset - f.fptr)

/-- The C function `decode_mjpeg_frame`; of the handle it changes the file
object only, which is returned.  The read pointer is left where the seek put
it: how far the decoder pulled is not tracked, every later access of the
player seeks first. -/
def decode_mjpeg_frame (env : PlayEnv) (h : VideoHandle) (w : World) (offset size : Nat) :
    VideoError × FIL × World :=
  let w0 : World := { w with log := w.log ++ [Event.decode VideoCodec.VIDEO_CODEC_MJPG offset size] }
  let r := f_lseek h.file offset
  if r.1 ≠ FRESULT.FR_OK then (VideoError.VIDEO_ERROR_FILE_READ, r.2, w0)
  else
    match env.jd_prepare (frame_window r.2 (u32 (offset + size))) with
    | none => (VideoError.VIDEO_ERROR_DECODE_FAILED, r.2, w0)
    | some (jw, jh) =>
      let sc := (mjpeg_scale env.ST7735_WIDTH env.ST7735_HEIGHT jw jh).1
      if env.jd_decomp (frame_window r.2 (u32 (offset + size))) sc = true then
        (VideoError.VIDEO_SUCCESS, r.2, { w0 with log := w0.log ++ [Event.jpeg jw jh sc] })
      else (VideoError.VIDEO_ERROR_DECODE_FAILED, r.2, w0)

/-- The byte swap applied to a row buffer: `buf[2x]` and `buf[2x+1]`
exchanged for every pixel. -/
def swap_pairs : List Nat → List Nat
  | a :: b :: rest => b :: a :: swap_pairs rest
  | rest => rest

/-- A row buffer after `f_read` delivered `bytes` into it: the undelivered tail
keeps its old contents; a complete row is byte-swapped when requested. -/
def fill_row (old bytes : List Nat) (res : FRESULT) (row_buffer_size : Nat) (need_swap : Bool) :
    List Nat :=
  if res = FRESULT.FR_OK ∧ bytes.length = row_buffer_size then
    (if need_swap = true then swap_pairs bytes else bytes)
  else bytes ++ old.drop bytes.length

/-- The row loop of `decode_raw_frame` (lines 1082-1103), for rows
`y, y+1, ...` with `n` rows left; `cur` is the buffer row `y` is sent from,
`nxt` the other one. -/
def raw_rows (row_buffer_size : Nat) (need_swap : Bool) (height : Nat) :
    Nat → Nat → List Nat → List Nat → FIL → List Event → FIL × List Event
  | 0, _, _, _, file, log => (file, log)
  | n + 1, y, cur, nxt, file, log =>
    let curId := if y % 2 = 0 then RowBuf.A else RowBuf.B
    let nxtId := if y % 2 = 0 then RowBuf.B else RowBuf.A
    let log1 := log ++ [Event.dmaStart curId cur]
    if y + 1 < height then
      let r := f_read file row_buffer_size
      let nxt1 := fill_row nxt r.2.1 r.1 row_buffer_size need_swap
      raw_rows row_buffer_size need_swap height n (y + 1) nxt1 cur r.2.2
        (log1 ++ [Event.readRow nxtId r.1 r.2.1, Event.dmaWait])
    else
      raw_rows row_buffer_size need_swap height n (y + 1) nxt cur file
        (log1 ++ [Event.dmaWait])

/-- The C function `decode_raw_frame`; of the handle it changes the file
object only, which is returned.  Buffer B holds what `malloc` handed out
(`env.fresh_row`) until a row is read into it. -/
def decode_raw_frame (env : PlayEnv) (h : VideoHandle) (w : World) (offset size : Nat) :
    VideoError × FIL × World :=
  let w0 : World := { w with log := w.log ++ [Event.decode VideoCodec.VIDEO_CODEC_RAW offset size] }
  let r := f_lseek h.file offset
  if r.1 ≠ FRESULT.FR_OK then (VideoError.VIDEO_ERROR_FILE_READ, r.2, w0)
  else
    let width := h.info.width
    let height := h.info.height
    let w1 : World := { w0 with log := w0.log ++
      [Event.setWindow h.display_x h.display_y
        ((h.display_x : Int) + width - 1) ((h.display_y : Int) + height - 1)] }
    let row_buffer_size := u16 (width * 2)
    if env.malloc_rows = false then (VideoError.VIDEO_ERROR_MEMORY_ALLOC, r.2, w1)
    else
      let r1 := f_read r.2 row_buffer_size
      if r1.1 ≠ FRESULT.FR_OK ∨ r1.2.1.length ≠ row_buffer_size then
        (VideoError.VIDEO_ERROR_FILE_READ, r1.2.2,
          { w1 with log := w1.log ++ [Event.readRow RowBuf.A r1.1 r1.2.1] })
      else
        let buffer_a := if h.needs_byte_swap = true then swap_pairs r1.2.1 else r1.2.1
        let buffer_b := (List.range row_buffer_size).map env.fresh_row
        let out := raw_rows row_buffer_size h.needs_byte_swap height height 0 buffer_a buffer_b
          r1.2.2 (w1.log ++ [Event.readRow RowBuf.A r1.1 r1.2.1])
        (VideoError.VIDEO_SUCCESS, out.1, { w1 with log := out.2 })

/-- The codec dispatch of `decode_and_display_frame_streaming` (lines 977-981). -/
def decode_frame (env : PlayEnv) (h : VideoHandle) (w : World) (frame_offset chunk_size : Nat) :
    VideoError × FIL × World :=
  if h.info.codec = VideoCodec.VIDEO_CODEC_MJPG then
    decode_mjpeg_frame env h w frame_offset chunk_size
  else decode_raw_frame env h w frame_offset chunk_size

/-- The C function `decode_and_display_frame_streaming`: it changes the file
object and, when the frame was shown, the byte cursor. -/
def decode_and_display_frame_streaming (env : PlayEnv) (h : VideoHandle) (w : World) :
    VideoError × VideoHandle × World :=
  let r := f_lseek h.file h.current_chunk_offset
  if r.1 ≠ FRESULT.FR_OK then (VideoError.VIDEO_ERROR_FILE_READ, { h with file := r.2 }, w)
  else
    let r1 := read_le32 r.2
    let r2 := read_le32 r1.2
    let frame_offset := f_tell r2.2
    if is_video_chunk r1.1 = false ∨ r2.1 = 0 then
      (VideoError.VIDEO_ERROR_INVALID_FORMAT, { h with file := r2.2 }, w)
    else
      let d := decode_frame env { h with file := r2.2 } w frame_offset r2.1
      if d.1 ≠ VideoError.VIDEO_SUCCESS then (d.1, { h with file := d.2.1 }, d.2.2)
      else
        (VideoError.VIDEO_SUCCESS,
          { h with file := d.2.1, current_chunk_offset := u32 (frame_offset + pad32 r2.1) },
          d.2.2)

/-! ## The scheduler -/

/-- The skip loop of `VIDEO_Poll` (lines 399-413), `n` iterations left: each
one seeks to the cursor, reads the 8-byte chunk header and moves the cursor
past the padded payload.  A failing seek ends the session. -/
def skip_loop : Nat → VideoHandle → VideoError × VideoHandle
  | 0, h => (VideoError.VIDEO_SUCCESS, h)
  | n + 1, h =>
    let r := f_lseek h.file h.current_chunk_offset
    if r.1 ≠ FRESULT.FR_OK then
      (VideoError.VIDEO_ERROR_FILE_READ,
        { h with file := r.2, state := VideoState.VIDEO_STATE_ENDED })
    else
      let r1 := read_le32 r.2
      let r2 := read_le32 r1.2
      skip_loop n { h with file := r2.2, current_chunk_offset := u32 (f_tell r2.2 + pad32 r2.1) }

/-- The expected frame number of `VIDEO_Poll` (lines 369-374): elapsed
milliseconds times 1000 in 32-bit arithmetic, divided by the frame duration. -/
def elapsed_us (h : VideoHandle) (w : World) : Nat :=
  u32 (sub32 (get_tick_ms w) h.start_time_ms * 1000)

/-- The blocking-mode wait for the next frame (lines 439-448): the tick counter
is advanced until it reaches the deadline when the deadline is ahead. -/
def wait_next_frame (h : VideoHandle) (w : World) : World :=
  let next_frame_time_ms := u32 (h.start_time_ms + u32 (h.current_frame * h.frame_duration_us) / 1000)
  if get_tick_ms w < next_frame_time_ms then
    { w with tick := w.tick + (next_frame_time_ms - get_tick_ms w) }
  else w

/-- The part of `VIDEO_Poll` after the skip (lines 418-451). -/
def poll_render (env : PlayEnv) (h : VideoHandle) (w : World) :
    VideoError × VideoHandle × World :=
  let d := decode_and_display_frame_streaming env h w
  let wd : World := { d.2.2 with tick := d.2.2.tick + env.decode_ms }
  if d.1 ≠ VideoError.VIDEO_SUCCESS then
    (d.1, { d.2.1 with state := VideoState.VIDEO_STATE_ENDED }, wd)
  else
    let h1 : VideoHandle :=
      { d.2.1 with
        frames_rendered := u32 (d.2.1.frames_rendered + 1),
        current_frame := u32 (d.2.1.current_frame + 1) }
    let w1 : World :=
      if h1.callback = true then { wd with log := wd.log ++ [Event.callback h1.current_frame] }
      else wd
    if h1.current_frame ≥ h1.info.total_frames then
      (VideoError.VIDEO_ERROR_END_OF_VIDEO,
        { h1 with state := VideoState.VIDEO_STATE_ENDED }, w1)
    else if h1.play_mode = VideoPlayMode.VIDEO_PLAY_MODE_BLOCKING then
      (VideoError.VIDEO_SUCCESS, h1, wait_next_frame h1 w1)
    else (VideoError.VIDEO_SUCCESS, h1, w1)

/-- The C function `VIDEO_Poll` on a non-null handle.  The division by
`frame_duration_us` is the C division; `VIDEO_Open` leaves that field
positive. -/
def VIDEO_Poll (env : PlayEnv) (h : VideoHandle) (w : World) :
    VideoError × VideoHandle × World :=
  if h.is_open = false then (VideoError.VIDEO_ERROR_NOT_OPEN, h, w)
  else if h.state ≠ VideoState.VIDEO_STATE_PLAYING then
    (if h.state = VideoState.VIDEO_STATE_ENDED then VideoError.VIDEO_ERROR_END_OF_VIDEO
     else VideoError.VIDEO_SUCCESS, h, w)
  else
    let expected_frame := elapsed_us h w / h.frame_duration_us
    if expected_frame ≥ h.info.total_frames then
      (VideoError.VIDEO_ERROR_END_OF_VIDEO,
        { h with state := VideoState.VIDEO_STATE_ENDED }, w)
    else if h.play_mode = VideoPlayMode.VIDEO_PLAY_MODE_POLLING ∧
        elapsed_us h w < u32 (h.current_frame * h.frame_duration_us) then
      (VideoError.VIDEO_SUCCESS, h, w)
    else if expected_frame > h.current_frame then
      let s := skip_loop (expected_frame - h.current_frame)
        { h with frames_skipped := u32 (h.frames_skipped + (expected_frame - h.current_frame)) }
      if s.1 ≠ VideoError.VIDEO_SUCCESS then (s.1, s.2, w)
      else poll_render env { s.2 with current_frame := expected_frame } w
    else poll_render env h w

/-- The blocking loop of `VIDEO_Play` (lines 330-338). -/
def play_loop (env : PlayEnv) : Nat → VideoHandle → World → Outcome (VideoError × VideoHandle × World)
  | 0, _, _ => Outcome.hang
  | fuel + 1, h, w =>
    if h.state = VideoState.VIDEO_STATE_PLAYING then
      let p := VIDEO_Poll env h w
      if p.1 = VideoError.VIDEO_ERROR_END_OF_VIDEO then
        Outcome.done (VideoError.VIDEO_SUCCESS,
          { p.2.1 with state := VideoState.VIDEO_STATE_ENDED }, p.2.2)
      else if p.1 ≠ VideoError.VIDEO_SUCCESS then Outcome.done p
      else play_loop env fuel p.2.1 p.2.2
    else Outcome.done (VideoError.VIDEO_SUCCESS, h, w)

/-- The C function `VIDEO_Play` on a non-null handle; `x`, `y` are `uint16_t`. -/
def VIDEO_Play (env : PlayEnv) (fuel : Nat) (h : VideoHandle) (w : World) (x y : Nat)
    (mode : VideoPlayMode) : Outcome (VideoError × VideoHandle × World) :=
  if h.is_open = false then Outcome.done (VideoError.VIDEO_ERROR_NOT_OPEN, h, w)
  else if x + h.info.width > env.ST7735_WIDTH ∨ y + h.info.height > env.ST7735_HEIGHT then
    Outcome.done (VideoError.VIDEO_ERROR_INVALID_PARAM, h, w)
  else
    let h1 : VideoHandle :=
      { h with
        display_x := x, display_y := y, play_mode := mode, current_frame := 0,
        start_time_ms := get_tick_ms w, last_frame_time_ms := get_tick_ms w,
        state := VideoState.VIDEO_STATE_PLAYING,
        current_chunk_offset := u32 (h.info.movi_offset + 4) }
    if mode = VideoPlayMode.VIDEO_PLAY_MODE_BLOCKING then play_loop env fuel h1 w
    else Outcome.done (VideoError.VIDEO_SUCCESS, h1, w)

/-- The C function `VIDEO_Pause`. -/
def VIDEO_Pause (h : VideoHandle) : VideoError × VideoHandle :=
  if h.is_open = false then (VideoError.VIDEO_ERROR_NOT_OPEN, h)
  else if h.state = VideoState.VIDEO_STATE_PLAYING then
    (VideoError.VIDEO_SUCCESS, { h with state := VideoState.VIDEO_STATE_PAUSED })
  else (VideoError.VIDEO_SUCCESS, h)

/-- The re-baselined start timestamp used by resume, reset-time and seek:
`get_tick_ms() - (frame * frame_duration_us) / 1000`. -/
def rebase (h : VideoHandle) (w : World) (frame : Nat) : Nat :=
  sub32 (get_tick_ms w) (u32 (frame * h.frame_duration_us) / 1000)

/-- The C function `VIDEO_Resume`. -/
def VIDEO_Resume (h : VideoHandle) (w : World) : VideoError × VideoHandle :=
  if h.is_open = false then (VideoError.VIDEO_ERROR_NOT_OPEN, h)
  else if h.state = VideoState.VIDEO_STATE_PAUSED then
    (VideoError.VIDEO_SUCCESS,
      { h with
        state := VideoState.VIDEO_STATE_PLAYING,
        start_time_ms := rebase h w h.current_frame,
        last_frame_time_ms := get_tick_ms w })
  else (VideoError.VIDEO_SUCCESS, h)

/-- The C function `VIDEO_Stop`. -/
def VIDEO_Stop (h : VideoHandle) : VideoError × VideoHandle :=
  if h.is_open = false then (VideoError.VIDEO_ERROR_NOT_OPEN, h)
  else (VideoError.VIDEO_SUCCESS,
    { h with state := VideoState.VIDEO_STATE_IDLE, current_frame := 0 })

/-- The C function `VIDEO_ResetTime`. -/
def VIDEO_ResetTime (h : VideoHandle) (w : World) : VideoError × VideoHandle :=
  if h.is_open = false then (VideoError.VIDEO_ERROR_NOT_OPEN, h)
  else (VideoError.VIDEO_SUCCESS,
    { h with
      start_time_ms := rebase h w h.current_frame,
      last_frame_time_ms := get_tick_ms w })

/-- The C function `VIDEO_Seek`. -/
def VIDEO_Seek (h : VideoHandle) (w : World) (frame_num : Nat) : VideoError × VideoHandle :=
  if h.is_open = false then (VideoError.VIDEO_ERROR_NOT_OPEN, h)
  else
    let frame_num1 := if frame_num ≥ h.info.total_frames then sub32 h.info.total_frames 1 else frame_num
    (VideoError.VIDEO_SUCCESS,
      { h with
        current_frame := frame_num1,
        start_time_ms := rebase h w frame_num1,
        last_frame_time_ms := get_tick_ms w,
        current_chunk_offset := u32 (h.info.movi_offset + 4) })

/-- The C function `VIDEO_SeekTime`; `frame_duration_us` is not zero after
`VIDEO_Open`. -/
def VIDEO_SeekTime (h : VideoHandle) (w : World) (time_ms : Nat) : VideoError × VideoHandle :=
  if h.is_open = false then (VideoError.VIDEO_ERROR_NOT_OPEN, h)
  else VIDEO_Seek h w (u32 (time_ms * 1000) / h.frame_duration_us)

/-! ## Specification vocabulary -/

/-- The 32-bit little-endian word stored at byte offset `p` of the file bytes
(bytes beyond the end of the file read as `0`). -/
def word_at (data : List Nat) (p : Nat) : Nat := le32At ((data.drop p).take 4) 0

/-- The frame payloads (offset, size) handed to a frame decoder, in the order
of the trace. -/
def decodes (log : List Event) : List (Nat × Nat) :=
  log.filterMap (fun e =>
    match e with
    | Event.decode _ o s => some (o, s)
    | _ => none)

/-- The bytes of a frame payload that the pull callback can deliver: from
`offset` up to the declared frame end `offset + size` (32-bit), within the
file. -/
def payload_window (data : List Nat) (offset size : Nat) : List Nat :=
  (data.drop offset).take (u32 (offset + size) - offset)

/-- The frame payload at `offset` can be shown: the block decoder accepts its
bytes (lossy codec), or the row buffers can be allocated and the first row is
completely inside the file (raw codec). -/
def frame_decodable (env : PlayEnv) (h : VideoHandle) (offset size : Nat) : Bool :=
  if h.info.codec = VideoCodec.VIDEO_CODEC_MJPG then
    match env.jd_prepare (payload_window h.file.data offset size) with
    | none => false
    | some (jw, jh) =>
      env.jd_decomp (payload_window h.file.data offset size)
        (mjpeg_scale env.ST7735_WIDTH env.ST7735_HEIGHT jw jh).1
  else env.malloc_rows && decide (offset + u16 (h.info.width * 2) ≤ h.file.data.length)

/-- The file object after the 8-byte chunk header at `c` has been read:
seek to `c`, two `read_le32`. -/
def header_file (f : FIL) (c : Nat) : FIL := (read_le32 (read_le32 (f_lseek f c).2).2).2

/-- Everything in a handle except `info` and `file`. -/
def ctl (h : VideoHandle) :=
  (h.is_open, h.state, h.play_mode, h.display_x, h.display_y, h.current_frame,
    h.start_time_ms, h.last_frame_time_ms, h.frame_duration_ms, h.fps, h.frame_duration_us,
    h.frames_skipped, h.frames_rendered, h.frame_index_count, h.current_chunk_offset,
    h.next_chunk_offset, h.jpeg_workbuf, h.callback, h.needs_byte_swap)

/-- What the header parser leaves alone: the control fields, the bytes and the
fault script of the file, the recorded file size and name; and a frame rate
that fits 16 bits still does afterwards. -/
def KeepsCore (a b : VideoHandle) : Prop :=
  ctl b = ctl a ∧ b.file.data = a.file.data ∧ b.file.faults = a.file.faults ∧
  b.info.file_size = a.info.file_size ∧ b.info.filename = a.info.filename ∧
  (a.info.fps < U16 → b.info.fps < U16)

/-- What the loops over the header list leave alone in the parser state. -/
def SKeeps (a b : ParseSt) : Prop :=
  KeepsCore a.h b.h ∧ b.h.info.movi_offset = a.h.info.movi_offset ∧
  b.found_movi = a.found_movi

/-! ## Example containers

Builders for small well-formed containers, used to run the code on concrete
inputs. -/

def AVI_00DC_ID : Nat := 0x63643030
def AVI_01WB_ID : Nat := 0x62773130

/-- The four bytes of a 32-bit value, least significant first. -/
def le32Bytes (n : Nat) : List Nat :=
  [n % 256, n / 256 % 256, n / 65536 % 256, n / 16777216 % 256]

/-- The two bytes of a 16-bit value, least significant first. -/
def le16Bytes (n : Nat) : List Nat := [n % 256, n / 256 % 256]

/-- A chunk: tag, length, payload, and the pad byte when the length is odd. -/
def mkChunk (tag : Nat) (payload : List Nat) : List Nat :=
  le32Bytes tag ++ le32Bytes payload.length ++ payload ++
    (if payload.length % 2 = 1 then [0] else [])

/-- A `LIST` chunk of the given kind. -/
def mkList (kind : Nat) (body : List Nat) : List Nat :=
  le32Bytes AVI_LIST_ID ++ le32Bytes (4 + body.length) ++ le32Bytes kind ++ body

/-- The 56-byte main header. -/
def mkAvih (usPerFrame declared width height : Nat) : List Nat :=
  le32Bytes usPerFrame ++ List.replicate 12 0 ++ le32Bytes declared ++ List.replicate 4 0 ++
    le32Bytes 1 ++ List.replicate 4 0 ++ le32Bytes width ++ le32Bytes height ++
    List.replicate 16 0

/-- A 56-byte stream header of the given type and handler. -/
def mkStrh (fccType fccHandler : Nat) : List Nat :=
  le32Bytes fccType ++ le32Bytes fccHandler ++ List.replicate 48 0

/-- A 40-byte bitmap-info header. -/
def mkStrf (width height bitCount : Nat) : List Nat :=
  le32Bytes 40 ++ le32Bytes width ++ le32Bytes height ++ le16Bytes 1 ++ le16Bytes bitCount ++
    List.replicate 24 0

/-- A container with one video stream: header list (main header, one stream
list) followed by the frame-data list with the given children. -/
def mkAvi (usPerFrame declared width height fccHandler bitCount : Nat) (movi : List Nat) :
    List Nat :=
  le32Bytes AVI_RIFF_ID ++ le32Bytes 0 ++ le32Bytes AVI_AVI_ID ++
    mkList AVI_HDRL_ID
      (mkChunk AVI_AVIH_ID (mkAvih usPerFrame declared width height) ++
        mkList AVI_STRL_ID
          (mkChunk AVI_STRH_ID (mkStrh AVI_VIDS_ID fccHandler) ++
            mkChunk AVI_STRF_ID (mkStrf width height bitCount))) ++
    mkList AVI_MOVI_ID movi

/-- The frame chunks `00dc` number `k, k+1, ...` (`n` of them) with the
two-byte payload `[k, 7]`. -/
def demoFrames : Nat → Nat → List Nat
  | 0, _ => []
  | n + 1, k => mkChunk AVI_00DC_ID [k, 7] ++ demoFrames n (k + 1)

/-- The scenario container: 30 frames per second, 90 frame chunks, a main
header declaring 100 frames, lossy codec, 160 x 128. -/
def demoAvi : List Nat := mkAvi 33333 100 160 128 MJPG_FOURCC 24 (demoFrames 90 0)

/-- A three-frame raw container, frames of 1 x 2 pixels. -/
def rawAvi : List Nat :=
  mkAvi 33333 5 1 2 0 16
    (mkChunk AVI_00DC_ID [1, 2, 3, 4] ++ mkChunk AVI_00DC_ID [17, 18, 19, 20] ++
      mkChunk AVI_00DC_ID [33, 34, 35, 36])

/-- The collaborators of a trouble-free open of the given bytes. -/
def openEnvOf (data : List Nat) : OpenEnv :=
  { malloc_handle := true, fopen_result := FRESULT.FR_OK, data := data, faults := [],
    malloc_workbuf := true }

/-- The handle `VIDEO_Open` produces for the given collaborators and name
(the zeroed handle when it produces none). -/
def openedHandle (fuel : Nat) (env : OpenEnv) (name : List Char) : VideoHandle :=
  match VIDEO_Open fuel env (some name) true with
  | Outcome.done (_, some h) => h
  | _ => zeroHandle { data := [], fptr := 0, ops := 0, faults := [] }

/-- Whether `VIDEO_Open` returns success together with a session. -/
def opens (fuel : Nat) (env : OpenEnv) (name : List Char) : Bool :=
  match VIDEO_Open fuel env (some name) true with
  | Outcome.done (VideoError.VIDEO_SUCCESS, some _) => true
  | _ => false

/-- The session opened on the raw container. -/
def rawHandle : VideoHandle := openedHandle 200 (openEnvOf rawAvi) ['r', '.', 'a', 'v', 'i']

/-- A 160 x 128 display with a block decoder that accepts every frame as a
160 x 128 picture; decoding takes no wall-clock time. -/
def demoPlayEnv : PlayEnv :=
  { ST7735_WIDTH := 160, ST7735_HEIGHT := 128,
    jd_prepare := fun _ => some (160, 128), jd_decomp := fun _ _ => true,
    malloc_rows := true, fresh_row := fun _ => 0, decode_ms := 0 }

/-- The handle of a successful `VIDEO_Play` (the given handle otherwise). -/
def playedHandle (env : PlayEnv) (fuel : Nat) (h : VideoHandle) (w : World) (x y : Nat)
    (mode : VideoPlayMode) : VideoHandle :=
  match VIDEO_Play env fuel h w x y mode with
  | Outcome.done (_, h1, _) => h1
  | _ => h

/-- The raw example session after `play(0, 0, polling)` at tick 1000. -/
def rawPlaying : VideoHandle :=
  playedHandle demoPlayEnv 0 rawHandle { tick := 1000, log := [] } 0 0
    VideoPlayMode.VIDEO_PLAY_MODE_POLLING

/-- A container cut off right after the tag of its header list: signature,
then `LIST` of declared size 192 and type `hdrl`, 24 bytes in all.  It has no
frame-data list. -/
def truncAvi : List Nat :=
  le32Bytes AVI_RIFF_ID ++ le32Bytes 16 ++ le32Bytes AVI_AVI_ID ++
    le32Bytes AVI_LIST_ID ++ le32Bytes 192 ++ le32Bytes AVI_HDRL_ID

/-- The handle `VIDEO_Open` passes to the parser for the truncated container. -/
def truncInit : VideoHandle := open_init (openEnvOf truncAvi) ['t', '.', 'a', 'v', 'i']

/-- The state in which `parse_avi_header` enters its chunk loop on the
truncated container. -/
def truncSt : ParseSt :=
  { h := truncInit.withFile (read_le32 (read_le32 (read_le32 truncInit.file).2).2).2,
    found_hdrl := false, found_movi := false, found_video_stream := false }

/-- The raw example session on a storage whose operation number 47 (the read
of the second row of the first frame) reports a disk error. -/
def faultyRawHandle : VideoHandle :=
  openedHandle 200 { openEnvOf rawAvi with faults := [47] } ['r', '.', 'a', 'v', 'i']

/-- The faulty raw session after `play(0, 0, polling)` at tick 1000. -/
def faultyRawPlaying : VideoHandle :=
  playedHandle demoPlayEnv 0 faultyRawHandle { tick := 1000, log := [] } 0 0
    VideoPlayMode.VIDEO_PLAY_MODE_POLLING

/-- On a fault-free file, once the frame-data list has been found its
recorded offset leaves room for the list tag before it and after it. -/
def MoviInside (st : ParseSt) : Prop :=
  st.h.file.faults = [] ∧
  (st.found_movi = true →
    4 ≤ st.h.info.movi_offset ∧ st.h.info.movi_offset + 4 ≤ st.h.file.data.length)

/-- A chunk as a walk over the container meets it: the offset of its 8-byte
header, its tag and its declared payload size. -/
structure Chunk where
  offset : Nat
  tag : Nat
  size : Nat
deriving DecidableEq, Repr

/-- Walk the chunks from byte offset `p`: while a header starts more than 8
bytes before the end of the file, take the chunk (8-byte header, payload, pad
byte when the size is odd) and continue behind it.  `n` bounds the number of
steps. -/
def walk_chunks (data : List Nat) : Nat → Nat → List Chunk
  | 0, _ => []
  | n + 1, p =>
    if p + 8 < data.length then
      { offset := p, tag := word_at data p, size := word_at data (p + 4) } ::
        walk_chunks data n (p + 8 + word_at data (p + 4) + word_at data (p + 4) % 2)
    else []

/-- The chunks of the region that starts at `start` and extends to the end of
the file (every step advances by at least 8 bytes, so `data.length` steps are
enough). -/
def region_chunks (data : List Nat) (start : Nat) : List Chunk :=
  walk_chunks data data.length start

/-- A chunk the player recognises as a frame: tag ending in `dc` or `db` and
a non-zero size. -/
def Chunk.is_frame (c : Chunk) : Bool := is_video_chunk c.tag && decide (0 < c.size)

/-- No chunk of the list extends to or beyond offset `2^32`. -/
def NoWrap (cs : List Chunk) : Prop := ∀ c ∈ cs, c.offset + 8 + c.size + 1 < U32

/-- A container whose frame-data list holds a frame chunk of two bytes, a
frame chunk of length zero and another frame chunk of two bytes. -/
def zeroLenAvi : List Nat :=
  mkAvi 33333 3 160 128 MJPG_FOURCC 24
    (mkChunk AVI_00DC_ID [1, 7] ++ mkChunk AVI_00DC_ID [] ++ mkChunk AVI_00DC_ID [3, 7])

/-- A six-frame container of the lossy codec at 30 frames per second, with a
main header declaring 8 frames. -/
def smallAvi : List Nat := mkAvi 33333 8 160 128 MJPG_FOURCC 24 (demoFrames 6 0)

/-- The session opened on the six-frame container. -/
def smallHandle : VideoHandle := openedHandle 200 (openEnvOf smallAvi) ['s', '.', 'a', 'v', 'i']

/-- The six-frame session after `play(0, 0, polling)` at tick 1000. -/
def smallPlaying : VideoHandle :=
  playedHandle demoPlayEnv 0 smallHandle { tick := 1000, log := [] } 0 0
    VideoPlayMode.VIDEO_PLAY_MODE_POLLING

/-- The six-frame session after the poll at the play tick, which renders
frame 0. -/
def smallAfterFirst : VideoHandle :=
  (VIDEO_Poll demoPlayEnv smallPlaying { tick := 1000, log := [] }).2.1

/-! ## Vocabulary of the scheduler properties -/

/-- What one call of an API function may do to the scheduling fields of a
session: nothing; or end a Playing session; or render frame `e` of a Playing
session after skipping from the current frame up to it.  The frame number
never goes down and the static fields are kept. -/
def PollStep (h h1 : VideoHandle) : Prop :=
  h1.info = h.info ∧ h1.is_open = h.is_open ∧ h1.frame_duration_us = h.frame_duration_us ∧
  h1.play_mode = h.play_mode ∧ h1.callback = h.callback ∧
  h.current_frame ≤ h1.current_frame ∧
  ((h1.state = h.state ∧ h1.current_frame = h.current_frame ∧
      h1.frames_skipped = h.frames_skipped ∧ h1.frames_rendered = h.frames_rendered) ∨
   (h.state = VideoState.VIDEO_STATE_PLAYING ∧ h1.state = VideoState.VIDEO_STATE_ENDED) ∨
   (h.state = VideoState.VIDEO_STATE_PLAYING ∧ h1.state = VideoState.VIDEO_STATE_PLAYING ∧
      ∃ e, h.current_frame ≤ e ∧ e + 1 < h.info.total_frames ∧ h1.current_frame = e + 1 ∧
        h1.frames_skipped =
          (if e > h.current_frame then u32 (h.frames_skipped + (e - h.current_frame))
           else h.frames_skipped) ∧
        h1.frames_rendered = u32 (h.frames_rendered + 1)))

/-- Sessions reachable from a successful open through the control calls, made
at arbitrary ticks and with arbitrary collaborators. -/
inductive Reachable : VideoHandle → Prop where
  | opened (fuel : Nat) (env : OpenEnv) (name : List Char) (h : VideoHandle) :
      VIDEO_Open fuel env (some name) true = Outcome.done (VideoError.VIDEO_SUCCESS, some h) →
      Reachable h
  | play (env : PlayEnv) (fuel : Nat) (h : VideoHandle) (w : World) (x y : Nat)
      (mode : VideoPlayMode) (e : VideoError) (h1 : VideoHandle) (w1 : World) :
      Reachable h → VIDEO_Play env fuel h w x y mode = Outcome.done (e, h1, w1) → Reachable h1
  | poll (env : PlayEnv) (h : VideoHandle) (w : World) :
      Reachable h → Reachable (VIDEO_Poll env h w).2.1
  | pause (h : VideoHandle) : Reachable h → Reachable (VIDEO_Pause h).2
  | resume (h : VideoHandle) (w : World) : Reachable h → Reachable (VIDEO_Resume h w).2
  | stop (h : VideoHandle) : Reachable h → Reachable (VIDEO_Stop h).2
  | seek (h : VideoHandle) (w : World) (n : Nat) : Reachable h → Reachable (VIDEO_Seek h w n).2
  | seek_time (h : VideoHandle) (w : World) (t : Nat) :
      Reachable h → Reachable (VIDEO_SeekTime h w t).2
  | reset_time (h : VideoHandle) (w : World) : Reachable h → Reachable (VIDEO_ResetTime h w).2

/-- The invariant of reachable sessions: open, at least one frame, a positive
frame duration, and a frame counter below the total while Playing or Paused. -/
def SessionInv (h : VideoHandle) : Prop :=
  h.is_open = true ∧ 0 < h.info.total_frames ∧ h.info.total_frames < U32 ∧
  0 < h.frame_duration_us ∧
  (h.state = VideoState.VIDEO_STATE_PLAYING ∨ h.state = VideoState.VIDEO_STATE_PAUSED →
    h.current_frame < h.info.total_frames)

/-- The sessions observed after each poll of a run: before every poll the
clock is advanced by the next delay. -/
def poll_run (env : PlayEnv) : List Nat → VideoHandle → World → List VideoHandle
  | [], _, _ => []
  | d :: ds, h, w =>
    (VIDEO_Poll env h { w with tick := w.tick + d }).2.1 ::
      poll_run env ds (VIDEO_Poll env h { w with tick := w.tick + d }).2.1
        (VIDEO_Poll env h { w with tick := w.tick + d }).2.2

/-- The counter invariant of a play-through: while Playing, the frame counter
is below the total and equals rendered plus skipped. -/
def CountInv (h : VideoHandle) : Prop :=
  h.info.total_frames < U32 ∧
  (h.state = VideoState.VIDEO_STATE_PLAYING →
    h.current_frame < h.info.total_frames ∧
    h.frames_rendered + h.frames_skipped = h.current_frame)

/-- The offset of the chunk that follows the chunk whose header is at `p`. -/
def next_chunk (data : List Nat) (p : Nat) : Nat :=
  p + 8 + word_at data (p + 4) + word_at data (p + 4) % 2

/-- The offset of the `n`-th chunk of the walk that starts at `start`
(the chunk at `start` is number 0). -/
def nth_chunk (data : List Nat) (start : Nat) : Nat → Nat
  | 0 => start
  | n + 1 => next_chunk data (nth_chunk data start n)

/-- The wall-clock deadline of frame `frame`, as the blocking wait computes
it. -/
def frame_deadline (h : VideoHandle) (frame : Nat) : Nat :=
  u32 (h.start_time_ms + u32 (frame * h.frame_duration_us) / 1000)

/-- The tick at which a rendering poll returns: in blocking mode, when frames
remain, the clock has been advanced to the deadline of the next frame if that
lies ahead. -/
def tick_after_render (env : PlayEnv) (h : VideoHandle) (w : World) : Nat :=
  if h.current_frame + 1 ≥ h.info.total_frames ∨
      h.play_mode ≠ VideoPlayMode.VIDEO_PLAY_MODE_BLOCKING then w.tick + env.decode_ms
  else if u32 (w.tick + env.decode_ms) < frame_deadline h (h.current_frame + 1) then
    w.tick + env.decode_ms +
      (frame_deadline h (h.current_frame + 1) - u32 (w.tick + env.decode_ms))
  else w.tick + env.decode_ms

/-! ## Vocabulary and example containers for the header and timing properties -/

/-- The frame number a rendering poll works on: the expected frame when the
session is behind schedule, the current frame otherwise.  It is the value of
`current_frame` at the call of `decode_and_display_frame_streaming`. -/
def poll_frame (h : VideoHandle) (w : World) : Nat :=
  if elapsed_us h w / h.frame_duration_us > h.current_frame then
    elapsed_us h w / h.frame_duration_us
  else h.current_frame

/-- The scheduling fields of a session 71 minutes into a clip of 5000 frames
at one frame per second, in polling mode, started at tick 0: frame 4295 is
next.  The file and the cursor are those of the six-frame session. -/
def lateHandle : VideoHandle :=
  { smallAfterFirst with
    info := { smallAfterFirst.info with total_frames := 5000, fps := 1 },
    fps := 1, frame_duration_ms := 1000, frame_duration_us := 1000000,
    start_time_ms := 0, current_frame := 4295, frames_rendered := 4295 }

/-- The stream type `auds`. -/
def AVI_AUDS_ID : Nat := 0x73647561

/-- A container whose header list has a stream list but no main header
(`avih`): one video stream, two frame chunks. -/
def noAvihAvi : List Nat :=
  le32Bytes AVI_RIFF_ID ++ le32Bytes 0 ++ le32Bytes AVI_AVI_ID ++
    mkList AVI_HDRL_ID
      (mkList AVI_STRL_ID
        (mkChunk AVI_STRH_ID (mkStrh AVI_VIDS_ID MJPG_FOURCC) ++
          mkChunk AVI_STRF_ID (mkStrf 160 128 24))) ++
    mkList AVI_MOVI_ID (demoFrames 2 0)

/-- A container whose main header declares a rate of zero microseconds per
frame. -/
def zeroRateAvi : List Nat := mkAvi 0 2 160 128 MJPG_FOURCC 24 (demoFrames 2 0)

/-- The 16-byte PCM wave format of an audio stream: format tag 1, 2 channels,
44100 samples per second, 176400 bytes per second, block align 4, 16 bits. -/
def mkWavFmt : List Nat :=
  le16Bytes 1 ++ le16Bytes 2 ++ le32Bytes 44100 ++ le32Bytes 176400 ++ le16Bytes 4 ++
    le16Bytes 16

/-- A container with a 160 x 128 lossy video stream followed by a PCM audio
stream, and two frame chunks. -/
def avAvi : List Nat :=
  le32Bytes AVI_RIFF_ID ++ le32Bytes 0 ++ le32Bytes AVI_AVI_ID ++
    mkList AVI_HDRL_ID
      (mkChunk AVI_AVIH_ID (mkAvih 33333 2 160 128) ++
        mkList AVI_STRL_ID
          (mkChunk AVI_STRH_ID (mkStrh AVI_VIDS_ID MJPG_FOURCC) ++
            mkChunk AVI_STRF_ID (mkStrf 160 128 24)) ++
        mkList AVI_STRL_ID
          (mkChunk AVI_STRH_ID (mkStrh AVI_AUDS_ID 0) ++ mkChunk AVI_STRF_ID mkWavFmt)) ++
    mkList AVI_MOVI_ID (demoFrames 2 0)

/-- The same container without the audio stream. -/
def videoOnlyAvi : List Nat := mkAvi 33333 2 160 128 MJPG_FOURCC 24 (demoFrames 2 0)

/-- A property of the parser state that every step of `parse_avi_header`
other than the end-of-parse fix-up preserves. -/
def ParseClosed (P : ParseSt → Prop) : Prop :=
  (∀ (st : ParseSt) (f : FIL), P st → P (st.withFile f)) ∧
  (∀ st : ParseSt, P st → P { st with h := parse_avih st.h }) ∧
  (∀ (st : ParseSt) (id : Nat), P st → P (strl_chunk st id)) ∧
  (∀ st : ParseSt, P st → P { st with found_hdrl := true }) ∧
  (∀ (st : ParseSt) (f : FIL) (off : Nat), P st →
    P { st with
        found_movi := true,
        h := { st.h with file := f, info := { st.h.info with movi_offset := off } } }) ∧
  (∀ (st : ParseSt) (f : FIL), P st →
    P { st with h := { st.h with file := f, info := { st.h.info with has_index := true } } })

/-- Codec and format as the parser can leave them: both unknown before any
video stream header, afterwards lossy with the lossy format or raw with one
of the two raw formats the parser assigns. -/
def CodecInv (st : ParseSt) : Prop :=
  (st.found_video_stream = false ∧ st.h.info.codec = VideoCodec.VIDEO_CODEC_UNKNOWN ∧
    st.h.info.format = VideoFormat.VIDEO_FORMAT_UNKNOWN) ∨
  (st.found_video_stream = true ∧
    ((st.h.info.codec = VideoCodec.VIDEO_CODEC_MJPG ∧
        st.h.info.format = VideoFormat.VIDEO_FORMAT_MJPEG) ∨
     (st.h.info.codec = VideoCodec.VIDEO_CODEC_RAW ∧
        (st.h.info.format = VideoFormat.VIDEO_FORMAT_RAW_RGB565 ∨
         st.h.info.format = VideoFormat.VIDEO_FORMAT_RAW_RGB888))))

/-- The C enum `PicFormat`. -/
inductive PicFormat where
  | PIC_FORMAT_UNKNOWN
  | PIC_FORMAT_RAW_565
  | PIC_FORMAT_BMP
  | PIC_FORMAT_JPEG
  | PIC_FORMAT_PNG
deriving DecidableEq, Repr

/-- The C enum `PicError`. -/
inductive PicError where
  | PIC_SUCCESS
  | PIC_ERROR_FILE_NOT_FOUND
  | PIC_ERROR_FILE_OPEN
  | PIC_ERROR_FILE_READ
  | PIC_ERROR_INVALID_FORMAT
  | PIC_ERROR_MEMORY_ALLOC
  | PIC_ERROR_INVALID_PARAM
  | PIC_ERROR_UNSUPPORTED_FORMAT
  | PIC_ERROR_DECODE_FAILED
deriving DecidableEq, Repr

/-- Unsigned 16-bit subtraction `a - b`. -/
def sub16 (a b : Nat) : Nat := (a % U16 + (U16 - b % U16)) % U16

/-- The C call `strrchr(s, '.')`: the suffix of `s` that starts at its last dot. -/
def strrchr_dot : List Char → Option (List Char)
  | [] => none
  | c :: rest =>
    match strrchr_dot rest with
    | some e => some e
    | none => if c = '.' then some (c :: rest) else none

/-- The code of a character after `tolower` in the C locale. -/
def lower_code (c : Char) : Nat :=
  if 65 ≤ c.toNat ∧ c.toNat ≤ 90 then c.toNat + 32 else c.toNat

/-- The test `strcasecmp(a, b) == 0`. -/
def strcasecmp_eq (a b : List Char) : Bool := a.map lower_code == b.map lower_code

/-- The C function `detect_image_format` on a non-null name: the result code
and the value left in `*format` (not written on failure). -/
def detect_image_format (filename : List Char) : PicError × PicFormat :=
  match strrchr_dot filename with
  | none => (PicError.PIC_ERROR_INVALID_FORMAT, PicFormat.PIC_FORMAT_UNKNOWN)
  | some ext =>
    if strcasecmp_eq ext ['.', 'r', 'a', 'w'] || strcasecmp_eq ext ['.', '5', '6', '5'] then
      (PicError.PIC_SUCCESS, PicFormat.PIC_FORMAT_RAW_565)
    else if strcasecmp_eq ext ['.', 'b', 'm', 'p'] then
      (PicError.PIC_SUCCESS, PicFormat.PIC_FORMAT_BMP)
    else if strcasecmp_eq ext ['.', 'j', 'p', 'g'] ||
        strcasecmp_eq ext ['.', 'j', 'p', 'e', 'g'] then
      (PicError.PIC_SUCCESS, PicFormat.PIC_FORMAT_JPEG)
    else if strcasecmp_eq ext ['.', 'p', 'n', 'g'] then
      (PicError.PIC_SUCCESS, PicFormat.PIC_FORMAT_PNG)
    else (PicError.PIC_ERROR_UNSUPPORTED_FORMAT, PicFormat.PIC_FORMAT_UNKNOWN)

/-- The C function `is_bmp_file`: the signature `BM`. -/
def is_bmp_file (header : List Nat) : Bool := byteAt header 0 == 66 && byteAt header 1 == 77

/-- The C function `rgb888_to_565` on three bytes: the RGB565 value with its
two bytes exchanged, as the display takes it from memory. -/
def rgb888_to_565 (r g b : Nat) : Nat :=
  let color565 := (((r &&& 0xF8) <<< 8) ||| ((g &&& 0xFC) <<< 3) ||| (b >>> 3)) % U16
  (((color565 &&& 0xFF00) >>> 8) ||| ((color565 &&& 0xFF) <<< 8)) % U16

/-- What the picture code does to the display, in order. -/
inductive PicEvent where
  /-- `ST7735_SetAddressWindow(x0, y0, x1, y1)`. -/
  | window (x0 y0 x1 y1 : Int)
  /-- `HAL_SPI_Transmit` of a buffer holding `bytes`. -/
  | spi (bytes : List Nat)
deriving DecidableEq, Repr

/-- The bytes of a buffer of 16-bit values in memory (little-endian). -/
def pixel_bytes (ps : List Nat) : List Nat := ps.flatMap (fun v => [v % 256, v / 256 % 256])

/-- A rectangle of decoded pixels as the block decoder hands it to the output
function: the `JRECT` and the RGB565 bitmap. -/
structure JBlock where
  left : Nat
  top : Nat
  right : Nat
  bottom : Nat
  bitmap : List Nat
deriving DecidableEq, Repr

/-- What the collaborators do during one picture call: the result of `f_open`,
the bytes of the file and the storage operations that fail, whether each
`malloc` succeeds, the display size macros, and the block decoder: `jd_prepare`
yields the picture size or fails, `jd_decomp` (at a scale) yields the blocks
it hands to the output function and whether it ends well when none of them
is refused; both work on the file as the pull callback reads it. -/
structure PicEnv where
  fopen_result : FRESULT
  data : List Nat
  faults : List Nat
  malloc_row : Bool
  malloc_display : Bool
  malloc_workbuf : Bool
  malloc_temp : Bool
  ST7735_WIDTH : Nat
  ST7735_HEIGHT : Nat
  jd_prepare : FIL → Option (Nat × Nat)
  jd_decomp : FIL → Nat → List JBlock × Bool

/-- One pixel of a bitmap row: the bytes B, G, R at `src_x_abs * bytes_per_pixel`
converted by `rgb888_to_565`. -/
def bmp_pixel (row : List Nat) (src_x_abs bytes_per_pixel : Nat) : Nat :=
  rgb888_to_565 (byteAt row (src_x_abs * bytes_per_pixel + 2))
    (byteAt row (src_x_abs * bytes_per_pixel + 1)) (byteAt row (src_x_abs * bytes_per_pixel))

/-- The inner loop of `display_bmp_streaming` (lines 899-910): the display
buffer for one row. -/
def convert_row (row : List Nat) (src_x src_w bytes_per_pixel : Nat) : List Nat :=
  (List.range src_w).map (fun dx => bmp_pixel row (u16 (src_x + dx)) bytes_per_pixel)

/-- The row loop of `display_bmp_streaming` (lines 879-914) for display rows
`dy, dy+1, ...` with `n` rows left. -/
def bmp_rows (data_offset row_size bytes_per_pixel src_x src_y src_w src_h : Nat) :
    Nat → Nat → FIL → List PicEvent → PicError × FIL × List PicEvent
  | 0, _, file, log => (PicError.PIC_SUCCESS, file, log)
  | n + 1, dy, file, log =>
    let src_y_abs := u16 (src_y + (src_h - 1 - dy))
    let r := f_lseek file (u32 (data_offset + src_y_abs * row_size))
    if r.1 ≠ FRESULT.FR_OK then (PicError.PIC_ERROR_FILE_READ, r.2, log)
    else
      let r1 := f_read r.2 row_size
      if r1.1 ≠ FRESULT.FR_OK ∨ r1.2.1.length ≠ row_size then
        (PicError.PIC_ERROR_FILE_READ, r1.2.2, log)
      else
        bmp_rows data_offset row_size bytes_per_pixel src_x src_y src_w src_h n (dy + 1) r1.2.2
          (log ++ [PicEvent.spi (pixel_bytes (convert_row r1.2.1 src_x src_w bytes_per_pixel))])

/-- The C function `display_bmp_streaming` on a non-null file.  The row size
is computed in `int` and does not overflow for the bit depths the caller
passes. -/
def display_bmp_streaming (env : PicEnv) (file : FIL)
    (data_offset bits_per_pixel img_width _img_height display_x display_y src_x src_y src_w
      src_h : Nat) : PicError × FIL × List PicEvent :=
  if src_w = 0 ∨ src_h = 0 then (PicError.PIC_ERROR_INVALID_PARAM, file, [])
  else
    let row_size := u32 ((img_width * bits_per_pixel + 31) / 32 * 4)
    let bytes_per_pixel := bits_per_pixel / 8 % 256
    if env.malloc_row = false then (PicError.PIC_ERROR_MEMORY_ALLOC, file, [])
    else if env.malloc_display = false then (PicError.PIC_ERROR_MEMORY_ALLOC, file, [])
    else
      bmp_rows data_offset row_size bytes_per_pixel src_x src_y src_w src_h src_h 0 file
        [PicEvent.window display_x display_y ((display_x : Int) + src_w - 1)
          ((display_y : Int) + src_h - 1)]

/-- The exchange of the two bytes of a 16-bit pixel. -/
def swap16 (p : Nat) : Nat := (((p &&& 0xFF00) >>> 8) ||| ((p &&& 0xFF) <<< 8)) % U16

/-- The C function `jpeg_output_func`: whether the decoder may go on, and the
trace. -/
def jpeg_output_func (env : PicEnv) (display_x display_y : Nat) (b : JBlock)
    (log : List PicEvent) : Bool × List PicEvent :=
  let x := u16 (display_x + b.left)
  let y := u16 (display_y + b.top)
  let w := u16 (b.right + U16 - b.left + 1)
  let h := u16 (b.bottom + U16 - b.top + 1)
  let log1 := log ++ [PicEvent.window x y ((x : Int) + w - 1) ((y : Int) + h - 1)]
  if env.malloc_temp = false then (false, log1)
  else
    (true, log1 ++
      [PicEvent.spi (pixel_bytes ((List.range (u32 (w * h))).map
        (fun i => swap16 (b.bitmap.getD i 0 % U16))))])

/-- The blocks of `jd_decomp` passed through the output function until one is
refused. -/
def output_blocks (env : PicEnv) (display_x display_y : Nat) :
    List JBlock → List PicEvent → Bool × List PicEvent
  | [], log => (true, log)
  | b :: bs, log =>
    if (jpeg_output_func env display_x display_y b log).1 = false then
      (false, (jpeg_output_func env display_x display_y b log).2)
    else output_blocks env display_x display_y bs (jpeg_output_func env display_x display_y b log).2

/-- The C function `PIC_DisplayStreaming`; all coordinates are `uint16_t`.
The result code (also left in `g_last_error`) and what was sent to the
display. -/
def PIC_DisplayStreaming (env : PicEnv) (filename : Option (List Char))
    (x y src_x src_y src_w src_h : Nat) : PicError × List PicEvent :=
  match filename with
  | none => (PicError.PIC_ERROR_INVALID_PARAM, [])
  | some name =>
    if (detect_image_format name).1 ≠ PicError.PIC_SUCCESS then
      ((detect_image_format name).1, [])
    else if env.fopen_result ≠ FRESULT.FR_OK then
      (if env.fopen_result = FRESULT.FR_NO_FILE then PicError.PIC_ERROR_FILE_NOT_FOUND
       else PicError.PIC_ERROR_FILE_OPEN, [])
    else
      let file : FIL := { data := env.data, fptr := 0, ops := 0, faults := env.faults }
      match (detect_image_format name).2 with
      | PicFormat.PIC_FORMAT_BMP =>
        let r := f_read file 54
        if r.1 ≠ FRESULT.FR_OK ∨ r.2.1.length ≠ 54 then (PicError.PIC_ERROR_FILE_READ, [])
        else if is_bmp_file r.2.1 = false then (PicError.PIC_ERROR_INVALID_FORMAT, [])
        else if le16At r.2.1 28 ≠ 24 ∧ le16At r.2.1 28 ≠ 32 then
          (PicError.PIC_ERROR_UNSUPPORTED_FORMAT, [])
        else
          let img_width := abs16 (le32At r.2.1 18)
          let img_height := abs16 (le32At r.2.1 22)
          let src_w1 := if src_w = 0 then sub16 img_width src_x else src_w
          let src_h1 := if src_h = 0 then sub16 img_height src_y else src_h
          if src_x ≥ img_width ∨ src_y ≥ img_height ∨ src_w1 = 0 ∨ src_h1 = 0 ∨
              src_x + src_w1 > img_width ∨ src_y + src_h1 > img_height then
            (PicError.PIC_ERROR_INVALID_PARAM, [])
          else
            let o := display_bmp_streaming env r.2.2 (le32At r.2.1 10) (le16At r.2.1 28)
              img_width img_height x y src_x src_y src_w1 src_h1
            (o.1, o.2.2)
      | PicFormat.PIC_FORMAT_JPEG =>
        let scale := if src_w > 3 then 0 else src_w
        if env.malloc_workbuf = false then (PicError.PIC_ERROR_MEMORY_ALLOC, [])
        else
          match env.jd_prepare file with
          | none => (PicError.PIC_ERROR_DECODE_FAILED, [])
          | some (jw, jh) =>
            let scale_factor := 2 ^ scale
            let display_width := u16 ((jw + scale_factor - 1) / scale_factor)
            let display_height := u16 ((jh + scale_factor - 1) / scale_factor)
            if x + display_width > env.ST7735_WIDTH ∨ y + display_height > env.ST7735_HEIGHT then
              (PicError.PIC_ERROR_INVALID_PARAM, [])
            else
              let d := env.jd_decomp file scale
              let o := output_blocks env x y d.1 []
              if o.1 = true ∧ d.2 = true then (PicError.PIC_SUCCESS, o.2)
              else (PicError.PIC_ERROR_DECODE_FAILED, o.2)
      | _ => (PicError.PIC_ERROR_UNSUPPORTED_FORMAT, [])

/-! ## Vocabulary and example files for the picture properties -/

/-- Row stride of a bitmap in bytes: `4 * ceil(w * bit_depth / 32)`. -/
def bmp_stride (w bpp : Nat) : Nat := 4 * ((w * bpp + 31) / 32)

/-- The pixel in column `cx` of file row `fy` of a bitmap whose rows start at
`data_offset`: its B, G, R bytes converted by `rgb888_to_565`. -/
def bmp_file_pixel (data : List Nat) (data_offset stride bytes_per_pixel fy cx : Nat) : Nat :=
  rgb888_to_565 (byteAt data (data_offset + fy * stride + cx * bytes_per_pixel + 2))
    (byteAt data (data_offset + fy * stride + cx * bytes_per_pixel + 1))
    (byteAt data (data_offset + fy * stride + cx * bytes_per_pixel))

/-- The display traffic for a whole `w` x `h` bitmap shown at `(x, y)`: the
window once, then `h` rows of `w` pixels, display row `dy` taken from file row
`h - 1 - dy`. -/
def whole_bitmap_trace (data : List Nat) (data_offset bpp w h x y : Nat) : List PicEvent :=
  PicEvent.window x y ((x : Int) + w - 1) ((y : Int) + h - 1) ::
    (List.range h).map (fun dy =>
      PicEvent.spi (pixel_bytes ((List.range w).map (fun dx =>
        bmp_file_pixel data data_offset (bmp_stride w bpp) (bpp / 8) (h - 1 - dy) dx))))

/-- The display traffic of `display_bmp_streaming` for the sub-rectangle
`(sx, sy, sw, sh)` of a bitmap `w` pixels wide shown at `(x, y)`: the window
once, then `sh` rows of `sw` pixels, display row `dy` taken from file row
`sy + (sh - 1 - dy)`, columns `sx ..`. -/
def bmp_region_trace (data : List Nat) (data_offset bpp w x y sx sy sw sh : Nat) :
    List PicEvent :=
  PicEvent.window x y ((x : Int) + sw - 1) ((y : Int) + sh - 1) ::
    (List.range sh).map (fun dy =>
      PicEvent.spi (pixel_bytes ((List.range sw).map (fun dx =>
        bmp_file_pixel data data_offset (bmp_stride w bpp) (bpp / 8) (sy + (sh - 1 - dy))
          (sx + dx)))))

/-- The fields of the 54-byte bitmap header the streaming display uses. -/
def bmp_data_offset (data : List Nat) : Nat := le32At data 10

/-- Picture width: `(uint16_t)abs(header.width)`. -/
def bmp_width (data : List Nat) : Nat := abs16 (le32At data 18)

/-- Picture height: `(uint16_t)abs(header.height)`. -/
def bmp_height (data : List Nat) : Nat := abs16 (le32At data 22)

/-- Bits per pixel of the header. -/
def bmp_bpp (data : List Nat) : Nat := le16At data 28

/-- The file starts with a complete bitmap header with the signature `BM` and
24 or 32 bits per pixel. -/
def BmpHeaderOK (data : List Nat) : Prop :=
  54 ≤ data.length ∧ byteAt data 0 = 66 ∧ byteAt data 1 = 77 ∧
  (bmp_bpp data = 24 ∨ bmp_bpp data = 32)

/-- A 54-byte bitmap header for a `w` x `h` picture of `bpp` bits per pixel
whose rows start right behind it. -/
def mkBmpHeader (w h bpp : Nat) : List Nat :=
  [66, 77] ++ le32Bytes (54 + h * bmp_stride w bpp) ++ le16Bytes 0 ++ le16Bytes 0 ++
    le32Bytes 54 ++ le32Bytes 40 ++ le32Bytes w ++ le32Bytes h ++ le16Bytes 1 ++
    le16Bytes bpp ++ le32Bytes 0 ++ le32Bytes (h * bmp_stride w bpp) ++
    List.replicate 16 0

/-- A 2 x 2 picture of 24 bits per pixel.  The file stores the bottom row
first: bottom row red, green; top row blue, white (bytes B, G, R; two pad
bytes per row). -/
def tinyBmp : List Nat :=
  mkBmpHeader 2 2 24 ++ [0, 0, 255, 0, 255, 0, 0, 0] ++ [255, 0, 0, 255, 255, 255, 0, 0]

/-- Collaborators of a trouble-free picture call on the given bytes, with a
160 x 128 display; the block decoder is not used. -/
def picEnvOf (data : List Nat) : PicEnv :=
  { fopen_result := FRESULT.FR_OK, data := data, faults := [], malloc_row := true,
    malloc_display := true, malloc_workbuf := true, malloc_temp := true,
    ST7735_WIDTH := 160, ST7735_HEIGHT := 128,
    jd_prepare := fun _ => none, jd_decomp := fun _ _ => ([], false) }

/-! ## The render test, the pull callback and the output size of the video player -/

/-- The C function `VIDEO_NeedsRender` on a non-null handle. -/
def VIDEO_NeedsRender (h : VideoHandle) (w : World) : Bool :=
  if h.is_open = false ∨ h.state ≠ VideoState.VIDEO_STATE_PLAYING then false
  else decide (elapsed_us h w ≥ u32 (h.current_frame * h.frame_duration_us))

/-- The C function `video_jpeg_input_func` for a file object and a frame end
offset (`ctx->file`, `ctx->frame_end_offset`): the returned count, the bytes
put into `buf`, and the file afterwards. -/
def video_jpeg_input_func (f : FIL) (frame_end_offset nbyte : Nat) : Nat × List Nat × FIL :=
  let current_offset := u32 (f_tell f)
  if current_offset ≥ frame_end_offset then (0, [], f)
  else
    let remaining := sub32 frame_end_offset current_offset
    let bytes_to_read := if nbyte > remaining then remaining else nbyte
    if (f_read f bytes_to_read).1 ≠ FRESULT.FR_OK then
      (0, (f_read f bytes_to_read).2.1, (f_read f bytes_to_read).2.2)
    else
      ((f_read f bytes_to_read).2.1.length, (f_read f bytes_to_read).2.1,
        (f_read f bytes_to_read).2.2)

/-- The output size `decode_mjpeg_frame` computes for the scale it has chosen
(lines 1025-1026): `(width + scale_factor - 1) / scale_factor`, and the same
for the height, as `uint16_t`. -/
def mjpeg_display_size (W H w h : Nat) : Nat × Nat :=
  (u16 ((w + (mjpeg_scale W H w h).2 - 1) / (mjpeg_scale W H w h).2),
   u16 ((h + (mjpeg_scale W H w h).2 - 1) / (mjpeg_scale W H w h).2))

/-- A 160 x 128 display whose block decoder reports every frame as a picture
of 1288 x 128 pixels. -/
def wideJpegEnv : PlayEnv :=
  { ST7735_WIDTH := 160, ST7735_HEIGHT := 128,
    jd_prepare := fun _ => some (1288, 128), jd_decomp := fun _ _ => true,
    malloc_rows := true, fresh_row := fun _ => 0, decode_ms := 0 }

/-! ## Vocabulary of the raw-frame pipeline -/

/-- Row `y` of a raw frame of width `w` stored at `offset`: the bytes
`[2*w*y, 2*w*(y+1))` of the frame data. -/
def frame_row (data : List Nat) (offset w y : Nat) : List Nat :=
  (data.drop (offset + 2 * w * y)).take (2 * w)

/-- Row `y` as it is to be transmitted: the two bytes of every pixel exchanged
exactly when the byte-swap flag is set. -/
def sent_row (data : List Nat) (offset w : Nat) (sw : Bool) (y : Nat) : List Nat :=
  if sw = true then swap_pairs (frame_row data offset w y) else frame_row data offset w y

/-- The buffer of row `y`: A for even rows, B for odd rows. -/
def row_buf (y : Nat) : RowBuf := if y % 2 = 0 then RowBuf.A else RowBuf.B

/-- The pipeline as the description has it, for rows `y, y+1, ...` with `n`
rows left: start the transfer of row `y`; while it is outstanding read row
`y+1` (if there is one) into the other buffer; wait for the transfer. -/
def pipeline_rows (data : List Nat) (offset w H : Nat) (sw : Bool) : Nat → Nat → List Event
  | 0, _ => []
  | n + 1, y =>
    Event.dmaStart (row_buf y) (sent_row data offset w sw y) ::
    ((if y + 1 < H then
      [Event.readRow (row_buf (y + 1)) FRESULT.FR_OK (frame_row data offset w (y + 1))]
     else []) ++
    Event.dmaWait :: pipeline_rows data offset w H sw n (y + 1))

/-- Everything a raw frame decode does, as the description has it: the window
is programmed once, row 0 is read into buffer A, then the pipeline runs. -/
def raw_pipeline_trace (data : List Nat) (offset size w H : Nat) (sw : Bool) (x y : Nat) :
    List Event :=
  Event.decode VideoCodec.VIDEO_CODEC_RAW offset size ::
  Event.setWindow x y ((x : Int) + w - 1) ((y : Int) + H - 1) ::
  Event.readRow RowBuf.A FRESULT.FR_OK (frame_row data offset w 0) ::
  pipeline_rows data offset w H sw H 0

/-- The transfers started, in order: buffer and bytes. -/
def dma_starts : List Event → List (RowBuf × List Nat)
  | [] => []
  | Event.dmaStart b bs :: rest => (b, bs) :: dma_starts rest
  | _ :: rest => dma_starts rest

/-- Number of times the display window is programmed. -/
def window_count : List Event → Nat
  | [] => 0
  | Event.setWindow _ _ _ _ :: rest => window_count rest + 1
  | _ :: rest => window_count rest

/-- Discipline of the two buffers along a trace, `s` being the buffer whose
transfer is outstanding: no transfer is started while one is outstanding, and
no row is read into the buffer being transferred. -/
def in_flight_ok : Option RowBuf → List Event → Bool
  | _, [] => true
  | s, Event.dmaStart b _ :: rest => s.isNone && in_flight_ok (some b) rest
  | _, Event.dmaWait :: rest => in_flight_ok none rest
  | s, Event.readRow b _ _ :: rest => decide (s ≠ some b) && in_flight_ok s rest
  | s, _ :: rest => in_flight_ok s rest

/-! ## Vocabulary and example container for the cursor invariant -/

/-- The session and the world after a sequence of polls; before every poll the
clock is advanced by the next delay. -/
def poll_seq (env : PlayEnv) : List Nat → VideoHandle → World → VideoHandle × World
  | [], h, w => (h, w)
  | d :: ds, h, w =>
    poll_seq env ds (VIDEO_Poll env h { w with tick := w.tick + d }).2.1
      (VIDEO_Poll env h { w with tick := w.tick + d }).2.2

/-- Every chunk of the list is one the player recognises as a frame. -/
def AllFrames (cs : List Chunk) : Prop := ∀ c ∈ cs, c.is_frame = true

/-- Payload offset and size of chunk number `i` of the walk from `start`. -/
def payload_of (data : List Nat) (start i : Nat) : Nat × Nat :=
  (nth_chunk data start i + 8, word_at data (nth_chunk data start i + 4))

/-- The cursor invariant of a play-through over the bytes `data` with the
static description `info`, `base` being the decodes recorded before play:
while Playing, the frame counter is below the total, the cursor is the offset
of chunk number `current_frame` of the walk from the frame-data start, and the
payloads
decoded since play are those of chunks with a smaller number. -/
def CursorInv (data : List Nat) (info : VideoInfo) (base : List (Nat × Nat))
    (h : VideoHandle) (w : World) : Prop :=
  h.file.data = data ∧ h.file.faults = [] ∧ h.info = info ∧ h.is_open = true ∧
  (h.state = VideoState.VIDEO_STATE_PLAYING →
    h.current_frame < info.total_frames ∧
    h.current_chunk_offset = nth_chunk data (info.movi_offset + 4) h.current_frame ∧
    ∃ frames : List Nat,
      decodes w.log = base ++ frames.map (payload_of data (info.movi_offset + 4)) ∧
      ∀ i ∈ frames, i < h.current_frame)

/-- A two-frame container of the lossy codec whose frame-data list holds an
audio chunk `01wb` between the two frame chunks. -/
def audioAvi : List Nat :=
  mkAvi 33333 2 160 128 MJPG_FOURCC 24
    (mkChunk AVI_00DC_ID [0, 7] ++ mkChunk AVI_01WB_ID [9, 9] ++ mkChunk AVI_00DC_ID [1, 7])

/-- The session opened on the container with the audio chunk. -/
def audioHandle : VideoHandle := openedHandle 200 (openEnvOf audioAvi) ['v', '.', 'a', 'v', 'i']

/-- The session on the container with the audio chunk after
`play(0, 0, polling)` at tick 1000. -/
def audioPlaying : VideoHandle :=
  playedHandle demoPlayEnv 0 audioHandle { tick := 1000, log := [] } 0 0
    VideoPlayMode.VIDEO_PLAY_MODE_POLLING

/-! ## The double-buffered picture display (`st7735/pic_types.cpp`) -/

/-- The C function `PIC_IsSupportedFormat`. -/
def PIC_IsSupportedFormat (filename : Option (List Char)) : Bool :=
  match filename with
  | none => false
  | some name => decide ((detect_image_format name).1 = PicError.PIC_SUCCESS)

/-- What the double-buffered picture code does to the display, in order. -/
inductive DmaEvent where
  /-- `ST7735_SetAddressWindow(x0, y0, x1, y1)`. -/
  | window (x0 y0 x1 y1 : Int)
  /-- `HAL_SPI_Transmit_DMA` started on a buffer holding `bytes`. -/
  | dma (bytes : List Nat)
  /-- The two busy-wait loops after a transfer have finished. -/
  | dmaWait
deriving DecidableEq, Repr

/-- The row loop of `display_bmp_streaming_dma` (lines 1037-1066) for display
rows `dy, dy+1, ...` with `n` rows left; `cur` holds the pixels of the buffer
row `dy` is sent from, `nxt` those of the other buffer.  A failing seek or
read of the next row leaves the other buffer as it is. -/
def dma_rows (data_offset row_size bytes_per_pixel src_x src_y src_w src_h : Nat) :
    Nat → Nat → List Nat → List Nat → FIL → List DmaEvent → FIL × List DmaEvent
  | 0, _, _, _, file, log => (file, log)
  | n + 1, dy, cur, nxt, file, log =>
    let log1 := log ++ [DmaEvent.dma ((pixel_bytes cur).take (u16 (src_w * 2)))]
    if dy + 1 < src_h then
      let src_y_next := u16 (src_y + (src_h - 1 - dy - 1))
      let r := f_lseek file (u32 (data_offset + src_y_next * row_size))
      if r.1 ≠ FRESULT.FR_OK then
        dma_rows data_offset row_size bytes_per_pixel src_x src_y src_w src_h n (dy + 1) nxt cur
          r.2 (log1 ++ [DmaEvent.dmaWait])
      else
        let r1 := f_read r.2 row_size
        if r1.1 = FRESULT.FR_OK ∧ r1.2.1.length = row_size then
          dma_rows data_offset row_size bytes_per_pixel src_x src_y src_w src_h n (dy + 1)
            (convert_row r1.2.1 src_x src_w bytes_per_pixel) cur r1.2.2
            (log1 ++ [DmaEvent.dmaWait])
        else
          dma_rows data_offset row_size bytes_per_pixel src_x src_y src_w src_h n (dy + 1) nxt cur
            r1.2.2 (log1 ++ [DmaEvent.dmaWait])
    else
      dma_rows data_offset row_size bytes_per_pixel src_x src_y src_w src_h n (dy + 1) nxt cur
        file (log1 ++ [DmaEvent.dmaWait])

/-- The C function `display_bmp_streaming_dma` on a non-null file;
`malloc_display` of the collaborators answers for buffer A, `malloc_b` for
buffer B, and `fresh_b` is the pixel value buffer B holds at each index when
`malloc` hands it out (the memory is not cleared): buffer B holds it until a
row is converted into it. -/
def display_bmp_streaming_dma (env : PicEnv) (malloc_b : Bool) (fresh_b : Nat → Nat)
    (file : FIL)
    (data_offset bits_per_pixel img_width _img_height display_x display_y src_x src_y src_w
      src_h : Nat) : PicError × FIL × List DmaEvent :=
  if src_w = 0 ∨ src_h = 0 then (PicError.PIC_ERROR_INVALID_PARAM, file, [])
  else
    let row_size := u32 ((img_width * bits_per_pixel + 31) / 32 * 4)
    let bytes_per_pixel := bits_per_pixel / 8 % 256
    if env.malloc_row = false then (PicError.PIC_ERROR_MEMORY_ALLOC, file, [])
    else if env.malloc_display = false ∨ malloc_b = false then
      (PicError.PIC_ERROR_MEMORY_ALLOC, file, [])
    else
      let log0 := [DmaEvent.window display_x display_y ((display_x : Int) + src_w - 1)
          ((display_y : Int) + src_h - 1)]
      let src_y_abs := u16 (src_y + (src_h - 1))
      let r := f_lseek file (u32 (data_offset + src_y_abs * row_size))
      if r.1 ≠ FRESULT.FR_OK then (PicError.PIC_ERROR_FILE_READ, r.2, log0)
      else
        let r1 := f_read r.2 row_size
        if r1.1 ≠ FRESULT.FR_OK ∨ r1.2.1.length ≠ row_size then
          (PicError.PIC_ERROR_FILE_READ, r1.2.2, log0)
        else
          let out := dma_rows data_offset row_size bytes_per_pixel src_x src_y src_w src_h src_h 0
            (convert_row r1.2.1 src_x src_w bytes_per_pixel) ((List.range src_w).map fresh_b) r1.2.2
            log0
          (PicError.PIC_SUCCESS, out.1, out.2)

/-- The C function `jpeg_output_func_dma`: whether the decoder may go on, and
the trace. -/
def jpeg_output_func_dma (env : PicEnv) (display_x display_y : Nat) (b : JBlock)
    (log : List DmaEvent) : Bool × List DmaEvent :=
  let x := u16 (display_x + b.left)
  let y := u16 (display_y + b.top)
  let w := u16 (b.right + U16 - b.left + 1)
  let h := u16 (b.bottom + U16 - b.top + 1)
  let log1 := log ++ [DmaEvent.window x y ((x : Int) + w - 1) ((y : Int) + h - 1)]
  if env.malloc_temp = false then (false, log1)
  else
    (true, log1 ++
      [DmaEvent.dma (pixel_bytes ((List.range (u32 (w * h))).map
        (fun i => swap16 (b.bitmap.getD i 0 % U16)))),
       DmaEvent.dmaWait])

/-- The blocks of `jd_decomp` passed through the double-buffered output
function until one is refused. -/
def output_blocks_dma (env : PicEnv) (display_x display_y : Nat) :
    List JBlock → List DmaEvent → Bool × List DmaEvent
  | [], log => (true, log)
  | b :: bs, log =>
    if (jpeg_output_func_dma env display_x display_y b log).1 = false then
      (false, (jpeg_output_func_dma env display_x display_y b log).2)
    else
      output_blocks_dma env display_x display_y bs
        (jpeg_output_func_dma env display_x display_y b log).2

/-- The C function `PIC_DisplayStreamingDMA`; all coordinates are `uint16_t`.
The result code (also left in `g_last_error`) and what was sent to the
display. -/
def PIC_DisplayStreamingDMA (env : PicEnv) (malloc_b : Bool) (fresh_b : Nat → Nat)
    (filename : Option (List Char))
    (x y src_x src_y src_w src_h : Nat) : PicError × List DmaEvent :=
  match filename with
  | none => (PicError.PIC_ERROR_INVALID_PARAM, [])
  | some name =>
    if (detect_image_format name).1 ≠ PicError.PIC_SUCCESS then
      ((detect_image_format name).1, [])
    else if env.fopen_result ≠ FRESULT.FR_OK then
      (if env.fopen_result = FRESULT.FR_NO_FILE then PicError.PIC_ERROR_FILE_NOT_FOUND
       else PicError.PIC_ERROR_FILE_OPEN, [])
    else
      let file : FIL := { data := env.data, fptr := 0, ops := 0, faults := env.faults }
      match (detect_image_format name).2 with
      | PicFormat.PIC_FORMAT_BMP =>
        let r := f_read file 54
        if r.1 ≠ FRESULT.FR_OK ∨ r.2.1.length ≠ 54 then (PicError.PIC_ERROR_FILE_READ, [])
        else if is_bmp_file r.2.1 = false then (PicError.PIC_ERROR_INVALID_FORMAT, [])
        else if le16At r.2.1 28 ≠ 24 ∧ le16At r.2.1 28 ≠ 32 then
          (PicError.PIC_ERROR_UNSUPPORTED_FORMAT, [])
        else
          let img_width := abs16 (le32At r.2.1 18)
          let img_height := abs16 (le32At r.2.1 22)
          let src_w1 := if src_w = 0 then sub16 img_width src_x else src_w
          let src_h1 := if src_h = 0 then sub16 img_height src_y else src_h
          if src_x ≥ img_width ∨ src_y ≥ img_height ∨ src_w1 = 0 ∨ src_h1 = 0 ∨
              src_x + src_w1 > img_width ∨ src_y + src_h1 > img_height then
            (PicError.PIC_ERROR_INVALID_PARAM, [])
          else
            let o := display_bmp_streaming_dma env malloc_b fresh_b r.2.2 (le32At r.2.1 10)
              (le16At r.2.1 28) img_width img_height x y src_x src_y src_w1 src_h1
            (o.1, o.2.2)
      | PicFormat.PIC_FORMAT_JPEG =>
        let scale := if src_w > 3 then 0 else src_w
        if env.malloc_workbuf = false then (PicError.PIC_ERROR_MEMORY_ALLOC, [])
        else
          match env.jd_prepare file with
          | none => (PicError.PIC_ERROR_DECODE_FAILED, [])
          | some (jw, jh) =>
            let scale_factor := 2 ^ scale
            let display_width := u16 ((jw + scale_factor - 1) / scale_factor)
            let display_height := u16 ((jh + scale_factor - 1) / scale_factor)
            if x + display_width > env.ST7735_WIDTH ∨ y + display_height > env.ST7735_HEIGHT then
              (PicError.PIC_ERROR_INVALID_PARAM, [])
            else
              let d := env.jd_decomp file scale
              let o := output_blocks_dma env x y d.1 []
              if o.1 = true ∧ d.2 = true then (PicError.PIC_SUCCESS, o.2)
              else (PicError.PIC_ERROR_DECODE_FAILED, o.2)
      | _ => (PicError.PIC_ERROR_UNSUPPORTED_FORMAT, [])

/-- The pixel rows sent by the plain streaming display, in order. -/
def sent_rows : List PicEvent → List (List Nat)
  | [] => []
  | PicEvent.spi bytes :: rest => bytes :: sent_rows rest
  | _ :: rest => sent_rows rest

/-- The pixel rows sent by the double-buffered streaming display, in order. -/
def dma_sent_rows : List DmaEvent → List (List Nat)
  | [] => []
  | DmaEvent.dma bytes :: rest => bytes :: dma_sent_rows rest
  | _ :: rest => dma_sent_rows rest

/-- A 2 x 2 picture of 16 bits per pixel (rows of 4 bytes). -/
def bmp16 : List Nat := mkBmpHeader 2 2 16 ++ [0, 248, 224, 7] ++ [31, 0, 255, 255]

/-- The 2 x 2 picture of 24 bits per pixel with the header field
`data_offset` set to `2^32 - 8`: the row the display shows first (file row 1)
is then at offset `2^32`, which is 0 in 32 bits, and the second one (file row
0) at `2^32 - 8`, beyond the end of the 70-byte file. -/
def wrapBmp : List Nat :=
  (mkBmpHeader 2 2 24).take 10 ++ le32Bytes 4294967288 ++ (mkBmpHeader 2 2 24).drop 14 ++
    [0, 0, 255, 0, 255, 0, 0, 0] ++ [255, 0, 0, 255, 255, 255, 0, 0]

/-- Collaborators of a picture call on a lossy file: a 160 x 128 display and a
block decoder that reports a 200 x 100 picture and hands out one block of one
pixel whose value is the scale it was asked for. -/
def jpegPicEnv : PicEnv :=
  { fopen_result := FRESULT.FR_OK, data := [255, 216], faults := [], malloc_row := true,
    malloc_display := true, malloc_workbuf := true, malloc_temp := true,
    ST7735_WIDTH := 160, ST7735_HEIGHT := 128,
    jd_prepare := fun _ => some (200, 100),
    jd_decomp := fun _ s =>
      ([{ left := 0, top := 0, right := 0, bottom := 0, bitmap := [s] }], true) }

/-- A 70-byte file named as a bitmap that starts with `MB` instead of `BM`. -/
def badSigBmp : List Nat := [77, 66] ++ tinyBmp.drop 2

/-! ## The frame-data list and what lies behind it -/

/-- The end of the frame-data list as the container format defines it:
`parse_avi_header` leaves in `movi_offset` the offset of the list kind `movi`;
the size word of the list stands right before it and counts from there. -/
def movi_end (data : List Nat) (movi_offset : Nat) : Nat :=
  movi_offset + word_at data (movi_offset - 4)

/-- The walk of `walk_chunks` stopped at the first chunk that does not start
before `stop`. -/
def walk_until (data : List Nat) (stop : Nat) : Nat → Nat → List Chunk
  | 0, _ => []
  | n + 1, p =>
    if p + 8 < data.length ∧ p < stop then
      { offset := p, tag := word_at data p, size := word_at data (p + 4) } ::
        walk_until data stop n (p + 8 + word_at data (p + 4) + word_at data (p + 4) % 2)
    else []

/-- Where the walk of `walk_until` stops. -/
def walk_rest (data : List Nat) (stop : Nat) : Nat → Nat → Nat
  | 0, p => p
  | n + 1, p =>
    if p + 8 < data.length ∧ p < stop then
      walk_rest data stop n (p + 8 + word_at data (p + 4) + word_at data (p + 4) % 2)
    else p

/-- The frame-data region of the container: the children of the frame-data
list, walked chunk by chunk as `walk_chunks` does, from the frame-data start
`movi_offset + 4` up to the end of the list.  The player keeps no such bound;
this is the list its frame count and its cursor are compared with. -/
def movi_chunks (data : List Nat) (movi_offset : Nat) : List Chunk :=
  walk_until data (movi_end data movi_offset) data.length (movi_offset + 4)

/-- The chunks behind the frame-data list, as a walk that goes on to the end
of the file meets them. -/
def behind_movi (data : List Nat) (movi_offset : Nat) : List Chunk :=
  region_chunks data (walk_rest data (movi_end data movi_offset) data.length (movi_offset + 4))

/-- In the list no recognised frame chunk comes after a chunk that is not
one: behind the leading frame chunks there is no frame chunk. -/
def FramesFirst (cs : List Chunk) : Prop :=
  ∀ c ∈ cs.dropWhile Chunk.is_frame, c.is_frame = false

/-- A container of three frames whose frame-data list is followed by an index
chunk `idx1` of three 16-byte entries. -/
def indexedAvi : List Nat :=
  mkAvi 33333 8 160 128 MJPG_FOURCC 24 (demoFrames 3 0) ++
    mkChunk AVI_IDX1_ID (List.replicate 48 0)

/-- The session opened on the container with the trailing index. -/
def indexedHandle : VideoHandle :=
  openedHandle 200 (openEnvOf indexedAvi) ['i', '.', 'a', 'v', 'i']

/-- The session on the container with the trailing index after
`play(0, 0, polling)` at tick 1000. -/
def indexedPlaying : VideoHandle :=
  playedHandle demoPlayEnv 0 indexedHandle { tick := 1000, log := [] } 0 0
    VideoPlayMode.VIDEO_PLAY_MODE_POLLING

/-- A container whose frame-data list holds two frame chunks and is followed
by an index chunk and, behind the index, by one more chunk tagged `00dc`. -/
def strayAvi : List Nat :=
  mkAvi 33333 2 160 128 MJPG_FOURCC 24 (demoFrames 2 0) ++
    mkChunk AVI_IDX1_ID (List.replicate 32 0) ++ mkChunk AVI_00DC_ID [2, 7]

/-- The session opened on the container with the chunk behind the index. -/
def strayHandle : VideoHandle :=
  openedHandle 200 (openEnvOf strayAvi) ['x', '.', 'a', 'v', 'i']

/-- That session after `play(0, 0, polling)` at tick 1000. -/
def strayPlaying : VideoHandle :=
  playedHandle demoPlayEnv 0 strayHandle { tick := 1000, log := [] } 0 0
    VideoPlayMode.VIDEO_PLAY_MODE_POLLING

/-- A container whose frame-data list holds frame 0, an audio chunk `01wb`
and frames 1, 2 and 3. -/
def mixedAvi : List Nat :=
  mkAvi 33333 4 160 128 MJPG_FOURCC 24
    (mkChunk AVI_00DC_ID [0, 7] ++ mkChunk AVI_01WB_ID [9, 9] ++ demoFrames 3 1)

/-- The session opened on the container with the interleaved audio chunk. -/
def mixedHandle : VideoHandle :=
  openedHandle 200 (openEnvOf mixedAvi) ['m', '.', 'a', 'v', 'i']

/-- That session after `play(0, 0, polling)` at tick 1000. -/
def mixedPlaying : VideoHandle :=
  playedHandle demoPlayEnv 0 mixedHandle { tick := 1000, log := [] } 0 0
    VideoPlayMode.VIDEO_PLAY_MODE_POLLING

/-- That session after the poll at the play tick, which renders frame 0. -/
def mixedAfterFirst : VideoHandle :=
  (VIDEO_Poll demoPlayEnv mixedPlaying { tick := 1000, log := [] }).2.1

/-- The session opened on the container with the chunk of length zero. -/
def zeroLenHandle : VideoHandle :=
  openedHandle 200 (openEnvOf zeroLenAvi) ['z', '.', 'a', 'v', 'i']

/-- The session on the container with the chunk of length zero after
`play(0, 0, polling)` at tick 1000. -/
def zeroLenPlaying : VideoHandle :=
  playedHandle demoPlayEnv 0 zeroLenHandle { tick := 1000, log := [] } 0 0
    VideoPlayMode.VIDEO_PLAY_MODE_POLLING

/-- The scenario container followed by an index chunk `idx1` of ten entries of
16 bytes. -/
def demoIndexedAvi : List Nat := demoAvi ++ mkChunk AVI_IDX1_ID (List.replicate 160 0)

/-- The session opened on the scenario container with the index. -/
def demoIndexedHandle : VideoHandle :=
  openedHandle 200 (openEnvOf demoIndexedAvi) ['a', '.', 'a', 'v', 'i']

/-- The result of blocking play from tick 1000 on the session of `strayAvi`. -/
def strayPlayed : VideoHandle × World :=
  match VIDEO_Play demoPlayEnv 10 strayHandle { tick := 1000, log := [] } 0 0
      VideoPlayMode.VIDEO_PLAY_MODE_BLOCKING with
  | Outcome.done (_, h1, w1) => (h1, w1)
  | _ => (strayHandle, { tick := 1000, log := [] })

/-- The result of blocking play from tick 1000 on the session of
`zeroLenAvi`. -/
def zeroLenPlayed : VideoHandle × World :=
  match VIDEO_Play demoPlayEnv 10 zeroLenHandle { tick := 1000, log := [] } 0 0
      VideoPlayMode.VIDEO_PLAY_MODE_BLOCKING with
  | Outcome.done (_, h1, w1) => (h1, w1)
  | _ => (zeroLenHandle, { tick := 1000, log := [] })

/-! ## Vocabulary of the parser run over a container of the standard layout -/

theorem sub32_sub32 (a b : Nat) (hb : b < U32) : sub32 a (sub32 a b) = b := by
  unfold sub32 U32 at *
  omega

theorem u32_le (n : Nat) : u32 n ≤ n := Nat.mod_le _ _

theorem u32_lt (n : Nat) : u32 n < U32 := Nat.mod_lt _ (by unfold U32; omega)

theorem u32_of_lt {n : Nat} (h : n < U32) : u32 n = n := Nat.mod_eq_of_lt h

theorem get_tick_ms_lt (w : World) : get_tick_ms w < U32 := u32_lt _

/-- The frame decoder changes only the file object and the byte cursor. -/
theorem decode_and_display_handle (env : PlayEnv) (h : VideoHandle) (w : World) :
    (decode_and_display_frame_streaming env h w).2.1 =
      { h with
        file := (decode_and_display_frame_streaming env h w).2.1.file,
        current_chunk_offset :=
          (decode_and_display_frame_streaming env h w).2.1.current_chunk_offset } := by
  unfold decode_and_display_frame_streaming
  simp only []
  split_ifs <;> rfl

/-- Rendering never touches the skip counter. -/
theorem poll_render_skipped (env : PlayEnv) (h : VideoHandle) (w : World) :
    (poll_render env h w).2.1.frames_skipped = h.frames_skipped := by
  unfold poll_render
  simp only []
  split
  · rw [decode_and_display_handle]
  · split
    · rw [decode_and_display_handle]
    · split <;> rw [decode_and_display_handle]

/-! ## Poll outside the Playing state -/

/-- C9: `poll` on an open session that is not Playing returns at once:
end-of-video when the state is Ended, success when it is Idle or Paused; the
handle (state, frame number, both counters, byte cursor, file) and the world
(clock and trace, so nothing is decoded) come back unchanged. -/
theorem poll_not_playing (env : PlayEnv) (h : VideoHandle) (w : World)
    (hopen : h.is_open = true) :
    (h.state = VideoState.VIDEO_STATE_ENDED →
      VIDEO_Poll env h w = (VideoError.VIDEO_ERROR_END_OF_VIDEO, h, w)) ∧
    (h.state = VideoState.VIDEO_STATE_IDLE ∨ h.state = VideoState.VIDEO_STATE_PAUSED →
      VIDEO_Poll env h w = (VideoError.VIDEO_SUCCESS, h, w)) := by
  constructor
  · intro hs
    simp [VIDEO_Poll, hopen, hs]
  · intro hs
    rcases hs with hs | hs <;> simp [VIDEO_Poll, hopen, hs]

/-- Witness of C9 on the raw example session (Idle after open) and on the
same session stopped by an error (Ended). -/
theorem poll_not_playing_witness :
    rawHandle.is_open = true ∧
    VIDEO_Poll demoPlayEnv { rawHandle with state := VideoState.VIDEO_STATE_ENDED }
        { tick := 5, log := [] } =
      (VideoError.VIDEO_ERROR_END_OF_VIDEO,
        { rawHandle with state := VideoState.VIDEO_STATE_ENDED }, { tick := 5, log := [] }) ∧
    VIDEO_Poll demoPlayEnv rawHandle { tick := 5, log := [] } =
      (VideoError.VIDEO_SUCCESS, rawHandle, { tick := 5, log := [] }) :=
  ⟨by decide,
   (poll_not_playing demoPlayEnv { rawHandle with state := VideoState.VIDEO_STATE_ENDED }
      { tick := 5, log := [] } (by decide)).1 rfl,
   (poll_not_playing demoPlayEnv rawHandle { tick := 5, log := [] } (by decide)).2
      (Or.inl (by decide))⟩

/-! ## Pause and resume -/

/-- After re-baselining to frame `frame` at the current tick, the elapsed
microseconds seen at the same tick do not exceed `frame * frame_duration_us`. -/
theorem elapsed_us_rebase (h : VideoHandle) (w : World) (frame : Nat) (s : VideoHandle)
    (hs : s.start_time_ms = rebase h w frame) :
    elapsed_us s w ≤ frame * h.frame_duration_us := by
  have hb : u32 (frame * h.frame_duration_us) / 1000 < U32 :=
    lt_of_le_of_lt (Nat.div_le_self _ _) (u32_lt _)
  unfold elapsed_us
  rw [hs, rebase, sub32_sub32 _ _ hb]
  calc u32 (u32 (frame * h.frame_duration_us) / 1000 * 1000)
      ≤ u32 (frame * h.frame_duration_us) / 1000 * 1000 := u32_le _
    _ ≤ u32 (frame * h.frame_duration_us) := Nat.div_mul_le_self _ _
    _ ≤ frame * h.frame_duration_us := u32_le _

/-- A poll whose expected frame is not ahead of the current frame leaves the
skip counter alone. -/
theorem poll_no_skip (env : PlayEnv) (h : VideoHandle) (w : World)
    (hexp : elapsed_us h w / h.frame_duration_us ≤ h.current_frame) :
    (VIDEO_Poll env h w).2.1.frames_skipped = h.frames_skipped := by
  unfold VIDEO_Poll
  simp only []
  by_cases h1 : h.is_open = false
  · rw [if_pos h1]
  · rw [if_neg h1]
    by_cases h2 : h.state ≠ VideoState.VIDEO_STATE_PLAYING
    · rw [if_pos h2]
    · rw [if_neg h2]
      by_cases h3 : elapsed_us h w / h.frame_duration_us ≥ h.info.total_frames
      · rw [if_pos h3]
      · rw [if_neg h3]
        by_cases h4 : h.play_mode = VideoPlayMode.VIDEO_PLAY_MODE_POLLING ∧
            elapsed_us h w < u32 (h.current_frame * h.frame_duration_us)
        · rw [if_pos h4]
        · rw [if_neg h4, if_neg (by omega)]
          exact poll_render_skipped env h w

/-- C6: for a Playing session, pause followed by resume (at any later tick,
however long the pause lasted) leaves `current_frame` unchanged and the
session Playing; the expected frame computed at the resume tick from the
re-baselined start timestamp is not greater than `current_frame`, and a poll
issued at that tick does not change `frames_skipped`.  (`frame_duration_us`
is positive in every opened session; the C division needs it.) -/
theorem pause_resume_idempotent (env : PlayEnv) (h : VideoHandle) (w : World)
    (hopen : h.is_open = true) (hplay : h.state = VideoState.VIDEO_STATE_PLAYING)
    (_hdur : 0 < h.frame_duration_us) :
    (VIDEO_Resume (VIDEO_Pause h).2 w).2.current_frame = h.current_frame ∧
    (VIDEO_Resume (VIDEO_Pause h).2 w).2.state = VideoState.VIDEO_STATE_PLAYING ∧
    elapsed_us (VIDEO_Resume (VIDEO_Pause h).2 w).2 w /
        (VIDEO_Resume (VIDEO_Pause h).2 w).2.frame_duration_us ≤ h.current_frame ∧
    (VIDEO_Poll env (VIDEO_Resume (VIDEO_Pause h).2 w).2 w).2.1.frames_skipped =
      h.frames_skipped := by
  have hr : (VIDEO_Resume (VIDEO_Pause h).2 w).2 =
      { h with
        state := VideoState.VIDEO_STATE_PLAYING,
        start_time_ms := rebase h w h.current_frame,
        last_frame_time_ms := get_tick_ms w } := by
    simp [VIDEO_Resume, VIDEO_Pause, hopen, hplay, rebase]
  have hexp : elapsed_us (VIDEO_Resume (VIDEO_Pause h).2 w).2 w /
      (VIDEO_Resume (VIDEO_Pause h).2 w).2.frame_duration_us ≤ h.current_frame := by
    have hle := elapsed_us_rebase h w h.current_frame (VIDEO_Resume (VIDEO_Pause h).2 w).2
      (by rw [hr])
    rw [hr] at hle ⊢
    simp only []
    exact Nat.div_le_of_le_mul (by rw [Nat.mul_comm]; exact hle)
  refine ⟨by rw [hr], by rw [hr], hexp, ?_⟩
  rw [poll_no_skip env _ w (by rw [hr] at hexp ⊢; exact hexp), hr]

/-- Witness of C6: the raw example session, playing since tick 1000, paused
and resumed at tick 900000. -/
theorem pause_resume_idempotent_witness :
    rawPlaying.is_open = true ∧ rawPlaying.state = VideoState.VIDEO_STATE_PLAYING ∧
    0 < rawPlaying.frame_duration_us ∧
    (VIDEO_Resume (VIDEO_Pause rawPlaying).2 { tick := 900000, log := [] }).2.current_frame =
      rawPlaying.current_frame ∧
    (VIDEO_Poll demoPlayEnv
        (VIDEO_Resume (VIDEO_Pause rawPlaying).2 { tick := 900000, log := [] }).2
        { tick := 900000, log := [] }).2.1.frames_skipped = rawPlaying.frames_skipped :=
  have hw := pause_resume_idempotent demoPlayEnv rawPlaying { tick := 900000, log := [] }
    (by decide) (by decide) (by decide)
  ⟨by decide, by decide, by decide, hw.1, hw.2.2.2⟩

/-! ## Storage without faults -/

theorem f_lseek_data (f : FIL) (o : Nat) : (f_lseek f o).2.data = f.data := by
  unfold f_lseek; split <;> rfl

theorem f_lseek_faults (f : FIL) (o : Nat) : (f_lseek f o).2.faults = f.faults := by
  unfold f_lseek; split <;> rfl

theorem f_lseek_res (f : FIL) (o : Nat) (hf : f.faults = []) :
    (f_lseek f o).1 = FRESULT.FR_OK := by
  simp [f_lseek, hf]

theorem f_lseek_fptr (f : FIL) (o : Nat) (hf : f.faults = []) :
    (f_lseek f o).2.fptr = min o f.data.length := by
  simp [f_lseek, hf]

theorem f_read_data (f : FIL) (n : Nat) : (f_read f n).2.2.data = f.data := by
  unfold f_read; split <;> rfl

theorem f_read_faults (f : FIL) (n : Nat) : (f_read f n).2.2.faults = f.faults := by
  unfold f_read; split <;> rfl

theorem f_read_res (f : FIL) (n : Nat) (hf : f.faults = []) :
    (f_read f n).1 = FRESULT.FR_OK := by
  simp [f_read, hf]

theorem f_read_bytes (f : FIL) (n : Nat) (hf : f.faults = []) :
    (f_read f n).2.1 = (f.data.drop f.fptr).take n := by
  simp [f_read, hf]

theorem f_read_fptr (f : FIL) (n : Nat) (hf : f.faults = []) :
    (f_read f n).2.2.fptr = f.fptr + min n (f.data.length - f.fptr) := by
  simp [f_read, hf]

theorem read_le32_data (f : FIL) : (read_le32 f).2.data = f.data := f_read_data f 4

theorem read_le32_faults (f : FIL) : (read_le32 f).2.faults = f.faults := f_read_faults f 4

theorem read_le32_val (f : FIL) (hf : f.faults = []) :
    (read_le32 f).1 = word_at f.data f.fptr := by
  simp [read_le32, word_at, f_read_bytes f 4 hf]

theorem read_le32_fptr (f : FIL) (hf : f.faults = []) :
    (read_le32 f).2.fptr = f.fptr + min 4 (f.data.length - f.fptr) := f_read_fptr f 4 hf

/-! ## The trace of the frame decoders -/

theorem decodes_append (l1 l2 : List Event) : decodes (l1 ++ l2) = decodes l1 ++ decodes l2 := by
  simp [decodes, List.filterMap_append]

theorem raw_rows_decodes (rbs : Nat) (sw : Bool) (H : Nat) (n y : Nat) (cur nxt : List Nat)
    (file : FIL) (log : List Event) :
    decodes (raw_rows rbs sw H n y cur nxt file log).2 = decodes log := by
  induction n generalizing y cur nxt file log with
  | zero => rfl
  | succ n ih =>
    unfold raw_rows
    simp only []
    split
    · rw [ih]; simp [decodes_append, decodes]
    · rw [ih]; simp [decodes_append, decodes]

theorem raw_rows_data (rbs : Nat) (sw : Bool) (H : Nat) (n y : Nat) (cur nxt : List Nat)
    (file : FIL) (log : List Event) :
    (raw_rows rbs sw H n y cur nxt file log).1.data = file.data ∧
    (raw_rows rbs sw H n y cur nxt file log).1.faults = file.faults := by
  induction n generalizing y cur nxt file log with
  | zero => exact ⟨rfl, rfl⟩
  | succ n ih =>
    unfold raw_rows
    simp only []
    split
    · rw [(ih _ _ _ _ _).1, (ih _ _ _ _ _).2, f_read_data, f_read_faults]; exact ⟨rfl, rfl⟩
    · exact ih _ _ _ _ _

/-- A frame decoder records exactly one decode, of the payload it was given. -/
theorem decode_frame_decodes (env : PlayEnv) (h : VideoHandle) (w : World) (o s : Nat) :
    decodes (decode_frame env h w o s).2.2.log = decodes w.log ++ [(o, s)] := by
  unfold decode_frame
  split
  · unfold decode_mjpeg_frame
    simp only []
    split
    · simp [decodes_append, decodes]
    · split
      · simp [decodes_append, decodes]
      · split <;> simp [decodes_append, decodes]
  · unfold decode_raw_frame
    simp only []
    split
    · simp [decodes_append, decodes]
    · split
      · simp [decodes_append, decodes]
      · split
        · simp [decodes_append, decodes]
        · simp only [raw_rows_decodes]
          simp [decodes_append, decodes]

/-- A frame decoder does not advance the clock and does not alter the file
bytes or the fault script. -/
theorem decode_frame_keeps (env : PlayEnv) (h : VideoHandle) (w : World) (o s : Nat) :
    (decode_frame env h w o s).2.2.tick = w.tick ∧
    (decode_frame env h w o s).2.1.data = h.file.data ∧
    (decode_frame env h w o s).2.1.faults = h.file.faults := by
  unfold decode_frame
  split
  · unfold decode_mjpeg_frame
    simp only []
    split
    · exact ⟨rfl, f_lseek_data _ _, f_lseek_faults _ _⟩
    · split
      · exact ⟨rfl, f_lseek_data _ _, f_lseek_faults _ _⟩
      · split <;> exact ⟨rfl, f_lseek_data _ _, f_lseek_faults _ _⟩
  · unfold decode_raw_frame
    simp only []
    split
    · exact ⟨rfl, f_lseek_data _ _, f_lseek_faults _ _⟩
    · split
      · exact ⟨rfl, f_lseek_data _ _, f_lseek_faults _ _⟩
      · split
        · refine ⟨rfl, ?_, ?_⟩
          · rw [f_read_data, f_lseek_data]
          · rw [f_read_faults, f_lseek_faults]
        · refine ⟨rfl, ?_, ?_⟩
          · rw [(raw_rows_data _ _ _ _ _ _ _ _ _).1, f_read_data, f_lseek_data]
          · rw [(raw_rows_data _ _ _ _ _ _ _ _ _).2, f_read_faults, f_lseek_faults]

/-! ## Decoding the chunk under the cursor -/

/-- Reading the 8-byte header of the chunk at `c` from a fault-free file that
contains it. -/
theorem header_read (f : FIL) (c : Nat) (hf : f.faults = []) (hc : c + 8 ≤ f.data.length) :
    (f_lseek f c).1 = FRESULT.FR_OK ∧
    (read_le32 (f_lseek f c).2).1 = word_at f.data c ∧
    (read_le32 (read_le32 (f_lseek f c).2).2).1 = word_at f.data (c + 4) ∧
    (header_file f c).fptr = c + 8 ∧
    (header_file f c).data = f.data ∧
    (header_file f c).faults = [] := by
  have h0f : (f_lseek f c).2.faults = [] := by rw [f_lseek_faults, hf]
  have h0p : (f_lseek f c).2.fptr = c := by rw [f_lseek_fptr f c hf]; omega
  have h0d : (f_lseek f c).2.data = f.data := f_lseek_data f c
  have h1f : (read_le32 (f_lseek f c).2).2.faults = [] := by rw [read_le32_faults, h0f]
  have h1d : (read_le32 (f_lseek f c).2).2.data = f.data := by rw [read_le32_data, h0d]
  have h1p : (read_le32 (f_lseek f c).2).2.fptr = c + 4 := by
    rw [read_le32_fptr _ h0f, h0p, h0d]; omega
  refine ⟨f_lseek_res f c hf, ?_, ?_, ?_, ?_, ?_⟩
  · rw [read_le32_val _ h0f, h0p, h0d]
  · rw [read_le32_val _ h1f, h1p, h1d]
  · unfold header_file
    rw [read_le32_fptr _ h1f, h1p, h1d]; omega
  · unfold header_file
    rw [read_le32_data, h1d]
  · unfold header_file
    rw [read_le32_faults, h1f]

/-- `decode_and_display_frame_streaming` on a fault-free file containing the
header under the cursor, in terms of the tag and size words of that chunk. -/
theorem decode_and_display_at (env : PlayEnv) (h : VideoHandle) (w : World)
    (hf : h.file.faults = []) (hc : h.current_chunk_offset + 8 ≤ h.file.data.length) :
    decode_and_display_frame_streaming env h w =
      if is_video_chunk (word_at h.file.data h.current_chunk_offset) = false ∨
          word_at h.file.data (h.current_chunk_offset + 4) = 0 then
        (VideoError.VIDEO_ERROR_INVALID_FORMAT,
          { h with file := header_file h.file h.current_chunk_offset }, w)
      else if (decode_frame env { h with file := header_file h.file h.current_chunk_offset } w
          (h.current_chunk_offset + 8) (word_at h.file.data (h.current_chunk_offset + 4))).1 ≠
            VideoError.VIDEO_SUCCESS then
        ((decode_frame env { h with file := header_file h.file h.current_chunk_offset } w
          (h.current_chunk_offset + 8) (word_at h.file.data (h.current_chunk_offset + 4))).1,
         { h with file := (decode_frame env
            { h with file := header_file h.file h.current_chunk_offset } w
            (h.current_chunk_offset + 8)
            (word_at h.file.data (h.current_chunk_offset + 4))).2.1 },
         (decode_frame env { h with file := header_file h.file h.current_chunk_offset } w
          (h.current_chunk_offset + 8) (word_at h.file.data (h.current_chunk_offset + 4))).2.2)
      else
        (VideoError.VIDEO_SUCCESS,
         { h with
           file := (decode_frame env
            { h with file := header_file h.file h.current_chunk_offset } w
            (h.current_chunk_offset + 8)
            (word_at h.file.data (h.current_chunk_offset + 4))).2.1,
           current_chunk_offset := u32 (h.current_chunk_offset + 8 +
             pad32 (word_at h.file.data (h.current_chunk_offset + 4))) },
         (decode_frame env { h with file := header_file h.file h.current_chunk_offset } w
          (h.current_chunk_offset + 8) (word_at h.file.data (h.current_chunk_offset + 4))).2.2) := by
  obtain ⟨h1, h2, h3, h4, -, -⟩ := header_read h.file h.current_chunk_offset hf hc
  unfold decode_and_display_frame_streaming
  simp only []
  rw [if_neg (by rw [h1]; simp), h2, h3]
  have h4' : f_tell (read_le32 (read_le32 (f_lseek h.file h.current_chunk_offset).2).2).2 =
      h.current_chunk_offset + 8 := h4
  rw [h4']
  rfl

theorem decodes_callback (l : List Event) (n : Nat) :
    decodes (l ++ [Event.callback n]) = decodes l := by
  simp [decodes_append, decodes]

/-- C10 (the code departs from it): in the raw example session the read of
the second row of the first frame (storage operation 47) fails with a disk
error, yet the poll returns success, the session stays Playing and the frame
counts as rendered.  Two transfers are started; the second one sends buffer B
as `malloc` handed it out, whatever it holds (`g`), because the failed read put
nothing into it. -/
theorem poll_ignores_row_read_failure (g : Nat → Nat) :
    (VIDEO_Poll { demoPlayEnv with fresh_row := g } faultyRawPlaying
      { tick := 1000, log := [] }).1 = VideoError.VIDEO_SUCCESS ∧
    (VIDEO_Poll { demoPlayEnv with fresh_row := g } faultyRawPlaying
      { tick := 1000, log := [] }).2.1.state = VideoState.VIDEO_STATE_PLAYING ∧
    (VIDEO_Poll { demoPlayEnv with fresh_row := g } faultyRawPlaying
      { tick := 1000, log := [] }).2.1.frames_rendered = 1 ∧
    (VIDEO_Poll { demoPlayEnv with fresh_row := g } faultyRawPlaying
      { tick := 1000, log := [] }).2.2.log =
      [Event.decode VideoCodec.VIDEO_CODEC_RAW 232 4, Event.setWindow 0 0 0 1,
       Event.readRow RowBuf.A FRESULT.FR_OK [1, 2], Event.dmaStart RowBuf.A [2, 1],
       Event.readRow RowBuf.B FRESULT.FR_DISK_ERR [], Event.dmaWait,
       Event.dmaStart RowBuf.B [g 0, g 1], Event.dmaWait] :=
  ⟨rfl, rfl, rfl, rfl⟩

/-! ## Containers that make `VIDEO_Open` spin -/

theorem word_at_eof (data : List Nat) (p : Nat) (hp : data.length ≤ p) : word_at data p = 0 := by
  unfold word_at
  rw [List.drop_eq_nil_of_le hp]
  rfl

/-- At the end of a fault-free file the header-list loop cannot make progress. -/
theorem hdrl_loop_stuck (fuel : Nat) (st : ParseSt) (hdrl_end : Nat)
    (hf : st.h.file.faults = []) (hp : st.h.file.fptr = st.h.file.data.length)
    (he : st.h.file.data.length < hdrl_end) (hL : st.h.file.data.length < U32) :
    hdrl_loop fuel st hdrl_end = Outcome.hang := by
  induction fuel generalizing st with
  | zero => rfl
  | succ n ih =>
    have hv1 : (read_le32 st.h.file).1 = 0 := by
      rw [read_le32_val _ hf, word_at_eof _ _ (by omega)]
    have hf1 : (read_le32 st.h.file).2.faults = [] := by rw [read_le32_faults, hf]
    have hp1 : (read_le32 st.h.file).2.fptr = st.h.file.data.length := by
      rw [read_le32_fptr _ hf, hp]; omega
    have hd1 : (read_le32 st.h.file).2.data = st.h.file.data := read_le32_data _
    have hv2 : (read_le32 (read_le32 st.h.file).2).1 = 0 := by
      rw [read_le32_val _ hf1, word_at_eof _ _ (by rw [hp1, hd1])]
    have hp2 : f_tell (read_le32 (read_le32 st.h.file).2).2 = st.h.file.data.length := by
      unfold f_tell
      rw [read_le32_fptr _ hf1, hp1, hd1]; omega
    rw [hdrl_loop]
    simp only []
    rw [if_pos (by unfold f_tell; omega), hv1, if_neg (by decide), if_neg (by decide)]
    apply ih
    · simp [ParseSt.withFile, VideoHandle.withFile, f_lseek_faults, read_le32_faults, hf]
    · simp only [ParseSt.withFile, VideoHandle.withFile]
      rw [f_lseek_fptr _ _ (by rw [read_le32_faults, hf1]), f_lseek_data, read_le32_data, hd1,
        hv2, hp2]
      unfold chunkEnd u32
      simp [Nat.mod_eq_of_lt hL]
    · simp only [ParseSt.withFile, VideoHandle.withFile]
      rw [f_lseek_data, read_le32_data, hd1]
      exact he
    · simp only [ParseSt.withFile, VideoHandle.withFile]
      rw [f_lseek_data, read_le32_data, hd1]
      exact hL

/-- When the chunk under the read pointer is a header list that runs past the
end of the file and the file ends right after the list tag, the top-level
loop never returns. -/
theorem top_loop_hangs_in_hdrl (fuel : Nat) (st : ParseSt)
    (a3 : f_tell st.h.file < sub32 st.h.info.file_size 8) (hm : st.found_movi = false)
    (a4 : (read_le32 st.h.file).1 = AVI_LIST_ID)
    (a5 : (read_le32 (read_le32 (read_le32 st.h.file).2).2).1 = AVI_HDRL_ID)
    (a6 : (read_le32 (read_le32 (read_le32 st.h.file).2).2).2.fptr = st.h.file.data.length)
    (a7 : st.h.file.data.length <
      u32 (f_tell (read_le32 (read_le32 st.h.file).2).2 + (read_le32 (read_le32 st.h.file).2).1))
    (hf : st.h.file.faults = []) (hL : st.h.file.data.length < U32) :
    top_loop fuel st = Outcome.hang := by
  cases fuel with
  | zero => rfl
  | succ n =>
    rw [top_loop]
    simp only []
    rw [if_pos ⟨a3, hm⟩, if_pos a4, if_pos a5, hdrl_loop_stuck n _ _ _ _ _ _]
    · simp [ParseSt.withFile, VideoHandle.withFile, read_le32_faults, hf]
    · simp only [ParseSt.withFile, VideoHandle.withFile]
      rw [a6]
      simp [read_le32_data]
    · simp only [ParseSt.withFile, VideoHandle.withFile, read_le32_data]
      exact a7
    · simp only [ParseSt.withFile, VideoHandle.withFile, read_le32_data]
      exact hL

theorem parse_truncated_hangs (fuel : Nat) : parse_avi_header fuel truncInit = Outcome.hang := by
  have ht : top_loop fuel truncSt = Outcome.hang :=
    top_loop_hangs_in_hdrl fuel truncSt (by decide) rfl (by decide) (by decide) (by decide)
      (by decide) (by decide) (by decide)
  have e1 : (read_le32 truncInit.file).1 = AVI_RIFF_ID := by decide
  have e2 : (read_le32 (read_le32 (read_le32 truncInit.file).2).2).1 = AVI_AVI_ID := by decide
  unfold parse_avi_header
  simp only []
  rw [if_neg (by rw [e1]; simp), if_neg (by rw [e2]; simp)]
  unfold truncSt at ht
  rw [ht]

/-- C2 (the code departs from it): the truncated container lacks the
frame-data list, and `VIDEO_Open` does not fail with InvalidFormat on it: for
every amount of fuel the call is still inside the header-list loop, which
spins at the end of the file. -/
theorem open_truncated_hangs (fuel : Nat) :
    VIDEO_Open fuel (openEnvOf truncAvi) (some ['t', '.', 'a', 'v', 'i']) true = Outcome.hang := by
  have := parse_truncated_hangs fuel
  unfold truncInit at this
  unfold VIDEO_Open
  simp only []
  rw [if_neg (by decide), if_neg (by decide), if_neg (by decide), this]

/-! ## What the header parser preserves -/

theorem keepsCore_refl (a : VideoHandle) : KeepsCore a a :=
  ⟨rfl, rfl, rfl, rfl, rfl, fun h => h⟩

theorem keepsCore_trans {a b c : VideoHandle} (h1 : KeepsCore a b) (h2 : KeepsCore b c) :
    KeepsCore a c :=
  ⟨h2.1.trans h1.1, h2.2.1.trans h1.2.1, h2.2.2.1.trans h1.2.2.1,
    h2.2.2.2.1.trans h1.2.2.2.1, h2.2.2.2.2.1.trans h1.2.2.2.2.1,
    fun h => h2.2.2.2.2.2 (h1.2.2.2.2.2 h)⟩

theorem skeeps_refl (a : ParseSt) : SKeeps a a := ⟨keepsCore_refl _, rfl, rfl⟩

theorem skeeps_trans {a b c : ParseSt} (h1 : SKeeps a b) (h2 : SKeeps b c) : SKeeps a c :=
  ⟨keepsCore_trans h1.1 h2.1, h2.2.1.trans h1.2.1, h2.2.2.trans h1.2.2⟩

theorem keepsCore_withFile (h : VideoHandle) (f : FIL) (hd : f.data = h.file.data)
    (hf : f.faults = h.file.faults) : KeepsCore h (h.withFile f) :=
  ⟨rfl, hd, hf, rfl, rfl, fun x => x⟩

theorem skeeps_withFile (st : ParseSt) (f : FIL) (hd : f.data = st.h.file.data)
    (hf : f.faults = st.h.file.faults) : SKeeps st (st.withFile f) :=
  ⟨keepsCore_withFile st.h f hd hf, rfl, rfl⟩

theorem avih_fps_lt (us : Nat) : avih_fps us < U16 := by
  unfold avih_fps u16 U16
  split
  · split
    · omega
    · exact Nat.mod_lt _ (by omega)
  · omega

theorem avih_fps_pos (us : Nat) : 0 < avih_fps us := by
  unfold avih_fps
  split
  · split
    · omega
    · omega
  · omega

theorem skeeps_parse_avih (st : ParseSt) : SKeeps st { st with h := parse_avih st.h } :=
  ⟨⟨rfl, f_read_data _ _, f_read_faults _ _, rfl, rfl, fun _ => avih_fps_lt _⟩, rfl, rfl⟩

theorem skeeps_parse_strh (st : ParseSt) : SKeeps st (parse_strh st) := by
  unfold parse_strh
  split
  · split
    · exact ⟨⟨rfl, f_read_data _ _, f_read_faults _ _, rfl, rfl, fun x => x⟩, rfl, rfl⟩
    · exact ⟨⟨rfl, f_read_data _ _, f_read_faults _ _, rfl, rfl, fun x => x⟩, rfl, rfl⟩
  · exact skeeps_withFile st _ (f_read_data _ _) (f_read_faults _ _)

theorem skeeps_parse_strf (st : ParseSt) : SKeeps st (parse_strf st) :=
  ⟨⟨rfl, f_read_data _ _, f_read_faults _ _, rfl, rfl, fun x => x⟩, rfl, rfl⟩

theorem skeeps_strl_chunk (st : ParseSt) (id : Nat) : SKeeps st (strl_chunk st id) := by
  unfold strl_chunk
  split
  · exact skeeps_parse_strh st
  · split
    · exact skeeps_parse_strf st
    · exact skeeps_refl st

theorem strl_loop_keeps (fuel : Nat) (st st1 : ParseSt) (e : Nat)
    (h : strl_loop fuel st e = Outcome.done st1) : SKeeps st st1 := by
  induction fuel generalizing st with
  | zero => simp [strl_loop] at h
  | succ n ih =>
    rw [strl_loop] at h
    simp only [] at h
    split at h
    · refine skeeps_trans ?_ (ih _ h)
      refine skeeps_trans (skeeps_withFile st _ ?_ ?_) (skeeps_trans (skeeps_strl_chunk _ _)
        (skeeps_withFile _ _ (f_lseek_data _ _) (f_lseek_faults _ _)))
      · rw [read_le32_data, read_le32_data]
      · rw [read_le32_faults, read_le32_faults]
    · injection h with h
      rw [h]
      exact skeeps_refl _

theorem hdrl_loop_keeps (fuel : Nat) (st st1 : ParseSt) (e : Nat)
    (h : hdrl_loop fuel st e = Outcome.done st1) : SKeeps st st1 := by
  induction fuel generalizing st with
  | zero => simp [hdrl_loop] at h
  | succ n ih =>
    rw [hdrl_loop] at h
    simp only [] at h
    split at h
    · split at h
      · refine skeeps_trans ?_ (ih _ h)
        refine skeeps_trans (skeeps_withFile st (read_le32 (read_le32 st.h.file).2).2 ?_ ?_)
          (skeeps_trans (skeeps_parse_avih _)
            (skeeps_withFile _ _ (f_lseek_data _ _) (f_lseek_faults _ _)))
        · rw [read_le32_data, read_le32_data]
        · rw [read_le32_faults, read_le32_faults]
      · split at h
        · split at h
          · split at h
            · rename_i st2 hst2
              refine skeeps_trans ?_ (ih _ h)
              refine skeeps_trans (skeeps_withFile st _ ?_ ?_)
                (skeeps_trans (strl_loop_keeps _ _ _ _ hst2)
                  (skeeps_withFile _ _ (f_lseek_data _ _) (f_lseek_faults _ _)))
              · rw [read_le32_data, read_le32_data, read_le32_data]
              · rw [read_le32_faults, read_le32_faults, read_le32_faults]
            · cases h
            · cases h
          · refine skeeps_trans (skeeps_withFile st _ ?_ ?_) (ih _ h)
            · rw [f_lseek_data, read_le32_data, read_le32_data, read_le32_data]
            · rw [f_lseek_faults, read_le32_faults, read_le32_faults, read_le32_faults]
        · refine skeeps_trans (skeeps_withFile st _ ?_ ?_) (ih _ h)
          · rw [f_lseek_data, read_le32_data, read_le32_data]
          · rw [f_lseek_faults, read_le32_faults, read_le32_faults]
    · injection h with h
      rw [h]
      exact skeeps_refl _


theorem top_loop_keeps (fuel : Nat) (st st1 : ParseSt)
    (h : top_loop fuel st = Outcome.done st1) : KeepsCore st.h st1.h := by
  induction fuel generalizing st with
  | zero => simp [top_loop] at h
  | succ n ih =>
    rw [top_loop] at h
    simp only [] at h
    split at h
    · split at h
      · split at h
        · split at h
          · rename_i st2 hst2
            refine keepsCore_trans ?_ (ih _ h)
            refine keepsCore_trans ?_ (keepsCore_trans (hdrl_loop_keeps _ _ _ _ hst2).1
              (keepsCore_withFile _ _ (f_lseek_data _ _) (f_lseek_faults _ _)))
            refine keepsCore_withFile st.h _ ?_ ?_
            · rw [read_le32_data, read_le32_data, read_le32_data]
            · rw [read_le32_faults, read_le32_faults, read_le32_faults]
          · cases h
          · cases h
        · split at h
          · refine keepsCore_trans ?_ (ih _ h)
            refine ⟨rfl, ?_, ?_, rfl, rfl, fun x => x⟩
            · simp only []
              rw [f_lseek_data, read_le32_data, read_le32_data, read_le32_data]
            · simp only []
              rw [f_lseek_faults, read_le32_faults, read_le32_faults, read_le32_faults]
          · refine keepsCore_trans ?_ (ih _ h)
            refine keepsCore_withFile st.h _ ?_ ?_
            · rw [f_lseek_data, read_le32_data, read_le32_data, read_le32_data]
            · rw [f_lseek_faults, read_le32_faults, read_le32_faults, read_le32_faults]
      · split at h
        · refine keepsCore_trans ?_ (ih _ h)
          refine ⟨rfl, ?_, ?_, rfl, rfl, fun x => x⟩
          · simp only []
            rw [f_lseek_data, read_le32_data, read_le32_data]
          · simp only []
            rw [f_lseek_faults, read_le32_faults, read_le32_faults]
        · refine keepsCore_trans ?_ (ih _ h)
          refine keepsCore_withFile st.h _ ?_ ?_
          · rw [f_lseek_data, read_le32_data, read_le32_data]
          · rw [f_lseek_faults, read_le32_faults, read_le32_faults]
    · injection h with h
      rw [h]
      exact keepsCore_refl _

theorem parse_finish_keeps (st : ParseSt) : KeepsCore st.h (parse_finish st).2 := by
  unfold parse_finish
  split
  · exact keepsCore_refl _
  · simp only []
    split <;> split <;> exact keepsCore_refl _

theorem parse_avi_header_keeps (fuel : Nat) (h h1 : VideoHandle) (e : VideoError)
    (hp : parse_avi_header fuel h = Outcome.done (e, h1)) : KeepsCore h h1 := by
  unfold parse_avi_header at hp
  simp only [] at hp
  split at hp
  · injection hp with hp
    injection hp with _ hp
    rw [← hp]
    exact keepsCore_withFile h _ (read_le32_data _) (read_le32_faults _)
  · split at hp
    · injection hp with hp
      injection hp with _ hp
      rw [← hp]
      refine keepsCore_withFile h _ ?_ ?_
      · rw [read_le32_data, read_le32_data, read_le32_data]
      · rw [read_le32_faults, read_le32_faults, read_le32_faults]
    · split at hp
      · rename_i st hst
        injection hp with hp
        have hk := top_loop_keeps _ _ _ hst
        have hfin := parse_finish_keeps st
        rw [hp] at hfin
        refine keepsCore_trans (keepsCore_trans ?_ hk) hfin
        refine keepsCore_withFile h _ ?_ ?_
        · rw [read_le32_data, read_le32_data, read_le32_data]
        · rw [read_le32_faults, read_le32_faults, read_le32_faults]
      · cases hp
      · cases hp

/-! ## The frame-data list and the counting pass -/

theorem byteAt_lt (bs : List Nat) (i : Nat) : byteAt bs i < 256 := Nat.mod_lt _ (by omega)

theorem byteAt_short (bs : List Nat) (i : Nat) (h : bs.length ≤ i) : byteAt bs i = 0 := by
  unfold byteAt
  rw [List.getD_eq_default _ _ h]

theorem word_at_lt (data : List Nat) (p : Nat) : word_at data p < U32 := by
  unfold word_at le32At U32
  have h0 := byteAt_lt (List.take 4 (List.drop p data)) 0
  have h1 := byteAt_lt (List.take 4 (List.drop p data)) (0 + 1)
  have h2 := byteAt_lt (List.take 4 (List.drop p data)) (0 + 2)
  have h3 := byteAt_lt (List.take 4 (List.drop p data)) (0 + 3)
  omega

/-- A word with a non-zero top byte lies completely inside the file. -/
theorem word_at_inside (data : List Nat) (p : Nat) (h : 16777216 ≤ word_at data p) :
    p + 4 ≤ data.length := by
  by_contra hc
  have hlen : (List.take 4 (List.drop p data)).length ≤ 0 + 3 := by
    rw [List.length_take, List.length_drop]; omega
  have h3 := byteAt_short _ _ hlen
  have h0 := byteAt_lt (List.take 4 (List.drop p data)) 0
  have h1 := byteAt_lt (List.take 4 (List.drop p data)) (0 + 1)
  have h2 := byteAt_lt (List.take 4 (List.drop p data)) (0 + 2)
  unfold word_at le32At at h
  omega

theorem top_loop_movi (fuel : Nat) (st st1 : ParseSt)
    (h : top_loop fuel st = Outcome.done st1) (hi : MoviInside st) : MoviInside st1 := by
  induction fuel generalizing st with
  | zero => simp [top_loop] at h
  | succ n ih =>
    rw [top_loop] at h
    simp only [] at h
    have hf1 : (read_le32 st.h.file).2.faults = [] := by rw [read_le32_faults, hi.1]
    have hf2 : (read_le32 (read_le32 st.h.file).2).2.faults = [] := by rw [read_le32_faults, hf1]
    split at h
    · rename_i hc
      split at h
      · rename_i hlist
        split at h
        · split at h
          · rename_i st2 hst2
            have hk := hdrl_loop_keeps _ _ _ _ hst2
            apply ih _ h
            refine ⟨?_, ?_⟩
            · simp only [ParseSt.withFile, VideoHandle.withFile]
              rw [f_lseek_faults, hk.1.2.2.1]
              simp only [ParseSt.withFile, VideoHandle.withFile]
              rw [read_le32_faults, hf2]
            · intro hm
              simp only [ParseSt.withFile, VideoHandle.withFile] at hm
              rw [hk.2.2] at hm
              simp only [ParseSt.withFile, VideoHandle.withFile] at hm
              rw [hc.2] at hm
              cases hm
          · cases h
          · cases h
        · split at h
          · rename_i hmovi
            apply ih _ h
            refine ⟨?_, fun _ => ?_⟩
            · simp only []
              rw [f_lseek_faults, read_le32_faults, hf2]
            · simp only []
              rw [f_lseek_data, read_le32_data, read_le32_data, read_le32_data]
              have h1 := read_le32_val _ hi.1
              have h3 := read_le32_val _ hf2
              rw [hlist] at h1
              rw [hmovi, read_le32_data, read_le32_data] at h3
              have i1 := word_at_inside _ _ (by rw [← h1]; unfold AVI_LIST_ID; omega)
              have i3 := word_at_inside _ _ (by rw [← h3]; unfold AVI_MOVI_ID; omega)
              have p1 := read_le32_fptr _ hi.1
              have p2 := read_le32_fptr _ hf1
              rw [read_le32_data] at p2
              unfold f_tell
              omega
          · apply ih _ h
            refine ⟨?_, ?_⟩
            · simp only [ParseSt.withFile, VideoHandle.withFile]
              rw [f_lseek_faults, read_le32_faults, hf2]
            · intro hm
              simp only [ParseSt.withFile, VideoHandle.withFile] at hm
              rw [hc.2] at hm
              cases hm
      · split at h
        · apply ih _ h
          refine ⟨?_, ?_⟩
          · simp only []
            rw [f_lseek_faults, hf2]
          · intro hm
            simp only [] at hm
            rw [hc.2] at hm
            cases hm
        · apply ih _ h
          refine ⟨?_, ?_⟩
          · simp only [ParseSt.withFile, VideoHandle.withFile]
            rw [f_lseek_faults, hf2]
          · intro hm
            simp only [ParseSt.withFile, VideoHandle.withFile] at hm
            rw [hc.2] at hm
            cases hm
    · injection h with h
      rw [← h]
      exact hi

/-- A container accepted by `parse_avi_header` on a fault-free file has its
frame-data list tag inside the file. -/
theorem parse_movi_inside (fuel : Nat) (h h1 : VideoHandle)
    (hp : parse_avi_header fuel h = Outcome.done (VideoError.VIDEO_SUCCESS, h1))
    (hf : h.file.faults = []) :
    4 ≤ h1.info.movi_offset ∧ h1.info.movi_offset + 4 ≤ h1.file.data.length := by
  unfold parse_avi_header at hp
  simp only [] at hp
  split at hp
  · cases hp
  · split at hp
    · cases hp
    · split at hp
      · rename_i st hst
        injection hp with hp
        have hm := top_loop_movi _ _ _ hst
          ⟨by simp [VideoHandle.withFile, read_le32_faults, hf], fun hx => by cases hx⟩
        unfold parse_finish at hp
        split at hp
        · cases hp
        · simp only [] at hp
          split at hp
          · cases hp
          · rename_i hmv
            injection hp with _ hp
            rw [← hp]
            have := hm.2 (by cases hfm : st.found_movi <;> simp_all)
            split <;> exact this
      · cases hp
      · cases hp

theorem walk_chunks_succ (data : List Nat) (m s : Nat) (h : data.length ≤ m + s) :
    walk_chunks data (m + 1) s = walk_chunks data m s := by
  induction m generalizing s with
  | zero =>
    rw [walk_chunks, walk_chunks, if_neg (by omega)]
  | succ m ih =>
    rw [walk_chunks]
    conv => rhs; rw [walk_chunks]
    split
    · rw [ih _ (by omega)]
    · rfl

theorem walk_chunks_add (data : List Nat) (m k s : Nat) (h : data.length ≤ m + s) :
    walk_chunks data (m + k) s = walk_chunks data m s := by
  induction k with
  | zero => rfl
  | succ k ih => rw [← Nat.add_assoc, walk_chunks_succ _ _ _ (by omega), ih]

theorem walk_chunks_enough (data : List Nat) (m m1 s : Nat) (h : data.length ≤ m + s)
    (h1 : data.length ≤ m1 + s) : walk_chunks data m s = walk_chunks data m1 s := by
  rw [← walk_chunks_add data m m1 s h, Nat.add_comm, walk_chunks_add data m1 m s h1]

theorem sub32_eight (L : Nat) (h8 : 8 ≤ L) (hL : L < U32) : sub32 (u32 L) 8 = L - 8 := by
  unfold sub32 u32 U32 at *
  omega

/-- The counting loop of `build_frame_index` counts the frame chunks of the
chunk walk. -/
theorem count_loop_walk (fuel : Nat) (f f1 : FIL) (s acc r : Nat)
    (hf : f.faults = []) (hL : f.data.length < U32) (h8 : 8 ≤ f.data.length)
    (hp : f.fptr = min s f.data.length) (hacc : acc + (f.data.length - f.fptr) < U32)
    (hw : NoWrap (region_chunks f.data s))
    (hc : count_loop fuel f (u32 f.data.length) acc = Outcome.done (f1, r)) :
    r = acc + ((region_chunks f.data s).filter Chunk.is_frame).length ∧
      f1.data = f.data ∧ f1.faults = [] := by
  induction fuel generalizing f s acc with
  | zero => simp [count_loop] at hc
  | succ n ih =>
    rw [count_loop] at hc
    simp only [] at hc
    rw [sub32_eight _ h8 hL] at hc
    unfold f_tell at hc
    by_cases hin : s + 8 < f.data.length
    · have hps : f.fptr = s := by omega
      have hf1 : (read_le32 f).2.faults = [] := by rw [read_le32_faults, hf]
      have hd1 : (read_le32 f).2.data = f.data := read_le32_data f
      have hp1 : (read_le32 f).2.fptr = s + 4 := by rw [read_le32_fptr _ hf, hps]; omega
      have hv1 : (read_le32 f).1 = word_at f.data s := by rw [read_le32_val _ hf, hps]
      have hf2 : (read_le32 (read_le32 f).2).2.faults = [] := by rw [read_le32_faults, hf1]
      have hd2 : (read_le32 (read_le32 f).2).2.data = f.data := by rw [read_le32_data, hd1]
      have hp2 : (read_le32 (read_le32 f).2).2.fptr = s + 8 := by
        rw [read_le32_fptr _ hf1, hp1, hd1]; omega
      have hv2 : (read_le32 (read_le32 f).2).1 = word_at f.data (s + 4) := by
        rw [read_le32_val _ hf1, hp1, hd1]
      have hreg : region_chunks f.data s =
          { offset := s, tag := word_at f.data s, size := word_at f.data (s + 4) } ::
            region_chunks f.data
              (s + 8 + word_at f.data (s + 4) + word_at f.data (s + 4) % 2) := by
        unfold region_chunks
        obtain ⟨k, hk⟩ : ∃ k, f.data.length = k + 1 := ⟨f.data.length - 1, by omega⟩
        rw [hk, walk_chunks, if_pos (by omega)]
        rw [walk_chunks_enough f.data k (k + 1) _ (by omega) (by omega)]
      have hnw := hw _ (by rw [hreg]; exact List.mem_cons_self _ _)
      simp only [] at hnw
      have hseek : u32 (s + 8 + pad32 (word_at f.data (s + 4))) =
          s + 8 + word_at f.data (s + 4) + word_at f.data (s + 4) % 2 := by
        unfold pad32 u32 U32 at *
        split <;> omega
      rw [if_pos (by omega), hv1, hv2, hp2, hseek] at hc
      have hstep := ih (f_lseek (read_le32 (read_le32 f).2).2
          (s + 8 + word_at f.data (s + 4) + word_at f.data (s + 4) % 2)).2
          (s + 8 + word_at f.data (s + 4) + word_at f.data (s + 4) % 2)
          (if is_video_chunk (word_at f.data s) = true ∧ word_at f.data (s + 4) > 0 then
            u32 (acc + 1) else acc)
          (by rw [f_lseek_faults, hf2])
          (by rw [f_lseek_data, hd2]; exact hL)
          (by rw [f_lseek_data, hd2]; exact h8)
          (by rw [f_lseek_fptr _ _ hf2, f_lseek_data, hd2])
          (by
            rw [f_lseek_fptr _ _ hf2, f_lseek_data, hd2]
            unfold u32 U32 at *
            split <;> omega)
          (by
            rw [f_lseek_data, hd2]
            intro c hcm
            exact hw c (by rw [hreg]; exact List.mem_cons_of_mem _ hcm))
          (by rw [f_lseek_data, hd2]; exact hc)
      rw [f_lseek_data, hd2] at hstep
      refine ⟨?_, hstep.2⟩
      rw [hstep.1, hreg, List.filter_cons]
      unfold Chunk.is_frame
      simp only [Bool.and_eq_true, decide_eq_true_eq, gt_iff_lt]
      have hu : u32 (acc + 1) = acc + 1 := u32_of_lt (by omega)
      split
      · rw [hu, List.length_cons]; omega
      · rfl
    · rw [if_neg (by omega)] at hc
      injection hc with hc
      injection hc with hc1 hc2
      have hreg : region_chunks f.data s = [] := by
        unfold region_chunks
        cases hk : f.data.length with
        | zero => rfl
        | succ k => rw [walk_chunks, if_neg (by omega)]
      rw [hreg, ← hc1, ← hc2]
      exact ⟨rfl, rfl, hf⟩

/-! ## The stages of `VIDEO_Open` -/

theorem count_loop_lt (fuel : Nat) (f f1 : FIL) (e acc r : Nat) (hacc : acc < U32)
    (hc : count_loop fuel f e acc = Outcome.done (f1, r)) : r < U32 := by
  induction fuel generalizing f acc with
  | zero => simp [count_loop] at hc
  | succ n ih =>
    rw [count_loop] at hc
    simp only [] at hc
    split at hc
    · refine ih _ _ ?_ hc
      split
      · exact u32_lt _
      · exact hacc
    · injection hc with hc
      injection hc with _ hc
      rw [← hc]; exact hacc

theorem sample_step_file (f : FIL) (cs o : Nat) :
    (sample_step f cs o).2.data = f.data ∧ (sample_step f cs o).2.faults = f.faults := by
  unfold sample_step
  simp only []
  split
  · exact ⟨rfl, rfl⟩
  · split
    · exact ⟨by rw [f_lseek_data, f_lseek_data], by rw [f_lseek_faults, f_lseek_faults]⟩
    · split
      · exact ⟨by rw [f_read_data, f_lseek_data, f_lseek_data],
          by rw [f_read_faults, f_lseek_faults, f_lseek_faults]⟩
      · split
        · exact ⟨by rw [f_read_data, f_lseek_data, f_lseek_data],
            by rw [f_read_faults, f_lseek_faults, f_lseek_faults]⟩
        · split
          · exact ⟨by rw [f_read_data, f_lseek_data, f_lseek_data],
              by rw [f_read_faults, f_lseek_faults, f_lseek_faults]⟩
          · exact ⟨by rw [f_read_data, f_lseek_data, f_lseek_data],
              by rw [f_read_faults, f_lseek_faults, f_lseek_faults]⟩

theorem sample_chunk_file (f : FIL) (cs : Nat) (os : List Nat) :
    (sample_chunk f cs os).2.data = f.data ∧ (sample_chunk f cs os).2.faults = f.faults := by
  induction os generalizing f with
  | nil => exact ⟨rfl, rfl⟩
  | cons o rest ih =>
    rw [sample_chunk]
    have hs := sample_step_file f cs o
    split
    · rename_i b f2 heq
      rw [heq] at hs
      exact hs
    · rename_i f2 heq
      rw [heq] at hs
      have := ih f2
      exact ⟨this.1.trans hs.1, this.2.trans hs.2⟩

theorem detect_loop_file (fuel : Nat) (f f1 : FIL) (fs k : Nat) (b : Option Bool)
    (hd : detect_loop fuel f fs k = Outcome.done (b, f1)) :
    f1.data = f.data ∧ f1.faults = f.faults := by
  induction fuel generalizing f k with
  | zero => simp [detect_loop] at hd
  | succ n ih =>
    rw [detect_loop] at hd
    simp only [] at hd
    split at hd
    · split at hd
      · have := ih _ _ hd
        rw [f_lseek_data, f_lseek_faults, read_le32_data, read_le32_faults, read_le32_data,
          read_le32_faults] at this
        exact this
      · have hs := sample_chunk_file (read_le32 (read_le32 f).2).2 (read_le32 (read_le32 f).2).1
          (sample_offsets (read_le32 (read_le32 f).2).1)
        rw [read_le32_data, read_le32_faults, read_le32_data, read_le32_faults] at hs
        split at hd
        · rename_i b2 f2 heq
          rw [heq] at hs
          injection hd with hd
          injection hd with _ hd
          rw [← hd]; exact hs
        · rename_i f2 heq
          rw [heq] at hs
          have := ih _ _ hd
          rw [f_lseek_data, f_lseek_faults] at this
          exact ⟨this.1.trans hs.1, this.2.trans hs.2⟩
    · injection hd with hd
      injection hd with _ hd
      rw [← hd]; exact ⟨rfl, rfl⟩

/-- The endianness probe changes nothing in the handle but the read position
and operation count of the file. -/
theorem detect_keeps (fuel : Nat) (h h1 : VideoHandle) (b : Bool)
    (hd : detect_rgb565_endianness fuel h = Outcome.done (b, h1)) :
    h1 = h.withFile h1.file ∧ h1.file.data = h.file.data ∧ h1.file.faults = h.file.faults := by
  unfold detect_rgb565_endianness at hd
  split at hd
  · injection hd with hd; injection hd with _ hd; rw [← hd]; exact ⟨rfl, rfl, rfl⟩
  · split at hd
    · injection hd with hd; injection hd with _ hd; rw [← hd]; exact ⟨rfl, rfl, rfl⟩
    · split at hd
      · injection hd with hd; injection hd with _ hd; rw [← hd]; exact ⟨rfl, rfl, rfl⟩
      · split at hd
        · injection hd with hd; injection hd with _ hd; rw [← hd]; exact ⟨rfl, rfl, rfl⟩
        · simp only [] at hd
          split at hd
          · injection hd with hd; injection hd with _ hd; rw [← hd]
            refine ⟨rfl, ?_, ?_⟩
            · simp only [VideoHandle.withFile]; rw [f_lseek_data, f_lseek_data]
            · simp only [VideoHandle.withFile]; rw [f_lseek_faults, f_lseek_faults]
          · split at hd
            · rename_i b2 f2 heq
              have hl := detect_loop_file _ _ _ _ _ _ heq
              rw [f_lseek_data, f_lseek_faults] at hl
              injection hd with hd; injection hd with _ hd; rw [← hd]
              refine ⟨rfl, ?_, ?_⟩
              · simp only [VideoHandle.withFile]; rw [f_lseek_data]; exact hl.1
              · simp only [VideoHandle.withFile]; rw [f_lseek_faults]; exact hl.2
            · rename_i f2 heq
              have hl := detect_loop_file _ _ _ _ _ _ heq
              rw [f_lseek_data, f_lseek_faults] at hl
              injection hd with hd; injection hd with _ hd; rw [← hd]
              refine ⟨rfl, ?_, ?_⟩
              · simp only [VideoHandle.withFile]; rw [f_lseek_data]; exact hl.1
              · simp only [VideoHandle.withFile]; rw [f_lseek_faults]; exact hl.2
            · cases hd
            · cases hd

/-- The stages of a successful `VIDEO_Open`. -/
theorem VIDEO_Open_stages (fuel : Nat) (env : OpenEnv) (name : List Char) (ho : Bool)
    (h : VideoHandle)
    (hopen : VIDEO_Open fuel env (some name) ho =
      Outcome.done (VideoError.VIDEO_SUCCESS, some h)) :
    ∃ vh1 f1 r sw vh3,
      parse_avi_header fuel (open_init env name) = Outcome.done (VideoError.VIDEO_SUCCESS, vh1) ∧
      count_loop fuel (f_lseek vh1.file (u32 (vh1.info.movi_offset + 4))).2
        vh1.info.file_size 0 = Outcome.done (f1, r) ∧
      r ≠ 0 ∧ vh1.info.fps ≠ 0 ∧
      detect_rgb565_endianness fuel
        (open_timing { vh1 with file := f1, frame_index_count := 0,
                                info := { vh1.info with total_frames := r } }) =
        Outcome.done (sw, vh3) ∧
      h = { vh3 with needs_byte_swap := sw } := by
  unfold VIDEO_Open at hopen
  simp only [] at hopen
  by_cases c1 : ho = false
  · rw [if_pos c1] at hopen; cases hopen
  rw [if_neg c1] at hopen
  by_cases c2 : env.malloc_handle = false
  · rw [if_pos c2] at hopen; cases hopen
  rw [if_neg c2] at hopen
  by_cases c3 : env.fopen_result ≠ FRESULT.FR_OK
  · rw [if_pos c3] at hopen
    injection hopen with hopen; injection hopen with _ hopen; cases hopen
  rw [if_neg c3] at hopen
  cases hparse : parse_avi_header fuel (open_init env name) with
  | hang => rw [hparse] at hopen; cases hopen
  | divZero => rw [hparse] at hopen; cases hopen
  | done p =>
    obtain ⟨e1, vh1⟩ := p
    rw [hparse] at hopen
    simp only [] at hopen
    by_cases c4 : e1 ≠ VideoError.VIDEO_SUCCESS
    · rw [if_pos c4] at hopen
      injection hopen with hopen; injection hopen with _ hopen; cases hopen
    rw [if_neg c4] at hopen
    have he1 : e1 = VideoError.VIDEO_SUCCESS := by simpa using c4
    subst he1
    unfold build_frame_index at hopen
    cases hcount : count_loop fuel (f_lseek vh1.file (u32 (vh1.info.movi_offset + 4))).2
        vh1.info.file_size 0 with
    | hang => rw [hcount] at hopen; cases hopen
    | divZero => rw [hcount] at hopen; cases hopen
    | done q =>
      obtain ⟨f1, r⟩ := q
      rw [hcount] at hopen
      simp only [] at hopen
      by_cases c5 : r = 0
      · rw [if_pos c5] at hopen
        simp only [] at hopen
        rw [if_pos (by decide)] at hopen
        injection hopen with hopen; injection hopen with _ hopen; cases hopen
      rw [if_neg c5] at hopen
      simp only [] at hopen
      rw [if_neg (by decide)] at hopen
      by_cases c6 : env.malloc_workbuf = false
      · rw [if_pos c6] at hopen
        injection hopen with hopen; injection hopen with _ hopen; cases hopen
      rw [if_neg c6] at hopen
      by_cases c7 : vh1.info.fps = 0
      · rw [if_pos c7] at hopen; cases hopen
      rw [if_neg c7] at hopen
      cases hdet : detect_rgb565_endianness fuel
        (open_timing { vh1 with file := f1, frame_index_count := 0,
                                info := { vh1.info with total_frames := r } }) with
      | hang => rw [hdet] at hopen; cases hopen
      | divZero => rw [hdet] at hopen; cases hopen
      | done d =>
        obtain ⟨sw, vh3⟩ := d
        rw [hdet] at hopen
        simp only [] at hopen
        injection hopen with hopen
        injection hopen with _ hopen
        injection hopen with hopen
        exact ⟨vh1, f1, r, sw, vh3, rfl, hcount, c5, c7, hdet, hopen.symm⟩


theorem count_loop_file (fuel : Nat) (f f1 : FIL) (e acc r : Nat)
    (hc : count_loop fuel f e acc = Outcome.done (f1, r)) :
    f1.data = f.data ∧ f1.faults = f.faults := by
  induction fuel generalizing f acc with
  | zero => simp [count_loop] at hc
  | succ n ih =>
    rw [count_loop] at hc
    simp only [] at hc
    split at hc
    · have := ih _ _ hc
      rw [f_lseek_data, f_lseek_faults, read_le32_data, read_le32_faults, read_le32_data,
        read_le32_faults] at this
      exact this
    · injection hc with hc
      injection hc with hc _
      rw [← hc]; exact ⟨rfl, rfl⟩

/-- What every handle returned by a successful `VIDEO_Open` looks like. -/
theorem VIDEO_Open_facts (fuel : Nat) (env : OpenEnv) (name : List Char) (ho : Bool)
    (h : VideoHandle)
    (hopen : VIDEO_Open fuel env (some name) ho =
      Outcome.done (VideoError.VIDEO_SUCCESS, some h)) :
    h.is_open = true ∧ h.state = VideoState.VIDEO_STATE_IDLE ∧ h.current_frame = 0 ∧
    h.frames_skipped = 0 ∧ h.frames_rendered = 0 ∧
    0 < h.info.total_frames ∧ h.info.total_frames < U32 ∧
    0 < h.info.fps ∧ h.info.fps < U16 ∧ h.frame_duration_us = 1000000 / h.info.fps ∧
    h.file.data = env.data ∧ h.file.faults = env.faults ∧
    h.info.file_size = u32 env.data.length ∧ h.callback = false := by
  obtain ⟨vh1, f1, r, sw, vh3, hparse, hcount, hr, hfps, hdet, hh⟩ :=
    VIDEO_Open_stages fuel env name ho h hopen
  have hk := parse_avi_header_keeps _ _ _ _ hparse
  have hd := detect_keeps _ _ _ _ hdet
  have hrlt := count_loop_lt _ _ _ _ _ _ (by unfold U32; omega) hcount
  have hcf := count_loop_file _ _ _ _ _ _ hcount
  rw [f_lseek_data, f_lseek_faults] at hcf
  obtain ⟨hctl, hdata, hfaults, hsize, -, hfpslt⟩ := hk
  have hfps16 : vh1.info.fps < U16 := hfpslt (by unfold open_init zeroHandle U16; simp)
  simp only [ctl, open_init, zeroHandle, Prod.mk.injEq] at hctl
  obtain ⟨c1, c2, -, -, -, c6, -, -, -, -, -, -, -, -, -, -, -, c18, -⟩ := hctl
  rw [hh, hd.1]
  refine ⟨c1, c2, c6, rfl, rfl, Nat.pos_of_ne_zero hr, hrlt, Nat.pos_of_ne_zero hfps, hfps16, rfl,
    ?_, ?_, ?_, c18⟩
  · exact hd.2.1.trans (hcf.1.trans hdata)
  · exact hd.2.2.trans (hcf.2.trans hfaults)
  · exact hsize

/-- The frame count of an accepted container on a fault-free storage is the
number of frame chunks of the chunk walk. -/
theorem VIDEO_Open_count (fuel : Nat) (env : OpenEnv) (name : List Char)
    (h : VideoHandle)
    (hopen : VIDEO_Open fuel env (some name) true =
      Outcome.done (VideoError.VIDEO_SUCCESS, some h))
    (hfaults : env.faults = []) (hlen : env.data.length < U32)
    (hw : NoWrap (region_chunks env.data (h.info.movi_offset + 4))) :
    h.info.total_frames =
      ((region_chunks env.data (h.info.movi_offset + 4)).filter Chunk.is_frame).length := by
  obtain ⟨vh1, f1, r, sw, vh3, hparse, hcount, hr, hfps, hdet, hh⟩ :=
    VIDEO_Open_stages fuel env name true h hopen
  have hk := parse_avi_header_keeps _ _ _ _ hparse
  have hd := detect_keeps _ _ _ _ hdet
  obtain ⟨-, hdata, hfl, hsize, -, -⟩ := hk
  have hdata1 : vh1.file.data = env.data := hdata
  have hfl1 : vh1.file.faults = [] := hfl.trans hfaults
  have hsize1 : vh1.info.file_size = u32 env.data.length := hsize
  have hm := parse_movi_inside _ _ _ hparse (by exact hfaults)
  rw [hdata1] at hm
  have htot : h.info.total_frames = r := by rw [hh, hd.1]; rfl
  have hmovi : h.info.movi_offset = vh1.info.movi_offset := by rw [hh, hd.1]; rfl
  rw [hmovi] at hw ⊢
  have hu : u32 (vh1.info.movi_offset + 4) = vh1.info.movi_offset + 4 :=
    u32_of_lt (by omega)
  rw [hu, hsize1] at hcount
  have hcw := count_loop_walk fuel (f_lseek vh1.file (vh1.info.movi_offset + 4)).2 f1
    (vh1.info.movi_offset + 4) 0 r
    (by rw [f_lseek_faults, hfl1])
    (by rw [f_lseek_data, hdata1]; exact hlen)
    (by rw [f_lseek_data, hdata1]; omega)
    (by rw [f_lseek_fptr _ _ hfl1, f_lseek_data])
    (by rw [f_lseek_data, hdata1]; omega)
    (by rw [f_lseek_data, hdata1]; exact hw)
    (by rw [f_lseek_data, hdata1]; exact hcount)
  rw [f_lseek_data, hdata1] at hcw
  rw [htot, hcw.1, Nat.zero_add]

theorem opens_eq (fuel : Nat) (env : OpenEnv) (name : List Char)
    (h : opens fuel env name = true) :
    VIDEO_Open fuel env (some name) true =
      Outcome.done (VideoError.VIDEO_SUCCESS, some (openedHandle fuel env name)) := by
  unfold opens at h
  unfold openedHandle
  split at h
  · rename_i x heq
    rw [heq]
  · cases h

/-- The raw example container opens, and `rawHandle` is the session. -/
theorem raw_open_eq :
    VIDEO_Open 200 (openEnvOf rawAvi) (some ['r', '.', 'a', 'v', 'i']) true =
      Outcome.done (VideoError.VIDEO_SUCCESS, some rawHandle) :=
  opens_eq 200 (openEnvOf rawAvi) ['r', '.', 'a', 'v', 'i'] (by decide)

/-- The six-frame container is accepted. -/
theorem small_open_eq :
    VIDEO_Open 200 (openEnvOf smallAvi) (some ['s', '.', 'a', 'v', 'i']) true =
      Outcome.done (VideoError.VIDEO_SUCCESS, some smallHandle) :=
  opens_eq 200 (openEnvOf smallAvi) ['s', '.', 'a', 'v', 'i'] (by decide)

/-- Play in polling mode on the six-frame session. -/
theorem small_play_eq :
    VIDEO_Play demoPlayEnv 0 smallHandle { tick := 1000, log := [] } 0 0
        VideoPlayMode.VIDEO_PLAY_MODE_POLLING =
      Outcome.done (VideoError.VIDEO_SUCCESS, smallPlaying, { tick := 1000, log := [] }) := by
  decide

/-! ## One rendering poll on a sound container -/

theorem nth_chunk_shift (data : List Nat) (s n : Nat) :
    nth_chunk data (next_chunk data s) n = nth_chunk data s (n + 1) := by
  induction n with
  | zero => rfl
  | succ n ih => rw [nth_chunk, ih]; rfl

theorem pad_seek (p size : Nat) (h : p + 8 + size + 1 < U32) :
    u32 (p + 8 + pad32 size) = p + 8 + size + size % 2 := by
  unfold pad32 u32 U32 at *
  split <;> omega

/-- On a fault-free file a decodable payload is decoded successfully. -/
theorem decode_frame_ok (env : PlayEnv) (h h1 : VideoHandle) (w : World) (o s : Nat)
    (hdec : frame_decodable env h o s = true)
    (hi : h1.info = h.info) (hd : h1.file.data = h.file.data) (hf : h1.file.faults = [])
    (ho : o ≤ h.file.data.length) :
    (decode_frame env h1 w o s).1 = VideoError.VIDEO_SUCCESS := by
  have hres := f_lseek_res h1.file o hf
  have hptr : (f_lseek h1.file o).2.fptr = o := by rw [f_lseek_fptr _ _ hf, hd]; omega
  have hdat : (f_lseek h1.file o).2.data = h.file.data := by rw [f_lseek_data, hd]
  have hflt : (f_lseek h1.file o).2.faults = [] := by rw [f_lseek_faults, hf]
  unfold frame_decodable at hdec
  unfold decode_frame
  rw [hi]
  split
  · rename_i hcodec
    rw [if_pos hcodec] at hdec
    unfold decode_mjpeg_frame
    simp only []
    rw [if_neg (by rw [hres]; simp)]
    have hwin : frame_window (f_lseek h1.file o).2 (u32 (o + s)) = payload_window h.file.data o s := by
      unfold frame_window payload_window
      rw [hptr, hdat]
    rw [hwin]
    split at hdec
    · cases hdec
    · rename_i jw jh heq
      rw [if_pos hdec]
  · rename_i hcodec
    rw [if_neg hcodec] at hdec
    simp only [Bool.and_eq_true, decide_eq_true_eq] at hdec
    unfold decode_raw_frame
    simp only []
    rw [if_neg (by rw [hres]; simp), if_neg (by rw [hdec.1]; simp)]
    have hr := f_read_res (f_lseek h1.file o).2 (u16 (h1.info.width * 2)) hflt
    have hb := f_read_bytes (f_lseek h1.file o).2 (u16 (h1.info.width * 2)) hflt
    rw [if_neg]
    rw [hr, hb, hptr, hdat, List.length_take, List.length_drop, hi]
    have := hdec.2
    simp only [ne_eq, not_true_eq_false, false_or]
    omega

/-- Decoding the chunk under the cursor when it is a decodable frame chunk
inside a fault-free file. -/
theorem decode_and_display_ok (env : PlayEnv) (h : VideoHandle) (w : World)
    (hf : h.file.faults = []) (hc : h.current_chunk_offset + 8 ≤ h.file.data.length)
    (hnw : h.current_chunk_offset + 8 + word_at h.file.data (h.current_chunk_offset + 4) + 1 < U32)
    (hv : is_video_chunk (word_at h.file.data h.current_chunk_offset) = true)
    (hs : word_at h.file.data (h.current_chunk_offset + 4) ≠ 0)
    (hdec : frame_decodable env h (h.current_chunk_offset + 8)
      (word_at h.file.data (h.current_chunk_offset + 4)) = true) :
    ∃ F W, decode_and_display_frame_streaming env h w =
      (VideoError.VIDEO_SUCCESS,
       { h with file := F,
                current_chunk_offset := next_chunk h.file.data h.current_chunk_offset }, W) ∧
    F.data = h.file.data ∧ F.faults = [] ∧ W.tick = w.tick ∧
    decodes W.log = decodes w.log ++ [(h.current_chunk_offset + 8,
        word_at h.file.data (h.current_chunk_offset + 4))] := by
  obtain ⟨-, -, -, -, hd5, hd6⟩ := header_read h.file h.current_chunk_offset hf hc
  have hok := decode_frame_ok env h { h with file := header_file h.file h.current_chunk_offset } w
    (h.current_chunk_offset + 8) (word_at h.file.data (h.current_chunk_offset + 4)) hdec rfl hd5 hd6
    hc
  have hk := decode_frame_keeps env { h with file := header_file h.file h.current_chunk_offset } w
    (h.current_chunk_offset + 8) (word_at h.file.data (h.current_chunk_offset + 4))
  have hl := decode_frame_decodes env { h with file := header_file h.file h.current_chunk_offset } w
    (h.current_chunk_offset + 8) (word_at h.file.data (h.current_chunk_offset + 4))
  have hcur := pad_seek _ _ hnw
  rw [decode_and_display_at env h w hf hc, if_neg (by rw [hv]; simp [hs]),
    if_neg (by rw [hok]; simp), hcur]
  exact ⟨_, _, rfl, hk.2.1.trans hd5, hk.2.2.trans hd6, hk.1, hl⟩

theorem wait_next_frame_log (h : VideoHandle) (w : World) :
    (wait_next_frame h w).log = w.log := by
  unfold wait_next_frame
  simp only []
  split <;> rfl

theorem wait_next_frame_tick (h : VideoHandle) (w : World) :
    (wait_next_frame h w).tick =
      (if u32 w.tick < frame_deadline h h.current_frame then
        w.tick + (frame_deadline h h.current_frame - u32 w.tick)
       else w.tick) := by
  unfold wait_next_frame frame_deadline get_tick_ms
  simp only []
  split <;> rfl

theorem callback_world (cb : Bool) (wd : World) (n : Nat) :
    decodes (if cb = true then { wd with log := wd.log ++ [Event.callback n] } else wd).log =
      decodes wd.log ∧
    (if cb = true then { wd with log := wd.log ++ [Event.callback n] } else wd).tick = wd.tick := by
  split
  · exact ⟨decodes_callback _ _, rfl⟩
  · exact ⟨rfl, rfl⟩

/-- Rendering the chunk under the cursor when it is a decodable frame chunk. -/
theorem poll_render_ok (env : PlayEnv) (h : VideoHandle) (w : World)
    (hf : h.file.faults = []) (hc : h.current_chunk_offset + 8 ≤ h.file.data.length)
    (hnw : h.current_chunk_offset + 8 + word_at h.file.data (h.current_chunk_offset + 4) + 1 < U32)
    (hv : is_video_chunk (word_at h.file.data h.current_chunk_offset) = true)
    (hs : word_at h.file.data (h.current_chunk_offset + 4) ≠ 0)
    (hdec : frame_decodable env h (h.current_chunk_offset + 8)
      (word_at h.file.data (h.current_chunk_offset + 4)) = true)
    (hlt : h.current_frame < h.info.total_frames) (hT : h.info.total_frames < U32) :
    ∃ F W, poll_render env h w =
      ((if h.current_frame + 1 ≥ h.info.total_frames then VideoError.VIDEO_ERROR_END_OF_VIDEO
        else VideoError.VIDEO_SUCCESS),
       { h with
         file := F,
         current_chunk_offset := next_chunk h.file.data h.current_chunk_offset,
         frames_rendered := u32 (h.frames_rendered + 1),
         current_frame := h.current_frame + 1,
         state := if h.current_frame + 1 ≥ h.info.total_frames then VideoState.VIDEO_STATE_ENDED
                  else h.state }, W) ∧
    F.data = h.file.data ∧ F.faults = [] ∧
    decodes W.log = decodes w.log ++ [(h.current_chunk_offset + 8,
        word_at h.file.data (h.current_chunk_offset + 4))] ∧
    W.tick = tick_after_render env h w := by
  obtain ⟨F, W, e1, e2, e3, e4, e5⟩ := decode_and_display_ok env h w hf hc hnw hv hs hdec
  have hu : u32 (h.current_frame + 1) = h.current_frame + 1 := u32_of_lt (by omega)
  unfold poll_render
  rw [e1]
  simp only [hu, ne_eq, not_true_eq_false, if_false]
  unfold tick_after_render
  have cw := callback_world h.callback { tick := W.tick + env.decode_ms, log := W.log }
    (h.current_frame + 1)
  by_cases hend : h.current_frame + 1 ≥ h.info.total_frames
  · rw [if_pos hend, if_pos hend, if_pos hend, if_pos (Or.inl hend)]
    refine ⟨F, _, rfl, e2, e3, cw.1.trans e5, cw.2.trans ?_⟩
    simp only [e4]
  · rw [if_neg hend, if_neg hend, if_neg hend]
    by_cases hmode : h.play_mode = VideoPlayMode.VIDEO_PLAY_MODE_BLOCKING
    · have hno : ¬(h.current_frame + 1 ≥ h.info.total_frames ∨
          h.play_mode ≠ VideoPlayMode.VIDEO_PLAY_MODE_BLOCKING) := by simp [hend, hmode]
      rw [if_pos hmode, if_neg hno]
      refine ⟨F, _, rfl, e2, e3, ?_, ?_⟩
      · rw [wait_next_frame_log]; exact cw.1.trans e5
      · rw [wait_next_frame_tick, cw.2]
        simp only [e4]
        rfl
    · rw [if_neg hmode, if_pos (Or.inr hmode)]
      refine ⟨F, _, rfl, e2, e3, cw.1.trans e5, cw.2.trans ?_⟩
      simp only [e4]

theorem nth_chunk_add (data : List Nat) (s a b : Nat) :
    nth_chunk data (nth_chunk data s a) b = nth_chunk data s (a + b) := by
  induction b with
  | zero => rfl
  | succ b ih => rw [nth_chunk, ih]; rfl

/-- On a fault-free file the skip loop walks the cursor over `n` chunk headers
that lie inside the file. -/
theorem skip_loop_walk (n : Nat) (h : VideoHandle) (hf : h.file.faults = [])
    (hin : ∀ i, i < n →
      nth_chunk h.file.data h.current_chunk_offset i + 8 ≤ h.file.data.length ∧
      nth_chunk h.file.data h.current_chunk_offset i + 8 +
        word_at h.file.data (nth_chunk h.file.data h.current_chunk_offset i + 4) + 1 < U32) :
    ∃ F, skip_loop n h =
        (VideoError.VIDEO_SUCCESS,
          { h with file := F,
                   current_chunk_offset := nth_chunk h.file.data h.current_chunk_offset n }) ∧
      F.data = h.file.data ∧ F.faults = [] := by
  induction n generalizing h with
  | zero => exact ⟨h.file, rfl, rfl, hf⟩
  | succ n ih =>
    obtain ⟨h0a, h0b⟩ := hin 0 (by omega)
    obtain ⟨r1, -, r3, r4, r5, r6⟩ := header_read h.file h.current_chunk_offset hf h0a
    have hcur : u32 (f_tell (header_file h.file h.current_chunk_offset) +
        pad32 (read_le32 (read_le32 (f_lseek h.file h.current_chunk_offset).2).2).1) =
        next_chunk h.file.data h.current_chunk_offset := by
      unfold f_tell
      rw [r4, r3]
      exact pad_seek _ _ h0b
    rw [skip_loop]
    simp only []
    rw [if_neg (by rw [r1]; simp)]
    have hcur2 : u32 (f_tell (read_le32 (read_le32 (f_lseek h.file h.current_chunk_offset).2).2).2 +
        pad32 (read_le32 (read_le32 (f_lseek h.file h.current_chunk_offset).2).2).1) =
        next_chunk h.file.data h.current_chunk_offset := hcur
    rw [hcur2]
    obtain ⟨F, e1, e2, e3⟩ := ih
      { h with file := (read_le32 (read_le32 (f_lseek h.file h.current_chunk_offset).2).2).2,
               current_chunk_offset := next_chunk h.file.data h.current_chunk_offset }
      r6 (by
        intro i hi
        have := hin (i + 1) (by omega)
        simp only []
        have hd : (read_le32 (read_le32 (f_lseek h.file h.current_chunk_offset).2).2).2.data =
            h.file.data := r5
        rw [hd, nth_chunk_shift]
        exact this)
    refine ⟨F, ?_, e2.trans r5, e3⟩
    rw [e1]
    have hd : (read_le32 (read_le32 (f_lseek h.file h.current_chunk_offset).2).2).2.data =
        h.file.data := r5
    simp only [hd, nth_chunk_shift]

theorem region_chunks_head (data : List Nat) (c : Nat) (c0 : Chunk) (rest : List Chunk)
    (h : region_chunks data c = c0 :: rest) :
    c + 8 < data.length ∧
    c0 = { offset := c, tag := word_at data c, size := word_at data (c + 4) } ∧
    rest = region_chunks data (next_chunk data c) := by
  unfold region_chunks at h ⊢
  cases hk : data.length with
  | zero => rw [hk, walk_chunks] at h; cases h
  | succ k =>
    rw [hk, walk_chunks] at h
    by_cases hin : c + 8 < data.length
    · rw [if_pos hin] at h
      injection h with h1 h2
      refine ⟨by omega, h1.symm, ?_⟩
      rw [← h2]
      unfold next_chunk
      exact walk_chunks_enough data k (k + 1) _ (by omega) (by omega)
    · rw [if_neg hin] at h; cases h

/-- With a decode that takes no time, the blocking wait keeps the elapsed time
at or below the start of the next frame slot. -/
theorem tick_after_render_bound (env : PlayEnv) (h : VideoHandle) (w : World)
    (hd : env.decode_ms = 0)
    (hinv : sub32 (u32 w.tick) h.start_time_ms * 1000 ≤ h.current_frame * h.frame_duration_us) :
    sub32 (u32 (tick_after_render env h w)) h.start_time_ms * 1000 ≤
      (h.current_frame + 1) * h.frame_duration_us := by
  have hmono : h.current_frame * h.frame_duration_us ≤
      (h.current_frame + 1) * h.frame_duration_us := Nat.mul_le_mul_right _ (by omega)
  unfold tick_after_render
  rw [hd]
  simp only [Nat.add_zero]
  split
  · omega
  · split
    · rename_i hlt
      have hD : frame_deadline h (h.current_frame + 1) < U32 := u32_lt _
      have e1 : u32 (w.tick + (frame_deadline h (h.current_frame + 1) - u32 w.tick)) =
          frame_deadline h (h.current_frame + 1) := by
        unfold u32 U32 at *
        omega
      rw [e1]
      have hq : u32 ((h.current_frame + 1) * h.frame_duration_us) / 1000 * 1000 ≤
          (h.current_frame + 1) * h.frame_duration_us :=
        (Nat.div_mul_le_self _ _).trans (u32_le _)
      have hq2 : u32 ((h.current_frame + 1) * h.frame_duration_us) / 1000 < U32 :=
        lt_of_le_of_lt (Nat.div_le_self _ _) (u32_lt _)
      have e2 : sub32 (frame_deadline h (h.current_frame + 1)) h.start_time_ms =
          u32 ((h.current_frame + 1) * h.frame_duration_us) / 1000 := by
        unfold frame_deadline
        generalize u32 ((h.current_frame + 1) * h.frame_duration_us) / 1000 = d at hq2 ⊢
        unfold sub32 u32 U32 at *
        omega
      rw [e2]
      exact hq
    · omega

/-- A blocking-mode poll that is not behind schedule goes straight to the
frame at the cursor. -/
theorem poll_blocking_render (env : PlayEnv) (h : VideoHandle) (w : World)
    (hopen : h.is_open = true) (hplay : h.state = VideoState.VIDEO_STATE_PLAYING)
    (hmode : h.play_mode = VideoPlayMode.VIDEO_PLAY_MODE_BLOCKING)
    (hlt : h.current_frame < h.info.total_frames)
    (hinv : sub32 (u32 w.tick) h.start_time_ms * 1000 ≤ h.current_frame * h.frame_duration_us) :
    VIDEO_Poll env h w = poll_render env h w := by
  have hexp : elapsed_us h w / h.frame_duration_us ≤ h.current_frame := by
    apply Nat.div_le_of_le_mul
    rw [Nat.mul_comm]
    exact (u32_le _).trans hinv
  unfold VIDEO_Poll
  rw [if_neg (by simp [hopen]), if_neg (by simp [hplay])]
  simp only []
  rw [if_neg (by omega), if_neg (by simp [hmode]), if_neg (by omega)]

theorem VIDEO_Open_movi (fuel : Nat) (env : OpenEnv) (name : List Char) (ho : Bool)
    (h : VideoHandle)
    (hopen : VIDEO_Open fuel env (some name) ho =
      Outcome.done (VideoError.VIDEO_SUCCESS, some h))
    (hfaults : env.faults = []) :
    4 ≤ h.info.movi_offset ∧ h.info.movi_offset + 4 ≤ env.data.length := by
  obtain ⟨vh1, f1, r, sw, vh3, hparse, hcount, hr, hfps, hdet, hh⟩ :=
    VIDEO_Open_stages fuel env name ho h hopen
  have hk := parse_avi_header_keeps _ _ _ _ hparse
  have hd := detect_keeps _ _ _ _ hdet
  obtain ⟨-, hdata, -, -, -, -⟩ := hk
  have hdata1 : vh1.file.data = env.data := hdata
  have hm := parse_movi_inside _ _ _ hparse (by exact hfaults)
  rw [hdata1] at hm
  have hmovi : h.info.movi_offset = vh1.info.movi_offset := by rw [hh, hd.1]; rfl
  rw [hmovi]
  exact hm

/-! ## What a poll does to the counters -/

/-- The skip loop changes only the file object, the byte cursor and, when a
seek fails, the state (to Ended). -/
theorem skip_loop_shape (n : Nat) (h : VideoHandle) :
    (skip_loop n h).2 =
      { h with file := (skip_loop n h).2.file,
               current_chunk_offset := (skip_loop n h).2.current_chunk_offset,
               state := (skip_loop n h).2.state } ∧
    ((skip_loop n h).1 = VideoError.VIDEO_SUCCESS → (skip_loop n h).2.state = h.state) ∧
    ((skip_loop n h).1 ≠ VideoError.VIDEO_SUCCESS →
      (skip_loop n h).2.state = VideoState.VIDEO_STATE_ENDED) := by
  induction n generalizing h with
  | zero => exact ⟨rfl, fun _ => rfl, fun hne => absurd rfl hne⟩
  | succ n ih =>
    rw [skip_loop]
    simp only []
    split
    · exact ⟨rfl, fun hx => by simp at hx, fun _ => rfl⟩
    · have := ih { h with file := (read_le32 (read_le32 (f_lseek h.file h.current_chunk_offset).2).2).2,
                          current_chunk_offset := u32 (f_tell (read_le32 (read_le32
                            (f_lseek h.file h.current_chunk_offset).2).2).2 +
                            pad32 (read_le32 (read_le32 (f_lseek h.file h.current_chunk_offset).2).2).1) }
      refine ⟨?_, this.2.1, this.2.2⟩
      rw [this.1]

/-- The rendering part of a poll: fields kept, and the two possible
outcomes. -/
theorem poll_render_step (env : PlayEnv) (h : VideoHandle) (w : World)
    (hlt : h.current_frame < h.info.total_frames) (hT : h.info.total_frames < U32) :
    (poll_render env h w).2.1.info = h.info ∧
    (poll_render env h w).2.1.is_open = h.is_open ∧
    (poll_render env h w).2.1.frame_duration_us = h.frame_duration_us ∧
    (poll_render env h w).2.1.play_mode = h.play_mode ∧
    (poll_render env h w).2.1.callback = h.callback ∧
    (poll_render env h w).2.1.frames_skipped = h.frames_skipped ∧
    h.current_frame ≤ (poll_render env h w).2.1.current_frame ∧
    ((poll_render env h w).2.1.state = VideoState.VIDEO_STATE_ENDED ∨
     ((poll_render env h w).2.1.state = h.state ∧
      h.current_frame + 1 < h.info.total_frames ∧
      (poll_render env h w).2.1.current_frame = h.current_frame + 1 ∧
      (poll_render env h w).2.1.frames_rendered = u32 (h.frames_rendered + 1))) := by
  have hu : u32 (h.current_frame + 1) = h.current_frame + 1 := u32_of_lt (by omega)
  have hd := decode_and_display_handle env h w
  unfold poll_render
  simp only []
  split
  · rw [hd]
    exact ⟨rfl, rfl, rfl, rfl, rfl, rfl, Nat.le_refl _, Or.inl rfl⟩
  · split
    · rw [hd]
      refine ⟨rfl, rfl, rfl, rfl, rfl, rfl, ?_, Or.inl rfl⟩
      simp only [hu]; omega
    · rename_i hge
      rw [hd] at hge ⊢
      simp only [hu] at hge
      split
      · refine ⟨rfl, rfl, rfl, rfl, rfl, rfl, ?_, Or.inr ⟨rfl, by omega, ?_, rfl⟩⟩
        · simp only [hu]; omega
        · simp only [hu]
      · refine ⟨rfl, rfl, rfl, rfl, rfl, rfl, ?_, Or.inr ⟨rfl, by omega, ?_, rfl⟩⟩
        · simp only [hu]; omega
        · simp only [hu]

theorem skip_loop_fields (n : Nat) (h : VideoHandle) :
    (skip_loop n h).2.info = h.info ∧ (skip_loop n h).2.is_open = h.is_open ∧
    (skip_loop n h).2.frame_duration_us = h.frame_duration_us ∧
    (skip_loop n h).2.play_mode = h.play_mode ∧ (skip_loop n h).2.callback = h.callback ∧
    (skip_loop n h).2.current_frame = h.current_frame ∧
    (skip_loop n h).2.frames_skipped = h.frames_skipped ∧
    (skip_loop n h).2.frames_rendered = h.frames_rendered ∧
    (skip_loop n h).2.start_time_ms = h.start_time_ms := by
  have hs := (skip_loop_shape n h).1
  refine ⟨?_, ?_, ?_, ?_, ?_, ?_, ?_, ?_, ?_⟩ <;> rw [hs]

theorem PollStep.same (h h1 : VideoHandle) (hi : h1.info = h.info) (ho : h1.is_open = h.is_open)
    (hd : h1.frame_duration_us = h.frame_duration_us) (hm : h1.play_mode = h.play_mode)
    (hcb : h1.callback = h.callback) (hs : h1.state = h.state)
    (hc : h1.current_frame = h.current_frame) (hk : h1.frames_skipped = h.frames_skipped)
    (hr : h1.frames_rendered = h.frames_rendered) : PollStep h h1 :=
  ⟨hi, ho, hd, hm, hcb, by omega, Or.inl ⟨hs, hc, hk, hr⟩⟩

/-- The branch of a poll that skips `e - current_frame` frames and then
renders. -/
theorem poll_skip_step (env : PlayEnv) (h : VideoHandle) (w : World) (e : Nat)
    (hT : h.info.total_frames < U32) (hplay : h.state = VideoState.VIDEO_STATE_PLAYING)
    (he : e > h.current_frame) (het : e < h.info.total_frames)
    (s : VideoError × VideoHandle)
    (hs : s = skip_loop (e - h.current_frame)
      { h with frames_skipped := u32 (h.frames_skipped + (e - h.current_frame)) }) :
    PollStep h (if s.1 ≠ VideoError.VIDEO_SUCCESS then (s.1, s.2, w)
      else poll_render env { s.2 with current_frame := e } w).2.1 := by
  have hf := skip_loop_fields (e - h.current_frame)
    { h with frames_skipped := u32 (h.frames_skipped + (e - h.current_frame)) }
  have hsh := skip_loop_shape (e - h.current_frame)
    { h with frames_skipped := u32 (h.frames_skipped + (e - h.current_frame)) }
  rw [← hs] at hf hsh
  obtain ⟨f1, f2, f3, f4, f5, f6, f7, f8, -⟩ := hf
  by_cases h6 : s.1 ≠ VideoError.VIDEO_SUCCESS
  · rw [if_pos h6]
    exact ⟨f1, f2, f3, f4, f5, by rw [f6], Or.inr (Or.inl ⟨hplay, hsh.2.2 h6⟩)⟩
  · rw [if_neg h6]
    have hst : s.2.state = VideoState.VIDEO_STATE_PLAYING :=
      (hsh.2.1 (by simpa using h6)).trans hplay
    obtain ⟨r1, r2, r3, r4, r5, r6, r7, r8⟩ := poll_render_step env
      { s.2 with current_frame := e } w (by simp only [f1]; exact het) (by simp only [f1]; exact hT)
    refine ⟨r1.trans f1, r2.trans f2, r3.trans f3, r4.trans f4, r5.trans f5,
      le_trans (Nat.le_of_lt he) r7, ?_⟩
    rcases r8 with r8 | ⟨s1, s2, s3, s4⟩
    · exact Or.inr (Or.inl ⟨hplay, r8⟩)
    · have s2a : e + 1 < h.info.total_frames := by rw [← f1]; exact s2
      refine Or.inr (Or.inr ⟨hplay, s1.trans hst, e, by omega, s2a, s3, ?_, ?_⟩)
      · rw [r6, if_pos he]; exact f7
      · rw [s4]
        show u32 (s.2.frames_rendered + 1) = u32 (h.frames_rendered + 1)
        rw [f8]

/-- Every poll is a `PollStep`, provided the frame counter of a Playing session
is below the total. -/
theorem poll_step (env : PlayEnv) (h : VideoHandle) (w : World)
    (hT : h.info.total_frames < U32)
    (hc : h.state = VideoState.VIDEO_STATE_PLAYING → h.current_frame < h.info.total_frames) :
    PollStep h (VIDEO_Poll env h w).2.1 := by
  unfold VIDEO_Poll
  simp only []
  by_cases h1 : h.is_open = false
  · rw [if_pos h1]; exact PollStep.same h h rfl rfl rfl rfl rfl rfl rfl rfl rfl
  rw [if_neg h1]
  by_cases h2 : h.state ≠ VideoState.VIDEO_STATE_PLAYING
  · rw [if_pos h2]; exact PollStep.same h h rfl rfl rfl rfl rfl rfl rfl rfl rfl
  rw [if_neg h2]
  have hplay : h.state = VideoState.VIDEO_STATE_PLAYING := by simpa using h2
  have hlt := hc hplay
  by_cases h3 : elapsed_us h w / h.frame_duration_us ≥ h.info.total_frames
  · rw [if_pos h3]
    exact ⟨rfl, rfl, rfl, rfl, rfl, Nat.le_refl _, Or.inr (Or.inl ⟨hplay, rfl⟩)⟩
  rw [if_neg h3]
  by_cases h4 : h.play_mode = VideoPlayMode.VIDEO_PLAY_MODE_POLLING ∧
      elapsed_us h w < u32 (h.current_frame * h.frame_duration_us)
  · rw [if_pos h4]; exact PollStep.same h h rfl rfl rfl rfl rfl rfl rfl rfl rfl
  rw [if_neg h4]
  by_cases h5 : elapsed_us h w / h.frame_duration_us > h.current_frame
  · rw [if_pos h5]
    exact poll_skip_step env h w _ hT hplay h5 (by omega) _ rfl
  · rw [if_neg h5]
    obtain ⟨r1, r2, r3, r4, r5, r6, r7, r8⟩ := poll_render_step env h w hlt hT
    refine ⟨r1, r2, r3, r4, r5, r7, ?_⟩
    rcases r8 with r8 | ⟨s1, s2, s3, s4⟩
    · exact Or.inr (Or.inl ⟨hplay, r8⟩)
    · exact Or.inr (Or.inr ⟨hplay, s1.trans hplay, h.current_frame, Nat.le_refl _, s2, s3,
        by rw [r6, if_neg (by omega)], s4⟩)

theorem poll_session_inv (env : PlayEnv) (h : VideoHandle) (w : World) (hi : SessionInv h) :
    SessionInv (VIDEO_Poll env h w).2.1 := by
  obtain ⟨i1, i2, i3, i4, i5⟩ := hi
  obtain ⟨p1, p2, p3, -, -, -, p7⟩ := poll_step env h w i3 (fun hp => i5 (Or.inl hp))
  refine ⟨p2.trans i1, by rw [p1]; exact i2, by rw [p1]; exact i3, by rw [p3]; exact i4, ?_⟩
  rw [p1]
  rcases p7 with ⟨q1, q2, -, -⟩ | ⟨-, q2⟩ | ⟨-, -, e, -, q3, q4, -, -⟩
  · rw [q1, q2]; exact i5
  · rw [q2]; intro hx; rcases hx with hx | hx <;> cases hx
  · intro _; rw [q4]; omega

theorem play_loop_session_inv (env : PlayEnv) (fuel : Nat) (h : VideoHandle) (w : World)
    (r : VideoError × VideoHandle × World) (hi : SessionInv h)
    (hp : play_loop env fuel h w = Outcome.done r) : SessionInv r.2.1 := by
  induction fuel generalizing h w with
  | zero => simp [play_loop] at hp
  | succ n ih =>
    rw [play_loop] at hp
    simp only [] at hp
    have hpi := poll_session_inv env h w hi
    split at hp
    · split at hp
      · injection hp with hp
        rw [← hp]
        obtain ⟨j1, j2, j3, j4, -⟩ := hpi
        exact ⟨j1, j2, j3, j4, fun hx => by rcases hx with hx | hx <;> cases hx⟩
      · split at hp
        · injection hp with hp
          rw [← hp]; exact hpi
        · exact ih _ _ hpi hp
    · injection hp with hp
      rw [← hp]; exact hi

theorem play_session_inv (env : PlayEnv) (fuel : Nat) (h : VideoHandle) (w : World) (x y : Nat)
    (mode : VideoPlayMode) (r : VideoError × VideoHandle × World) (hi : SessionInv h)
    (hp : VIDEO_Play env fuel h w x y mode = Outcome.done r) : SessionInv r.2.1 := by
  unfold VIDEO_Play at hp
  simp only [] at hp
  obtain ⟨i1, i2, i3, i4, i5⟩ := hi
  split at hp
  · injection hp with hp; rw [← hp]; exact ⟨i1, i2, i3, i4, i5⟩
  · split at hp
    · injection hp with hp; rw [← hp]; exact ⟨i1, i2, i3, i4, i5⟩
    · split at hp
      · refine play_loop_session_inv env fuel _ w r ?_ hp
        exact ⟨i1, i2, i3, i4, fun _ => i2⟩
      · injection hp with hp; rw [← hp]; exact ⟨i1, i2, i3, i4, fun _ => i2⟩

theorem seek_session_inv (h : VideoHandle) (w : World) (n : Nat) (hi : SessionInv h) :
    SessionInv (VIDEO_Seek h w n).2 := by
  obtain ⟨i1, i2, i3, i4, i5⟩ := hi
  unfold VIDEO_Seek
  rw [if_neg (by rw [i1]; simp)]
  refine ⟨i1, i2, i3, i4, fun _ => ?_⟩
  simp only []
  unfold sub32 U32 at *
  split <;> omega

theorem reachable_session_inv (h : VideoHandle) (hr : Reachable h) : SessionInv h := by
  induction hr with
  | opened fuel env name h hopen =>
    obtain ⟨f1, f2, -, -, -, f6, f7, f8, f9, f10, -⟩ := VIDEO_Open_facts fuel env name true h hopen
    refine ⟨f1, f6, f7, ?_, ?_⟩
    · rw [f10]
      exact Nat.div_pos (by unfold U16 at f9; omega) f8
    · rw [f2]; intro hx; rcases hx with hx | hx <;> cases hx
  | play env fuel h w x y mode e h1 w1 _ hp ih =>
    exact play_session_inv env fuel h w x y mode (e, h1, w1) ih hp
  | poll env h w _ ih => exact poll_session_inv env h w ih
  | pause h _ ih =>
    obtain ⟨i1, i2, i3, i4, i5⟩ := ih
    unfold VIDEO_Pause
    rw [if_neg (by rw [i1]; simp)]
    split
    · rename_i hp
      exact ⟨i1, i2, i3, i4, fun _ => i5 (Or.inl hp)⟩
    · exact ⟨i1, i2, i3, i4, i5⟩
  | resume h w _ ih =>
    obtain ⟨i1, i2, i3, i4, i5⟩ := ih
    unfold VIDEO_Resume
    rw [if_neg (by rw [i1]; simp)]
    split
    · rename_i hp
      exact ⟨i1, i2, i3, i4, fun _ => i5 (Or.inr hp)⟩
    · exact ⟨i1, i2, i3, i4, i5⟩
  | stop h _ ih =>
    obtain ⟨i1, i2, i3, i4, i5⟩ := ih
    unfold VIDEO_Stop
    rw [if_neg (by rw [i1]; simp)]
    exact ⟨i1, i2, i3, i4, fun _ => i2⟩
  | seek h w n _ ih => exact seek_session_inv h w n ih
  | seek_time h w t _ ih =>
    unfold VIDEO_SeekTime
    rw [if_neg (by rw [ih.1]; simp)]
    exact seek_session_inv h w _ ih
  | reset_time h w _ ih =>
    obtain ⟨i1, i2, i3, i4, i5⟩ := ih
    unfold VIDEO_ResetTime
    rw [if_neg (by rw [i1]; simp)]
    exact ⟨i1, i2, i3, i4, i5⟩

/-- C8: in every session state reachable from a successful open through any
sequence of play, poll, pause, resume, stop, seek, seek-by-time and reset-time
calls, state = Playing implies `current_frame < total_frames`. -/
theorem playing_frame_below_total (h : VideoHandle) (hr : Reachable h)
    (hp : h.state = VideoState.VIDEO_STATE_PLAYING) :
    h.current_frame < h.info.total_frames :=
  (reachable_session_inv h hr).2.2.2.2 (Or.inl hp)

/-- C8 at work: the six-frame session after open, play in polling mode, one
poll and `seek(1000)` is reachable and Playing, and its frame counter 5 is
below the total 6. -/
theorem playing_frame_below_total_witness :
    (VIDEO_Seek smallAfterFirst { tick := 1500, log := [] } 1000).2.state =
      VideoState.VIDEO_STATE_PLAYING ∧
    (VIDEO_Seek smallAfterFirst { tick := 1500, log := [] } 1000).2.current_frame <
      (VIDEO_Seek smallAfterFirst { tick := 1500, log := [] } 1000).2.info.total_frames ∧
    (VIDEO_Seek smallAfterFirst { tick := 1500, log := [] } 1000).2.current_frame = 5 ∧
    (VIDEO_Seek smallAfterFirst { tick := 1500, log := [] } 1000).2.info.total_frames = 6 :=
  ⟨by decide,
    playing_frame_below_total (VIDEO_Seek smallAfterFirst { tick := 1500, log := [] } 1000).2
      (Reachable.seek smallAfterFirst { tick := 1500, log := [] } 1000
        (Reachable.poll demoPlayEnv smallPlaying { tick := 1000, log := [] }
          (Reachable.play demoPlayEnv 0 smallHandle { tick := 1000, log := [] } 0 0
            VideoPlayMode.VIDEO_PLAY_MODE_POLLING VideoError.VIDEO_SUCCESS smallPlaying
            { tick := 1000, log := [] }
            (Reachable.opened 200 (openEnvOf smallAvi) ['s', '.', 'a', 'v', 'i'] smallHandle
              small_open_eq)
            small_play_eq)))
      (by decide),
    by decide, by decide⟩

theorem poll_count_inv (env : PlayEnv) (h : VideoHandle) (w : World) (hi : CountInv h) :
    CountInv (VIDEO_Poll env h w).2.1 ∧
    h.current_frame ≤ (VIDEO_Poll env h w).2.1.current_frame := by
  obtain ⟨i1, i2⟩ := hi
  obtain ⟨p1, -, -, -, -, p6, p7⟩ := poll_step env h w i1 (fun hp => (i2 hp).1)
  refine ⟨⟨by rw [p1]; exact i1, ?_⟩, p6⟩
  rw [p1]
  rcases p7 with ⟨q1, q2, q3, q4⟩ | ⟨-, q2⟩ | ⟨q0, -, e, q1, q3, q4, q5, q6⟩
  · rw [q1, q2, q3, q4]; exact i2
  · rw [q2]; intro hx; cases hx
  · intro _
    obtain ⟨j1, j2⟩ := i2 q0
    have hr : u32 (h.frames_rendered + 1) = h.frames_rendered + 1 := u32_of_lt (by omega)
    refine ⟨by rw [q4]; omega, ?_⟩
    rw [q4, q5, q6, hr]
    split
    · rw [u32_of_lt (by omega)]; omega
    · omega

theorem play_loop_count_inv (env : PlayEnv) (fuel : Nat) (h : VideoHandle) (w : World)
    (r : VideoError × VideoHandle × World) (hi : CountInv h)
    (hp : play_loop env fuel h w = Outcome.done r) : CountInv r.2.1 := by
  induction fuel generalizing h w with
  | zero => simp [play_loop] at hp
  | succ n ih =>
    rw [play_loop] at hp
    simp only [] at hp
    have hpi := (poll_count_inv env h w hi).1
    split at hp
    · split at hp
      · injection hp with hp
        rw [← hp]
        exact ⟨hpi.1, fun hx => by cases hx⟩
      · split at hp
        · injection hp with hp
          rw [← hp]; exact hpi
        · exact ih _ _ hpi hp
    · injection hp with hp
      rw [← hp]; exact hi

/-- After `play` on a freshly opened session the counter invariant holds. -/
theorem play_count_inv (fuel : Nat) (oenv : OpenEnv) (name : List Char) (h0 : VideoHandle)
    (hopen : VIDEO_Open fuel oenv (some name) true =
      Outcome.done (VideoError.VIDEO_SUCCESS, some h0))
    (env : PlayEnv) (pfuel : Nat) (w : World) (x y : Nat) (mode : VideoPlayMode)
    (r : VideoError × VideoHandle × World)
    (hplay : VIDEO_Play env pfuel h0 w x y mode = Outcome.done r) : CountInv r.2.1 := by
  obtain ⟨-, f2, -, f4, f5, f6, f7, -⟩ := VIDEO_Open_facts fuel oenv name true h0 hopen
  have hidle : CountInv h0 := ⟨f7, fun hx => by rw [f2] at hx; cases hx⟩
  unfold VIDEO_Play at hplay
  simp only [] at hplay
  split at hplay
  · injection hplay with hplay; rw [← hplay]; exact hidle
  · split at hplay
    · injection hplay with hplay; rw [← hplay]; exact hidle
    · split at hplay
      · refine play_loop_count_inv env pfuel _ w r ?_ hplay
        exact ⟨f7, fun _ => ⟨f6, by simp only [f4, f5]⟩⟩
      · injection hplay with hplay; rw [← hplay]
        exact ⟨f7, fun _ => ⟨f6, by simp only [f4, f5]⟩⟩

theorem poll_run_count_inv (env : PlayEnv) (delays : List Nat) (h : VideoHandle) (w : World)
    (hi : CountInv h) :
    List.Chain (fun a b => a.current_frame ≤ b.current_frame) h (poll_run env delays h w) ∧
    ∀ s ∈ poll_run env delays h w, CountInv s := by
  induction delays generalizing h w with
  | nil => exact ⟨List.Chain.nil, fun s hs => by cases hs⟩
  | cons d ds ih =>
    rw [poll_run]
    obtain ⟨k1, k2⟩ := poll_count_inv env h { w with tick := w.tick + d } hi
    obtain ⟨c1, c2⟩ := ih (VIDEO_Poll env h { w with tick := w.tick + d }).2.1
      (VIDEO_Poll env h { w with tick := w.tick + d }).2.2 k1
    refine ⟨List.Chain.cons k2 c1, fun s hs => ?_⟩
    rcases List.mem_cons.mp hs with hs | hs
    · rw [hs]; exact k1
    · exact c2 s hs

/-- C4: after `play` (in either mode, at any tick) on a freshly opened
session, along any sequence of polls made at arbitrary later ticks,
`current_frame` never decreases from one observation to the next, and in
every observed state that is Playing `frames_rendered + frames_skipped`
equals `current_frame`. -/
theorem poll_run_monotone (fuel : Nat) (oenv : OpenEnv) (name : List Char) (h0 : VideoHandle)
    (hopen : VIDEO_Open fuel oenv (some name) true =
      Outcome.done (VideoError.VIDEO_SUCCESS, some h0))
    (env : PlayEnv) (pfuel : Nat) (w : World) (x y : Nat) (mode : VideoPlayMode)
    (e : VideoError) (h1 : VideoHandle) (w1 : World)
    (hplay : VIDEO_Play env pfuel h0 w x y mode = Outcome.done (e, h1, w1))
    (delays : List Nat) :
    List.Chain (fun a b => a.current_frame ≤ b.current_frame) h1 (poll_run env delays h1 w1) ∧
    ∀ s ∈ h1 :: poll_run env delays h1 w1, s.state = VideoState.VIDEO_STATE_PLAYING →
      s.frames_rendered + s.frames_skipped = s.current_frame := by
  have hi : CountInv h1 := play_count_inv fuel oenv name h0 hopen env pfuel w x y mode _ hplay
  obtain ⟨c1, c2⟩ := poll_run_count_inv env delays h1 w1 hi
  refine ⟨c1, fun s hs hp => ?_⟩
  rcases List.mem_cons.mp hs with hs | hs
  · rw [hs] at hp ⊢; exact (hi.2 hp).2
  · exact ((c2 s hs).2 hp).2

/-- C4 at work: the six-frame session, played in polling mode at tick 1000 and
polled after delays of 0, 10, 50, 20 and 100 ms: the frame counter goes
1, 1, 2, 3, 6 (the last poll skips two frames and ends the clip), and rendered
plus skipped equals it at every observation. -/
theorem poll_run_monotone_witness :
    VIDEO_Open 200 (openEnvOf smallAvi) (some ['s', '.', 'a', 'v', 'i']) true =
      Outcome.done (VideoError.VIDEO_SUCCESS, some smallHandle) ∧
    VIDEO_Play demoPlayEnv 0 smallHandle { tick := 1000, log := [] } 0 0
        VideoPlayMode.VIDEO_PLAY_MODE_POLLING =
      Outcome.done (VideoError.VIDEO_SUCCESS, smallPlaying, { tick := 1000, log := [] }) ∧
    (List.Chain (fun a b => a.current_frame ≤ b.current_frame) smallPlaying
        (poll_run demoPlayEnv [0, 10, 50, 20, 100] smallPlaying { tick := 1000, log := [] }) ∧
      ∀ s ∈ smallPlaying ::
          poll_run demoPlayEnv [0, 10, 50, 20, 100] smallPlaying { tick := 1000, log := [] },
        s.state = VideoState.VIDEO_STATE_PLAYING →
          s.frames_rendered + s.frames_skipped = s.current_frame) ∧
    (poll_run demoPlayEnv [0, 10, 50, 20, 100] smallPlaying { tick := 1000, log := [] }).map
        (fun s => (s.current_frame, s.frames_rendered, s.frames_skipped)) =
      [(1, 1, 0), (1, 1, 0), (2, 2, 0), (3, 3, 0), (6, 4, 2)] :=
  ⟨small_open_eq, small_play_eq,
    poll_run_monotone 200 (openEnvOf smallAvi) ['s', '.', 'a', 'v', 'i'] smallHandle
      small_open_eq demoPlayEnv 0 { tick := 1000, log := [] } 0 0
      VideoPlayMode.VIDEO_PLAY_MODE_POLLING VideoError.VIDEO_SUCCESS smallPlaying
      { tick := 1000, log := [] } small_play_eq [0, 10, 50, 20, 100],
    by decide⟩

/-! ## Skipping and full playback -/

/-! ## Polling mode never renders early -/

/-- A polling-mode poll that finds the slot of the current frame not yet
reached (in the 32-bit arithmetic of the code) changes nothing. -/
theorem poll_early_return (env : PlayEnv) (h : VideoHandle) (w : World)
    (hopen : h.is_open = true) (hplay : h.state = VideoState.VIDEO_STATE_PLAYING)
    (hmode : h.play_mode = VideoPlayMode.VIDEO_PLAY_MODE_POLLING)
    (hexp : elapsed_us h w / h.frame_duration_us < h.info.total_frames)
    (hearly : elapsed_us h w < u32 (h.current_frame * h.frame_duration_us)) :
    VIDEO_Poll env h w = (VideoError.VIDEO_SUCCESS, h, w) := by
  unfold VIDEO_Poll
  rw [if_neg (by simp [hopen]), if_neg (by simp [hplay])]
  simp only []
  rw [if_neg (by omega), if_pos ⟨hmode, hearly⟩]

/-- A rendering that reports success has advanced the frame counter by one. -/
theorem poll_render_success (env : PlayEnv) (h : VideoHandle) (w : World)
    (hres : (poll_render env h w).1 = VideoError.VIDEO_SUCCESS) :
    (poll_render env h w).2.1.current_frame = u32 (h.current_frame + 1) := by
  have hd := decode_and_display_handle env h w
  unfold poll_render at hres ⊢
  simp only [] at hres ⊢
  split at hres
  · rename_i hne
    exact absurd hres hne
  · rename_i hne
    rw [if_neg hne]
    split at hres
    · cases hres
    · rename_i hge
      rw [if_neg hge]
      split <;> (rw [hd])

/-- A polling-mode poll of a Playing session that returns success after the
slot test has let it through leaves the frame counter one past the frame it
worked on. -/
theorem poll_success_frame (env : PlayEnv) (h : VideoHandle) (w : World)
    (hopen : h.is_open = true) (hplay : h.state = VideoState.VIDEO_STATE_PLAYING)
    (hT : h.info.total_frames < U32)
    (hexp : elapsed_us h w / h.frame_duration_us < h.info.total_frames)
    (hlt : h.current_frame < h.info.total_frames)
    (hnot : ¬(h.play_mode = VideoPlayMode.VIDEO_PLAY_MODE_POLLING ∧
      elapsed_us h w < u32 (h.current_frame * h.frame_duration_us)))
    (hres : (VIDEO_Poll env h w).1 = VideoError.VIDEO_SUCCESS) :
    (VIDEO_Poll env h w).2.1.current_frame = poll_frame h w + 1 := by
  unfold poll_frame
  unfold VIDEO_Poll at hres ⊢
  rw [if_neg (by simp [hopen]), if_neg (by simp [hplay])] at hres ⊢
  simp only [] at hres ⊢
  rw [if_neg (by omega), if_neg hnot] at hres ⊢
  by_cases hgt : elapsed_us h w / h.frame_duration_us > h.current_frame
  · rw [if_pos hgt] at hres ⊢
    rw [if_pos hgt]
    split at hres
    · rename_i hs
      exact absurd hres hs
    · rename_i hs
      rw [if_neg hs]
      rw [poll_render_success env _ w hres]
      exact u32_of_lt (show elapsed_us h w / h.frame_duration_us + 1 < U32 by omega)
  · rw [if_neg hgt] at hres ⊢
    rw [if_neg hgt]
    rw [poll_render_success env _ w hres]
    exact u32_of_lt (show h.current_frame + 1 < U32 by omega)

/-- C11, as the code has it: in polling mode, on a Playing session whose
current frame's slot start `current_frame * frame_duration_us` fits 32 bits
(playback position below 2^32 microseconds, about 71.6 minutes): a poll made
before that slot starts returns success and changes neither the session nor
the trace; and every poll that hands a payload to a decoder works on a frame
`f` (the expected frame when behind, the current frame otherwise) with
`f * frame_duration_us ≤ elapsed_us`, the frame counter being `f + 1` after a
successful return. -/
theorem polling_never_early (env : PlayEnv) (h : VideoHandle) (w : World)
    (hopen : h.is_open = true) (hplay : h.state = VideoState.VIDEO_STATE_PLAYING)
    (hmode : h.play_mode = VideoPlayMode.VIDEO_PLAY_MODE_POLLING)
    (hlt : h.current_frame < h.info.total_frames) (hT : h.info.total_frames < U32)
    (hnw : h.current_frame * h.frame_duration_us < U32) :
    (elapsed_us h w < h.current_frame * h.frame_duration_us →
      VIDEO_Poll env h w = (VideoError.VIDEO_SUCCESS, h, w)) ∧
    (decodes (VIDEO_Poll env h w).2.2.log ≠ decodes w.log →
      poll_frame h w * h.frame_duration_us ≤ elapsed_us h w ∧
      ((VIDEO_Poll env h w).1 = VideoError.VIDEO_SUCCESS →
        (VIDEO_Poll env h w).2.1.current_frame = poll_frame h w + 1)) := by
  have hu : u32 (h.current_frame * h.frame_duration_us) =
      h.current_frame * h.frame_duration_us := u32_of_lt hnw
  have hA : elapsed_us h w < h.current_frame * h.frame_duration_us →
      VIDEO_Poll env h w = (VideoError.VIDEO_SUCCESS, h, w) := by
    intro hearly
    have hexp : elapsed_us h w / h.frame_duration_us < h.info.total_frames := by
      have : elapsed_us h w / h.frame_duration_us < h.current_frame :=
        Nat.div_lt_of_lt_mul (by rw [Nat.mul_comm]; exact hearly)
      omega
    exact poll_early_return env h w hopen hplay hmode hexp (by rw [hu]; exact hearly)
  refine ⟨hA, fun hchg => ?_⟩
  have hne : ¬ elapsed_us h w < h.current_frame * h.frame_duration_us := by
    intro hearly
    rw [hA hearly] at hchg
    exact hchg rfl
  have hexp : elapsed_us h w / h.frame_duration_us < h.info.total_frames := by
    by_contra hge
    apply hchg
    unfold VIDEO_Poll
    rw [if_neg (by simp [hopen]), if_neg (by simp [hplay])]
    simp only []
    rw [if_pos (by omega)]
  refine ⟨?_, fun hres => poll_success_frame env h w hopen hplay hT hexp hlt
    (by rw [hu]; exact fun hx => hne hx.2) hres⟩
  unfold poll_frame
  split
  · exact Nat.div_mul_le_self _ _
  · omega

/-- C11 at work: the six-frame session after its first poll (frame 1 is due
33.333 ms after the start at tick 1000).  A poll at tick 1020 changes nothing;
the poll at tick 1040 decodes the payload of frame 1 at offset 242. -/
theorem polling_never_early_witness :
    smallAfterFirst.current_frame = 1 ∧ smallAfterFirst.frame_duration_us = 33333 ∧
    VIDEO_Poll demoPlayEnv smallAfterFirst { tick := 1020, log := [] } =
      (VideoError.VIDEO_SUCCESS, smallAfterFirst, { tick := 1020, log := [] }) ∧
    decodes (VIDEO_Poll demoPlayEnv smallAfterFirst { tick := 1040, log := [] }).2.2.log =
      [(242, 2)] ∧
    poll_frame smallAfterFirst { tick := 1040, log := [] } = 1 ∧
    poll_frame smallAfterFirst { tick := 1040, log := [] } *
        smallAfterFirst.frame_duration_us ≤
      elapsed_us smallAfterFirst { tick := 1040, log := [] } ∧
    (VIDEO_Poll demoPlayEnv smallAfterFirst { tick := 1040, log := [] }).2.1.current_frame =
      poll_frame smallAfterFirst { tick := 1040, log := [] } + 1 :=
  have h20 := polling_never_early demoPlayEnv smallAfterFirst { tick := 1020, log := [] }
    (by decide) (by decide) (by decide) (by decide) (by decide) (by decide)
  have h40 := polling_never_early demoPlayEnv smallAfterFirst { tick := 1040, log := [] }
    (by decide) (by decide) (by decide) (by decide) (by decide) (by decide)
  ⟨by decide, by decide, h20.1 (by decide), by decide, by decide,
    (h40.2 (by decide)).1, (h40.2 (by decide)).2 (by decide)⟩

/-- C11 as stated fails when `current_frame * frame_duration_us` no longer
fits 32 bits: in polling mode, with frame 4295 of a one-frame-per-second clip
next and 4294.5 s elapsed, the slot of frame 4295 (4295000000 µs) has not
started, yet the poll hands a payload to the decoder and advances the frame
counter to 4296; the product wraps to 32704 in the slot test. -/
theorem polling_early_after_wrap :
    lateHandle.is_open = true ∧ lateHandle.state = VideoState.VIDEO_STATE_PLAYING ∧
    lateHandle.play_mode = VideoPlayMode.VIDEO_PLAY_MODE_POLLING ∧
    lateHandle.current_frame = 4295 ∧ lateHandle.current_frame < lateHandle.info.total_frames ∧
    elapsed_us lateHandle { tick := 4294500, log := [] } = 4294500000 ∧
    elapsed_us lateHandle { tick := 4294500, log := [] } <
      lateHandle.current_frame * lateHandle.frame_duration_us ∧
    u32 (lateHandle.current_frame * lateHandle.frame_duration_us) = 32704 ∧
    (VIDEO_Poll demoPlayEnv lateHandle { tick := 4294500, log := [] }).1 =
      VideoError.VIDEO_SUCCESS ∧
    decodes (VIDEO_Poll demoPlayEnv lateHandle { tick := 4294500, log := [] }).2.2.log =
      [(242, 2)] ∧
    (VIDEO_Poll demoPlayEnv lateHandle { tick := 4294500, log := [] }).2.1.current_frame =
      4296 := by
  decide

/-! ## Rate, geometry, duration; play and stop -/

/-- For every container that opens, the rate is at least 1 and the frame
duration is `1000000 / fps`, within `fps` of the exact quotient. -/
theorem open_rate_and_duration (fuel : Nat) (env : OpenEnv) (name : List Char)
    (h : VideoHandle)
    (hopen : VIDEO_Open fuel env (some name) true =
      Outcome.done (VideoError.VIDEO_SUCCESS, some h)) :
    1 ≤ h.info.fps ∧ h.frame_duration_us = 1000000 / h.info.fps ∧
    h.frame_duration_us * h.info.fps ≤ 1000000 ∧
    1000000 - h.frame_duration_us * h.info.fps < h.info.fps := by
  obtain ⟨-, -, -, -, -, -, -, f8, -, f10, -⟩ := VIDEO_Open_facts fuel env name true h hopen
  refine ⟨f8, f10, ?_, ?_⟩
  · rw [f10]; exact Nat.div_mul_le_self _ _
  · rw [f10]
    have h1 := Nat.div_add_mod 1000000 h.info.fps
    have h2 := Nat.mod_lt 1000000 f8
    rw [Nat.mul_comm] at h1
    omega

/-- C12 (the code departs from it): a declared rate of zero is coerced to 30
frames per second, but a container whose header list has no main header
leaves `info.fps` at zero, the parser and the frame count succeed, and
`VIDEO_Open` divides by zero at `1000 / vh->info.fps`. -/
theorem open_without_avih_divides_by_zero :
    VIDEO_Open 200 (openEnvOf noAvihAvi) (some ['n', '.', 'a', 'v', 'i']) true =
      Outcome.divZero ∧
    opens 200 (openEnvOf zeroRateAvi) ['z', '.', 'a', 'v', 'i'] = true ∧
    (openedHandle 200 (openEnvOf zeroRateAvi) ['z', '.', 'a', 'v', 'i']).info.fps = 30 ∧
    (openedHandle 200 (openEnvOf zeroRateAvi) ['z', '.', 'a', 'v', 'i']).frame_duration_us =
      33333 := by
  decide

/-- C14 (the code departs from it): a container with a 160 x 128 video stream
followed by a PCM audio stream opens with width 44100 and height 45328: the
audio stream's 16-byte format chunk is read as a bitmap-info header, its
sample rate and byte rate overwrite the geometry.  Without the audio stream
the same container reports 160 x 128. -/
theorem later_stream_overwrites_geometry :
    opens 200 (openEnvOf avAvi) ['v', '.', 'a', 'v', 'i'] = true ∧
    (openedHandle 200 (openEnvOf avAvi) ['v', '.', 'a', 'v', 'i']).info.width = 44100 ∧
    (openedHandle 200 (openEnvOf avAvi) ['v', '.', 'a', 'v', 'i']).info.height = 45328 ∧
    (openedHandle 200 (openEnvOf avAvi) ['v', '.', 'a', 'v', 'i']).info.codec =
      VideoCodec.VIDEO_CODEC_MJPG ∧
    opens 200 (openEnvOf videoOnlyAvi) ['v', '.', 'a', 'v', 'i'] = true ∧
    (openedHandle 200 (openEnvOf videoOnlyAvi) ['v', '.', 'a', 'v', 'i']).info.width = 160 ∧
    (openedHandle 200 (openEnvOf videoOnlyAvi) ['v', '.', 'a', 'v', 'i']).info.height = 128 := by
  decide

/-- C15 (the code departs from it): the raw example container declares 5
frames and holds 3; after open the session reports 3 frames at 30 frames per
second and a duration of 166 ms, the value `5 * 1000 / 30` computed from the
declared count when the main header was parsed, not `3 * 1000 / 30 = 100`. -/
theorem duration_from_declared_count :
    opens 200 (openEnvOf rawAvi) ['r', '.', 'a', 'v', 'i'] = true ∧
    word_at rawAvi 48 = 5 ∧
    rawHandle.info.total_frames = 3 ∧ rawHandle.info.fps = 30 ∧
    rawHandle.info.duration_ms = 166 ∧
    rawHandle.info.total_frames * 1000 / rawHandle.info.fps = 100 := by
  decide

/-- C16: on an open session, `play(x, y, polling)` with a frame that fits the
display returns success at once and leaves the session Playing with
`current_frame = 0`, both timestamps at the current tick, the display origin
`(x, y)` and the byte cursor at the frame-data start `movi_offset + 4`, the
trace untouched; with a frame that exceeds the display (in any mode) it
returns InvalidParameter and changes nothing. -/
theorem play_polling_contract (env : PlayEnv) (fuel : Nat) (h : VideoHandle) (w : World)
    (x y : Nat) (hopen : h.is_open = true) (hm : h.info.movi_offset + 4 < U32) :
    (x + h.info.width ≤ env.ST7735_WIDTH ∧ y + h.info.height ≤ env.ST7735_HEIGHT →
      VIDEO_Play env fuel h w x y VideoPlayMode.VIDEO_PLAY_MODE_POLLING =
        Outcome.done (VideoError.VIDEO_SUCCESS,
          { h with
            display_x := x, display_y := y,
            play_mode := VideoPlayMode.VIDEO_PLAY_MODE_POLLING, current_frame := 0,
            start_time_ms := get_tick_ms w, last_frame_time_ms := get_tick_ms w,
            state := VideoState.VIDEO_STATE_PLAYING,
            current_chunk_offset := h.info.movi_offset + 4 }, w)) ∧
    (x + h.info.width > env.ST7735_WIDTH ∨ y + h.info.height > env.ST7735_HEIGHT →
      ∀ mode, VIDEO_Play env fuel h w x y mode =
        Outcome.done (VideoError.VIDEO_ERROR_INVALID_PARAM, h, w)) := by
  constructor
  · intro hfit
    unfold VIDEO_Play
    rw [if_neg (by simp [hopen]), if_neg (by omega)]
    simp only [reduceCtorEq, if_false, u32_of_lt hm]
  · intro hbig mode
    unfold VIDEO_Play
    rw [if_neg (by simp [hopen]), if_pos hbig]

/-- C16 at work on the raw example session (frames of 1 x 2 pixels, display
160 x 128): play at (159, 126) succeeds, play at (160, 0) is refused. -/
theorem play_polling_contract_witness :
    rawHandle.is_open = true ∧ rawHandle.info.movi_offset + 4 < U32 ∧
    (VIDEO_Play demoPlayEnv 0 rawHandle { tick := 1000, log := [] } 159 126
        VideoPlayMode.VIDEO_PLAY_MODE_POLLING =
      Outcome.done (VideoError.VIDEO_SUCCESS,
        { rawHandle with
          display_x := 159, display_y := 126,
          play_mode := VideoPlayMode.VIDEO_PLAY_MODE_POLLING, current_frame := 0,
          start_time_ms := 1000, last_frame_time_ms := 1000,
          state := VideoState.VIDEO_STATE_PLAYING,
          current_chunk_offset := rawHandle.info.movi_offset + 4 },
        { tick := 1000, log := [] })) ∧
    VIDEO_Play demoPlayEnv 0 rawHandle { tick := 1000, log := [] } 160 0
        VideoPlayMode.VIDEO_PLAY_MODE_POLLING =
      Outcome.done (VideoError.VIDEO_ERROR_INVALID_PARAM, rawHandle,
        { tick := 1000, log := [] }) :=
  have hw := play_polling_contract demoPlayEnv 0 rawHandle { tick := 1000, log := [] }
    159 126 (by decide) (by decide)
  have hv := play_polling_contract demoPlayEnv 0 rawHandle { tick := 1000, log := [] }
    160 0 (by decide) (by decide)
  ⟨by decide, by decide, hw.1 (by decide),
    hv.2 (by decide) VideoPlayMode.VIDEO_PLAY_MODE_POLLING⟩

/-- `VIDEO_Open` does not touch the byte cursor: it is still zero from the
`memset` when the session is handed out. -/
theorem VIDEO_Open_cursor (fuel : Nat) (env : OpenEnv) (name : List Char) (ho : Bool)
    (h : VideoHandle)
    (hopen : VIDEO_Open fuel env (some name) ho =
      Outcome.done (VideoError.VIDEO_SUCCESS, some h)) :
    h.current_chunk_offset = 0 := by
  obtain ⟨vh1, f1, r, sw, vh3, hparse, hcount, hr, hfps, hdet, hh⟩ :=
    VIDEO_Open_stages fuel env name ho h hopen
  have hk := parse_avi_header_keeps _ _ _ _ hparse
  have hd := detect_keeps _ _ _ _ hdet
  obtain ⟨hctl, -⟩ := hk
  simp only [ctl, open_init, zeroHandle, Prod.mk.injEq] at hctl
  obtain ⟨-, -, -, -, -, -, -, -, -, -, -, -, -, -, c15, -⟩ := hctl
  rw [hh, hd.1]
  exact c15

/-- C17, as the code has it: open yields state Idle with `current_frame = 0`
and the byte cursor still at 0; stop on an open session, whatever its state,
succeeds and changes only the state (to Idle) and `current_frame` (to 0), so
the byte cursor stays where playback left it.  The cursor is put at the
frame-data start by `play`, not by open or stop. -/
theorem idle_after_open_and_stop :
    (∀ (fuel : Nat) (env : OpenEnv) (name : List Char) (h : VideoHandle),
      VIDEO_Open fuel env (some name) true = Outcome.done (VideoError.VIDEO_SUCCESS, some h) →
      h.state = VideoState.VIDEO_STATE_IDLE ∧ h.current_frame = 0 ∧
      h.current_chunk_offset = 0) ∧
    (∀ h : VideoHandle, h.is_open = true →
      VIDEO_Stop h = (VideoError.VIDEO_SUCCESS,
        { h with state := VideoState.VIDEO_STATE_IDLE, current_frame := 0 }) ∧
      (VIDEO_Stop h).2.current_chunk_offset = h.current_chunk_offset) := by
  constructor
  · intro fuel env name h hopen
    obtain ⟨-, f2, f3, -⟩ := VIDEO_Open_facts fuel env name true h hopen
    exact ⟨f2, f3, VIDEO_Open_cursor fuel env name true h hopen⟩
  · intro h hopen
    unfold VIDEO_Stop
    rw [if_neg (by simp [hopen])]
    exact ⟨rfl, rfl⟩

/-- C17 at work on the six-frame session: Idle with cursor 0 after open; after
play and one poll the cursor is at 234, and stop leaves it there. -/
theorem idle_after_open_and_stop_witness :
    (smallHandle.state = VideoState.VIDEO_STATE_IDLE ∧ smallHandle.current_frame = 0 ∧
      smallHandle.current_chunk_offset = 0) ∧
    smallAfterFirst.is_open = true ∧
    (VIDEO_Stop smallAfterFirst = (VideoError.VIDEO_SUCCESS,
        { smallAfterFirst with state := VideoState.VIDEO_STATE_IDLE, current_frame := 0 }) ∧
      (VIDEO_Stop smallAfterFirst).2.current_chunk_offset =
        smallAfterFirst.current_chunk_offset) ∧
    smallAfterFirst.current_chunk_offset = 234 :=
  ⟨idle_after_open_and_stop.1 200 (openEnvOf smallAvi) ['s', '.', 'a', 'v', 'i'] smallHandle
      small_open_eq,
    by decide, idle_after_open_and_stop.2 smallAfterFirst (by decide), by decide⟩

/-- C17 as stated fails: the six-frame session is Idle right after open with
the byte cursor at 0, and Idle after play, one poll and stop with the cursor
at 234; the frame-data start is at 224 in both cases. -/
theorem idle_cursor_not_at_start :
    opens 200 (openEnvOf smallAvi) ['s', '.', 'a', 'v', 'i'] = true ∧
    smallHandle.state = VideoState.VIDEO_STATE_IDLE ∧
    smallHandle.current_chunk_offset = 0 ∧ smallHandle.info.movi_offset + 4 = 224 ∧
    (VIDEO_Stop smallAfterFirst).1 = VideoError.VIDEO_SUCCESS ∧
    (VIDEO_Stop smallAfterFirst).2.state = VideoState.VIDEO_STATE_IDLE ∧
    (VIDEO_Stop smallAfterFirst).2.current_frame = 0 ∧
    (VIDEO_Stop smallAfterFirst).2.current_chunk_offset = 234 ∧
    (VIDEO_Stop smallAfterFirst).2.info.movi_offset + 4 = 224 := by
  decide

/-! ## Codec and format -/

theorem strl_loop_inv (P : ParseSt → Prop) (hP : ParseClosed P) (fuel : Nat)
    (st st1 : ParseSt) (e : Nat) (hst : P st)
    (h : strl_loop fuel st e = Outcome.done st1) : P st1 := by
  obtain ⟨hfile, -, hchunk, -⟩ := hP
  induction fuel generalizing st with
  | zero => simp [strl_loop] at h
  | succ n ih =>
    rw [strl_loop] at h
    simp only [] at h
    split at h
    · exact ih _ (hfile _ _ (hchunk _ _ (hfile _ _ hst))) h
    · injection h with h
      rw [← h]; exact hst

theorem hdrl_loop_inv (P : ParseSt → Prop) (hP : ParseClosed P) (fuel : Nat)
    (st st1 : ParseSt) (e : Nat) (hst : P st)
    (h : hdrl_loop fuel st e = Outcome.done st1) : P st1 := by
  have hP0 := hP
  obtain ⟨hfile, havih, -, -⟩ := hP
  induction fuel generalizing st with
  | zero => simp [hdrl_loop] at h
  | succ n ih =>
    rw [hdrl_loop] at h
    simp only [] at h
    split at h
    · split at h
      · exact ih _ (hfile _ _ (havih _ (hfile _ _ hst))) h
      · split at h
        · split at h
          · split at h
            · rename_i st2 hst2
              exact ih _ (hfile _ _ (strl_loop_inv P hP0 _ _ _ _ (hfile _ _ hst) hst2)) h
            · cases h
            · cases h
          · exact ih _ (hfile _ _ hst) h
        · exact ih _ (hfile _ _ hst) h
    · injection h with h
      rw [← h]; exact hst

theorem top_loop_inv (P : ParseSt → Prop) (hP : ParseClosed P) (fuel : Nat)
    (st st1 : ParseSt) (hst : P st)
    (h : top_loop fuel st = Outcome.done st1) : P st1 := by
  have hP0 := hP
  obtain ⟨hfile, -, -, hhdrl, hmovi, hidx⟩ := hP
  induction fuel generalizing st with
  | zero => simp [top_loop] at h
  | succ n ih =>
    rw [top_loop] at h
    simp only [] at h
    split at h
    · split at h
      · split at h
        · split at h
          · rename_i st2 hst2
            exact ih _ (hfile _ _ (hdrl_loop_inv P hP0 _ _ _ _ (hfile _ _ (hhdrl _ hst)) hst2)) h
          · cases h
          · cases h
        · split at h
          · exact ih _ (hmovi _ _ _ hst) h
          · exact ih _ (hfile _ _ hst) h
      · split at h
        · exact ih _ (hidx _ _ hst) h
        · exact ih _ (hfile _ _ hst) h
    · injection h with h
      rw [← h]; exact hst

theorem codecInv_closed : ParseClosed CodecInv := by
  refine ⟨fun st f h => h, fun st h => h, ?_, fun st h => h, fun st f off h => h,
    fun st f h => h⟩
  intro st id h
  unfold strl_chunk
  split
  · unfold parse_strh
    split
    · split
      · exact Or.inr ⟨rfl, Or.inl ⟨rfl, rfl⟩⟩
      · exact Or.inr ⟨rfl, Or.inr ⟨rfl, Or.inl rfl⟩⟩
    · exact h
  · split
    · rename_i hc
      rcases h with ⟨h1, -⟩ | ⟨h1, h2 | h2⟩
      · rw [h1] at hc; exact absurd hc.2 (by decide)
      · refine Or.inr ⟨h1, Or.inl ⟨h2.1, ?_⟩⟩
        show strf_format _ _ _ = _
        unfold strf_format
        rw [if_neg (by rw [h2.1]; decide)]
        exact h2.2
      · refine Or.inr ⟨h1, Or.inr ⟨h2.1, ?_⟩⟩
        show strf_format _ _ _ = _ ∨ strf_format _ _ _ = _
        unfold strf_format
        rw [if_pos h2.1]
        split
        · exact Or.inl rfl
        · split
          · exact Or.inr rfl
          · exact h2.2
    · exact h

/-- After a successful parse the codec is lossy with the lossy format, or raw
with one of the two raw formats. -/
theorem parse_codec_format (fuel : Nat) (h h1 : VideoHandle)
    (hc : h.info.codec = VideoCodec.VIDEO_CODEC_UNKNOWN)
    (hf : h.info.format = VideoFormat.VIDEO_FORMAT_UNKNOWN)
    (hp : parse_avi_header fuel h = Outcome.done (VideoError.VIDEO_SUCCESS, h1)) :
    (h1.info.codec = VideoCodec.VIDEO_CODEC_MJPG ∧
      h1.info.format = VideoFormat.VIDEO_FORMAT_MJPEG) ∨
    (h1.info.codec = VideoCodec.VIDEO_CODEC_RAW ∧
      (h1.info.format = VideoFormat.VIDEO_FORMAT_RAW_RGB565 ∨
       h1.info.format = VideoFormat.VIDEO_FORMAT_RAW_RGB888)) := by
  unfold parse_avi_header at hp
  simp only [] at hp
  split at hp
  · cases hp
  · split at hp
    · cases hp
    · split at hp
      · rename_i st hst
        injection hp with hp
        have hinv := top_loop_inv CodecInv codecInv_closed _ _ _
          (Or.inl ⟨rfl, hc, hf⟩) hst
        unfold parse_finish at hp
        split at hp
        · cases hp
        · simp only [] at hp
          split at hp
          · cases hp
          · injection hp with _ hp
            rw [← hp]
            split
            · exact Or.inr ⟨rfl, Or.inl rfl⟩
            · rename_i hv
              rcases hinv with ⟨h1, -⟩ | ⟨-, h2⟩
              · exact absurd h1 hv
              · exact h2
      · cases hp
      · cases hp

/-- Codec and format of every opened session. -/
theorem VIDEO_Open_codec (fuel : Nat) (env : OpenEnv) (name : List Char) (ho : Bool)
    (h : VideoHandle)
    (hopen : VIDEO_Open fuel env (some name) ho =
      Outcome.done (VideoError.VIDEO_SUCCESS, some h)) :
    (h.info.codec = VideoCodec.VIDEO_CODEC_MJPG ∧
      h.info.format = VideoFormat.VIDEO_FORMAT_MJPEG) ∨
    (h.info.codec = VideoCodec.VIDEO_CODEC_RAW ∧
      (h.info.format = VideoFormat.VIDEO_FORMAT_RAW_RGB565 ∨
       h.info.format = VideoFormat.VIDEO_FORMAT_RAW_RGB888)) := by
  obtain ⟨vh1, f1, r, sw, vh3, hparse, hcount, hr, hfps, hdet, hh⟩ :=
    VIDEO_Open_stages fuel env name ho h hopen
  have hd := detect_keeps _ _ _ _ hdet
  have hp := parse_codec_format fuel _ vh1 rfl rfl hparse
  rw [hh, hd.1]
  exact hp

/-! ## Streaming display of bitmaps -/

theorem byteAt_window (data : List Nat) (o n i : Nat) (hi : i < n) :
    byteAt ((data.drop o).take n) i = byteAt data (o + i) := by
  unfold byteAt
  rw [List.getD_eq_getElem?_getD, List.getD_eq_getElem?_getD, List.getElem?_take_of_lt hi,
    List.getElem?_drop]

/-- On a fault-free file that holds every row asked for, the row loop sends
one converted row after the other and succeeds. -/
theorem bmp_rows_ok (off rs bpp sx sy sw sh : Nat) (n : Nat) :
    ∀ (dy : Nat) (f : FIL) (log : List PicEvent), f.faults = [] → f.data.length < U32 →
      sy + sh ≤ U16 → dy + n = sh →
      (∀ k, dy ≤ k → k < sh → off + (sy + (sh - 1 - k)) * rs + rs ≤ f.data.length) →
      ∃ f1, bmp_rows off rs bpp sx sy sw sh n dy f log =
          (PicError.PIC_SUCCESS, f1, log ++ (List.range n).map (fun i =>
            PicEvent.spi (pixel_bytes (convert_row
              ((f.data.drop (off + (sy + (sh - 1 - (dy + i))) * rs)).take rs) sx sw bpp)))) ∧
        f1.data = f.data ∧ f1.faults = [] := by
  induction n with
  | zero =>
    intro dy f log hf _ _ _ _
    exact ⟨f, by simp [bmp_rows], rfl, hf⟩
  | succ n ih =>
    intro dy f log hf hL h16 hn hrows
    have hrow := hrows dy (le_refl _) (by omega)
    have hu16 : u16 (sy + (sh - 1 - dy)) = sy + (sh - 1 - dy) := by
      unfold u16; exact Nat.mod_eq_of_lt (by omega)
    have hu32 : u32 (off + (sy + (sh - 1 - dy)) * rs) = off + (sy + (sh - 1 - dy)) * rs :=
      u32_of_lt (by omega)
    have hs1 : (f_lseek f (off + (sy + (sh - 1 - dy)) * rs)).1 = FRESULT.FR_OK :=
      f_lseek_res _ _ hf
    have hsf : (f_lseek f (off + (sy + (sh - 1 - dy)) * rs)).2.faults = [] := by
      rw [f_lseek_faults, hf]
    have hsd : (f_lseek f (off + (sy + (sh - 1 - dy)) * rs)).2.data = f.data := f_lseek_data _ _
    have hsp : (f_lseek f (off + (sy + (sh - 1 - dy)) * rs)).2.fptr =
        off + (sy + (sh - 1 - dy)) * rs := by
      rw [f_lseek_fptr _ _ hf]; omega
    have hr1 : (f_read (f_lseek f (off + (sy + (sh - 1 - dy)) * rs)).2 rs).1 = FRESULT.FR_OK :=
      f_read_res _ _ hsf
    have hrb : (f_read (f_lseek f (off + (sy + (sh - 1 - dy)) * rs)).2 rs).2.1 =
        (f.data.drop (off + (sy + (sh - 1 - dy)) * rs)).take rs := by
      rw [f_read_bytes _ _ hsf, hsd, hsp]
    have hrl : ((f.data.drop (off + (sy + (sh - 1 - dy)) * rs)).take rs).length = rs := by
      rw [List.length_take, List.length_drop]; omega
    obtain ⟨f1, e1, e2, e3⟩ := ih (dy + 1)
      (f_read (f_lseek f (off + (sy + (sh - 1 - dy)) * rs)).2 rs).2.2
      (log ++ [PicEvent.spi (pixel_bytes (convert_row
        ((f.data.drop (off + (sy + (sh - 1 - dy)) * rs)).take rs) sx sw bpp))])
      (by rw [f_read_faults, hsf]) (by rw [f_read_data, hsd]; exact hL) h16 (by omega)
      (by
        intro k hk1 hk2
        rw [f_read_data, hsd]
        exact hrows k (by omega) hk2)
    have hlist : (List.range (n + 1)).map (fun i =>
          PicEvent.spi (pixel_bytes (convert_row
            ((f.data.drop (off + (sy + (sh - 1 - (dy + i))) * rs)).take rs) sx sw bpp))) =
        PicEvent.spi (pixel_bytes (convert_row
            ((f.data.drop (off + (sy + (sh - 1 - dy)) * rs)).take rs) sx sw bpp)) ::
          (List.range n).map (fun i =>
            PicEvent.spi (pixel_bytes (convert_row
              ((f.data.drop (off + (sy + (sh - 1 - (dy + 1 + i))) * rs)).take rs) sx sw bpp))) := by
      rw [List.range_succ_eq_map, List.map_cons, List.map_map]
      refine congrArg₂ List.cons rfl (List.map_congr_left ?_)
      intro i _
      simp only [Function.comp, Nat.succ_eq_add_one]
      rw [show dy + (i + 1) = dy + 1 + i by omega]
    refine ⟨f1, ?_, by rw [e2, f_read_data, hsd], e3⟩
    rw [bmp_rows]
    simp only [hu16, hu32]
    rw [if_neg (by rw [hs1]; simp), if_neg (by rw [hr1, hrb, hrl]; simp), hrb, e1,
      f_read_data, hsd, hlist, List.append_assoc]
    rfl

theorem abs16_lt (v : Nat) : abs16 v < U16 := by
  unfold abs16 u16
  split <;> exact Nat.mod_lt _ (by unfold U16; omega)

theorem bmp_stride_bound (w bpp dx : Nat) (hb : bpp = 24 ∨ bpp = 32) (hdx : dx < w) :
    dx * (bpp / 8) + 2 < bmp_stride w bpp := by
  unfold bmp_stride
  rcases hb with hb | hb <;> subst hb <;> omega

/-- What `display_bmp_streaming` sends for a valid sub-rectangle of a bitmap
whose rows are all in the file. -/
theorem display_bmp_streaming_ok (env : PicEnv) (f : FIL)
    (off bpp w h x y sx sy sw sh : Nat)
    (hmr : env.malloc_row = true) (hmd : env.malloc_display = true)
    (hf : f.faults = []) (hL : f.data.length < U32)
    (hb : bpp = 24 ∨ bpp = 32) (hw : w < U16) (hh : h < U16)
    (hsw : 0 < sw) (hsh : 0 < sh) (hx : sx + sw ≤ w) (hy : sy + sh ≤ h)
    (hrows : off + h * bmp_stride w bpp ≤ f.data.length) :
    ∃ f1, display_bmp_streaming env f off bpp w h x y sx sy sw sh =
      (PicError.PIC_SUCCESS, f1, bmp_region_trace f.data off bpp w x y sx sy sw sh) := by
  have hrs : u32 ((w * bpp + 31) / 32 * 4) = bmp_stride w bpp := by
    unfold bmp_stride
    rw [Nat.mul_comm]
    apply u32_of_lt
    unfold U16 at hw
    unfold U32
    rcases hb with hb | hb <;> subst hb <;> omega
  have hbp : bpp / 8 % 256 = bpp / 8 := by
    rcases hb with hb | hb <;> subst hb <;> rfl
  obtain ⟨f1, e1, -, -⟩ := bmp_rows_ok off (bmp_stride w bpp) (bpp / 8) sx sy sw sh sh 0 f
    [PicEvent.window x y ((x : Int) + sw - 1) ((y : Int) + sh - 1)] hf hL
    (by unfold U16 at *; omega) (by omega)
    (by
      intro k _ hk
      have h1 : (sy + (sh - 1 - k) + 1) * bmp_stride w bpp ≤ h * bmp_stride w bpp :=
        Nat.mul_le_mul_right _ (by omega)
      rw [Nat.add_mul, Nat.one_mul] at h1
      omega)
  refine ⟨f1, ?_⟩
  unfold display_bmp_streaming
  rw [if_neg (by omega)]
  simp only [hrs, hbp]
  rw [if_neg (by simp [hmr]), if_neg (by simp [hmd]), e1]
  unfold bmp_region_trace
  refine congrArg _ (congrArg _ ?_)
  rw [List.singleton_append]
  refine congrArg _ (List.map_congr_left ?_)
  intro dy hdy
  rw [List.mem_range] at hdy
  refine congrArg _ (congrArg _ ?_)
  unfold convert_row
  apply List.map_congr_left
  intro dx hdx
  rw [List.mem_range] at hdx
  have hux : u16 (sx + dx) = sx + dx := by
    unfold u16; exact Nat.mod_eq_of_lt (by omega)
  have hbd := bmp_stride_bound w bpp (sx + dx) hb (by omega)
  unfold bmp_pixel bmp_file_pixel
  rw [hux, Nat.zero_add, byteAt_window _ _ _ _ hbd, byteAt_window _ _ _ _ (by omega),
    byteAt_window _ _ _ _ (by omega)]
  simp only [Nat.add_assoc]

/-- The header read of `PIC_DisplayStreaming` on a fault-free file of at least
54 bytes. -/
theorem bmp_header_read (data : List Nat) (hlen : 54 ≤ data.length) :
    (f_read { data := data, fptr := 0, ops := 0, faults := [] } 54).1 = FRESULT.FR_OK ∧
    (f_read { data := data, fptr := 0, ops := 0, faults := [] } 54).2.1.length = 54 ∧
    (∀ i, i < 54 →
      byteAt (f_read { data := data, fptr := 0, ops := 0, faults := [] } 54).2.1 i =
        byteAt data i) ∧
    (f_read { data := data, fptr := 0, ops := 0, faults := [] } 54).2.2.data = data ∧
    (f_read { data := data, fptr := 0, ops := 0, faults := [] } 54).2.2.faults = [] := by
  have hb : (f_read { data := data, fptr := 0, ops := 0, faults := [] } 54).2.1 =
      (data.drop 0).take 54 := f_read_bytes _ _ rfl
  refine ⟨f_read_res _ _ rfl, ?_, ?_, f_read_data _ _, by rw [f_read_faults]⟩
  · rw [hb, List.drop_zero, List.length_take]; omega
  · intro i hi
    rw [hb, byteAt_window _ _ _ _ hi, Nat.zero_add]

/-- `PIC_DisplayStreaming` on a fault-free bitmap file with a sound header:
the default sizes, the rectangle test, and the call of
`display_bmp_streaming`. -/
theorem PIC_DisplayStreaming_bmp (env : PicEnv) (name : List Char) (x y sx sy sw sh : Nat)
    (hfmt : detect_image_format name = (PicError.PIC_SUCCESS, PicFormat.PIC_FORMAT_BMP))
    (hopen : env.fopen_result = FRESULT.FR_OK) (hfaults : env.faults = [])
    (hhdr : BmpHeaderOK env.data) :
    PIC_DisplayStreaming env (some name) x y sx sy sw sh =
      (if sx ≥ bmp_width env.data ∨ sy ≥ bmp_height env.data ∨
          (if sw = 0 then sub16 (bmp_width env.data) sx else sw) = 0 ∨
          (if sh = 0 then sub16 (bmp_height env.data) sy else sh) = 0 ∨
          sx + (if sw = 0 then sub16 (bmp_width env.data) sx else sw) > bmp_width env.data ∨
          sy + (if sh = 0 then sub16 (bmp_height env.data) sy else sh) > bmp_height env.data
        then (PicError.PIC_ERROR_INVALID_PARAM, [])
        else
          ((display_bmp_streaming env
              (f_read { data := env.data, fptr := 0, ops := 0, faults := [] } 54).2.2
              (bmp_data_offset env.data) (bmp_bpp env.data) (bmp_width env.data)
              (bmp_height env.data) x y sx sy
              (if sw = 0 then sub16 (bmp_width env.data) sx else sw)
              (if sh = 0 then sub16 (bmp_height env.data) sy else sh)).1,
           (display_bmp_streaming env
              (f_read { data := env.data, fptr := 0, ops := 0, faults := [] } 54).2.2
              (bmp_data_offset env.data) (bmp_bpp env.data) (bmp_width env.data)
              (bmp_height env.data) x y sx sy
              (if sw = 0 then sub16 (bmp_width env.data) sx else sw)
              (if sh = 0 then sub16 (bmp_height env.data) sy else sh)).2.2)) := by
  obtain ⟨h54, hB, hM, hbpp⟩ := hhdr
  obtain ⟨r1, r2, r3, -, -⟩ := bmp_header_read env.data h54
  have e32 : ∀ k, k + 3 < 54 →
      le32At (f_read { data := env.data, fptr := 0, ops := 0, faults := [] } 54).2.1 k =
        le32At env.data k := by
    intro k hk
    unfold le32At
    rw [r3 k (by omega), r3 (k + 1) (by omega), r3 (k + 2) (by omega), r3 (k + 3) (by omega)]
  have e16 : ∀ k, k + 1 < 54 →
      le16At (f_read { data := env.data, fptr := 0, ops := 0, faults := [] } 54).2.1 k =
        le16At env.data k := by
    intro k hk
    unfold le16At
    rw [r3 k (by omega), r3 (k + 1) (by omega)]
  have hsig : is_bmp_file
      (f_read { data := env.data, fptr := 0, ops := 0, faults := [] } 54).2.1 = true := by
    unfold is_bmp_file
    rw [r3 0 (by omega), r3 1 (by omega), hB, hM]
    rfl
  unfold PIC_DisplayStreaming
  simp only [hfmt, hfaults]
  rw [if_neg (by simp), if_neg (by simp [hopen]), if_neg (by rw [r1, r2]; simp),
    if_neg (by rw [hsig]; simp), e16 28 (by omega), e32 18 (by omega), e32 22 (by omega),
    e32 10 (by omega)]
  rw [if_neg (by
    unfold bmp_bpp at hbpp
    rcases hbpp with hb | hb <;> rw [hb] <;> simp)]
  rfl

theorem sub16_zero (a : Nat) (ha : a < U16) : sub16 a 0 = a := by
  unfold sub16 U16 at *
  omega

theorem bmp_region_whole (data : List Nat) (off bpp w h x y : Nat) :
    bmp_region_trace data off bpp w x y 0 0 w h = whole_bitmap_trace data off bpp w h x y := by
  unfold bmp_region_trace whole_bitmap_trace
  simp only [Nat.zero_add]

/-- C18: a 24- or 32-bit bitmap whose rows are all in the file, streamed whole
(source rectangle the entire picture, given explicitly or by the zero
defaults) on fault-free storage: the call succeeds, programs the window once
and then sends exactly `h` rows of `w` pixels; display row `dy` is made from
the file row at `data_offset + (h - 1 - dy) * stride` with
`stride = 4 * ceil(w * bit_depth / 32)`, every pixel from its B, G, R bytes by
`rgb888_to_565`. -/
theorem bmp_whole_image_streaming (env : PicEnv) (name : List Char) (x y : Nat)
    (hfmt : detect_image_format name = (PicError.PIC_SUCCESS, PicFormat.PIC_FORMAT_BMP))
    (hopen : env.fopen_result = FRESULT.FR_OK) (hfaults : env.faults = [])
    (hmr : env.malloc_row = true) (hmd : env.malloc_display = true)
    (hhdr : BmpHeaderOK env.data)
    (hW : 0 < bmp_width env.data) (hH : 0 < bmp_height env.data)
    (hL : env.data.length < U32)
    (hrows : bmp_data_offset env.data +
      bmp_height env.data * bmp_stride (bmp_width env.data) (bmp_bpp env.data) ≤
        env.data.length) :
    PIC_DisplayStreaming env (some name) x y 0 0 (bmp_width env.data) (bmp_height env.data) =
      (PicError.PIC_SUCCESS,
        whole_bitmap_trace env.data (bmp_data_offset env.data) (bmp_bpp env.data)
          (bmp_width env.data) (bmp_height env.data) x y) ∧
    PIC_DisplayStreaming env (some name) x y 0 0 0 0 =
      (PicError.PIC_SUCCESS,
        whole_bitmap_trace env.data (bmp_data_offset env.data) (bmp_bpp env.data)
          (bmp_width env.data) (bmp_height env.data) x y) := by
  have hw16 : bmp_width env.data < U16 := abs16_lt _
  have hh16 : bmp_height env.data < U16 := abs16_lt _
  obtain ⟨-, -, -, rd, rf⟩ := bmp_header_read env.data hhdr.1
  obtain ⟨f1, e1⟩ := display_bmp_streaming_ok env
    (f_read { data := env.data, fptr := 0, ops := 0, faults := [] } 54).2.2
    (bmp_data_offset env.data) (bmp_bpp env.data) (bmp_width env.data) (bmp_height env.data)
    x y 0 0 (bmp_width env.data) (bmp_height env.data) hmr hmd rf (by rw [rd]; exact hL)
    hhdr.2.2.2 hw16 hh16 hW hH (by omega) (by omega) (by rw [rd]; exact hrows)
  rw [rd, bmp_region_whole] at e1
  constructor
  · rw [PIC_DisplayStreaming_bmp env name x y 0 0 _ _ hfmt hopen hfaults hhdr]
    rw [if_neg (Nat.pos_iff_ne_zero.mp hW), if_neg (Nat.pos_iff_ne_zero.mp hH)]
    rw [if_neg (by omega), e1]
  · rw [PIC_DisplayStreaming_bmp env name x y 0 0 0 0 hfmt hopen hfaults hhdr]
    simp only [if_true, sub16_zero _ hw16, sub16_zero _ hh16]
    rw [if_neg (by omega), e1]

/-- The row loop ends with success or with a read error. -/
theorem bmp_rows_result (off rs bpp sx sy sw sh : Nat) (n : Nat) :
    ∀ (dy : Nat) (f : FIL) (log : List PicEvent),
      (bmp_rows off rs bpp sx sy sw sh n dy f log).1 = PicError.PIC_SUCCESS ∨
      (bmp_rows off rs bpp sx sy sw sh n dy f log).1 = PicError.PIC_ERROR_FILE_READ := by
  induction n with
  | zero => intro dy f log; exact Or.inl rfl
  | succ n ih =>
    intro dy f log
    rw [bmp_rows]
    simp only []
    split
    · exact Or.inr rfl
    · split
      · exact Or.inr rfl
      · exact ih _ _ _

/-- With a non-empty rectangle `display_bmp_streaming` does not report an
invalid parameter. -/
theorem display_bmp_streaming_result (env : PicEnv) (f : FIL)
    (off bpp w h x y sx sy sw sh : Nat) (hsw : sw ≠ 0) (hsh : sh ≠ 0) :
    (display_bmp_streaming env f off bpp w h x y sx sy sw sh).1 ≠
      PicError.PIC_ERROR_INVALID_PARAM := by
  unfold display_bmp_streaming
  rw [if_neg (by omega)]
  simp only []
  split
  · simp
  · split
    · simp
    · rcases bmp_rows_result off (u32 ((w * bpp + 31) / 32 * 4)) (bpp / 8 % 256) sx sy sw sh sh 0
        f [PicEvent.window x y ((x : Int) + sw - 1) ((y : Int) + sh - 1)] with hr | hr <;>
        rw [hr] <;> simp

theorem sub16_of_le (a b : Nat) (ha : a < U16) (hb : b ≤ a) : sub16 a b = a - b := by
  unfold sub16 U16 at *
  omega

/-- C20: on a fault-free bitmap file with a sound header of a `W` x `H`
picture, the streaming display replaces a zero `src_w` by `W - src_x` and a
zero `src_h` by `H - src_y`, and then returns InvalidParameter exactly when
`src_x ≥ W`, `src_y ≥ H`, `src_x + src_w > W` or `src_y + src_h > H`, in which
case nothing is sent to the display; every other rectangle is handed to
`display_bmp_streaming`, whose result is returned. -/
theorem bmp_rectangle_check (env : PicEnv) (name : List Char) (x y sx sy sw sh : Nat)
    (hfmt : detect_image_format name = (PicError.PIC_SUCCESS, PicFormat.PIC_FORMAT_BMP))
    (hopen : env.fopen_result = FRESULT.FR_OK) (hfaults : env.faults = [])
    (hhdr : BmpHeaderOK env.data) :
    ((PIC_DisplayStreaming env (some name) x y sx sy sw sh).1 =
        PicError.PIC_ERROR_INVALID_PARAM ↔
      (sx ≥ bmp_width env.data ∨ sy ≥ bmp_height env.data ∨
        sx + (if sw = 0 then bmp_width env.data - sx else sw) > bmp_width env.data ∨
        sy + (if sh = 0 then bmp_height env.data - sy else sh) > bmp_height env.data)) ∧
    ((sx ≥ bmp_width env.data ∨ sy ≥ bmp_height env.data ∨
        sx + (if sw = 0 then bmp_width env.data - sx else sw) > bmp_width env.data ∨
        sy + (if sh = 0 then bmp_height env.data - sy else sh) > bmp_height env.data) →
      PIC_DisplayStreaming env (some name) x y sx sy sw sh =
        (PicError.PIC_ERROR_INVALID_PARAM, [])) ∧
    (¬(sx ≥ bmp_width env.data ∨ sy ≥ bmp_height env.data ∨
        sx + (if sw = 0 then bmp_width env.data - sx else sw) > bmp_width env.data ∨
        sy + (if sh = 0 then bmp_height env.data - sy else sh) > bmp_height env.data) →
      PIC_DisplayStreaming env (some name) x y sx sy sw sh =
        ((display_bmp_streaming env
            (f_read { data := env.data, fptr := 0, ops := 0, faults := [] } 54).2.2
            (bmp_data_offset env.data) (bmp_bpp env.data) (bmp_width env.data)
            (bmp_height env.data) x y sx sy
            (if sw = 0 then bmp_width env.data - sx else sw)
            (if sh = 0 then bmp_height env.data - sy else sh)).1,
         (display_bmp_streaming env
            (f_read { data := env.data, fptr := 0, ops := 0, faults := [] } 54).2.2
            (bmp_data_offset env.data) (bmp_bpp env.data) (bmp_width env.data)
            (bmp_height env.data) x y sx sy
            (if sw = 0 then bmp_width env.data - sx else sw)
            (if sh = 0 then bmp_height env.data - sy else sh)).2.2)) := by
  have hw16 : bmp_width env.data < U16 := abs16_lt _
  have hh16 : bmp_height env.data < U16 := abs16_lt _
  have hred := PIC_DisplayStreaming_bmp env name x y sx sy sw sh hfmt hopen hfaults hhdr
  have hbad : (sx ≥ bmp_width env.data ∨ sy ≥ bmp_height env.data ∨
        sx + (if sw = 0 then bmp_width env.data - sx else sw) > bmp_width env.data ∨
        sy + (if sh = 0 then bmp_height env.data - sy else sh) > bmp_height env.data) →
      PIC_DisplayStreaming env (some name) x y sx sy sw sh =
        (PicError.PIC_ERROR_INVALID_PARAM, []) := by
    intro hc
    rw [hred, if_pos]
    by_cases h1 : sx ≥ bmp_width env.data
    · exact Or.inl h1
    by_cases h2 : sy ≥ bmp_height env.data
    · exact Or.inr (Or.inl h2)
    rw [sub16_of_le _ _ hw16 (by omega), sub16_of_le _ _ hh16 (by omega)]
    rcases hc with hc | hc | hc | hc
    · exact absurd hc h1
    · exact absurd hc h2
    · exact Or.inr (Or.inr (Or.inr (Or.inr (Or.inl hc))))
    · exact Or.inr (Or.inr (Or.inr (Or.inr (Or.inr hc))))
  have hgood : ¬(sx ≥ bmp_width env.data ∨ sy ≥ bmp_height env.data ∨
        sx + (if sw = 0 then bmp_width env.data - sx else sw) > bmp_width env.data ∨
        sy + (if sh = 0 then bmp_height env.data - sy else sh) > bmp_height env.data) →
      (if sw = 0 then bmp_width env.data - sx else sw) ≠ 0 ∧
      (if sh = 0 then bmp_height env.data - sy else sh) ≠ 0 ∧
      PIC_DisplayStreaming env (some name) x y sx sy sw sh =
        ((display_bmp_streaming env
            (f_read { data := env.data, fptr := 0, ops := 0, faults := [] } 54).2.2
            (bmp_data_offset env.data) (bmp_bpp env.data) (bmp_width env.data)
            (bmp_height env.data) x y sx sy
            (if sw = 0 then bmp_width env.data - sx else sw)
            (if sh = 0 then bmp_height env.data - sy else sh)).1,
         (display_bmp_streaming env
            (f_read { data := env.data, fptr := 0, ops := 0, faults := [] } 54).2.2
            (bmp_data_offset env.data) (bmp_bpp env.data) (bmp_width env.data)
            (bmp_height env.data) x y sx sy
            (if sw = 0 then bmp_width env.data - sx else sw)
            (if sh = 0 then bmp_height env.data - sy else sh)).2.2) := by
    intro hc
    have h1 : sx < bmp_width env.data := by
      by_contra hx; exact hc (Or.inl (by omega))
    have h2 : sy < bmp_height env.data := by
      by_contra hx; exact hc (Or.inr (Or.inl (by omega)))
    have h3 : ¬ sx + (if sw = 0 then bmp_width env.data - sx else sw) > bmp_width env.data :=
      fun hx => hc (Or.inr (Or.inr (Or.inl hx)))
    have h4 : ¬ sy + (if sh = 0 then bmp_height env.data - sy else sh) > bmp_height env.data :=
      fun hx => hc (Or.inr (Or.inr (Or.inr hx)))
    have hw0 : (if sw = 0 then bmp_width env.data - sx else sw) ≠ 0 := by
      split
      · omega
      · assumption
    have hh0 : (if sh = 0 then bmp_height env.data - sy else sh) ≠ 0 := by
      split
      · omega
      · assumption
    refine ⟨hw0, hh0, ?_⟩
    rw [hred, sub16_of_le _ _ hw16 (by omega), sub16_of_le _ _ hh16 (by omega), if_neg]
    intro hx
    rcases hx with hx | hx | hx | hx | hx | hx
    · omega
    · omega
    · exact hw0 hx
    · exact hh0 hx
    · exact h3 hx
    · exact h4 hx
  refine ⟨⟨fun hres => ?_, fun hc => by rw [hbad hc]⟩, hbad, fun hc => (hgood hc).2.2⟩
  by_contra hc
  obtain ⟨hw0, hh0, he⟩ := hgood hc
  rw [he] at hres
  exact display_bmp_streaming_result _ _ _ _ _ _ _ _ _ _ _ _ hw0 hh0 hres

/-- C18 at work on the 2 x 2 picture (stride 8, rows at offsets 54 and 62)
shown at (10, 20): one window, then the top row (blue, white) from the file
row at 62 and the bottom row (red, green) from the file row at 54. -/
theorem bmp_whole_image_streaming_witness :
    detect_image_format ['t', '.', 'b', 'm', 'p'] =
      (PicError.PIC_SUCCESS, PicFormat.PIC_FORMAT_BMP) ∧
    bmp_width tinyBmp = 2 ∧ bmp_height tinyBmp = 2 ∧ bmp_bpp tinyBmp = 24 ∧
    bmp_data_offset tinyBmp = 54 ∧ bmp_stride 2 24 = 8 ∧
    PIC_DisplayStreaming (picEnvOf tinyBmp) (some ['t', '.', 'b', 'm', 'p']) 10 20 0 0
        (bmp_width (picEnvOf tinyBmp).data) (bmp_height (picEnvOf tinyBmp).data) =
      (PicError.PIC_SUCCESS,
        whole_bitmap_trace (picEnvOf tinyBmp).data (bmp_data_offset (picEnvOf tinyBmp).data)
          (bmp_bpp (picEnvOf tinyBmp).data) (bmp_width (picEnvOf tinyBmp).data)
          (bmp_height (picEnvOf tinyBmp).data) 10 20) ∧
    whole_bitmap_trace tinyBmp 54 24 2 2 10 20 =
      [PicEvent.window 10 20 11 21, PicEvent.spi [0, 31, 255, 255],
        PicEvent.spi [248, 0, 7, 224]] :=
  have hw := bmp_whole_image_streaming (picEnvOf tinyBmp) ['t', '.', 'b', 'm', 'p'] 10 20
    (by decide) rfl rfl rfl rfl (by unfold BmpHeaderOK; decide) (by decide) (by decide)
    (by decide) (by decide)
  ⟨by decide, by decide, by decide, by decide, by decide, by decide, hw.1, by decide⟩

/-- C19 (the code departs from it): on the 2 x 2 picture whose top row is
blue, white and whose bottom row is red, green, the sub-rectangle
`src_x = 0, src_y = 0, src_w = 2, src_h = 1` (the top row, by the
documentation of `src_y`) is shown as red, green: the bottom row.  The
whole picture is shown with blue, white on top. -/
theorem bmp_region_counts_from_bottom :
    PIC_DisplayStreaming (picEnvOf tinyBmp) (some ['t', '.', 'b', 'm', 'p']) 0 0 0 0 2 1 =
      (PicError.PIC_SUCCESS, [PicEvent.window 0 0 1 0, PicEvent.spi [248, 0, 7, 224]]) ∧
    PIC_DisplayStreaming (picEnvOf tinyBmp) (some ['t', '.', 'b', 'm', 'p']) 0 0 0 0 2 2 =
      (PicError.PIC_SUCCESS,
        [PicEvent.window 0 0 1 1, PicEvent.spi [0, 31, 255, 255],
          PicEvent.spi [248, 0, 7, 224]]) ∧
    pixel_bytes [rgb888_to_565 0 0 255, rgb888_to_565 255 255 255] = [0, 31, 255, 255] ∧
    pixel_bytes [rgb888_to_565 255 0 0, rgb888_to_565 0 255 0] = [248, 0, 7, 224] := by
  decide

/-- C20 at work on the 2 x 2 picture: the rectangle `(1, 0, 0, 0)` becomes
`(1, 0, 1, 2)` and is shown; `(2, 0, 0, 0)` and `(1, 1, 2, 1)` are refused
with nothing sent. -/
theorem bmp_rectangle_check_witness :
    bmp_width tinyBmp = 2 ∧ bmp_height tinyBmp = 2 ∧
    PIC_DisplayStreaming (picEnvOf tinyBmp) (some ['t', '.', 'b', 'm', 'p']) 0 0 1 0 0 0 =
      (PicError.PIC_SUCCESS,
        [PicEvent.window 0 0 0 1, PicEvent.spi [255, 255], PicEvent.spi [7, 224]]) ∧
    PIC_DisplayStreaming (picEnvOf tinyBmp) (some ['t', '.', 'b', 'm', 'p']) 0 0 2 0 0 0 =
      (PicError.PIC_ERROR_INVALID_PARAM, []) ∧
    PIC_DisplayStreaming (picEnvOf tinyBmp) (some ['t', '.', 'b', 'm', 'p']) 0 0 1 1 2 1 =
      (PicError.PIC_ERROR_INVALID_PARAM, []) :=
  have h1 := bmp_rectangle_check (picEnvOf tinyBmp) ['t', '.', 'b', 'm', 'p'] 0 0 1 0 0 0
    (by decide) rfl rfl (by unfold BmpHeaderOK; decide)
  have h2 := bmp_rectangle_check (picEnvOf tinyBmp) ['t', '.', 'b', 'm', 'p'] 0 0 2 0 0 0
    (by decide) rfl rfl (by unfold BmpHeaderOK; decide)
  have h3 := bmp_rectangle_check (picEnvOf tinyBmp) ['t', '.', 'b', 'm', 'p'] 0 0 1 1 2 1
    (by decide) rfl rfl (by unfold BmpHeaderOK; decide)
  ⟨by decide, by decide, (h1.2.2 (by decide)).trans (by decide), h2.2.1 (by decide),
    h3.2.1 (by decide)⟩

/-! ## Microsecond arithmetic, the pull callback and the scale search -/

/-- C30: the expected frame of the scheduler is computed in 32 bits:
`elapsed_us` is `(elapsed_ms * 1000) mod 2^32` with `elapsed_ms` the 32-bit
difference of the tick and the start timestamp; the quotient by
`frame_duration_us` is the true `elapsed_ms * 1000 / frame_duration_us` as long
as `elapsed_ms ≤ 4294967`, and strictly smaller than it for larger
`elapsed_ms` (the frame duration being a non-zero 32-bit value).  `VIDEO_Poll`
ends a Playing session when that quotient reaches `total_frames`, and
`VIDEO_NeedsRender` compares the same `elapsed_us` with the 32-bit product
`current_frame * frame_duration_us`. -/
theorem scheduler_microseconds_wrap (env : PlayEnv) (h : VideoHandle) (w : World)
    (hd0 : 0 < h.frame_duration_us) (hd32 : h.frame_duration_us < U32) :
    elapsed_us h w = (sub32 (get_tick_ms w) h.start_time_ms * 1000) % 4294967296 ∧
    (sub32 (get_tick_ms w) h.start_time_ms ≤ 4294967 →
      elapsed_us h w / h.frame_duration_us =
        sub32 (get_tick_ms w) h.start_time_ms * 1000 / h.frame_duration_us) ∧
    (4294967 < sub32 (get_tick_ms w) h.start_time_ms →
      elapsed_us h w / h.frame_duration_us <
        sub32 (get_tick_ms w) h.start_time_ms * 1000 / h.frame_duration_us) ∧
    (h.is_open = true → h.state = VideoState.VIDEO_STATE_PLAYING →
      elapsed_us h w / h.frame_duration_us ≥ h.info.total_frames →
      VIDEO_Poll env h w = (VideoError.VIDEO_ERROR_END_OF_VIDEO,
        { h with state := VideoState.VIDEO_STATE_ENDED }, w)) ∧
    (h.is_open = true → h.state = VideoState.VIDEO_STATE_PLAYING →
      (VIDEO_NeedsRender h w = true ↔
        elapsed_us h w ≥ u32 (h.current_frame * h.frame_duration_us))) := by
  refine ⟨rfl, ?_, ?_, ?_, ?_⟩
  · intro hle
    have : elapsed_us h w = sub32 (get_tick_ms w) h.start_time_ms * 1000 := by
      unfold elapsed_us
      apply u32_of_lt
      unfold U32
      omega
    rw [this]
  · intro hgt
    have hw : elapsed_us h w + U32 ≤ sub32 (get_tick_ms w) h.start_time_ms * 1000 := by
      unfold elapsed_us u32
      have h1 := Nat.div_add_mod (sub32 (get_tick_ms w) h.start_time_ms * 1000) U32
      have h2 : 1 ≤ sub32 (get_tick_ms w) h.start_time_ms * 1000 / U32 := by
        rw [Nat.le_div_iff_mul_le (by unfold U32; omega)]
        unfold U32
        omega
      have h3 : U32 * 1 ≤ U32 * (sub32 (get_tick_ms w) h.start_time_ms * 1000 / U32) :=
        Nat.mul_le_mul_left _ h2
      omega
    have h4 : elapsed_us h w / h.frame_duration_us + 1 ≤
        sub32 (get_tick_ms w) h.start_time_ms * 1000 / h.frame_duration_us := by
      rw [← Nat.add_div_right _ hd0]
      apply Nat.div_le_div_right
      omega
    omega
  · intro hopen hplay hge
    unfold VIDEO_Poll
    rw [if_neg (by simp [hopen]), if_neg (by simp [hplay])]
    simp only []
    rw [if_pos hge]
  · intro hopen hplay
    unfold VIDEO_NeedsRender
    rw [if_neg (by simp [hopen, hplay])]
    simp

/-- C30 at work on the six-frame session (start at tick 1000, frame duration
33333 µs): 4294968 ms after the start the product has wrapped to 704 µs and
the expected frame is 0, while the true quotient is 128850. -/
theorem scheduler_microseconds_wrap_witness :
    0 < smallAfterFirst.frame_duration_us ∧ smallAfterFirst.frame_duration_us < U32 ∧
    sub32 (get_tick_ms { tick := 4295968, log := [] }) smallAfterFirst.start_time_ms =
      4294968 ∧
    elapsed_us smallAfterFirst { tick := 4295968, log := [] } = 704 ∧
    elapsed_us smallAfterFirst { tick := 4295968, log := [] } /
        smallAfterFirst.frame_duration_us <
      sub32 (get_tick_ms { tick := 4295968, log := [] }) smallAfterFirst.start_time_ms * 1000 /
        smallAfterFirst.frame_duration_us ∧
    4294968 * 1000 / smallAfterFirst.frame_duration_us = 128850 ∧
    elapsed_us smallAfterFirst { tick := 4295967, log := [] } /
        smallAfterFirst.frame_duration_us =
      sub32 (get_tick_ms { tick := 4295967, log := [] }) smallAfterFirst.start_time_ms * 1000 /
        smallAfterFirst.frame_duration_us :=
  have hw := scheduler_microseconds_wrap demoPlayEnv smallAfterFirst
    { tick := 4295968, log := [] } (by decide) (by decide)
  have hv := scheduler_microseconds_wrap demoPlayEnv smallAfterFirst
    { tick := 4295967, log := [] } (by decide) (by decide)
  ⟨by decide, by decide, by decide, by decide, hw.2.2.1 (by decide), by decide,
    hv.2.1 (by decide)⟩

theorem sub32_of_le (a b : Nat) (ha : a < U32) (hb : b ≤ a) : sub32 a b = a - b := by
  unfold sub32 U32 at *
  omega

/-- C25: the pull callback of the video codec adapter, at read position `p`
with frame end `e` and `n` bytes requested: when `p ≥ e` it returns 0 and does
not touch the file; when `p < e` its only storage access is one `f_read` of
`min n (e - p)` bytes, and it returns the number of bytes that read delivered
(0 when the read fails).  On fault-free storage the bytes delivered are the
first `n` bytes of what is left of the frame, the count is `min n (e - p)`
when the file holds that many, and the read position stays at or below `e`. -/
theorem pull_never_past_frame_end (f : FIL) (e n : Nat) (hp : f.fptr < U32) (he : e < U32) :
    (f.fptr ≥ e → video_jpeg_input_func f e n = (0, [], f)) ∧
    (f.fptr < e →
      video_jpeg_input_func f e n =
        ((if (f_read f (min n (e - f.fptr))).1 = FRESULT.FR_OK then
            (f_read f (min n (e - f.fptr))).2.1.length else 0),
          (f_read f (min n (e - f.fptr))).2.1, (f_read f (min n (e - f.fptr))).2.2)) ∧
    (f.fptr < e → f.faults = [] →
      (video_jpeg_input_func f e n).2.1 = (frame_window f e).take n ∧
      (video_jpeg_input_func f e n).1 = (video_jpeg_input_func f e n).2.1.length ∧
      (f.fptr + min n (e - f.fptr) ≤ f.data.length →
        (video_jpeg_input_func f e n).1 = min n (e - f.fptr)) ∧
      (video_jpeg_input_func f e n).2.2.fptr ≤ e) := by
  have hu : u32 (f_tell f) = f.fptr := u32_of_lt hp
  have hlt : f.fptr < e →
      video_jpeg_input_func f e n =
        ((if (f_read f (min n (e - f.fptr))).1 = FRESULT.FR_OK then
            (f_read f (min n (e - f.fptr))).2.1.length else 0),
          (f_read f (min n (e - f.fptr))).2.1, (f_read f (min n (e - f.fptr))).2.2) := by
    intro hpe
    have hm : (if n > sub32 e f.fptr then sub32 e f.fptr else n) = min n (e - f.fptr) := by
      rw [sub32_of_le e f.fptr he (by omega)]
      split <;> omega
    unfold video_jpeg_input_func
    simp only [hu]
    rw [if_neg (by omega), hm]
    by_cases hok : (f_read f (min n (e - f.fptr))).1 = FRESULT.FR_OK
    · rw [if_neg (by simp [hok]), if_pos hok]
    · rw [if_pos hok, if_neg hok]
  refine ⟨?_, hlt, ?_⟩
  · intro hge
    unfold video_jpeg_input_func
    simp only [hu]
    rw [if_pos hge]
  · intro hpe hf
    rw [hlt hpe]
    have hb := f_read_bytes f (min n (e - f.fptr)) hf
    have hr := f_read_res f (min n (e - f.fptr)) hf
    have hq := f_read_fptr f (min n (e - f.fptr)) hf
    simp only [hr, if_true]
    refine ⟨?_, trivial, ?_, ?_⟩
    · rw [hb]
      unfold frame_window
      rw [List.take_take]
    · intro hin
      rw [hb, List.length_take, List.length_drop]
      omega
    · rw [hq]
      omega

/-- C25 at work on the six-frame session file: at position 232 with the frame
end at 234 a request for 512 bytes reads the two bytes of the frame; at
position 234 a request returns 0 and leaves the file alone. -/
theorem pull_never_past_frame_end_witness :
    video_jpeg_input_func { data := smallAvi, fptr := 232, ops := 0, faults := [] } 234 512 =
      (2, [0, 7], { data := smallAvi, fptr := 234, ops := 1, faults := [] }) ∧
    video_jpeg_input_func { data := smallAvi, fptr := 234, ops := 1, faults := [] } 234 512 =
      (0, [], { data := smallAvi, fptr := 234, ops := 1, faults := [] }) :=
  have h1 := pull_never_past_frame_end
    { data := smallAvi, fptr := 232, ops := 0, faults := [] } 234 512 (by decide) (by decide)
  have h2 := pull_never_past_frame_end
    { data := smallAvi, fptr := 234, ops := 1, faults := [] } 234 512 (by decide) (by decide)
  ⟨(h1.2.1 (by decide)).trans (by decide), h2.1 (by decide)⟩

/-- C26 (the code departs from it): on a 160 x 128 display a frame of
1288 x 128 pixels makes the scale search end with scale exponent 4 (factor
16), which is handed to `jd_decomp`; and a frame of 321 x 128 pixels gets
scale exponent 1 because `321 / 2 = 160` passes the fit test, while the output
width computed for it, `(321 + 1) / 2 = 161`, exceeds the display. -/
theorem scale_search_past_cap :
    mjpeg_scale 160 128 1288 128 = (4, 16) ∧
    (decode_mjpeg_frame wideJpegEnv smallPlaying { tick := 1000, log := [] } 232 2).2.2.log =
      [Event.decode VideoCodec.VIDEO_CODEC_MJPG 232 2, Event.jpeg 1288 128 4] ∧
    mjpeg_scale 160 128 321 128 = (1, 2) ∧
    mjpeg_display_size 160 128 321 128 = (161, 64) ∧
    mjpeg_scale 160 128 1280 128 = (3, 8) ∧ mjpeg_display_size 160 128 1280 128 = (160, 16) := by
  decide

/-! ## The endianness probe -/

theorem pixel_valid_true (p : Nat) : pixel_valid p = true := by
  unfold pixel_valid
  simp only [Bool.and_eq_true, decide_eq_true_eq]
  omega

theorem valid_counts_equal (bs : List Nat) : le_valid_count bs = be_valid_count bs := by
  unfold le_valid_count be_valid_count
  simp only [pixel_valid_true]

theorem sample_step_none (file : FIL) (cs o : Nat) : (sample_step file cs o).1 = none := by
  unfold sample_step
  simp only [valid_counts_equal, ne_eq, not_true_eq_false, if_false]
  split_ifs <;> rfl

theorem sample_chunk_none (cs : Nat) (os : List Nat) :
    ∀ file : FIL, (sample_chunk file cs os).1 = none := by
  induction os with
  | nil => intro file; rfl
  | cons o rest ih =>
    intro file
    rw [sample_chunk]
    have h := sample_step_none file cs o
    split
    · rename_i b f heq
      rw [heq] at h
      cases h
    · exact ih _

theorem detect_loop_none (fuel : Nat) :
    ∀ (file : FIL) (fs fc : Nat) (r : Option Bool) (f : FIL),
      detect_loop fuel file fs fc = Outcome.done (r, f) → r = none := by
  induction fuel with
  | zero => intro file fs fc r f h; simp [detect_loop] at h
  | succ n ih =>
    intro file fs fc r f h
    rw [detect_loop] at h
    simp only [] at h
    split at h
    · split at h
      · exact ih _ _ _ _ _ h
      · split at h
        · rename_i b f1 heq
          have hs := sample_chunk_none (read_le32 (read_le32 file).2).1
            (sample_offsets (read_le32 (read_le32 file).2).1) (read_le32 (read_le32 file).2).2
          rw [heq] at hs
          cases hs
        · exact ih _ _ _ _ _ h
    · injection h with h
      injection h with h1 h2
      exact h1.symm

/-- What the endianness probe returns, when it returns: the pixel samples
never decide. -/
theorem detect_result (fuel : Nat) (h h1 : VideoHandle) (b : Bool)
    (hd : detect_rgb565_endianness fuel h = Outcome.done (b, h1)) :
    b = (if h.info.codec ≠ VideoCodec.VIDEO_CODEC_RAW then false
         else if h.info.format = VideoFormat.VIDEO_FORMAT_RAW_RGB565_BE then false
         else if h.info.format = VideoFormat.VIDEO_FORMAT_RAW_RGB565_LE then true
         else (scan_name h.info.filename).getD true) := by
  unfold detect_rgb565_endianness at hd
  split at hd
  · rename_i hc
    rw [if_pos hc]
    injection hd with hd; injection hd with hb _; exact hb.symm
  · rename_i hc
    rw [if_neg hc]
    split at hd
    · rename_i hf
      rw [if_pos hf]
      injection hd with hd; injection hd with hb _; exact hb.symm
    · rename_i hf
      rw [if_neg hf]
      split at hd
      · rename_i hl
        rw [if_pos hl]
        injection hd with hd; injection hd with hb _; exact hb.symm
      · rename_i hl
        rw [if_neg hl]
        split at hd
        · rename_i b1 hs
          rw [hs]
          injection hd with hd; injection hd with hb _; exact hb.symm
        · rename_i hs
          rw [hs]
          simp only [] at hd
          split at hd
          · injection hd with hd; injection hd with hb _; exact hb.symm
          · split at hd
            · rename_i b1 f1 heq
              have := detect_loop_none _ _ _ _ _ _ heq
              cases this
            · injection hd with hd; injection hd with hb _; exact hb.symm
            · cases hd
            · cases hd

theorem getD_take_or (l : List Char) (m i : Nat) (d : Char) :
    (l.take m).getD i d = l.getD i d ∨ (l.take m).getD i d = d := by
  by_cases hi : i < m
  · left
    simp only [List.getD_eq_getElem?_getD]
    rw [List.getElem?_take_of_lt hi]
  · right
    simp only [List.getD_eq_getElem?_getD]
    rw [List.getElem?_eq_none (by simp only [List.length_take]; omega)]
    rfl

theorem getD_take_char (l : List Char) (m i : Nat) (c : Char) (hc : c ≠ Char.ofNat 0)
    (h : (l.take m).getD i (Char.ofNat 0) = c) : l.getD i (Char.ofNat 0) = c := by
  rcases getD_take_or l m i (Char.ofNat 0) with h1 | h1
  · rw [← h1]; exact h
  · rw [h1] at h; exact absurd h.symm hc

/-- A name without a marker has none in its first characters either. -/
theorem scan_name_take : ∀ (l : List Char) (n : Nat),
    scan_name l = none → scan_name (l.take n) = none := by
  intro l
  induction l with
  | nil => intro n h; simp [scan_name]
  | cons c rest ih =>
    intro n h
    cases n with
    | zero => simp [scan_name]
    | succ m =>
      rw [List.take_succ_cons, scan_name]
      rw [scan_name] at h
      have hrest : scan_name rest = none := by
        split_ifs at h <;> exact h
      have ihm := ih m hrest
      by_cases hA : c = '5' ∧ (rest.take m).getD 0 (Char.ofNat 0) = '6' ∧
          (rest.take m).getD 1 (Char.ofNat 0) = '5'
      · have hA0 : c = '5' ∧ rest.getD 0 (Char.ofNat 0) = '6' ∧
            rest.getD 1 (Char.ofNat 0) = '5' :=
          ⟨hA.1, getD_take_char _ _ _ _ (by decide) hA.2.1,
            getD_take_char _ _ _ _ (by decide) hA.2.2⟩
        rw [if_pos hA0] at h
        rw [if_pos hA]
        by_cases hB : (rest.getD 2 (Char.ofNat 0) = 'b' ∨ rest.getD 2 (Char.ofNat 0) = 'B') ∧
            (rest.getD 3 (Char.ofNat 0) = 'e' ∨ rest.getD 3 (Char.ofNat 0) = 'E')
        · rw [if_pos hB] at h; cases h
        rw [if_neg hB] at h
        by_cases hC : (rest.getD 2 (Char.ofNat 0) = 'l' ∨ rest.getD 2 (Char.ofNat 0) = 'L') ∧
            (rest.getD 3 (Char.ofNat 0) = 'e' ∨ rest.getD 3 (Char.ofNat 0) = 'E')
        · rw [if_pos hC] at h; cases h
        have hB1 : ¬ (((rest.take m).getD 2 (Char.ofNat 0) = 'b' ∨
              (rest.take m).getD 2 (Char.ofNat 0) = 'B') ∧
            ((rest.take m).getD 3 (Char.ofNat 0) = 'e' ∨
              (rest.take m).getD 3 (Char.ofNat 0) = 'E')) := by
          intro hh
          apply hB
          refine ⟨?_, ?_⟩
          · rcases hh.1 with h1 | h1
            · exact Or.inl (getD_take_char _ _ _ _ (by decide) h1)
            · exact Or.inr (getD_take_char _ _ _ _ (by decide) h1)
          · rcases hh.2 with h1 | h1
            · exact Or.inl (getD_take_char _ _ _ _ (by decide) h1)
            · exact Or.inr (getD_take_char _ _ _ _ (by decide) h1)
        have hC1 : ¬ (((rest.take m).getD 2 (Char.ofNat 0) = 'l' ∨
              (rest.take m).getD 2 (Char.ofNat 0) = 'L') ∧
            ((rest.take m).getD 3 (Char.ofNat 0) = 'e' ∨
              (rest.take m).getD 3 (Char.ofNat 0) = 'E')) := by
          intro hh
          apply hC
          refine ⟨?_, ?_⟩
          · rcases hh.1 with h1 | h1
            · exact Or.inl (getD_take_char _ _ _ _ (by decide) h1)
            · exact Or.inr (getD_take_char _ _ _ _ (by decide) h1)
          · rcases hh.2 with h1 | h1
            · exact Or.inl (getD_take_char _ _ _ _ (by decide) h1)
            · exact Or.inr (getD_take_char _ _ _ _ (by decide) h1)
        rw [if_neg hB1, if_neg hC1]
        exact ihm
      · rw [if_neg hA]
        exact ihm

/-- The byte-swap flag of an opened session, from its codec and file name. -/
theorem open_swap_flag (fuel : Nat) (env : OpenEnv) (name : List Char) (ho : Bool)
    (h : VideoHandle)
    (hopen : VIDEO_Open fuel env (some name) ho =
      Outcome.done (VideoError.VIDEO_SUCCESS, some h)) :
    h.info.filename = name.take 63 ∧
    (h.info.codec = VideoCodec.VIDEO_CODEC_MJPG → h.needs_byte_swap = false) ∧
    (h.info.codec = VideoCodec.VIDEO_CODEC_RAW →
      h.needs_byte_swap = (scan_name (name.take 63)).getD true) := by
  obtain ⟨vh1, f1, r, sw, vh3, hparse, hcount, hr, hfps, hdet, hh⟩ :=
    VIDEO_Open_stages fuel env name ho h hopen
  have hcod := VIDEO_Open_codec fuel env name ho h hopen
  have hd := detect_keeps _ _ _ _ hdet
  have hk := parse_avi_header_keeps fuel _ vh1 _ hparse
  have hres := detect_result _ _ _ _ hdet
  have hname : vh1.info.filename = name.take 63 := by
    rw [hk.2.2.2.2.1]; rfl
  have ec : h.info.codec = vh1.info.codec := by rw [hh, hd.1]; rfl
  have ef : h.info.format = vh1.info.format := by rw [hh, hd.1]; rfl
  have en : h.info.filename = vh1.info.filename := by rw [hh, hd.1]; rfl
  have hsw : h.needs_byte_swap = sw := by rw [hh]
  have hres1 : sw = (if vh1.info.codec ≠ VideoCodec.VIDEO_CODEC_RAW then false
         else if vh1.info.format = VideoFormat.VIDEO_FORMAT_RAW_RGB565_BE then false
         else if vh1.info.format = VideoFormat.VIDEO_FORMAT_RAW_RGB565_LE then true
         else (scan_name vh1.info.filename).getD true) := hres
  rw [← ec, ← ef, hname] at hres1
  refine ⟨en.trans hname, ?_, ?_⟩
  · intro hc
    rw [hsw, hres1, if_pos (by rw [hc]; decide)]
  · intro hc
    rcases hcod with ⟨h1, -⟩ | ⟨-, h2⟩
    · rw [hc] at h1; cases h1
    · rw [hsw, hres1, if_neg (by rw [hc]; simp)]
      rcases h2 with h2 | h2
      · rw [if_neg (by rw [h2]; decide), if_neg (by rw [h2]; decide)]
      · rw [if_neg (by rw [h2]; decide), if_neg (by rw [h2]; decide)]

/-- C28: the endianness probe run at open never looks at the outcome of its
pixel samples: every 16-bit value passes the validity test, so the two
validity counts of any sample are equal and no sample decides; hence for
every container that opens, whatever its bytes, a raw-codec session whose
file name holds no `565le`/`565be` marker reports that byte swapping is
needed, a raw-codec session with a marker in the first 63 characters of the
name reports what the marker says, and a lossy-codec session reports no
byte swap. -/
theorem endianness_ignores_pixels (fuel : Nat) (env : OpenEnv) (name : List Char) (ho : Bool)
    (h : VideoHandle)
    (hopen : VIDEO_Open fuel env (some name) ho =
      Outcome.done (VideoError.VIDEO_SUCCESS, some h)) :
    (∀ p : Nat, pixel_valid p = true) ∧
    (∀ bs : List Nat, le_valid_count bs = be_valid_count bs) ∧
    (∀ (file : FIL) (cs : Nat) (os : List Nat), (sample_chunk file cs os).1 = none) ∧
    (h.info.codec = VideoCodec.VIDEO_CODEC_RAW → scan_name name = none →
      h.needs_byte_swap = true) ∧
    (h.info.codec = VideoCodec.VIDEO_CODEC_RAW →
      ∀ b : Bool, scan_name (name.take 63) = some b → h.needs_byte_swap = b) ∧
    (h.info.codec = VideoCodec.VIDEO_CODEC_MJPG → h.needs_byte_swap = false) := by
  have hf := open_swap_flag fuel env name ho h hopen
  refine ⟨pixel_valid_true, valid_counts_equal, fun file cs os => sample_chunk_none cs os file,
    ?_, ?_, hf.2.1⟩
  · intro hc hn
    rw [hf.2.2 hc, scan_name_take name 63 hn]
    rfl
  · intro hc b hb
    rw [hf.2.2 hc, hb]
    rfl

/-- C28 at work on the raw example container, whose name `r.avi` holds no
marker: the session reports that byte swapping is needed, whatever the twelve
pixel bytes are. -/
theorem endianness_ignores_pixels_witness :
    VIDEO_Open 200 (openEnvOf rawAvi) (some ['r', '.', 'a', 'v', 'i']) true =
      Outcome.done (VideoError.VIDEO_SUCCESS, some rawHandle) ∧
    rawHandle.info.codec = VideoCodec.VIDEO_CODEC_RAW ∧
    scan_name ['r', '.', 'a', 'v', 'i'] = none ∧
    rawHandle.needs_byte_swap = true :=
  have hw := endianness_ignores_pixels 200 (openEnvOf rawAvi) ['r', '.', 'a', 'v', 'i'] true
    rawHandle raw_open_eq
  ⟨raw_open_eq, by decide, by decide, hw.2.2.2.1 (by decide) (by decide)⟩

/-! ## The raw-frame pipeline -/

theorem row_buf_succ (y : Nat) :
    (if y % 2 = 0 then RowBuf.B else RowBuf.A) = row_buf (y + 1) := by
  unfold row_buf
  by_cases h : y % 2 = 0
  · rw [if_pos h, if_neg (by omega)]
  · rw [if_neg h, if_pos (by omega)]

theorem raw_rows_pipeline (data : List Nat) (offset w H : Nat) (sw : Bool) (n : Nat) :
    ∀ (y : Nat) (cur nxt : List Nat) (file : FIL) (log : List Event),
      file.data = data → file.faults = [] → n + y = H →
      offset + 2 * w * H ≤ data.length →
      file.fptr = offset + 2 * w * min (y + 1) H →
      cur = sent_row data offset w sw y →
      (raw_rows (2 * w) sw H n y cur nxt file log).2 =
        log ++ pipeline_rows data offset w H sw n y := by
  induction n with
  | zero => intro y cur nxt file log _ _ _ _ _ _; simp [raw_rows, pipeline_rows]
  | succ n ih =>
    intro y cur nxt file log hd hf hn hlen hp hc
    rw [raw_rows, pipeline_rows]
    simp only []
    by_cases hy : y + 1 < H
    · rw [if_pos hy, if_pos hy]
      have hp1 : file.fptr = offset + 2 * w * (y + 1) := by
        rw [hp, Nat.min_eq_left (by omega)]
      have hmul : 2 * w * (y + 2) ≤ 2 * w * H := Nat.mul_le_mul_left _ (by omega)
      have hb : (f_read file (2 * w)).2.1 = frame_row data offset w (y + 1) := by
        rw [f_read_bytes _ _ hf, hd, hp1]; rfl
      have hbl : (frame_row data offset w (y + 1)).length = 2 * w := by
        unfold frame_row
        rw [List.length_take, List.length_drop]
        have : 2 * w * (y + 2) = 2 * w * (y + 1) + 2 * w := by ring
        omega
      rw [ih (y + 1) _ _ _ _ (by rw [f_read_data, hd]) (by rw [f_read_faults, hf]) (by omega)
        hlen ?_ ?_]
      · rw [f_read_res _ _ hf, hb, row_buf_succ, hc]
        simp only [row_buf, List.append_assoc, List.singleton_append, List.cons_append,
          List.nil_append]
      · rw [f_read_fptr _ _ hf, hd, hp1, Nat.min_eq_left (by omega : y + 1 + 1 ≤ H)]
        have : 2 * w * (y + 2) = 2 * w * (y + 1) + 2 * w := by ring
        have : 2 * w * (y + 1 + 1) = 2 * w * (y + 1) + 2 * w := by ring
        omega
      · unfold fill_row
        rw [f_read_res _ _ hf, hb, if_pos ⟨rfl, hbl⟩]
        rfl
    · rw [if_neg hy, if_neg hy]
      have hn0 : n = 0 := by omega
      subst hn0
      simp only [raw_rows, pipeline_rows, if_neg hy, hc, row_buf, List.append_assoc, List.singleton_append, List.cons_append,
          List.nil_append, List.append_nil]

theorem dma_starts_pipeline (data : List Nat) (offset w H : Nat) (sw : Bool) (n : Nat) :
    ∀ y : Nat, dma_starts (pipeline_rows data offset w H sw n y) =
      (List.range' y n).map (fun k => (row_buf k, sent_row data offset w sw k)) := by
  induction n with
  | zero => intro y; rfl
  | succ n ih =>
    intro y
    rw [pipeline_rows, List.range'_succ, List.map_cons]
    by_cases hy : y + 1 < H
    · rw [if_pos hy]
      simp only [List.append_assoc, List.singleton_append, List.cons_append, List.nil_append,
        dma_starts, ih]
    · rw [if_neg hy]
      simp only [List.append_assoc, List.singleton_append, List.cons_append, List.nil_append,
        dma_starts, ih]

theorem window_count_pipeline (data : List Nat) (offset w H : Nat) (sw : Bool) (n : Nat) :
    ∀ y : Nat, window_count (pipeline_rows data offset w H sw n y) = 0 := by
  induction n with
  | zero => intro y; rfl
  | succ n ih =>
    intro y
    rw [pipeline_rows]
    by_cases hy : y + 1 < H
    · rw [if_pos hy]
      simp only [List.append_assoc, List.singleton_append, List.cons_append, List.nil_append,
        window_count, ih]
    · rw [if_neg hy]
      simp only [List.append_assoc, List.singleton_append, List.cons_append, List.nil_append,
        window_count, ih]

theorem row_buf_ne_succ (y : Nat) : row_buf y ≠ row_buf (y + 1) := by
  unfold row_buf
  by_cases h : y % 2 = 0
  · rw [if_pos h, if_neg (by omega)]; decide
  · rw [if_neg h, if_pos (by omega)]; decide

theorem in_flight_ok_pipeline (data : List Nat) (offset w H : Nat) (sw : Bool) (n : Nat) :
    ∀ y : Nat, in_flight_ok none (pipeline_rows data offset w H sw n y) = true := by
  induction n with
  | zero => intro y; rfl
  | succ n ih =>
    intro y
    rw [pipeline_rows]
    by_cases hy : y + 1 < H
    · rw [if_pos hy]
      have hne : (some (row_buf y) ≠ some (row_buf (y + 1))) := by
        intro hc
        injection hc with hc
        exact row_buf_ne_succ y hc
      simp only [List.append_assoc, List.singleton_append, List.cons_append, List.nil_append,
        in_flight_ok, ih, Option.isNone_none, Bool.true_and, Bool.and_true, decide_eq_true_eq]
      exact hne
    · rw [if_neg hy]
      simp only [List.append_assoc, List.singleton_append, List.cons_append, List.nil_append,
        in_flight_ok, ih, Option.isNone_none, Bool.true_and]

/-- C27: a raw frame of width `w` (a row of `2*w` bytes fitting the 16-bit
row size) and height `h` stored at `offset`, all of whose rows are in the file
on fault-free storage, with the row buffers allocated: the raw decode path
succeeds and does exactly what the pipeline of the description does.  It
programs the window once, reads row 0 into buffer A, then for every row `y`
in file order starts the transfer of row `y` (bytes `[2*w*y, 2*w*(y+1))` of
the frame data, the two bytes of each pixel exchanged exactly when the
byte-swap flag is set) from buffer A for even `y` and B for odd `y`, reads
row `y+1` into the other buffer while that transfer is outstanding, and waits
for the transfer before the next one starts; `h` transfers are started, no
transfer is started while another is outstanding, and no row is read into the
buffer being transferred. -/
theorem raw_frame_pipeline (env : PlayEnv) (h : VideoHandle) (w : World) (offset size : Nat)
    (hm : env.malloc_rows = true) (hf : h.file.faults = [])
    (hw : h.info.width * 2 < U16)
    (hrows : offset + 2 * h.info.width * max h.info.height 1 ≤ h.file.data.length) :
    (decode_raw_frame env h w offset size).1 = VideoError.VIDEO_SUCCESS ∧
    (decode_raw_frame env h w offset size).2.2.log =
      w.log ++ raw_pipeline_trace h.file.data offset size h.info.width h.info.height
        h.needs_byte_swap h.display_x h.display_y ∧
    (decode_raw_frame env h w offset size).2.2.tick = w.tick ∧
    window_count (raw_pipeline_trace h.file.data offset size h.info.width h.info.height
        h.needs_byte_swap h.display_x h.display_y) = 1 ∧
    dma_starts (raw_pipeline_trace h.file.data offset size h.info.width h.info.height
        h.needs_byte_swap h.display_x h.display_y) =
      (List.range h.info.height).map (fun y =>
        (row_buf y, sent_row h.file.data offset h.info.width h.needs_byte_swap y)) ∧
    in_flight_ok none (raw_pipeline_trace h.file.data offset size h.info.width h.info.height
        h.needs_byte_swap h.display_x h.display_y) = true := by
  have hmax : 1 ≤ max h.info.height 1 := le_max_right _ _
  have hH : h.info.height ≤ max h.info.height 1 := le_max_left _ _
  have hm1 : 2 * h.info.width * 1 ≤ 2 * h.info.width * max h.info.height 1 :=
    Nat.mul_le_mul_left _ hmax
  have hm2 : 2 * h.info.width * h.info.height ≤ 2 * h.info.width * max h.info.height 1 :=
    Nat.mul_le_mul_left _ hH
  have hrbs : u16 (h.info.width * 2) = 2 * h.info.width := by
    unfold u16; rw [Nat.mod_eq_of_lt hw]; ring
  have hsf : (f_lseek h.file offset).2.faults = [] := by rw [f_lseek_faults, hf]
  have hsp : (f_lseek h.file offset).2.fptr = offset := by
    rw [f_lseek_fptr _ _ hf, Nat.min_eq_left (by omega)]
  have hb : (f_read (f_lseek h.file offset).2 (2 * h.info.width)).2.1 =
      frame_row h.file.data offset h.info.width 0 := by
    rw [f_read_bytes _ _ hsf, f_lseek_data, hsp]; rfl
  have hbl : (frame_row h.file.data offset h.info.width 0).length = 2 * h.info.width := by
    unfold frame_row
    rw [List.length_take, List.length_drop]
    omega
  have hrun : (raw_rows (2 * h.info.width) h.needs_byte_swap h.info.height h.info.height 0
      (if h.needs_byte_swap = true then swap_pairs (frame_row h.file.data offset h.info.width 0)
        else frame_row h.file.data offset h.info.width 0)
      ((List.range (2 * h.info.width)).map env.fresh_row)
      (f_read (f_lseek h.file offset).2 (2 * h.info.width)).2.2
      (w.log ++ [Event.decode VideoCodec.VIDEO_CODEC_RAW offset size] ++
        [Event.setWindow h.display_x h.display_y
          ((h.display_x : Int) + h.info.width - 1) ((h.display_y : Int) + h.info.height - 1)] ++
        [Event.readRow RowBuf.A FRESULT.FR_OK (frame_row h.file.data offset h.info.width 0)])).2 =
      (w.log ++ [Event.decode VideoCodec.VIDEO_CODEC_RAW offset size] ++
        [Event.setWindow h.display_x h.display_y
          ((h.display_x : Int) + h.info.width - 1) ((h.display_y : Int) + h.info.height - 1)] ++
        [Event.readRow RowBuf.A FRESULT.FR_OK (frame_row h.file.data offset h.info.width 0)]) ++
      pipeline_rows h.file.data offset h.info.width h.info.height h.needs_byte_swap
        h.info.height 0 := by
    by_cases h0 : h.info.height = 0
    · rw [h0]; simp only [raw_rows, pipeline_rows, List.append_nil]
    · exact raw_rows_pipeline h.file.data offset h.info.width h.info.height
        h.needs_byte_swap h.info.height 0 _ _ _ _
        (by rw [f_read_data, f_lseek_data]) (by rw [f_read_faults, hsf]) rfl (by omega)
        (by
          rw [f_read_fptr _ _ hsf, f_lseek_data, hsp]
          rw [Nat.min_eq_left (by omega), Nat.min_eq_left (by omega)]
          omega)
        rfl
  have hdec : decode_raw_frame env h w offset size =
      (VideoError.VIDEO_SUCCESS,
        (raw_rows (2 * h.info.width) h.needs_byte_swap h.info.height h.info.height 0
          (if h.needs_byte_swap = true then
            swap_pairs (frame_row h.file.data offset h.info.width 0)
            else frame_row h.file.data offset h.info.width 0)
          ((List.range (2 * h.info.width)).map env.fresh_row)
          (f_read (f_lseek h.file offset).2 (2 * h.info.width)).2.2
          (w.log ++ [Event.decode VideoCodec.VIDEO_CODEC_RAW offset size] ++
            [Event.setWindow h.display_x h.display_y
              ((h.display_x : Int) + h.info.width - 1)
              ((h.display_y : Int) + h.info.height - 1)] ++
            [Event.readRow RowBuf.A FRESULT.FR_OK
              (frame_row h.file.data offset h.info.width 0)])).1,
        { tick := w.tick,
          log := w.log ++ raw_pipeline_trace h.file.data offset size h.info.width h.info.height
            h.needs_byte_swap h.display_x h.display_y }) := by
    unfold decode_raw_frame
    simp only []
    rw [hrbs, if_neg (by rw [f_lseek_res _ _ hf]; simp), if_neg (by rw [hm]; simp),
      if_neg (by rw [f_read_res _ _ hsf, hb, hbl]; simp)]
    rw [f_read_res _ _ hsf, hb, hrun]
    simp only [raw_pipeline_trace, List.append_assoc, List.singleton_append, List.cons_append,
      List.nil_append]
  rw [hdec]
  refine ⟨rfl, rfl, rfl, ?_, ?_, ?_⟩
  · simp only [raw_pipeline_trace, List.cons_append, List.nil_append, window_count,
      window_count_pipeline]
  · simp only [raw_pipeline_trace, List.cons_append, List.nil_append, dma_starts,
      dma_starts_pipeline, List.range_eq_range']
  · simp only [raw_pipeline_trace, List.cons_append, List.nil_append, in_flight_ok,
      in_flight_ok_pipeline]
    decide

/-- C27 at work on the first frame of the raw example session (1 x 2 pixels,
payload `[1, 2, 3, 4]` at offset 232, byte swap on): one window, row 0 read
into A, sent as `[2, 1]`, row 1 read into B meanwhile, wait, row 1 sent as
`[4, 3]`, wait. -/
theorem raw_frame_pipeline_witness :
    rawHandle.info.width = 1 ∧ rawHandle.info.height = 2 ∧ rawHandle.needs_byte_swap = true ∧
    (decode_raw_frame demoPlayEnv rawHandle { tick := 0, log := [] } 232 4).1 =
      VideoError.VIDEO_SUCCESS ∧
    (decode_raw_frame demoPlayEnv rawHandle { tick := 0, log := [] } 232 4).2.2.log =
      [] ++ raw_pipeline_trace rawHandle.file.data 232 4 rawHandle.info.width
        rawHandle.info.height rawHandle.needs_byte_swap rawHandle.display_x
        rawHandle.display_y ∧
    raw_pipeline_trace rawHandle.file.data 232 4 1 2 true 0 0 =
      [Event.decode VideoCodec.VIDEO_CODEC_RAW 232 4, Event.setWindow 0 0 0 1,
        Event.readRow RowBuf.A FRESULT.FR_OK [1, 2], Event.dmaStart RowBuf.A [2, 1],
        Event.readRow RowBuf.B FRESULT.FR_OK [3, 4], Event.dmaWait,
        Event.dmaStart RowBuf.B [4, 3], Event.dmaWait] :=
  have hw := raw_frame_pipeline demoPlayEnv rawHandle { tick := 0, log := [] } 232 4 rfl
    (by decide) (by decide) (by decide)
  ⟨by decide, by decide, by decide, hw.1, hw.2.1, by decide⟩

/-! ## The cursor invariant -/

/-- The chunks of a region by number. -/
theorem region_nth (data : List Nat) :
    ∀ (i s : Nat), i < (region_chunks data s).length →
      nth_chunk data s i + 8 < data.length ∧
      (region_chunks data s)[i]? =
        some { offset := nth_chunk data s i, tag := word_at data (nth_chunk data s i),
               size := word_at data (nth_chunk data s i + 4) } := by
  intro i
  induction i with
  | zero =>
    intro s hi
    cases hr : region_chunks data s with
    | nil => rw [hr] at hi; simp at hi
    | cons c0 rest =>
      obtain ⟨h1, h2, -⟩ := region_chunks_head data s c0 rest hr
      refine ⟨h1, ?_⟩
      rw [h2, List.getElem?_cons_zero]; rfl
  | succ i ih =>
    intro s hi
    cases hr : region_chunks data s with
    | nil => rw [hr] at hi; simp at hi
    | cons c0 rest =>
      obtain ⟨-, -, h3⟩ := region_chunks_head data s c0 rest hr
      rw [hr] at hi
      simp only [List.length_cons] at hi
      have := ih (next_chunk data s) (by rw [← h3]; omega)
      rw [nth_chunk_shift] at this
      refine ⟨this.1, ?_⟩
      rw [List.getElem?_cons_succ, h3]
      exact this.2

theorem nth_chunk_lt (data : List Nat) (s : Nat) :
    ∀ i j : Nat, i < j → nth_chunk data s i < nth_chunk data s j := by
  intro i j hij
  induction j with
  | zero => omega
  | succ j ih =>
    have hstep : nth_chunk data s j < nth_chunk data s (j + 1) := by
      rw [nth_chunk]; unfold next_chunk; omega
    by_cases h : i = j
    · rw [h]; exact hstep
    · exact lt_trans (ih (by omega)) hstep

/-- Decoding the chunk under the cursor on a fault-free file that holds its
header: only the file object and the cursor change, and on success the cursor
is on the next chunk and exactly this payload was decoded. -/
theorem decode_and_display_cursor (env : PlayEnv) (h : VideoHandle) (w : World)
    (hf : h.file.faults = []) (hc : h.current_chunk_offset + 8 ≤ h.file.data.length)
    (hnw : h.current_chunk_offset + 8 + word_at h.file.data (h.current_chunk_offset + 4) + 1 < U32) :
    ∃ e F c W, decode_and_display_frame_streaming env h w =
        (e, { h with file := F, current_chunk_offset := c }, W) ∧
      F.data = h.file.data ∧ F.faults = [] ∧
      (e = VideoError.VIDEO_SUCCESS →
        c = next_chunk h.file.data h.current_chunk_offset ∧
        decodes W.log = decodes w.log ++ [(h.current_chunk_offset + 8,
          word_at h.file.data (h.current_chunk_offset + 4))]) := by
  obtain ⟨-, -, -, -, hd5, hd6⟩ := header_read h.file h.current_chunk_offset hf hc
  have hk := decode_frame_keeps env { h with file := header_file h.file h.current_chunk_offset } w
    (h.current_chunk_offset + 8) (word_at h.file.data (h.current_chunk_offset + 4))
  have hl := decode_frame_decodes env { h with file := header_file h.file h.current_chunk_offset } w
    (h.current_chunk_offset + 8) (word_at h.file.data (h.current_chunk_offset + 4))
  have hcur := pad_seek _ _ hnw
  rw [decode_and_display_at env h w hf hc]
  by_cases g : is_video_chunk (word_at h.file.data h.current_chunk_offset) = false ∨
      word_at h.file.data (h.current_chunk_offset + 4) = 0
  · rw [if_pos g]
    exact ⟨_, _, h.current_chunk_offset, _, rfl, hd5, hd6, fun hh => by cases hh⟩
  · rw [if_neg g]
    by_cases g2 : (decode_frame env { h with file := header_file h.file h.current_chunk_offset } w
          (h.current_chunk_offset + 8) (word_at h.file.data (h.current_chunk_offset + 4))).1 ≠
            VideoError.VIDEO_SUCCESS
    · rw [if_pos g2]
      exact ⟨_, _, h.current_chunk_offset, _, rfl, hk.2.1.trans hd5, hk.2.2.trans hd6,
        fun hh => absurd hh g2⟩
    · rw [if_neg g2, hcur]
      exact ⟨_, _, _, _, rfl, hk.2.1.trans hd5, hk.2.2.trans hd6, fun _ => ⟨rfl, hl⟩⟩

/-- A rendering poll on a fault-free file that holds the header under the
cursor: the static fields are kept, and if the session is still Playing
afterwards, the frame under the cursor was decoded, the cursor is on the next
chunk and the frame counter went up by one. -/
theorem poll_render_cursor (env : PlayEnv) (h : VideoHandle) (w : World)
    (hf : h.file.faults = []) (hc : h.current_chunk_offset + 8 ≤ h.file.data.length)
    (hnw : h.current_chunk_offset + 8 + word_at h.file.data (h.current_chunk_offset + 4) + 1 < U32)
    (hlt : h.current_frame < h.info.total_frames) (hT : h.info.total_frames < U32) :
    (poll_render env h w).2.1.file.data = h.file.data ∧
    (poll_render env h w).2.1.file.faults = [] ∧
    (poll_render env h w).2.1.info = h.info ∧
    (poll_render env h w).2.1.is_open = h.is_open ∧
    ((poll_render env h w).2.1.state = VideoState.VIDEO_STATE_PLAYING →
      (poll_render env h w).2.1.current_frame = h.current_frame + 1 ∧
      h.current_frame + 1 < h.info.total_frames ∧
      (poll_render env h w).2.1.current_chunk_offset =
        next_chunk h.file.data h.current_chunk_offset ∧
      decodes (poll_render env h w).2.2.log = decodes w.log ++ [(h.current_chunk_offset + 8,
          word_at h.file.data (h.current_chunk_offset + 4))]) := by
  obtain ⟨e, F, c, W, e1, e2, e3, e4⟩ := decode_and_display_cursor env h w hf hc hnw
  have hu : u32 (h.current_frame + 1) = h.current_frame + 1 := u32_of_lt (by omega)
  unfold poll_render
  rw [e1]
  simp only []
  by_cases he : e ≠ VideoError.VIDEO_SUCCESS
  · rw [if_pos he]
    exact ⟨e2, e3, rfl, rfl, fun hh => by cases hh⟩
  · rw [if_neg he]
    have he1 : e = VideoError.VIDEO_SUCCESS := not_not.mp he
    obtain ⟨e5, e6⟩ := e4 he1
    have cw := callback_world h.callback { tick := W.tick + env.decode_ms, log := W.log }
      (u32 (h.current_frame + 1))
    rw [hu] at cw ⊢
    by_cases hend : h.current_frame + 1 ≥ h.info.total_frames
    · rw [if_pos hend]
      exact ⟨e2, e3, rfl, rfl, fun hh => by cases hh⟩
    · rw [if_neg hend]
      by_cases hmode : h.play_mode = VideoPlayMode.VIDEO_PLAY_MODE_BLOCKING
      · rw [if_pos hmode]
        refine ⟨e2, e3, rfl, rfl, fun _ => ⟨rfl, by omega, e5, ?_⟩⟩
        rw [wait_next_frame_log]
        exact cw.1.trans e6
      · rw [if_neg hmode]
        exact ⟨e2, e3, rfl, rfl, fun _ => ⟨rfl, by omega, e5, cw.1.trans e6⟩⟩

theorem cursor_inv_render (env : PlayEnv) (data : List Nat) (info : VideoInfo)
    (base : List (Nat × Nat)) (h : VideoHandle) (w : World)
    (hreg : ∀ i, i < info.total_frames →
      nth_chunk data (info.movi_offset + 4) i + 8 ≤ data.length ∧
      nth_chunk data (info.movi_offset + 4) i + 8 +
        word_at data (nth_chunk data (info.movi_offset + 4) i + 4) + 1 < U32)
    (hT : info.total_frames < U32)
    (hd : h.file.data = data) (hf : h.file.faults = []) (hi : h.info = info)
    (ho : h.is_open = true) (hlt : h.current_frame < info.total_frames)
    (hcur : h.current_chunk_offset = nth_chunk data (info.movi_offset + 4) h.current_frame)
    (frames : List Nat)
    (hdec : decodes w.log = base ++ frames.map (payload_of data (info.movi_offset + 4)))
    (hfr : ∀ i ∈ frames, i < h.current_frame) :
    CursorInv data info base (poll_render env h w).2.1 (poll_render env h w).2.2 := by
  obtain ⟨r1, r2⟩ := hreg h.current_frame hlt
  obtain ⟨p1, p2, p3, p4, p5⟩ := poll_render_cursor env h w hf
    (by rw [hcur, hd]; exact r1) (by rw [hcur, hd]; exact r2) (by rw [hi]; exact hlt)
    (by rw [hi]; exact hT)
  refine ⟨p1.trans hd, p2, p3.trans hi, p4.trans ho, fun hp => ?_⟩
  obtain ⟨q1, q2, q3, q4⟩ := p5 hp
  rw [hi] at q2
  refine ⟨by rw [q1]; exact q2, ?_, frames ++ [h.current_frame], ?_, ?_⟩
  · rw [q3, q1, hcur, hd]; rfl
  · rw [q4, hdec, hcur, hd, List.map_append, List.append_assoc]; rfl
  · intro i hi2
    rw [q1]
    rcases List.mem_append.mp hi2 with h1 | h1
    · exact Nat.lt_succ_of_lt (hfr i h1)
    · rw [List.mem_singleton.mp h1]; exact Nat.lt_succ_self _

theorem cursor_inv_log (data : List Nat) (info : VideoInfo) (base : List (Nat × Nat))
    (h : VideoHandle) (w w1 : World) (hl : w1.log = w.log)
    (hinv : CursorInv data info base h w) : CursorInv data info base h w1 := by
  unfold CursorInv at *
  rw [hl]
  exact hinv

/-- One poll keeps the cursor invariant. -/
theorem cursor_inv_poll (env : PlayEnv) (data : List Nat) (info : VideoInfo)
    (base : List (Nat × Nat)) (h : VideoHandle) (w : World)
    (hreg : ∀ i, i < info.total_frames →
      nth_chunk data (info.movi_offset + 4) i + 8 ≤ data.length ∧
      nth_chunk data (info.movi_offset + 4) i + 8 +
        word_at data (nth_chunk data (info.movi_offset + 4) i + 4) + 1 < U32)
    (hT : info.total_frames < U32)
    (hinv : CursorInv data info base h w) :
    CursorInv data info base (VIDEO_Poll env h w).2.1 (VIDEO_Poll env h w).2.2 := by
  obtain ⟨hd, hf, hi, ho, hplay⟩ := hinv
  unfold VIDEO_Poll
  simp only []
  rw [if_neg (by rw [ho]; simp)]
  by_cases hst : h.state ≠ VideoState.VIDEO_STATE_PLAYING
  · rw [if_pos hst]
    exact ⟨hd, hf, hi, ho, hplay⟩
  rw [if_neg hst]
  have hst1 : h.state = VideoState.VIDEO_STATE_PLAYING := not_not.mp hst
  obtain ⟨hlt, hcur, frames, hdec, hfr⟩ := hplay hst1
  by_cases hexp : elapsed_us h w / h.frame_duration_us ≥ h.info.total_frames
  · rw [if_pos hexp]
    exact ⟨hd, hf, hi, ho, fun hh => by cases hh⟩
  rw [if_neg hexp]
  by_cases hearly : h.play_mode = VideoPlayMode.VIDEO_PLAY_MODE_POLLING ∧
      elapsed_us h w < u32 (h.current_frame * h.frame_duration_us)
  · rw [if_pos hearly]
    exact ⟨hd, hf, hi, ho, hplay⟩
  rw [if_neg hearly]
  by_cases hskip : elapsed_us h w / h.frame_duration_us > h.current_frame
  · rw [if_pos hskip]
    have hE : elapsed_us h w / h.frame_duration_us < info.total_frames := by
      rw [← hi]; omega
    obtain ⟨F, s1, s2, s3⟩ := skip_loop_walk
      (elapsed_us h w / h.frame_duration_us - h.current_frame)
      { h with
        frames_skipped :=
          u32 (h.frames_skipped + (elapsed_us h w / h.frame_duration_us - h.current_frame)) }
      hf (by
        intro i hi2
        have := hreg (h.current_frame + i) (by omega)
        show nth_chunk h.file.data h.current_chunk_offset i + 8 ≤ h.file.data.length ∧
          nth_chunk h.file.data h.current_chunk_offset i + 8 +
            word_at h.file.data (nth_chunk h.file.data h.current_chunk_offset i + 4) + 1 < U32
        rw [hcur, hd, nth_chunk_add]
        exact this)
    rw [s1]
    simp only [ne_eq, not_true_eq_false, if_false]
    exact cursor_inv_render env data info base _ w hreg hT (s2.trans hd) s3 hi ho hE
      (by
        show nth_chunk h.file.data h.current_chunk_offset
          (elapsed_us h w / h.frame_duration_us - h.current_frame) =
            nth_chunk data (info.movi_offset + 4) (elapsed_us h w / h.frame_duration_us)
        have hsum : h.current_frame + (elapsed_us h w / h.frame_duration_us - h.current_frame) =
            elapsed_us h w / h.frame_duration_us := by omega
        rw [hcur, hd, nth_chunk_add, hsum])
      frames hdec (fun i hi2 => lt_trans (hfr i hi2) hskip)
  · rw [if_neg hskip]
    exact cursor_inv_render env data info base h w hreg hT hd hf hi ho hlt hcur frames hdec hfr

/-- Any sequence of polls keeps the cursor invariant. -/
theorem cursor_inv_seq (env : PlayEnv) (data : List Nat) (info : VideoInfo)
    (base : List (Nat × Nat))
    (hreg : ∀ i, i < info.total_frames →
      nth_chunk data (info.movi_offset + 4) i + 8 ≤ data.length ∧
      nth_chunk data (info.movi_offset + 4) i + 8 +
        word_at data (nth_chunk data (info.movi_offset + 4) i + 4) + 1 < U32)
    (hT : info.total_frames < U32) (ds : List Nat) :
    ∀ (h : VideoHandle) (w : World), CursorInv data info base h w →
      CursorInv data info base (poll_seq env ds h w).1 (poll_seq env ds h w).2 := by
  induction ds with
  | nil => intro h w hinv; exact hinv
  | cons d ds ih =>
    intro h w hinv
    rw [poll_seq]
    exact ih _ _ (cursor_inv_poll env data info base h _ hreg hT
      (cursor_inv_log data info base h w _ rfl hinv))

/-- C24 as stated fails.  The container `audioAvi` (frame chunk, audio chunk
`01wb`, frame chunk) is accepted with two frames; after play and the poll at
the play tick, which shows frame 0, the session is Playing with
`current_frame = 1` and the cursor at offset 234, the header of the audio
chunk, while the chunk counted as frame 1 is at offset 244.  The next poll
finds no frame chunk under the cursor and fails with `InvalidFormat`.  The
container `zeroLenAvi` (frame chunk, chunk tagged `00dc` of length zero, frame
chunk) is accepted with two frames as well; after play and the first poll the
session is Playing with `current_frame = 1` and the cursor at offset 234, the
header of the chunk of length zero, which the counting pass did not count,
while the chunk counted as frame 1 is at offset 242; the next poll fails with
`InvalidFormat`.  The container `strayAvi` (two frame chunks in the frame-data
list, an index behind the list and a chunk tagged `00dc` behind the index) is
accepted with three frames; after play and the polls that show frames 0 and 1
the session is Playing with `current_frame = 2` and the cursor at offset 244,
the header of the index chunk, while the chunk counted as frame 2 is at offset
284. -/
theorem cursor_on_audio_chunk :
    (VIDEO_Open 200 (openEnvOf audioAvi) (some ['v', '.', 'a', 'v', 'i']) true =
        Outcome.done (VideoError.VIDEO_SUCCESS, some audioHandle) ∧
      VIDEO_Play demoPlayEnv 0 audioHandle { tick := 1000, log := [] } 0 0
          VideoPlayMode.VIDEO_PLAY_MODE_POLLING =
        Outcome.done (VideoError.VIDEO_SUCCESS, audioPlaying, { tick := 1000, log := [] }) ∧
      audioHandle.info.total_frames = 2 ∧ audioHandle.info.movi_offset + 4 = 224 ∧
      (poll_seq demoPlayEnv [0] audioPlaying { tick := 1000, log := [] }).1.state =
        VideoState.VIDEO_STATE_PLAYING ∧
      (poll_seq demoPlayEnv [0] audioPlaying { tick := 1000, log := [] }).1.current_frame = 1 ∧
      (poll_seq demoPlayEnv [0] audioPlaying { tick := 1000, log := [] }).1.current_chunk_offset =
        234 ∧
      word_at audioAvi 234 = AVI_01WB_ID ∧ is_video_chunk (word_at audioAvi 234) = false ∧
      ((region_chunks audioAvi 224).filter Chunk.is_frame).map (fun c => c.offset) =
        [224, 244] ∧
      (poll_seq demoPlayEnv [0, 34] audioPlaying { tick := 1000, log := [] }).1.state =
        VideoState.VIDEO_STATE_ENDED ∧
      (VIDEO_Poll demoPlayEnv
        (poll_seq demoPlayEnv [0] audioPlaying { tick := 1000, log := [] }).1
        { tick := 1034, log := [] }).1 = VideoError.VIDEO_ERROR_INVALID_FORMAT) ∧
    (VIDEO_Open 200 (openEnvOf zeroLenAvi) (some ['z', '.', 'a', 'v', 'i']) true =
        Outcome.done (VideoError.VIDEO_SUCCESS, some zeroLenHandle) ∧
      VIDEO_Play demoPlayEnv 0 zeroLenHandle { tick := 1000, log := [] } 0 0
          VideoPlayMode.VIDEO_PLAY_MODE_POLLING =
        Outcome.done (VideoError.VIDEO_SUCCESS, zeroLenPlaying, { tick := 1000, log := [] }) ∧
      zeroLenHandle.info.total_frames = 2 ∧ zeroLenHandle.info.movi_offset + 4 = 224 ∧
      (poll_seq demoPlayEnv [0] zeroLenPlaying { tick := 1000, log := [] }).1.state =
        VideoState.VIDEO_STATE_PLAYING ∧
      (poll_seq demoPlayEnv [0] zeroLenPlaying { tick := 1000, log := [] }).1.current_frame =
        1 ∧
      (poll_seq demoPlayEnv [0] zeroLenPlaying
        { tick := 1000, log := [] }).1.current_chunk_offset = 234 ∧
      word_at zeroLenAvi 234 = AVI_00DC_ID ∧ word_at zeroLenAvi 238 = 0 ∧
      ((region_chunks zeroLenAvi 224).filter Chunk.is_frame).map (fun c => c.offset) =
        [224, 242] ∧
      (VIDEO_Poll demoPlayEnv
        (poll_seq demoPlayEnv [0] zeroLenPlaying { tick := 1000, log := [] }).1
        { tick := 1034, log := [] }).1 = VideoError.VIDEO_ERROR_INVALID_FORMAT) ∧
    (VIDEO_Open 200 (openEnvOf strayAvi) (some ['x', '.', 'a', 'v', 'i']) true =
        Outcome.done (VideoError.VIDEO_SUCCESS, some strayHandle) ∧
      VIDEO_Play demoPlayEnv 0 strayHandle { tick := 1000, log := [] } 0 0
          VideoPlayMode.VIDEO_PLAY_MODE_POLLING =
        Outcome.done (VideoError.VIDEO_SUCCESS, strayPlaying, { tick := 1000, log := [] }) ∧
      strayHandle.info.total_frames = 3 ∧ strayHandle.info.movi_offset + 4 = 224 ∧
      (poll_seq demoPlayEnv [0, 34] strayPlaying { tick := 1000, log := [] }).1.state =
        VideoState.VIDEO_STATE_PLAYING ∧
      (poll_seq demoPlayEnv [0, 34] strayPlaying { tick := 1000, log := [] }).1.current_frame =
        2 ∧
      (poll_seq demoPlayEnv [0, 34] strayPlaying
        { tick := 1000, log := [] }).1.current_chunk_offset = 244 ∧
      word_at strayAvi 244 = AVI_IDX1_ID ∧ is_video_chunk (word_at strayAvi 244) = false ∧
      ((region_chunks strayAvi 224).filter Chunk.is_frame).map (fun c => c.offset) =
        [224, 234, 284] ∧
      (VIDEO_Poll demoPlayEnv
        (poll_seq demoPlayEnv [0, 34] strayPlaying { tick := 1000, log := [] }).1
        { tick := 1067, log := [] }).1 = VideoError.VIDEO_ERROR_INVALID_FORMAT) :=
  ⟨⟨opens_eq 200 (openEnvOf audioAvi) ['v', '.', 'a', 'v', 'i'] (by decide),
      by decide, by decide, by decide, by decide, by decide, by decide, by decide, by decide,
      by decide, by decide, by decide⟩,
    ⟨opens_eq 200 (openEnvOf zeroLenAvi) ['z', '.', 'a', 'v', 'i'] (by decide),
      by decide, by decide, by decide, by decide, by decide, by decide, by decide, by decide,
      by decide, by decide⟩,
    ⟨opens_eq 200 (openEnvOf strayAvi) ['x', '.', 'a', 'v', 'i'] (by decide),
      by decide, by decide, by decide, by decide, by decide, by decide, by decide, by decide,
      by decide, by decide⟩⟩

/-! ## Formats, bit depths and the double-buffered picture display -/

/-- The header read of the streaming displays when the first storage
operation does not fail and the file holds 54 bytes. -/
theorem bmp_header_read_any (data faults : List Nat) (h0 : 0 ∉ faults)
    (hlen : 54 ≤ data.length) :
    (f_read { data := data, fptr := 0, ops := 0, faults := faults } 54).1 = FRESULT.FR_OK ∧
    (f_read { data := data, fptr := 0, ops := 0, faults := faults } 54).2.1.length = 54 ∧
    (∀ i, i < 54 →
      byteAt (f_read { data := data, fptr := 0, ops := 0, faults := faults } 54).2.1 i =
        byteAt data i) := by
  have hb : (f_read { data := data, fptr := 0, ops := 0, faults := faults } 54).2.1 =
      (data.drop 0).take 54 := by
    simp [f_read, h0]
  refine ⟨by simp [f_read, h0], ?_, ?_⟩
  · rw [hb, List.drop_zero, List.length_take]; omega
  · intro i hi
    rw [hb, byteAt_window _ _ _ _ hi, Nat.zero_add]

/-- The result codes of `display_bmp_streaming`. -/
theorem display_bmp_streaming_codes (env : PicEnv) (f : FIL)
    (off bpp w h x y sx sy sw sh : Nat) :
    (display_bmp_streaming env f off bpp w h x y sx sy sw sh).1 ≠
      PicError.PIC_ERROR_UNSUPPORTED_FORMAT := by
  unfold display_bmp_streaming
  split
  · simp
  · simp only []
    split
    · simp
    · split
      · simp
      · rcases bmp_rows_result off (u32 ((w * bpp + 31) / 32 * 4)) (bpp / 8 % 256) sx sy sw sh sh 0
          f [PicEvent.window x y ((x : Int) + sw - 1) ((y : Int) + sh - 1)] with hr | hr <;>
          rw [hr] <;> simp

/-- The result codes of `display_bmp_streaming_dma`. -/
theorem display_bmp_streaming_dma_codes (env : PicEnv) (mb : Bool) (fb : Nat → Nat) (f : FIL)
    (off bpp w h x y sx sy sw sh : Nat) :
    (display_bmp_streaming_dma env mb fb f off bpp w h x y sx sy sw sh).1 ≠
      PicError.PIC_ERROR_UNSUPPORTED_FORMAT := by
  unfold display_bmp_streaming_dma
  split
  · simp
  · simp only []
    split
    · simp
    · split
      · simp
      · split
        · simp
        · split <;> simp

theorem ite_code_ne {α : Type} (c : Prop) [Decidable c] (a b : PicError × α) (e : PicError)
    (ha : a.1 ≠ e) (hb : b.1 ≠ e) : (if c then a else b).1 ≠ e := by
  split
  · exact ha
  · exact hb

/-- Both streaming displays on a bitmap whose header is read: the bit-depth
test comes first. -/
theorem streaming_bmp_depth (env : PicEnv) (mb : Bool) (fb : Nat → Nat) (name : List Char)
    (x y sx sy sw sh : Nat)
    (hfmt : detect_image_format name = (PicError.PIC_SUCCESS, PicFormat.PIC_FORMAT_BMP))
    (hopen : env.fopen_result = FRESULT.FR_OK) (h0 : 0 ∉ env.faults)
    (hlen : 54 ≤ env.data.length)
    (hsig : byteAt env.data 0 = 66 ∧ byteAt env.data 1 = 77) :
    (bmp_bpp env.data ≠ 24 ∧ bmp_bpp env.data ≠ 32 →
      PIC_DisplayStreaming env (some name) x y sx sy sw sh =
        (PicError.PIC_ERROR_UNSUPPORTED_FORMAT, []) ∧
      PIC_DisplayStreamingDMA env mb fb (some name) x y sx sy sw sh =
        (PicError.PIC_ERROR_UNSUPPORTED_FORMAT, [])) ∧
    (¬(bmp_bpp env.data ≠ 24 ∧ bmp_bpp env.data ≠ 32) →
      (PIC_DisplayStreaming env (some name) x y sx sy sw sh).1 ≠
        PicError.PIC_ERROR_UNSUPPORTED_FORMAT ∧
      (PIC_DisplayStreamingDMA env mb fb (some name) x y sx sy sw sh).1 ≠
        PicError.PIC_ERROR_UNSUPPORTED_FORMAT) := by
  obtain ⟨r1, r2, r3⟩ := bmp_header_read_any env.data env.faults h0 hlen
  have e16 : le16At (f_read { data := env.data, fptr := 0, ops := 0, faults := env.faults }
      54).2.1 28 = bmp_bpp env.data := by
    unfold le16At bmp_bpp le16At
    rw [r3 28 (by omega), r3 (28 + 1) (by omega)]
  have hs : is_bmp_file
      (f_read { data := env.data, fptr := 0, ops := 0, faults := env.faults } 54).2.1 = true := by
    unfold is_bmp_file
    rw [r3 0 (by omega), r3 1 (by omega), hsig.1, hsig.2]
    rfl
  constructor
  · intro hb
    constructor
    · unfold PIC_DisplayStreaming
      simp only [hfmt]
      rw [if_neg (by simp), if_neg (by simp [hopen]), if_neg (by rw [r1, r2]; simp),
        if_neg (by rw [hs]; simp), e16, if_pos hb]
    · unfold PIC_DisplayStreamingDMA
      simp only [hfmt]
      rw [if_neg (by simp), if_neg (by simp [hopen]), if_neg (by rw [r1, r2]; simp),
        if_neg (by rw [hs]; simp), e16, if_pos hb]
  · intro hb
    constructor
    · unfold PIC_DisplayStreaming
      simp only [hfmt]
      rw [if_neg (by simp), if_neg (by simp [hopen]), if_neg (by rw [r1, r2]; simp),
        if_neg (by rw [hs]; simp), e16, if_neg hb]
      exact ite_code_ne _ _ _ _ (by simp) (display_bmp_streaming_codes _ _ _ _ _ _ _ _ _ _ _ _)
    · unfold PIC_DisplayStreamingDMA
      simp only [hfmt]
      rw [if_neg (by simp), if_neg (by simp [hopen]), if_neg (by rw [r1, r2]; simp),
        if_neg (by rw [hs]; simp), e16, if_neg hb]
      exact ite_code_ne _ _ _ _ (by simp)
        (display_bmp_streaming_dma_codes _ _ _ _ _ _ _ _ _ _ _ _ _ _)

/-- C21 (amended): streaming display, plain or double-buffered, of a file
with the bitmap extension that opens, whose 54-byte header is read and
carries the signature `BM`, fails with UnsupportedFormat exactly when the bit
depth of the header is neither 24 nor 32, and then sends nothing to the
display; bitmaps of 24 and of 32 bits per pixel are not refused as
unsupported, bitmaps of 16 bits per pixel are. -/
theorem bmp_depth_support (env : PicEnv) (mb : Bool) (fb : Nat → Nat) (name : List Char)
    (x y sx sy sw sh : Nat)
    (hfmt : detect_image_format name = (PicError.PIC_SUCCESS, PicFormat.PIC_FORMAT_BMP))
    (hopen : env.fopen_result = FRESULT.FR_OK) (h0 : 0 ∉ env.faults)
    (hlen : 54 ≤ env.data.length)
    (hsig : byteAt env.data 0 = 66 ∧ byteAt env.data 1 = 77) :
    ((PIC_DisplayStreaming env (some name) x y sx sy sw sh).1 =
        PicError.PIC_ERROR_UNSUPPORTED_FORMAT ↔
      (bmp_bpp env.data ≠ 24 ∧ bmp_bpp env.data ≠ 32)) ∧
    ((PIC_DisplayStreamingDMA env mb fb (some name) x y sx sy sw sh).1 =
        PicError.PIC_ERROR_UNSUPPORTED_FORMAT ↔
      (bmp_bpp env.data ≠ 24 ∧ bmp_bpp env.data ≠ 32)) ∧
    (bmp_bpp env.data ≠ 24 ∧ bmp_bpp env.data ≠ 32 →
      PIC_DisplayStreaming env (some name) x y sx sy sw sh =
        (PicError.PIC_ERROR_UNSUPPORTED_FORMAT, []) ∧
      PIC_DisplayStreamingDMA env mb fb (some name) x y sx sy sw sh =
        (PicError.PIC_ERROR_UNSUPPORTED_FORMAT, [])) ∧
    (bmp_bpp env.data = 16 →
      (PIC_DisplayStreaming env (some name) x y sx sy sw sh).1 =
        PicError.PIC_ERROR_UNSUPPORTED_FORMAT ∧
      (PIC_DisplayStreamingDMA env mb fb (some name) x y sx sy sw sh).1 =
        PicError.PIC_ERROR_UNSUPPORTED_FORMAT) := by
  obtain ⟨hbad, hgood⟩ := streaming_bmp_depth env mb fb name x y sx sy sw sh hfmt hopen h0 hlen hsig
  refine ⟨⟨fun hres => ?_, fun hb => by rw [(hbad hb).1]⟩,
    ⟨fun hres => ?_, fun hb => by rw [(hbad hb).2]⟩, hbad, fun h16 => ?_⟩
  · by_contra hb
    exact (hgood hb).1 hres
  · by_contra hb
    exact (hgood hb).2 hres
  · have hb : bmp_bpp env.data ≠ 24 ∧ bmp_bpp env.data ≠ 32 := by
      rw [h16]; exact ⟨by decide, by decide⟩
    exact ⟨by rw [(hbad hb).1], by rw [(hbad hb).2]⟩

/-- C21 at work on the 2 x 2 picture: 24 bits per pixel, shown by both
displays. -/
theorem bmp_depth_support_witness :
    bmp_bpp (picEnvOf tinyBmp).data = 24 ∧
    ¬((PIC_DisplayStreaming (picEnvOf tinyBmp) (some ['t', '.', 'b', 'm', 'p']) 0 0 0 0 0 0).1 =
        PicError.PIC_ERROR_UNSUPPORTED_FORMAT) ∧
    (PIC_DisplayStreaming (picEnvOf tinyBmp) (some ['t', '.', 'b', 'm', 'p']) 0 0 0 0 0 0).1 =
      PicError.PIC_SUCCESS ∧
    (PIC_DisplayStreamingDMA (picEnvOf tinyBmp) true (fun _ => 0)
        (some ['t', '.', 'b', 'm', 'p'])
      0 0 0 0 0 0).1 = PicError.PIC_SUCCESS :=
  have hw := bmp_depth_support (picEnvOf tinyBmp) true (fun _ => 0) ['t', '.', 'b', 'm', 'p'] 0 0 0 0 0 0
    (by decide) rfl (by decide) (by decide) (by decide)
  ⟨by decide, fun hres => absurd (hw.1.mp hres) (by decide), by decide, by decide⟩

/-- C21 as stated fails: a 2 x 2 bitmap of 16 bits per pixel, with the bitmap
extension and the signature `BM`, is refused with UnsupportedFormat by both
streaming displays. -/
theorem bmp_16_bit_refused :
    detect_image_format ['t', '.', 'b', 'm', 'p'] =
      (PicError.PIC_SUCCESS, PicFormat.PIC_FORMAT_BMP) ∧
    is_bmp_file bmp16 = true ∧ bmp_bpp bmp16 = 16 ∧
    bmp_width bmp16 = 2 ∧ bmp_height bmp16 = 2 ∧ bmp16.length = 54 + 2 * bmp_stride 2 16 ∧
    PIC_DisplayStreaming (picEnvOf bmp16) (some ['t', '.', 'b', 'm', 'p']) 0 0 0 0 0 0 =
      (PicError.PIC_ERROR_UNSUPPORTED_FORMAT, []) ∧
    PIC_DisplayStreamingDMA (picEnvOf bmp16) true (fun _ => 0)
        (some ['t', '.', 'b', 'm', 'p']) 0 0 0 0 0 0 =
      (PicError.PIC_ERROR_UNSUPPORTED_FORMAT, []) := by
  decide

/-- C22: for a file with a lossy extension the streaming display reads the
shared parameter slots as "unused, unused, decode scale, unused".  Two calls
that agree on the collaborators, the path, the destination and `src_w` give
the same result and the same display traffic whatever `src_x`, `src_y` and
`src_h` are; a `src_w` above 3 acts as 0; and a `src_w` of 0..3 is the scale
exponent: the size test uses the picture size divided by `2^src_w` (rounded
up) and the block decoder is run at scale `src_w`. -/
theorem jpeg_parameter_slots (env : PicEnv) (name : List Char) (x y : Nat)
    (hfmt : detect_image_format name = (PicError.PIC_SUCCESS, PicFormat.PIC_FORMAT_JPEG)) :
    (∀ sx sy sw sh sx1 sy1 sh1 : Nat,
      PIC_DisplayStreaming env (some name) x y sx sy sw sh =
        PIC_DisplayStreaming env (some name) x y sx1 sy1 sw sh1) ∧
    (∀ sx sy sw sh : Nat, 3 < sw →
      PIC_DisplayStreaming env (some name) x y sx sy sw sh =
        PIC_DisplayStreaming env (some name) x y sx sy 0 sh) ∧
    (∀ sx sy sw sh jw jh : Nat, sw ≤ 3 → env.fopen_result = FRESULT.FR_OK →
      env.malloc_workbuf = true →
      env.jd_prepare { data := env.data, fptr := 0, ops := 0, faults := env.faults } =
        some (jw, jh) →
      PIC_DisplayStreaming env (some name) x y sx sy sw sh =
        if x + u16 ((jw + 2 ^ sw - 1) / 2 ^ sw) > env.ST7735_WIDTH ∨
            y + u16 ((jh + 2 ^ sw - 1) / 2 ^ sw) > env.ST7735_HEIGHT then
          (PicError.PIC_ERROR_INVALID_PARAM, [])
        else if (output_blocks env x y
              (env.jd_decomp { data := env.data, fptr := 0, ops := 0, faults := env.faults }
                sw).1 []).1 = true ∧
            (env.jd_decomp { data := env.data, fptr := 0, ops := 0, faults := env.faults }
              sw).2 = true then
          (PicError.PIC_SUCCESS, (output_blocks env x y
            (env.jd_decomp { data := env.data, fptr := 0, ops := 0, faults := env.faults }
              sw).1 []).2)
        else
          (PicError.PIC_ERROR_DECODE_FAILED, (output_blocks env x y
            (env.jd_decomp { data := env.data, fptr := 0, ops := 0, faults := env.faults }
              sw).1 []).2)) := by
  refine ⟨?_, ?_, ?_⟩
  · intro sx sy sw sh sx1 sy1 sh1
    unfold PIC_DisplayStreaming
    simp only [hfmt]
  · intro sx sy sw sh hsw
    unfold PIC_DisplayStreaming
    simp only [hfmt]
    rw [if_pos hsw, if_neg (by decide : ¬ (0 > 3))]
  · intro sx sy sw sh jw jh hsw hopen hwb hprep
    unfold PIC_DisplayStreaming
    simp only [hfmt]
    have hs : ¬ sw > 3 := by omega
    rw [if_neg (by simp), if_neg (by simp [hopen]), if_neg (by simp [hwb]), hprep]
    simp only [if_neg hs]

/-- C22 at work: on a lossy file the calls with `(src_x, src_y, src_w, src_h)`
equal to `(5, 6, 2, 7)` and `(0, 0, 2, 0)` coincide, the block decoder was
asked for scale 2 (the one pixel sent is the scale), and a `src_w` of 9 gives
scale 0, at which the 200 x 100 picture does not fit the 160 x 128 display. -/
theorem jpeg_parameter_slots_witness :
    detect_image_format ['a', '.', 'j', 'p', 'g'] =
      (PicError.PIC_SUCCESS, PicFormat.PIC_FORMAT_JPEG) ∧
    PIC_DisplayStreaming jpegPicEnv (some ['a', '.', 'j', 'p', 'g']) 0 0 5 6 2 7 =
      PIC_DisplayStreaming jpegPicEnv (some ['a', '.', 'j', 'p', 'g']) 0 0 0 0 2 0 ∧
    PIC_DisplayStreaming jpegPicEnv (some ['a', '.', 'j', 'p', 'g']) 0 0 0 0 2 0 =
      (PicError.PIC_SUCCESS, [PicEvent.window 0 0 0 0, PicEvent.spi [0, 2]]) ∧
    PIC_DisplayStreaming jpegPicEnv (some ['a', '.', 'j', 'p', 'g']) 0 0 0 0 9 0 =
      PIC_DisplayStreaming jpegPicEnv (some ['a', '.', 'j', 'p', 'g']) 0 0 0 0 0 0 ∧
    PIC_DisplayStreaming jpegPicEnv (some ['a', '.', 'j', 'p', 'g']) 0 0 0 0 0 0 =
      (PicError.PIC_ERROR_INVALID_PARAM, []) :=
  have hw := jpeg_parameter_slots jpegPicEnv ['a', '.', 'j', 'p', 'g'] 0 0 (by decide)
  ⟨by decide, hw.1 5 6 2 7 0 0 0, by decide, hw.2.1 0 0 9 0 (by decide), by decide⟩

/-- Format detection depends on the name only through the suffix that starts
at its last dot. -/
theorem detect_by_suffix (n1 n2 : List Char) (h : strrchr_dot n1 = strrchr_dot n2) :
    detect_image_format n1 = detect_image_format n2 := by
  unfold detect_image_format
  rw [h]

/-- Two names whose suffixes from the last dot agree up to the case of their
letters are detected alike. -/
theorem detect_by_lowered_suffix (n1 n2 e1 e2 : List Char)
    (h1 : strrchr_dot n1 = some e1) (h2 : strrchr_dot n2 = some e2)
    (h : e1.map lower_code = e2.map lower_code) :
    detect_image_format n1 = detect_image_format n2 := by
  unfold detect_image_format
  rw [h1, h2]
  unfold strcasecmp_eq
  simp only [h]

/-- C23 (amended): still-image format detection is a function of the suffix
of the file name that starts at its last dot, compared case-insensitively:
`.raw` and `.565` give raw-pixel, `.bmp` gives bitmap, `.jpg` and `.jpeg`
give the lossy codec and `.png` gives PNG, all with success; any other suffix
fails with UnsupportedFormat; a name without a dot fails with InvalidFormat;
the name is reported as supported exactly when detection succeeds; and a
`.bmp` file that opens and whose 54-byte header is read without the signature
`BM` is rejected with InvalidFormat by the streaming display, nothing being
sent. -/
theorem format_by_extension :
    (∀ n1 n2 : List Char, strrchr_dot n1 = strrchr_dot n2 →
      detect_image_format n1 = detect_image_format n2) ∧
    (∀ n1 n2 e1 e2 : List Char, strrchr_dot n1 = some e1 → strrchr_dot n2 = some e2 →
      e1.map lower_code = e2.map lower_code →
      detect_image_format n1 = detect_image_format n2) ∧
    (∀ n ext : List Char, strrchr_dot n = some ext →
      (strcasecmp_eq ext ['.', 'r', 'a', 'w'] = true ∨
        strcasecmp_eq ext ['.', '5', '6', '5'] = true →
          detect_image_format n = (PicError.PIC_SUCCESS, PicFormat.PIC_FORMAT_RAW_565)) ∧
      (strcasecmp_eq ext ['.', 'b', 'm', 'p'] = true →
          detect_image_format n = (PicError.PIC_SUCCESS, PicFormat.PIC_FORMAT_BMP)) ∧
      (strcasecmp_eq ext ['.', 'j', 'p', 'g'] = true ∨
        strcasecmp_eq ext ['.', 'j', 'p', 'e', 'g'] = true →
          detect_image_format n = (PicError.PIC_SUCCESS, PicFormat.PIC_FORMAT_JPEG)) ∧
      (strcasecmp_eq ext ['.', 'p', 'n', 'g'] = true →
          detect_image_format n = (PicError.PIC_SUCCESS, PicFormat.PIC_FORMAT_PNG)) ∧
      (strcasecmp_eq ext ['.', 'r', 'a', 'w'] = false →
        strcasecmp_eq ext ['.', '5', '6', '5'] = false →
        strcasecmp_eq ext ['.', 'b', 'm', 'p'] = false →
        strcasecmp_eq ext ['.', 'j', 'p', 'g'] = false →
        strcasecmp_eq ext ['.', 'j', 'p', 'e', 'g'] = false →
        strcasecmp_eq ext ['.', 'p', 'n', 'g'] = false →
          detect_image_format n =
            (PicError.PIC_ERROR_UNSUPPORTED_FORMAT, PicFormat.PIC_FORMAT_UNKNOWN))) ∧
    (∀ n : List Char, strrchr_dot n = none →
      detect_image_format n =
        (PicError.PIC_ERROR_INVALID_FORMAT, PicFormat.PIC_FORMAT_UNKNOWN)) ∧
    (∀ n : List Char, PIC_IsSupportedFormat (some n) = true ↔
      (detect_image_format n).1 = PicError.PIC_SUCCESS) ∧
    (∀ (env : PicEnv) (n : List Char) (x y sx sy sw sh : Nat),
      detect_image_format n = (PicError.PIC_SUCCESS, PicFormat.PIC_FORMAT_BMP) →
      env.fopen_result = FRESULT.FR_OK → 0 ∉ env.faults → 54 ≤ env.data.length →
      ¬(byteAt env.data 0 = 66 ∧ byteAt env.data 1 = 77) →
      PIC_DisplayStreaming env (some n) x y sx sy sw sh =
        (PicError.PIC_ERROR_INVALID_FORMAT, [])) := by
  refine ⟨detect_by_suffix, detect_by_lowered_suffix, ?_, ?_, ?_, ?_⟩
  · intro n ext he
    unfold detect_image_format
    rw [he]
    simp only []
    refine ⟨?_, ?_, ?_, ?_, ?_⟩
    · intro h
      rw [if_pos (by rcases h with h | h <;> simp [h])]
    · intro h
      have hl : (ext.map lower_code) = [46, 98, 109, 112] := by
        unfold strcasecmp_eq at h
        have := beq_iff_eq.mp h
        rw [this]; decide
      have h1 : strcasecmp_eq ext ['.', 'r', 'a', 'w'] = false := by
        unfold strcasecmp_eq; rw [hl]; decide
      have h2 : strcasecmp_eq ext ['.', '5', '6', '5'] = false := by
        unfold strcasecmp_eq; rw [hl]; decide
      rw [if_neg (by simp [h1, h2]), if_pos h]
    · intro h
      have h1 : strcasecmp_eq ext ['.', 'r', 'a', 'w'] = false := by
        unfold strcasecmp_eq at h ⊢
        rcases h with h | h <;> rw [beq_iff_eq.mp h] <;> decide
      have h2 : strcasecmp_eq ext ['.', '5', '6', '5'] = false := by
        unfold strcasecmp_eq at h ⊢
        rcases h with h | h <;> rw [beq_iff_eq.mp h] <;> decide
      have h3 : strcasecmp_eq ext ['.', 'b', 'm', 'p'] = false := by
        unfold strcasecmp_eq at h ⊢
        rcases h with h | h <;> rw [beq_iff_eq.mp h] <;> decide
      rw [if_neg (by simp [h1, h2]), if_neg (by simp [h3]),
        if_pos (by rcases h with h | h <;> simp [h])]
    · intro h
      have h1 : strcasecmp_eq ext ['.', 'r', 'a', 'w'] = false := by
        unfold strcasecmp_eq at h ⊢
        rw [beq_iff_eq.mp h]; decide
      have h2 : strcasecmp_eq ext ['.', '5', '6', '5'] = false := by
        unfold strcasecmp_eq at h ⊢
        rw [beq_iff_eq.mp h]; decide
      have h3 : strcasecmp_eq ext ['.', 'b', 'm', 'p'] = false := by
        unfold strcasecmp_eq at h ⊢
        rw [beq_iff_eq.mp h]; decide
      have h4 : strcasecmp_eq ext ['.', 'j', 'p', 'g'] = false := by
        unfold strcasecmp_eq at h ⊢
        rw [beq_iff_eq.mp h]; decide
      have h5 : strcasecmp_eq ext ['.', 'j', 'p', 'e', 'g'] = false := by
        unfold strcasecmp_eq at h ⊢
        rw [beq_iff_eq.mp h]; decide
      rw [if_neg (by simp [h1, h2]), if_neg (by simp [h3]), if_neg (by simp [h4, h5]),
        if_pos h]
    · intro h1 h2 h3 h4 h5 h6
      rw [if_neg (by simp [h1, h2]), if_neg (by simp [h3]), if_neg (by simp [h4, h5]),
        if_neg (by simp [h6])]
  · intro n hn
    unfold detect_image_format
    rw [hn]
  · intro n
    unfold PIC_IsSupportedFormat
    simp only [decide_eq_true_eq]
  · intro env n x y sx sy sw sh hfmt hopen h0 hlen hsig
    obtain ⟨r1, r2, r3⟩ := bmp_header_read_any env.data env.faults h0 hlen
    have hs : is_bmp_file
        (f_read { data := env.data, fptr := 0, ops := 0, faults := env.faults } 54).2.1 =
          false := by
      unfold is_bmp_file
      rw [r3 0 (by omega), r3 1 (by omega)]
      by_cases hB : byteAt env.data 0 = 66
      · have hM : byteAt env.data 1 ≠ 77 := fun hM => hsig ⟨hB, hM⟩
        simp [hM]
      · simp [hB]
    unfold PIC_DisplayStreaming
    simp only [hfmt]
    rw [if_neg (by simp), if_neg (by simp [hopen]), if_neg (by rw [r1, r2]; simp), if_pos hs]

/-- C23 at work: `PIC.BMP` is a bitmap and `a.b.JpEg` is of the lossy codec
whatever stands before the last dot, `x.tiff` is refused as unsupported, and
a file named `t.bmp` that starts with `MB` is rejected with InvalidFormat
when streamed. -/
theorem format_by_extension_witness :
    detect_image_format ['P', 'I', 'C', '.', 'B', 'M', 'P'] =
      (PicError.PIC_SUCCESS, PicFormat.PIC_FORMAT_BMP) ∧
    detect_image_format ['a', '.', 'b', '.', 'J', 'p', 'E', 'g'] =
      (PicError.PIC_SUCCESS, PicFormat.PIC_FORMAT_JPEG) ∧
    detect_image_format ['x', '.', 't', 'i', 'f', 'f'] =
      (PicError.PIC_ERROR_UNSUPPORTED_FORMAT, PicFormat.PIC_FORMAT_UNKNOWN) ∧
    PIC_DisplayStreaming (picEnvOf badSigBmp) (some ['t', '.', 'b', 'm', 'p']) 0 0 0 0 0 0 =
      (PicError.PIC_ERROR_INVALID_FORMAT, []) :=
  ⟨(format_by_extension.2.2.1 ['P', 'I', 'C', '.', 'B', 'M', 'P'] ['.', 'B', 'M', 'P']
      (by decide)).2.1 (by decide),
    (format_by_extension.2.2.1 ['a', '.', 'b', '.', 'J', 'p', 'E', 'g'] ['.', 'J', 'p', 'E', 'g']
      (by decide)).2.2.1 (Or.inr (by decide)),
    (format_by_extension.2.2.1 ['x', '.', 't', 'i', 'f', 'f'] ['.', 't', 'i', 'f', 'f']
      (by decide)).2.2.2.2 (by decide) (by decide) (by decide) (by decide) (by decide)
      (by decide),
    format_by_extension.2.2.2.2.2 (picEnvOf badSigBmp) ['t', '.', 'b', 'm', 'p'] 0 0 0 0 0 0
      (by decide) rfl (by decide) (by decide) (by decide)⟩

/-- C23 as stated fails: `.png` is none of the extensions the claim lists, yet
detection succeeds on `x.png` with the format PNG and the name is reported as
supported; and the name `README`, which has no extension, fails with
InvalidFormat, in detection and when streamed, not with UnsupportedFormat. -/
theorem png_detected_and_no_extension_invalid :
    detect_image_format ['x', '.', 'p', 'n', 'g'] =
      (PicError.PIC_SUCCESS, PicFormat.PIC_FORMAT_PNG) ∧
    PIC_IsSupportedFormat (some ['x', '.', 'p', 'n', 'g']) = true ∧
    detect_image_format ['R', 'E', 'A', 'D', 'M', 'E'] =
      (PicError.PIC_ERROR_INVALID_FORMAT, PicFormat.PIC_FORMAT_UNKNOWN) ∧
    PIC_DisplayStreaming (picEnvOf tinyBmp) (some ['R', 'E', 'A', 'D', 'M', 'E']) 0 0 0 0 0 0 =
      (PicError.PIC_ERROR_INVALID_FORMAT, []) := by
  decide

/-- C29 (the code departs from it): the plain display checks the seek and the
read of every row, the double-buffered one only those of the first row.  On
the 2 x 2 bitmap whose header puts the pixel rows at `2^32 - 8` (the row shown
first is read at offset 0, the second lies beyond the end of the file) the
plain display sends one row and fails with FileRead; the double-buffered one
returns success and sends two rows, that row and then its second buffer as
`malloc` handed it out, whatever it holds (`g`).  The same happens on the
sound 2 x 2 bitmap when the seek to the second row (storage operation 3) or
its read (operation 4) fails.  On the sound bitmap without failures both
return success and send the same two rows. -/
theorem dma_ignores_later_row_failures (g : Nat → Nat) :
    bmp_data_offset wrapBmp = 4294967288 ∧ wrapBmp.length = 70 ∧
    PIC_DisplayStreaming (picEnvOf wrapBmp) (some ['t', '.', 'b', 'm', 'p']) 0 0 0 0 0 0 =
      (PicError.PIC_ERROR_FILE_READ,
        [PicEvent.window 0 0 1 1, PicEvent.spi [66, 104, 0, 0]]) ∧
    (PIC_DisplayStreamingDMA (picEnvOf wrapBmp) true g (some ['t', '.', 'b', 'm', 'p'])
        0 0 0 0 0 0).1 = PicError.PIC_SUCCESS ∧
    dma_sent_rows (PIC_DisplayStreamingDMA (picEnvOf wrapBmp) true g
        (some ['t', '.', 'b', 'm', 'p']) 0 0 0 0 0 0).2 =
      [[66, 104, 0, 0], pixel_bytes [g 0, g 1]] ∧
    (PIC_DisplayStreaming { picEnvOf tinyBmp with faults := [3] }
        (some ['t', '.', 'b', 'm', 'p']) 0 0 0 0 0 0).1 = PicError.PIC_ERROR_FILE_READ ∧
    (sent_rows (PIC_DisplayStreaming { picEnvOf tinyBmp with faults := [3] }
        (some ['t', '.', 'b', 'm', 'p']) 0 0 0 0 0 0).2).length = 1 ∧
    (PIC_DisplayStreamingDMA { picEnvOf tinyBmp with faults := [3] } true g
        (some ['t', '.', 'b', 'm', 'p']) 0 0 0 0 0 0).1 = PicError.PIC_SUCCESS ∧
    (dma_sent_rows (PIC_DisplayStreamingDMA { picEnvOf tinyBmp with faults := [3] } true g
        (some ['t', '.', 'b', 'm', 'p']) 0 0 0 0 0 0).2).length = 2 ∧
    (PIC_DisplayStreaming { picEnvOf tinyBmp with faults := [4] }
        (some ['t', '.', 'b', 'm', 'p']) 0 0 0 0 0 0).1 = PicError.PIC_ERROR_FILE_READ ∧
    (PIC_DisplayStreamingDMA { picEnvOf tinyBmp with faults := [4] } true g
        (some ['t', '.', 'b', 'm', 'p']) 0 0 0 0 0 0).1 = PicError.PIC_SUCCESS ∧
    (dma_sent_rows (PIC_DisplayStreamingDMA { picEnvOf tinyBmp with faults := [4] } true g
        (some ['t', '.', 'b', 'm', 'p']) 0 0 0 0 0 0).2).length = 2 ∧
    (PIC_DisplayStreamingDMA (picEnvOf tinyBmp) true g (some ['t', '.', 'b', 'm', 'p'])
        0 0 0 0 0 0).1 =
      (PIC_DisplayStreaming (picEnvOf tinyBmp) (some ['t', '.', 'b', 'm', 'p']) 0 0 0 0 0 0).1 ∧
    dma_sent_rows (PIC_DisplayStreamingDMA (picEnvOf tinyBmp) true g
        (some ['t', '.', 'b', 'm', 'p']) 0 0 0 0 0 0).2 =
      sent_rows (PIC_DisplayStreaming (picEnvOf tinyBmp)
        (some ['t', '.', 'b', 'm', 'p']) 0 0 0 0 0 0).2 :=
  ⟨rfl, rfl, rfl, rfl, rfl, rfl, rfl, rfl, rfl, rfl, rfl, rfl, rfl, rfl⟩

/-! ## The frame-data list and the walk to the end of the file -/

theorem region_chunks_outside (data : List Nat) (s : Nat) (h : ¬ s + 8 < data.length) :
    region_chunks data s = [] := by
  unfold region_chunks
  cases hk : data.length with
  | zero => rfl
  | succ k => rw [walk_chunks, if_neg (by omega)]

/-- A walk to the end of the file is the walk up to `stop` followed by the
walk from where that one stops. -/
theorem walk_split (data : List Nat) (stop : Nat) (n : Nat) :
    ∀ s : Nat, data.length ≤ n + s →
      walk_chunks data n s =
        walk_until data stop n s ++ region_chunks data (walk_rest data stop n s) := by
  induction n with
  | zero =>
    intro s hs
    rw [walk_chunks, walk_until, walk_rest, region_chunks_outside data s (by omega)]
    rfl
  | succ n ih =>
    intro s hs
    rw [walk_until, walk_rest]
    by_cases hin : s + 8 < data.length
    · by_cases hst : s < stop
      · rw [walk_chunks, if_pos hin, if_pos ⟨hin, hst⟩, if_pos ⟨hin, hst⟩, ih _ (by omega)]
        rfl
      · rw [if_neg (fun hh => hst hh.2), if_neg (fun hh => hst hh.2), List.nil_append]
        unfold region_chunks
        exact walk_chunks_enough data (n + 1) data.length s hs (by omega)
    · rw [walk_chunks, if_neg hin, if_neg (fun hh => hin hh.1), if_neg (fun hh => hin hh.1),
        region_chunks_outside data s hin]
      rfl

/-- The walk from the frame-data start to the end of the file is the
frame-data region followed by the chunks behind it. -/
theorem region_split (data : List Nat) (movi_offset : Nat) :
    region_chunks data (movi_offset + 4) =
      movi_chunks data movi_offset ++ behind_movi data movi_offset := by
  unfold movi_chunks behind_movi
  conv => lhs; unfold region_chunks
  exact walk_split data _ data.length _ (by omega)

theorem frames_first_filter (cs : List Chunk) (h : FramesFirst cs) :
    cs.filter Chunk.is_frame = cs.takeWhile Chunk.is_frame := by
  unfold FramesFirst at h
  conv => lhs; rw [← List.takeWhile_append_dropWhile Chunk.is_frame cs]
  rw [List.filter_append, List.filter_eq_self.mpr (fun c hc => List.mem_takeWhile_imp hc),
    List.filter_eq_nil_iff.mpr (fun c hc => by rw [h c hc]; decide), List.append_nil]

theorem frames_first_append (a b : List Chunk) (ha : AllFrames a) (hb : FramesFirst b) :
    FramesFirst (a ++ b) := by
  unfold FramesFirst at *
  have : (a ++ b).dropWhile Chunk.is_frame = b.dropWhile Chunk.is_frame := by
    induction a with
    | nil => rfl
    | cons c rest ih =>
      rw [List.cons_append, List.dropWhile_cons, if_pos (ha c (List.mem_cons_self _ _))]
      exact ih (fun c hc => ha c (List.mem_cons_of_mem _ hc))
  rw [this]
  exact hb

theorem takeWhile_prefix_get (cs : List Chunk) (i : Nat)
    (hi : i < (cs.takeWhile Chunk.is_frame).length) :
    cs[i]? = (cs.takeWhile Chunk.is_frame)[i]? := by
  conv => lhs; rw [← List.takeWhile_append_dropWhile Chunk.is_frame cs]
  rw [List.getElem?_append_left hi]

/-! ## The frame count and the frame-data list -/

/-- C1, as the code has it: on a fault-free storage, for every container that
`VIDEO_Open` accepts (file below 4 GiB, no chunk reaching offset `2^32`), the
reported `total_frames` is the number of chunks with a tag ending in `dc` or
`db` and a non-zero size among the children of the frame-data list
(`movi_chunks`, walked chunk by chunk: 8-byte header, payload, pad byte when
the size is odd) plus the number of such chunks that the same walk, carried on
to the end of the file, meets behind the list (`behind_movi`), whatever the
main header declares.  When no such chunk lies behind the list (nothing
follows it, or an index only), `total_frames` is the number of non-empty frame
chunks of the frame-data list. -/
theorem open_counts_frame_chunks (fuel : Nat) (env : OpenEnv) (name : List Char)
    (h : VideoHandle)
    (hopen : VIDEO_Open fuel env (some name) true =
      Outcome.done (VideoError.VIDEO_SUCCESS, some h))
    (hfaults : env.faults = []) (hlen : env.data.length < U32)
    (hw : NoWrap (region_chunks env.data (h.info.movi_offset + 4))) :
    h.info.total_frames =
      ((movi_chunks env.data h.info.movi_offset).filter Chunk.is_frame).length +
      ((behind_movi env.data h.info.movi_offset).filter Chunk.is_frame).length ∧
    ((∀ c ∈ behind_movi env.data h.info.movi_offset, c.is_frame = false) →
      h.info.total_frames =
        ((movi_chunks env.data h.info.movi_offset).filter Chunk.is_frame).length) := by
  have hc := VIDEO_Open_count fuel env name h hopen hfaults hlen hw
  rw [region_split, List.filter_append, List.length_append] at hc
  refine ⟨hc, fun hb => ?_⟩
  have hnil : (behind_movi env.data h.info.movi_offset).filter Chunk.is_frame = [] :=
    List.filter_eq_nil_iff.mpr (fun c hc2 => by rw [hb c hc2]; decide)
  rw [hc, hnil]
  rfl

/-- Witness of C1 (amended) on the container with the trailing index: the main
header declares 8 frames (the word at offset 48), the frame-data list ends at
offset 254 and holds three frame chunks, behind it lies the index chunk only,
and the session reports 3 frames. -/
theorem open_counts_frame_chunks_witness :
    VIDEO_Open 200 (openEnvOf indexedAvi) (some ['i', '.', 'a', 'v', 'i']) true =
      Outcome.done (VideoError.VIDEO_SUCCESS, some indexedHandle) ∧
    (openEnvOf indexedAvi).faults = [] ∧ (openEnvOf indexedAvi).data.length < U32 ∧
    NoWrap (region_chunks (openEnvOf indexedAvi).data (indexedHandle.info.movi_offset + 4)) ∧
    indexedHandle.info.total_frames = 3 ∧ word_at indexedAvi 48 = 8 ∧
    indexedHandle.info.movi_offset = 220 ∧ word_at indexedAvi 220 = AVI_MOVI_ID ∧
    movi_end indexedAvi 220 = 254 ∧
    (movi_chunks indexedAvi 220).map (fun c => (c.offset, c.tag, c.size)) =
      [(224, AVI_00DC_ID, 2), (234, AVI_00DC_ID, 2), (244, AVI_00DC_ID, 2)] ∧
    (behind_movi indexedAvi 220).map (fun c => (c.offset, c.tag, c.size)) =
      [(254, AVI_IDX1_ID, 48)] ∧
    indexedHandle.info.total_frames =
      ((movi_chunks (openEnvOf indexedAvi).data indexedHandle.info.movi_offset).filter
        Chunk.is_frame).length :=
  have hw := open_counts_frame_chunks 200 (openEnvOf indexedAvi) ['i', '.', 'a', 'v', 'i']
    indexedHandle (opens_eq 200 (openEnvOf indexedAvi) ['i', '.', 'a', 'v', 'i'] (by decide))
    rfl (by decide) (by unfold NoWrap; decide)
  ⟨opens_eq 200 (openEnvOf indexedAvi) ['i', '.', 'a', 'v', 'i'] (by decide), rfl, by decide,
    by unfold NoWrap; decide, by decide, by decide, by decide, by decide, by decide, by decide,
    by decide, hw.2 (by decide)⟩

/-- C1 as stated fails, in two ways.  The container `zeroLenAvi` is accepted,
its frame-data list holds three chunks tagged `00dc` and nothing lies behind
the list, yet the session reports two frames: the chunk of length zero is not
counted.  The container `strayAvi` is accepted, its frame-data list (offsets
224 to 244) holds two chunks, both tagged `00dc`, yet the session reports
three frames: the chunk tagged `00dc` that lies behind the index, outside the
list, is counted too. -/
theorem open_tag_count_differs :
    (VIDEO_Open 200 (openEnvOf zeroLenAvi) (some ['z', '.', 'a', 'v', 'i']) true =
        Outcome.done (VideoError.VIDEO_SUCCESS, some zeroLenHandle) ∧
      zeroLenHandle.info.total_frames = 2 ∧ zeroLenHandle.info.movi_offset = 220 ∧
      (movi_chunks zeroLenAvi 220).map (fun c => (c.offset, c.tag, c.size)) =
        [(224, AVI_00DC_ID, 2), (234, AVI_00DC_ID, 0), (242, AVI_00DC_ID, 2)] ∧
      ((movi_chunks zeroLenAvi 220).filter (fun c => is_video_chunk c.tag)).length = 3 ∧
      behind_movi zeroLenAvi 220 = []) ∧
    (VIDEO_Open 200 (openEnvOf strayAvi) (some ['x', '.', 'a', 'v', 'i']) true =
        Outcome.done (VideoError.VIDEO_SUCCESS, some strayHandle) ∧
      strayHandle.info.total_frames = 3 ∧ strayHandle.info.movi_offset = 220 ∧
      word_at strayAvi 220 = AVI_MOVI_ID ∧ movi_end strayAvi 220 = 244 ∧
      (movi_chunks strayAvi 220).map (fun c => (c.offset, c.tag, c.size)) =
        [(224, AVI_00DC_ID, 2), (234, AVI_00DC_ID, 2)] ∧
      ((movi_chunks strayAvi 220).filter (fun c => is_video_chunk c.tag)).length = 2 ∧
      (behind_movi strayAvi 220).map (fun c => (c.offset, c.tag, c.size)) =
        [(244, AVI_IDX1_ID, 32), (284, AVI_00DC_ID, 2)]) :=
  ⟨⟨opens_eq 200 (openEnvOf zeroLenAvi) ['z', '.', 'a', 'v', 'i'] (by decide),
      by decide, by decide, by decide, by decide, by decide⟩,
    ⟨opens_eq 200 (openEnvOf strayAvi) ['x', '.', 'a', 'v', 'i'] (by decide),
      by decide, by decide, by decide, by decide, by decide, by decide, by decide⟩⟩

/-! ## Skipping to the expected frame -/

/-- When the first `n` chunks of a list are frame chunks, the `i`-th frame
chunk of the list, for `i < n`, is its `i`-th chunk. -/
theorem filter_take_get (cs : List Chunk) (n i : Nat) (h : AllFrames (cs.take n))
    (hi : i < n) (hl : i < cs.length) :
    (cs.filter Chunk.is_frame)[i]? = cs[i]? := by
  have hlen : i < (cs.take n).length := by rw [List.length_take]; omega
  conv => lhs; rw [← List.take_append_drop n cs]
  rw [List.filter_append, List.filter_eq_self.mpr h, List.getElem?_append_left hlen]
  conv => rhs; rw [← List.take_append_drop n cs]
  rw [List.getElem?_append_left hlen]

/-- C3 (amended): a poll of a playing session that has rendered frame 0 only,
at an elapsed time whose expected frame number is `K` with
`1 ≤ K < total_frames`, on a fault-free storage, where the first `K + 1`
chunks of the frame-data region are frame chunks (no other chunk comes before
frame `K`), none of them reaching offset `2^32`, and frame `K` is decodable:
the poll decodes exactly one payload, the one of frame `K` (the chunk the
counting pass counts as frame `K`), and leaves `current_frame = K + 1` with the
`K - 1` frames in between counted as skipped and the cursor on the chunk
behind frame `K`. -/
theorem skip_renders_frame_K (env : PlayEnv) (h : VideoHandle) (w : World) (K : Nat)
    (hopen : h.is_open = true) (hplay : h.state = VideoState.VIDEO_STATE_PLAYING)
    (hcf : h.current_frame = 1)
    (hK : elapsed_us h w / h.frame_duration_us = K) (hK1 : 1 ≤ K)
    (hKt : K < h.info.total_frames) (hT : h.info.total_frames < U32)
    (hsk : h.frames_skipped < U32)
    (hf : h.file.faults = [])
    (hcur : h.current_chunk_offset = nth_chunk h.file.data (h.info.movi_offset + 4) 1)
    (hlen : K < (region_chunks h.file.data (h.info.movi_offset + 4)).length)
    (hall : AllFrames ((region_chunks h.file.data (h.info.movi_offset + 4)).take (K + 1)))
    (hnw : NoWrap ((region_chunks h.file.data (h.info.movi_offset + 4)).take (K + 1)))
    (hdec : ∀ c, (region_chunks h.file.data (h.info.movi_offset + 4))[K]? = some c →
      frame_decodable env h (c.offset + 8) c.size = true) :
    ∃ c, ((region_chunks h.file.data (h.info.movi_offset + 4)).filter Chunk.is_frame)[K]? =
        some c ∧
      decodes (VIDEO_Poll env h w).2.2.log = decodes w.log ++ [(c.offset + 8, c.size)] ∧
      (VIDEO_Poll env h w).2.1.current_frame = K + 1 ∧
      (VIDEO_Poll env h w).2.1.frames_skipped = u32 (h.frames_skipped + (K - 1)) ∧
      (VIDEO_Poll env h w).2.1.frames_rendered = u32 (h.frames_rendered + 1) ∧
      (VIDEO_Poll env h w).2.1.current_chunk_offset = c.offset + 8 + c.size + c.size % 2 ∧
      (VIDEO_Poll env h w).1 =
        (if K + 1 ≥ h.info.total_frames then VideoError.VIDEO_ERROR_END_OF_VIDEO
         else VideoError.VIDEO_SUCCESS) := by
  have hat : ∀ i, i ≤ K →
      nth_chunk h.file.data (h.info.movi_offset + 4) i + 8 ≤ h.file.data.length ∧
      nth_chunk h.file.data (h.info.movi_offset + 4) i + 8 +
        word_at h.file.data (nth_chunk h.file.data (h.info.movi_offset + 4) i + 4) + 1 < U32 ∧
      is_video_chunk (word_at h.file.data (nth_chunk h.file.data (h.info.movi_offset + 4) i)) =
        true ∧
      word_at h.file.data (nth_chunk h.file.data (h.info.movi_offset + 4) i + 4) ≠ 0 := by
    intro i hi
    obtain ⟨h1, h2⟩ := region_nth h.file.data i (h.info.movi_offset + 4) (by omega)
    have h2t : ((region_chunks h.file.data (h.info.movi_offset + 4)).take (K + 1))[i]? = _ :=
      (List.getElem?_take_of_lt (show i < K + 1 by omega)).trans h2
    have hmem := List.getElem?_mem h2t
    have hfr := hall _ hmem
    have hw := hnw _ hmem
    unfold Chunk.is_frame at hfr
    simp only [Bool.and_eq_true, decide_eq_true_eq] at hfr
    exact ⟨by omega, hw, hfr.1, by omega⟩
  obtain ⟨-, hKth⟩ := region_nth h.file.data K (h.info.movi_offset + 4) hlen
  have hin : ∀ i, i < K →
      nth_chunk h.file.data (h.info.movi_offset + 4) (i + 1) + 8 ≤ h.file.data.length ∧
      nth_chunk h.file.data (h.info.movi_offset + 4) (i + 1) + 8 +
        word_at h.file.data (nth_chunk h.file.data (h.info.movi_offset + 4) (i + 1) + 4) + 1 <
          U32 := fun i hi => ⟨(hat (i + 1) (by omega)).1, (hat (i + 1) (by omega)).2.1⟩
  have hv := (hat K (le_refl K)).2.2.1
  have hs := (hat K (le_refl K)).2.2.2
  have hdec2 := hdec _ hKth
  simp only [] at hdec2
  refine ⟨_, (filter_take_get _ (K + 1) K hall (by omega) hlen).trans hKth, ?_⟩
  simp only []
  have hfd : 0 < h.frame_duration_us := by
    rcases Nat.eq_zero_or_pos h.frame_duration_us with h0 | h0
    · rw [h0, Nat.div_zero] at hK; omega
    · exact h0
  have hel : K * h.frame_duration_us ≤ elapsed_us h w := by
    rw [← hK]; exact Nat.div_mul_le_self _ _
  have hearly : ¬(h.play_mode = VideoPlayMode.VIDEO_PLAY_MODE_POLLING ∧
      elapsed_us h w < u32 (h.current_frame * h.frame_duration_us)) := by
    rintro ⟨-, hlt⟩
    have h1 := u32_le (h.current_frame * h.frame_duration_us)
    rw [hcf] at hlt h1
    have : 1 * h.frame_duration_us ≤ K * h.frame_duration_us :=
      Nat.mul_le_mul_right _ hK1
    omega
  have hnext : nth_chunk h.file.data (h.info.movi_offset + 4) (K + 1) =
      nth_chunk h.file.data (h.info.movi_offset + 4) K + 8 +
        word_at h.file.data (nth_chunk h.file.data (h.info.movi_offset + 4) K + 4) +
        word_at h.file.data (nth_chunk h.file.data (h.info.movi_offset + 4) K + 4) % 2 := by
    rw [nth_chunk]; rfl
  rw [← hnext]
  unfold VIDEO_Poll
  rw [if_neg (by simp [hopen]), if_neg (by simp [hplay])]
  simp only [hK]
  rw [if_neg (by omega), if_neg hearly]
  by_cases hgt : K > h.current_frame
  · rw [if_pos hgt]
    obtain ⟨F, e1, e2, e3⟩ := skip_loop_walk (K - h.current_frame)
      { h with frames_skipped := u32 (h.frames_skipped + (K - h.current_frame)) } hf
      (by
        intro i hi
        have := hin i (by omega)
        simp only []
        rw [hcur, nth_chunk_add, Nat.add_comm 1 i]
        exact this)
    rw [e1]
    simp only [ne_eq, not_true_eq_false, if_false]
    have hcurK : nth_chunk h.file.data h.current_chunk_offset (K - h.current_frame) =
        nth_chunk h.file.data (h.info.movi_offset + 4) K := by
      rw [hcur, nth_chunk_add, hcf]
      congr 1
      omega
    rw [hcurK]
    have e2x : F.data = h.file.data := e2
    have hK2 := hin (K - 1) (by omega)
    rw [Nat.sub_add_cancel hK1] at hK2
    obtain ⟨F2, W, p1, -, -, p4, -⟩ := poll_render_ok env
      { h with frames_skipped := u32 (h.frames_skipped + (K - h.current_frame)),
               file := F,
               current_chunk_offset := nth_chunk h.file.data (h.info.movi_offset + 4) K,
               current_frame := K } w e3
      (by simp only [e2x]; exact hK2.1)
      (by simp only [e2x]; exact hK2.2)
      (by simp only [e2x]; exact hv)
      (by simp only [e2x]; exact hs)
      (by
        have hd := hdec2
        unfold frame_decodable at hd ⊢
        simp only [e2x]
        exact hd)
      hKt hT
    rw [p1]
    simp only [e2x] at p4 ⊢
    refine ⟨p4, trivial, ?_, trivial, ?_, trivial⟩
    · rw [hcf]
    · rw [nth_chunk]
  · have hKe : K = 1 := by omega
    subst hKe
    rw [if_neg hgt]
    have hK2 := hin 0 (by omega)
    obtain ⟨F2, W, p1, -, -, p4, -⟩ := poll_render_ok env h w hf
      (by rw [hcur]; exact hK2.1) (by rw [hcur]; exact hK2.2) (by rw [hcur]; exact hv)
      (by rw [hcur]; exact hs) (by rw [hcur]; exact hdec2) (by omega) hT
    rw [p1]
    simp only [hcur, hcf] at p4 ⊢
    refine ⟨p4, trivial, ?_, trivial, ?_, trivial⟩
    · exact (u32_of_lt hsk).symm
    · rfl

/-- C3 at work: the six-frame session has rendered frame 0 at tick 1000; the
next poll comes 100 ms after the start, three frame intervals of 33333 µs.  It
decodes the payload at offset 262, which is frame 3, counts two skipped frames
and leaves `current_frame = 4`. -/
theorem skip_renders_frame_K_witness :
    smallAfterFirst.state = VideoState.VIDEO_STATE_PLAYING ∧
    smallAfterFirst.current_frame = 1 ∧ smallAfterFirst.frames_skipped = 0 ∧
    elapsed_us smallAfterFirst { tick := 1100, log := [] } /
      smallAfterFirst.frame_duration_us = 3 ∧
    smallAfterFirst.info.total_frames = 6 ∧
    ((region_chunks smallAvi (smallAfterFirst.info.movi_offset + 4)).filter
      Chunk.is_frame).map (fun c => (c.offset + 8, c.size)) =
      [(232, 2), (242, 2), (252, 2), (262, 2), (272, 2), (282, 2)] ∧
    ∃ c, ((region_chunks smallAfterFirst.file.data
        (smallAfterFirst.info.movi_offset + 4)).filter Chunk.is_frame)[3]? = some c ∧
      decodes (VIDEO_Poll demoPlayEnv smallAfterFirst { tick := 1100, log := [] }).2.2.log =
        decodes [] ++ [(c.offset + 8, c.size)] ∧
      (VIDEO_Poll demoPlayEnv smallAfterFirst
        { tick := 1100, log := [] }).2.1.current_frame = 3 + 1 ∧
      (VIDEO_Poll demoPlayEnv smallAfterFirst { tick := 1100, log := [] }).2.1.frames_skipped =
        u32 (smallAfterFirst.frames_skipped + (3 - 1)) :=
  have hw := skip_renders_frame_K demoPlayEnv smallAfterFirst { tick := 1100, log := [] } 3
    (by decide) (by decide) (by decide) (by decide) (by decide) (by decide) (by decide)
    (by decide) (by decide) (by decide) (by decide) (by unfold AllFrames; decide)
    (by unfold NoWrap; decide) (by decide)
  ⟨by decide, by decide, by decide, by decide, by decide, by decide,
    hw.elim (fun c hc => ⟨c, hc.1, hc.2.1, hc.2.2.1, hc.2.2.2.1⟩)⟩

/-- C3 as stated fails: the frame-data list of `mixedAvi` holds frame 0, an
audio chunk `01wb` and frames 1, 2 and 3 (payloads at offsets 232, 252, 262
and 272).  After play at tick 1000 and the poll at the play tick the session
is Playing with `current_frame = 1`.  The next poll comes 67 ms after the
start, two frame intervals (`K = 2`, below the total of 4): it passes over one
chunk header, the one of the audio chunk, decodes the payload at offset 252,
which is frame 1, not frame 2, and leaves `current_frame = 3`. -/
theorem skip_renders_wrong_frame :
    VIDEO_Open 200 (openEnvOf mixedAvi) (some ['m', '.', 'a', 'v', 'i']) true =
      Outcome.done (VideoError.VIDEO_SUCCESS, some mixedHandle) ∧
    VIDEO_Play demoPlayEnv 0 mixedHandle { tick := 1000, log := [] } 0 0
        VideoPlayMode.VIDEO_PLAY_MODE_POLLING =
      Outcome.done (VideoError.VIDEO_SUCCESS, mixedPlaying, { tick := 1000, log := [] }) ∧
    (VIDEO_Poll demoPlayEnv mixedPlaying { tick := 1000, log := [] }).1 =
      VideoError.VIDEO_SUCCESS ∧
    decodes (VIDEO_Poll demoPlayEnv mixedPlaying { tick := 1000, log := [] }).2.2.log =
      [(232, 2)] ∧
    mixedAfterFirst.state = VideoState.VIDEO_STATE_PLAYING ∧
    mixedAfterFirst.current_frame = 1 ∧ mixedAfterFirst.frames_skipped = 0 ∧
    mixedAfterFirst.info.total_frames = 4 ∧
    elapsed_us mixedAfterFirst { tick := 1067, log := [] } /
      mixedAfterFirst.frame_duration_us = 2 ∧
    (region_chunks mixedAvi (mixedAfterFirst.info.movi_offset + 4)).map
      (fun c => (c.offset, c.tag, c.size)) =
      [(224, AVI_00DC_ID, 2), (234, AVI_01WB_ID, 2), (244, AVI_00DC_ID, 2),
       (254, AVI_00DC_ID, 2), (264, AVI_00DC_ID, 2)] ∧
    ((region_chunks mixedAvi (mixedAfterFirst.info.movi_offset + 4)).filter
      Chunk.is_frame).map (fun c => (c.offset + 8, c.size)) =
      [(232, 2), (252, 2), (262, 2), (272, 2)] ∧
    (VIDEO_Poll demoPlayEnv mixedAfterFirst { tick := 1067, log := [] }).1 =
      VideoError.VIDEO_SUCCESS ∧
    decodes (VIDEO_Poll demoPlayEnv mixedAfterFirst { tick := 1067, log := [] }).2.2.log =
      [(252, 2)] ∧
    (VIDEO_Poll demoPlayEnv mixedAfterFirst { tick := 1067, log := [] }).2.1.current_frame = 3 ∧
    (VIDEO_Poll demoPlayEnv mixedAfterFirst { tick := 1067, log := [] }).2.1.frames_skipped = 1 :=
  ⟨opens_eq 200 (openEnvOf mixedAvi) ['m', '.', 'a', 'v', 'i'] (by decide),
    by decide, by decide, by decide, by decide, by decide, by decide, by decide, by decide,
    by decide, by decide, by decide, by decide, by decide, by decide⟩

/-! ## Full playback in blocking mode -/

/-- The blocking loop of `VIDEO_Play`, started on time at a cursor from which
the chunks `cs` follow, all of them decodable frame chunks and as many as
there are frames left, renders them all in order and ends. -/
theorem play_loop_frames (env : PlayEnv) (hd : env.decode_ms = 0) (cs : List Chunk) :
    ∀ (fuel : Nat) (h : VideoHandle) (w : World) (tail : List Chunk),
    h.is_open = true → h.state = VideoState.VIDEO_STATE_PLAYING →
    h.play_mode = VideoPlayMode.VIDEO_PLAY_MODE_BLOCKING →
    h.file.faults = [] →
    region_chunks h.file.data h.current_chunk_offset = cs ++ tail →
    (∀ c ∈ cs, c.is_frame = true ∧ frame_decodable env h (c.offset + 8) c.size = true) →
    NoWrap cs →
    h.current_frame + cs.length = h.info.total_frames → cs ≠ [] →
    h.info.total_frames < U32 →
    h.frames_rendered = h.current_frame →
    sub32 (u32 w.tick) h.start_time_ms * 1000 ≤ h.current_frame * h.frame_duration_us →
    cs.length ≤ fuel →
    ∃ h1 w1, play_loop env fuel h w = Outcome.done (VideoError.VIDEO_SUCCESS, h1, w1) ∧
      h1.state = VideoState.VIDEO_STATE_ENDED ∧ h1.is_open = true ∧ h1.info = h.info ∧
      h1.current_frame = h.info.total_frames ∧ h1.frames_rendered = h.info.total_frames ∧
      h1.frames_skipped = h.frames_skipped ∧
      decodes w1.log = decodes w.log ++ cs.map (fun c => (c.offset + 8, c.size)) := by
  induction cs with
  | nil => intro _ _ _ _ _ _ _ _ _ _ _ _ hne; exact absurd rfl hne
  | cons c0 rest ih =>
    intro fuel h w tail hopen hplay hmode hf hreg hall hnw hlen _ hT hren hinv hfuel
    rw [List.cons_append] at hreg
    obtain ⟨hin, hc0, hrest⟩ := region_chunks_head _ _ _ _ hreg
    have hlt : h.current_frame < h.info.total_frames := by
      rw [List.length_cons] at hlen; omega
    have h0 := hall c0 (List.mem_cons_self _ _)
    have hw0 := hnw c0 (List.mem_cons_self _ _)
    rw [hc0] at h0 hw0
    simp only [Chunk.is_frame, Bool.and_eq_true, decide_eq_true_eq] at h0
    simp only [] at hw0
    obtain ⟨F, W, p1, p2, p3, p4, p5⟩ := poll_render_ok env h w hf (by omega) hw0 h0.1.1
      (by omega) h0.2 hlt hT
    cases fuel with
    | zero => rw [List.length_cons] at hfuel; omega
    | succ fuel =>
      rw [play_loop, if_pos hplay]
      simp only []
      rw [poll_blocking_render env h w hopen hplay hmode hlt hinv, p1]
      by_cases hend : h.current_frame + 1 ≥ h.info.total_frames
      · have hnil : rest = [] := by
          rw [List.length_cons] at hlen
          exact List.eq_nil_of_length_eq_zero (by omega)
        simp only [if_pos hend, if_true]
        refine ⟨_, _, rfl, rfl, hopen, rfl, ?_, ?_, rfl, ?_⟩
        · show h.current_frame + 1 = h.info.total_frames
          rw [List.length_cons, hnil] at hlen; simpa using hlen
        · show u32 (h.frames_rendered + 1) = h.info.total_frames
          rw [hren, u32_of_lt (by omega)]
          rw [List.length_cons, hnil] at hlen; simpa using hlen
        · rw [p4, hnil, hc0]; rfl
      · simp only [if_neg hend]
        have hne : rest ≠ [] := by
          intro hnil
          rw [List.length_cons, hnil] at hlen
          simp at hlen
          omega
        obtain ⟨h1, w1, q1, q2, q3, q4, q5, q6, q7, q8⟩ := ih fuel
          { h with
            file := F,
            current_chunk_offset := next_chunk h.file.data h.current_chunk_offset,
            frames_rendered := u32 (h.frames_rendered + 1),
            current_frame := h.current_frame + 1,
            state := h.state } W tail hopen hplay hmode p3
          (by simp only [p2]; exact hrest.symm)
          (by
            intro c hc
            have hcc := hall c (List.mem_cons_of_mem _ hc)
            refine ⟨hcc.1, ?_⟩
            have hd2 := hcc.2
            unfold frame_decodable at hd2 ⊢
            simp only [p2]
            exact hd2)
          (fun c hc => hnw c (List.mem_cons_of_mem _ hc))
          (by
            show h.current_frame + 1 + rest.length = h.info.total_frames
            rw [List.length_cons] at hlen; omega)
          hne hT
          (by
            show u32 (h.frames_rendered + 1) = h.current_frame + 1
            rw [hren, u32_of_lt (by omega)])
          (by
            show sub32 (u32 W.tick) h.start_time_ms * 1000 ≤
              (h.current_frame + 1) * h.frame_duration_us
            rw [p5]
            exact tick_after_render_bound env h w hd hinv)
          (by rw [List.length_cons] at hfuel; omega)
        refine ⟨h1, w1, ?_, q2, q3, q4, q5, q6, q7, ?_⟩
        · simp only [reduceCtorEq, if_false, ne_eq, not_true_eq_false]
          exact q1
        · rw [q8, p4, hc0, List.map_cons, List.append_assoc]
          rfl

/-- C5 (amended): a session opened on a fault-free container whose frame-data
list holds only frame chunks (frame tag, non-zero size) and behind whose list
no frame chunk follows a chunk that is not one (nothing behind the list, or an
index, or other chunks that are not frames), all frame chunks decodable,
played in blocking mode on a display it fits, with a decoder that takes no
wall-clock time (so the clock advances only in the inter-frame wait):
`VIDEO_Play` returns, every frame chunk has been decoded once and in order
(these are the chunks of the frame-data list when no frame chunk lies behind
it), `frames_rendered = total_frames`, no frame was skipped, the state is
Ended and a further poll reports end-of-video. -/
theorem blocking_play_renders_all (fuel pfuel : Nat) (oenv : OpenEnv) (name : List Char)
    (env : PlayEnv) (h0 : VideoHandle) (w : World) (x y : Nat)
    (hopen : VIDEO_Open fuel oenv (some name) true =
      Outcome.done (VideoError.VIDEO_SUCCESS, some h0))
    (hfaults : oenv.faults = []) (hlen : oenv.data.length < U32)
    (hall : AllFrames (movi_chunks oenv.data h0.info.movi_offset))
    (hbehind : FramesFirst (behind_movi oenv.data h0.info.movi_offset))
    (hdec : ∀ c ∈ region_chunks oenv.data (h0.info.movi_offset + 4), c.is_frame = true →
      frame_decodable env h0 (c.offset + 8) c.size = true)
    (hnw : NoWrap (region_chunks oenv.data (h0.info.movi_offset + 4)))
    (hx : x + h0.info.width ≤ env.ST7735_WIDTH) (hy : y + h0.info.height ≤ env.ST7735_HEIGHT)
    (hd : env.decode_ms = 0) (hfuel : h0.info.total_frames ≤ pfuel) :
    ∃ h1 w1,
      VIDEO_Play env pfuel h0 w x y VideoPlayMode.VIDEO_PLAY_MODE_BLOCKING =
        Outcome.done (VideoError.VIDEO_SUCCESS, h1, w1) ∧
      h1.state = VideoState.VIDEO_STATE_ENDED ∧
      h1.frames_rendered = h0.info.total_frames ∧ h1.frames_skipped = 0 ∧
      h1.current_frame = h0.info.total_frames ∧
      decodes w1.log = decodes w.log ++
        ((region_chunks oenv.data (h0.info.movi_offset + 4)).filter Chunk.is_frame).map
          (fun c => (c.offset + 8, c.size)) ∧
      ((∀ c ∈ behind_movi oenv.data h0.info.movi_offset, c.is_frame = false) →
        decodes w1.log = decodes w.log ++
          (movi_chunks oenv.data h0.info.movi_offset).map (fun c => (c.offset + 8, c.size))) ∧
      VIDEO_Poll env h1 w1 = (VideoError.VIDEO_ERROR_END_OF_VIDEO, h1, w1) := by
  obtain ⟨f1, -, -, f4, -, f6, f7, -, -, -, f11, f12, -, -⟩ :=
    VIDEO_Open_facts fuel oenv name true h0 hopen
  have hm := VIDEO_Open_movi fuel oenv name true h0 hopen hfaults
  have htot := VIDEO_Open_count fuel oenv name h0 hopen hfaults hlen hnw
  have hff : FramesFirst (region_chunks oenv.data (h0.info.movi_offset + 4)) := by
    rw [region_split]
    exact frames_first_append _ _ hall hbehind
  have hfil := frames_first_filter _ hff
  rw [hfil] at htot ⊢
  have hu : u32 (h0.info.movi_offset + 4) = h0.info.movi_offset + 4 := u32_of_lt (by omega)
  have hne : (region_chunks oenv.data (h0.info.movi_offset + 4)).takeWhile Chunk.is_frame ≠
      [] := by
    intro hnil
    rw [hnil] at htot
    simp at htot
    omega
  have hsub : ∀ c ∈ (region_chunks oenv.data (h0.info.movi_offset + 4)).takeWhile
      Chunk.is_frame, c ∈ region_chunks oenv.data (h0.info.movi_offset + 4) :=
    fun c hc => (List.takeWhile_prefix _).subset hc
  obtain ⟨h1, w1, q1, q2, q3, q4, q5, q6, q7, q8⟩ :=
    play_loop_frames env hd
      ((region_chunks oenv.data (h0.info.movi_offset + 4)).takeWhile Chunk.is_frame) pfuel
      { h0 with
        display_x := x, display_y := y,
        play_mode := VideoPlayMode.VIDEO_PLAY_MODE_BLOCKING, current_frame := 0,
        start_time_ms := get_tick_ms w, last_frame_time_ms := get_tick_ms w,
        state := VideoState.VIDEO_STATE_PLAYING,
        current_chunk_offset := u32 (h0.info.movi_offset + 4) } w
      ((region_chunks oenv.data (h0.info.movi_offset + 4)).dropWhile Chunk.is_frame)
      f1 rfl rfl (f12.trans hfaults)
      (by
        show region_chunks h0.file.data (u32 (h0.info.movi_offset + 4)) = _
        rw [hu, f11, List.takeWhile_append_dropWhile])
      (by
        intro c hc
        have hfr := List.mem_takeWhile_imp hc
        refine ⟨hfr, ?_⟩
        have hd2 := hdec c (hsub c hc) hfr
        unfold frame_decodable at hd2 ⊢
        exact hd2)
      (fun c hc => hnw c (hsub c hc))
      (by
        show 0 + _ = h0.info.total_frames
        rw [htot]; omega)
      hne f7
      (by
        show h0.frames_rendered = 0
        obtain ⟨-, -, -, -, f5, -⟩ := VIDEO_Open_facts fuel oenv name true h0 hopen
        exact f5)
      (by
        show sub32 (u32 w.tick) (get_tick_ms w) * 1000 ≤ 0 * h0.frame_duration_us
        unfold get_tick_ms sub32 u32 U32
        omega)
      (by rw [← htot]; exact hfuel)
  refine ⟨h1, w1, ?_, q2, q6, q7.trans f4, q5, q8, ?_, ?_⟩
  · unfold VIDEO_Play
    rw [if_neg (by simp [f1]), if_neg (by omega)]
    simp only [if_true]
    exact q1
  · intro hb
    have hnil : (behind_movi oenv.data h0.info.movi_offset).filter Chunk.is_frame = [] :=
      List.filter_eq_nil_iff.mpr (fun c hc2 => by rw [hb c hc2]; decide)
    have hmv : (region_chunks oenv.data (h0.info.movi_offset + 4)).filter Chunk.is_frame =
        movi_chunks oenv.data h0.info.movi_offset := by
      rw [region_split, List.filter_append, hnil, List.append_nil]
      exact List.filter_eq_self.mpr hall
    rw [q8]
    show _ ++ _ = _
    rw [← hfil, hmv]
  · unfold VIDEO_Poll
    rw [if_neg (by simp [q3]), if_pos (by simp [q2]), if_pos q2]

/-- C5 as stated fails.  The frame-data list of `strayAvi` holds only frame
chunks, two of them; the session reports three frames, because the counting
pass also counts the chunk tagged `00dc` behind the index.  Blocking play
renders the two frames of the list, then finds the index chunk under the
cursor and returns `InvalidFormat` with `frames_rendered = 2`.  The chunks of
the frame-data list of `zeroLenAvi` are all tagged `00dc`; the session reports
two frames, blocking play renders one, then finds the chunk of length zero
under the cursor and returns `InvalidFormat`. -/
theorem blocking_play_stops_early :
    (VIDEO_Open 200 (openEnvOf strayAvi) (some ['x', '.', 'a', 'v', 'i']) true =
        Outcome.done (VideoError.VIDEO_SUCCESS, some strayHandle) ∧
      (movi_chunks strayAvi strayHandle.info.movi_offset).map
          (fun c => (c.offset, c.tag, c.size)) =
        [(224, AVI_00DC_ID, 2), (234, AVI_00DC_ID, 2)] ∧
      (∀ c ∈ movi_chunks strayAvi strayHandle.info.movi_offset, c.is_frame = true) ∧
      strayHandle.info.total_frames = 3 ∧
      VIDEO_Play demoPlayEnv 10 strayHandle { tick := 1000, log := [] } 0 0
          VideoPlayMode.VIDEO_PLAY_MODE_BLOCKING =
        Outcome.done (VideoError.VIDEO_ERROR_INVALID_FORMAT, strayPlayed.1, strayPlayed.2) ∧
      strayPlayed.1.state = VideoState.VIDEO_STATE_ENDED ∧
      strayPlayed.1.frames_rendered = 2 ∧ strayPlayed.1.current_frame = 2 ∧
      strayPlayed.1.current_chunk_offset = 244 ∧ word_at strayAvi 244 = AVI_IDX1_ID ∧
      decodes strayPlayed.2.log = [(232, 2), (242, 2)]) ∧
    (VIDEO_Open 200 (openEnvOf zeroLenAvi) (some ['z', '.', 'a', 'v', 'i']) true =
        Outcome.done (VideoError.VIDEO_SUCCESS, some zeroLenHandle) ∧
      (movi_chunks zeroLenAvi zeroLenHandle.info.movi_offset).map
          (fun c => (c.offset, c.tag, c.size)) =
        [(224, AVI_00DC_ID, 2), (234, AVI_00DC_ID, 0), (242, AVI_00DC_ID, 2)] ∧
      behind_movi zeroLenAvi zeroLenHandle.info.movi_offset = [] ∧
      zeroLenHandle.info.total_frames = 2 ∧
      VIDEO_Play demoPlayEnv 10 zeroLenHandle { tick := 1000, log := [] } 0 0
          VideoPlayMode.VIDEO_PLAY_MODE_BLOCKING =
        Outcome.done (VideoError.VIDEO_ERROR_INVALID_FORMAT, zeroLenPlayed.1, zeroLenPlayed.2) ∧
      zeroLenPlayed.1.frames_rendered = 1 ∧ zeroLenPlayed.1.current_chunk_offset = 234 ∧
      decodes zeroLenPlayed.2.log = [(232, 2)]) :=
  ⟨⟨opens_eq 200 (openEnvOf strayAvi) ['x', '.', 'a', 'v', 'i'] (by decide),
      by decide, by decide, by decide, by decide, by decide, by decide, by decide, by decide,
      by decide, by decide⟩,
    ⟨opens_eq 200 (openEnvOf zeroLenAvi) ['z', '.', 'a', 'v', 'i'] (by decide),
      by decide, by decide, by decide, by decide, by decide, by decide, by decide⟩⟩

/-- C5 at work, the scenario of the specification with an index behind the
frame-data list: 30 frames per second, 90 frame chunks, a main header
declaring 100 frames.  Blocking play from tick 1000 returns with 90 frames
rendered, none skipped, every chunk of the frame-data list decoded in order,
state Ended, and the next poll reports end-of-video. -/
theorem blocking_play_renders_all_witness :
    word_at demoIndexedAvi 48 = 100 ∧ demoIndexedHandle.info.total_frames = 90 ∧
    demoIndexedHandle.info.fps = 30 ∧
    (movi_chunks demoIndexedAvi 220).length = 90 ∧
    (behind_movi demoIndexedAvi 220).map (fun c => (c.offset, c.tag, c.size)) =
      [(1124, AVI_IDX1_ID, 160)] ∧
    ∃ h1 w1,
      VIDEO_Play demoPlayEnv 90 demoIndexedHandle { tick := 1000, log := [] } 0 0
          VideoPlayMode.VIDEO_PLAY_MODE_BLOCKING =
        Outcome.done (VideoError.VIDEO_SUCCESS, h1, w1) ∧
      h1.state = VideoState.VIDEO_STATE_ENDED ∧
      h1.frames_rendered = demoIndexedHandle.info.total_frames ∧ h1.frames_skipped = 0 ∧
      h1.current_frame = demoIndexedHandle.info.total_frames ∧
      decodes w1.log = decodes [] ++
        (movi_chunks (openEnvOf demoIndexedAvi).data demoIndexedHandle.info.movi_offset).map
          (fun c => (c.offset + 8, c.size)) ∧
      VIDEO_Poll demoPlayEnv h1 w1 = (VideoError.VIDEO_ERROR_END_OF_VIDEO, h1, w1) :=
  have hw := blocking_play_renders_all 200 90 (openEnvOf demoIndexedAvi) ['a', '.', 'a', 'v', 'i']
    demoPlayEnv demoIndexedHandle { tick := 1000, log := [] } 0 0
    (opens_eq 200 (openEnvOf demoIndexedAvi) ['a', '.', 'a', 'v', 'i'] (by decide))
    rfl (by decide) (by unfold AllFrames; decide) (by unfold FramesFirst; decide) (by decide)
    (by unfold NoWrap; decide) (by decide) (by decide) rfl (by decide)
  ⟨by decide, by decide, by decide, by decide, by decide,
    hw.elim (fun h1 hw1 => hw1.elim (fun w1 hq =>
      ⟨h1, w1, hq.1, hq.2.1, hq.2.2.1, hq.2.2.2.1, hq.2.2.2.2.1,
        hq.2.2.2.2.2.2.1 (by decide), hq.2.2.2.2.2.2.2⟩))⟩

/-! ## The cursor invariant of containers whose frame chunks come first -/

/-- Where the frame chunks of a walk come first, the chunk the counting pass
counts as frame `i` is chunk number `i` of the walk: its header lies in the
file, it is a frame chunk and it ends below `2^32`. -/
theorem region_counted_at (data : List Nat) (s i : Nat)
    (hff : FramesFirst (region_chunks data s)) (hnw : NoWrap (region_chunks data s))
    (hi : i < ((region_chunks data s).filter Chunk.is_frame).length) :
    nth_chunk data s i + 8 ≤ data.length ∧
    nth_chunk data s i + 8 + word_at data (nth_chunk data s i + 4) + 1 < U32 ∧
    is_video_chunk (word_at data (nth_chunk data s i)) = true ∧
    word_at data (nth_chunk data s i + 4) ≠ 0 ∧
    (region_chunks data s)[i]? =
      some { offset := nth_chunk data s i, tag := word_at data (nth_chunk data s i),
             size := word_at data (nth_chunk data s i + 4) } ∧
    ((region_chunks data s).filter Chunk.is_frame)[i]? =
      some { offset := nth_chunk data s i, tag := word_at data (nth_chunk data s i),
             size := word_at data (nth_chunk data s i + 4) } := by
  rw [frames_first_filter _ hff] at hi ⊢
  have hlen : i < (region_chunks data s).length :=
    lt_of_lt_of_le hi (List.takeWhile_prefix _).length_le
  obtain ⟨h1, h2⟩ := region_nth data i s hlen
  have hpre := takeWhile_prefix_get (region_chunks data s) i hi
  rw [h2] at hpre
  have hmem := List.getElem?_mem hpre.symm
  have hfr := List.mem_takeWhile_imp hmem
  have hw := hnw _ (List.getElem?_mem h2)
  unfold Chunk.is_frame at hfr
  simp only [Bool.and_eq_true, decide_eq_true_eq] at hfr
  exact ⟨by omega, hw, hfr.1, by omega, h2, hpre.symm⟩

/-- C24 (amended), the cursor invariant: for a container accepted by
`VIDEO_Open` on a storage that reports no error, in whose chunk walk from the
frame-data start to the end of the file no chunk that counts as a frame (frame
tag, non-zero size) comes after a chunk that does not (a frame-data list of
frame chunks, followed by nothing, by an index, or by other chunks that are
not frames), none of the chunks reaching offset `2^32`: in every Playing state
reached from a polling-mode play by any sequence of polls the frame counter is
below the total, the cursor is the offset of the header of chunk number
`current_frame` of the walk, that chunk is a recognised frame chunk and the one
the counting pass counted as frame `current_frame`, it is chunk number
`current_frame` of the frame-data list when no frame chunk lies behind the
list, and every payload decoded since play lies before the cursor. -/
theorem cursor_on_next_frame (fuel : Nat) (oenv : OpenEnv) (name : List Char)
    (h0 : VideoHandle) (penv : PlayEnv) (fuel2 : Nat) (w0 : World) (x y : Nat)
    (hp : VideoHandle) (wp : World)
    (hopen : VIDEO_Open fuel oenv (some name) true =
      Outcome.done (VideoError.VIDEO_SUCCESS, some h0))
    (hfaults : oenv.faults = []) (hlen : oenv.data.length < U32)
    (hnw : NoWrap (region_chunks oenv.data (h0.info.movi_offset + 4)))
    (hff : FramesFirst (region_chunks oenv.data (h0.info.movi_offset + 4)))
    (hplay : VIDEO_Play penv fuel2 h0 w0 x y VideoPlayMode.VIDEO_PLAY_MODE_POLLING =
      Outcome.done (VideoError.VIDEO_SUCCESS, hp, wp))
    (ds : List Nat)
    (hst : (poll_seq penv ds hp wp).1.state = VideoState.VIDEO_STATE_PLAYING) :
    (poll_seq penv ds hp wp).1.current_frame < h0.info.total_frames ∧
    (poll_seq penv ds hp wp).1.current_chunk_offset =
      nth_chunk oenv.data (h0.info.movi_offset + 4) (poll_seq penv ds hp wp).1.current_frame ∧
    (region_chunks oenv.data (h0.info.movi_offset + 4))[(poll_seq penv ds hp wp).1.current_frame]? =
      some { offset := (poll_seq penv ds hp wp).1.current_chunk_offset,
             tag := word_at oenv.data (poll_seq penv ds hp wp).1.current_chunk_offset,
             size := word_at oenv.data ((poll_seq penv ds hp wp).1.current_chunk_offset + 4) } ∧
    ((region_chunks oenv.data (h0.info.movi_offset + 4)).filter
        Chunk.is_frame)[(poll_seq penv ds hp wp).1.current_frame]? =
      some { offset := (poll_seq penv ds hp wp).1.current_chunk_offset,
             tag := word_at oenv.data (poll_seq penv ds hp wp).1.current_chunk_offset,
             size := word_at oenv.data ((poll_seq penv ds hp wp).1.current_chunk_offset + 4) } ∧
    ((∀ c ∈ behind_movi oenv.data h0.info.movi_offset, c.is_frame = false) →
      (movi_chunks oenv.data h0.info.movi_offset)[(poll_seq penv ds hp wp).1.current_frame]? =
        some { offset := (poll_seq penv ds hp wp).1.current_chunk_offset,
               tag := word_at oenv.data (poll_seq penv ds hp wp).1.current_chunk_offset,
               size := word_at oenv.data ((poll_seq penv ds hp wp).1.current_chunk_offset + 4) }) ∧
    is_video_chunk (word_at oenv.data (poll_seq penv ds hp wp).1.current_chunk_offset) = true ∧
    word_at oenv.data ((poll_seq penv ds hp wp).1.current_chunk_offset + 4) ≠ 0 ∧
    ∀ p ∈ (decodes (poll_seq penv ds hp wp).2.log).drop (decodes w0.log).length,
      p.1 < (poll_seq penv ds hp wp).1.current_chunk_offset + 8 := by
  obtain ⟨f1, -, -, -, -, f6, f7, -, -, -, f11, f12, -, -⟩ :=
    VIDEO_Open_facts fuel oenv name true h0 hopen
  have hmovi := VIDEO_Open_movi fuel oenv name true h0 hopen hfaults
  have hcount := VIDEO_Open_count fuel oenv name h0 hopen hfaults hlen hnw
  have hreg : ∀ i, i < h0.info.total_frames →
      nth_chunk oenv.data (h0.info.movi_offset + 4) i + 8 ≤ oenv.data.length ∧
      nth_chunk oenv.data (h0.info.movi_offset + 4) i + 8 +
        word_at oenv.data (nth_chunk oenv.data (h0.info.movi_offset + 4) i + 4) + 1 < U32 := by
    intro i hi
    obtain ⟨a, b, -⟩ := region_counted_at oenv.data (h0.info.movi_offset + 4) i hff hnw
      (by rw [← hcount]; exact hi)
    exact ⟨a, b⟩
  have hstart : CursorInv oenv.data h0.info (decodes w0.log) hp wp := by
    unfold VIDEO_Play at hplay
    simp only [] at hplay
    rw [if_neg (by rw [f1]; simp)] at hplay
    split at hplay
    · cases hplay
    · rw [if_neg (by decide)] at hplay
      injection hplay with hplay
      injection hplay with _ hplay
      injection hplay with e1 e2
      rw [← e1, ← e2]
      refine ⟨f11, f12.trans hfaults, rfl, f1, fun _ => ⟨?_, ?_, [], ?_, ?_⟩⟩
      · show 0 < h0.info.total_frames
        exact f6
      · show u32 (h0.info.movi_offset + 4) = h0.info.movi_offset + 4
        exact u32_of_lt (by omega)
      · simp
      · intro i hi; cases hi
  have hinv := cursor_inv_seq penv oenv.data h0.info (decodes w0.log) hreg f7 ds hp wp hstart
  obtain ⟨-, -, -, -, hP⟩ := hinv
  obtain ⟨i1, i2, frames, i3, i4⟩ := hP hst
  obtain ⟨-, -, r3, r4, r2, r5⟩ := region_counted_at oenv.data (h0.info.movi_offset + 4)
    (poll_seq penv ds hp wp).1.current_frame hff hnw (by rw [← hcount]; exact i1)
  rw [← i2] at r2 r3 r4 r5
  refine ⟨i1, i2, r2, r5, ?_, r3, r4, ?_⟩
  · intro hb
    have hnil : (behind_movi oenv.data h0.info.movi_offset).filter Chunk.is_frame = [] :=
      List.filter_eq_nil_iff.mpr (fun c hc2 => by rw [hb c hc2]; decide)
    rw [region_split, List.filter_append, List.length_append, hnil] at hcount
    have hle := List.length_filter_le Chunk.is_frame (movi_chunks oenv.data h0.info.movi_offset)
    rw [region_split, List.getElem?_append_left (by simp at hcount; omega)] at r2
    exact r2
  · intro p hp2
    rw [i3, List.drop_left] at hp2
    obtain ⟨i, hi, hpi⟩ := List.mem_map.mp hp2
    rw [← hpi, i2]
    unfold payload_of
    have := nth_chunk_lt oenv.data (h0.info.movi_offset + 4) i _ (i4 i hi)
    show nth_chunk oenv.data (h0.info.movi_offset + 4) i + 8 < _
    omega

/-- C24 at work on the container with the trailing index: the walk from the
frame-data start meets three frame chunks and then the index chunk; after play
at tick 1000 and polls at ticks 1000 and 1034 the session is Playing with
`current_frame = 2` and the cursor at offset 244, the header of the third
chunk of the frame-data list. -/
theorem cursor_on_next_frame_witness :
    (region_chunks indexedAvi 224).map (fun c => (c.offset, c.tag, c.size)) =
      [(224, AVI_00DC_ID, 2), (234, AVI_00DC_ID, 2), (244, AVI_00DC_ID, 2),
       (254, AVI_IDX1_ID, 48)] ∧
    (poll_seq demoPlayEnv [0, 34] indexedPlaying { tick := 1000, log := [] }).1.state =
      VideoState.VIDEO_STATE_PLAYING ∧
    (poll_seq demoPlayEnv [0, 34] indexedPlaying { tick := 1000, log := [] }).1.current_frame = 2 ∧
    (poll_seq demoPlayEnv [0, 34] indexedPlaying
      { tick := 1000, log := [] }).1.current_chunk_offset = 244 ∧
    (poll_seq demoPlayEnv [0, 34] indexedPlaying
      { tick := 1000, log := [] }).1.current_chunk_offset =
      nth_chunk (openEnvOf indexedAvi).data (indexedHandle.info.movi_offset + 4)
        (poll_seq demoPlayEnv [0, 34] indexedPlaying { tick := 1000, log := [] }).1.current_frame ∧
    (movi_chunks (openEnvOf indexedAvi).data indexedHandle.info.movi_offset)[(poll_seq
        demoPlayEnv [0, 34] indexedPlaying { tick := 1000, log := [] }).1.current_frame]? =
      some { offset := 244, tag := AVI_00DC_ID, size := 2 } :=
  have hw := cursor_on_next_frame 200 (openEnvOf indexedAvi) ['i', '.', 'a', 'v', 'i']
    indexedHandle demoPlayEnv 0 { tick := 1000, log := [] } 0 0 indexedPlaying
    { tick := 1000, log := [] }
    (opens_eq 200 (openEnvOf indexedAvi) ['i', '.', 'a', 'v', 'i'] (by decide))
    rfl (by decide) (by unfold NoWrap; decide) (by unfold FramesFirst; decide)
    (by decide) [0, 34] (by decide)
  ⟨by decide, by decide, by decide, by decide, hw.2.1,
    (hw.2.2.2.2.1 (by decide)).trans (by decide)⟩

/-! ## The parser on containers of the standard layout -/

end Video
